import Mathlib

/-!
# USBPcap request normalisation: `USBPcapDriver/USBPcapURB.c`

A shallow embedding of `USBPcapParseInterfaceInformation`,
`USBPcapAnalyzeControlTransfer` and `USBPcapAnalyzeURB`, followed by theorems
about them.

Conventions of the embedding:

* machine integers are `Nat`; a structure's `WellTyped` predicate states the
  width of its fields, and arithmetic that can wrap carries an explicit `%`;
* the `URB` union is the record of its members (the member names of `usb.h`),
  so the cast `(struct _URB_X*)pUrb` is a field projection;
* a pointer to bytes is an `Option (List Nat)`, `none` being `NULL`; a handle
  is a `Nat`, `0` being `NULL`; memory that the code indexes (interface
  records, pipe entries, isochronous packet descriptors) is a function of the
  index;
* the capture sink is the list of write calls made, in call order;
* the device context and the tables are passed and returned explicitly.
-/

namespace USBPcap

/-! ## Constants of the Windows Driver Kit header `usb.h` -/

def USBD_TRANSFER_DIRECTION_OUT : Nat := 0
def USBD_TRANSFER_DIRECTION_IN : Nat := 1
def USBD_DEFAULT_PIPE_TRANSFER : Nat := 8

def URB_FUNCTION_SELECT_CONFIGURATION : Nat := 0x0000
def URB_FUNCTION_SELECT_INTERFACE : Nat := 0x0001
def URB_FUNCTION_ABORT_PIPE : Nat := 0x0002
def URB_FUNCTION_GET_CURRENT_FRAME_NUMBER : Nat := 0x0007
def URB_FUNCTION_CONTROL_TRANSFER : Nat := 0x0008
def URB_FUNCTION_BULK_OR_INTERRUPT_TRANSFER : Nat := 0x0009
def URB_FUNCTION_ISOCH_TRANSFER : Nat := 0x000A
def URB_FUNCTION_GET_DESCRIPTOR_FROM_DEVICE : Nat := 0x000B
def URB_FUNCTION_SET_DESCRIPTOR_TO_DEVICE : Nat := 0x000C
def URB_FUNCTION_GET_STATUS_FROM_DEVICE : Nat := 0x0013
def URB_FUNCTION_GET_STATUS_FROM_INTERFACE : Nat := 0x0014
def URB_FUNCTION_GET_STATUS_FROM_ENDPOINT : Nat := 0x0015
def URB_FUNCTION_VENDOR_DEVICE : Nat := 0x0017
def URB_FUNCTION_VENDOR_INTERFACE : Nat := 0x0018
def URB_FUNCTION_VENDOR_ENDPOINT : Nat := 0x0019
def URB_FUNCTION_CLASS_DEVICE : Nat := 0x001A
def URB_FUNCTION_CLASS_INTERFACE : Nat := 0x001B
def URB_FUNCTION_CLASS_ENDPOINT : Nat := 0x001C
def URB_FUNCTION_SYNC_RESET_PIPE_AND_CLEAR_STALL : Nat := 0x001E
def URB_FUNCTION_CLASS_OTHER : Nat := 0x001F
def URB_FUNCTION_VENDOR_OTHER : Nat := 0x0020
def URB_FUNCTION_GET_STATUS_FROM_OTHER : Nat := 0x0021
def URB_FUNCTION_GET_DESCRIPTOR_FROM_ENDPOINT : Nat := 0x0024
def URB_FUNCTION_SET_DESCRIPTOR_TO_ENDPOINT : Nat := 0x0025
def URB_FUNCTION_GET_CONFIGURATION : Nat := 0x0026
def URB_FUNCTION_GET_DESCRIPTOR_FROM_INTERFACE : Nat := 0x0028
def URB_FUNCTION_SET_DESCRIPTOR_TO_INTERFACE : Nat := 0x0029
def URB_FUNCTION_SYNC_RESET_PIPE : Nat := 0x0030
def URB_FUNCTION_SYNC_CLEAR_STALL : Nat := 0x0031
def URB_FUNCTION_CONTROL_TRANSFER_EX : Nat := 0x0032
def URB_FUNCTION_CLOSE_STATIC_STREAMS : Nat := 0x0036

/-- The enumeration `USBD_PIPE_TYPE` of `usb.h`. -/
inductive USBD_PIPE_TYPE where
  | UsbdPipeTypeControl
  | UsbdPipeTypeIsochronous
  | UsbdPipeTypeBulk
  | UsbdPipeTypeInterrupt
  deriving DecidableEq, Repr, Inhabited

/-! ## Declarations of `USBPcap.h`, `USBPcapMain.h`, `USBPcapTables.h` and
`USBPcapBuffer.h`, which the translation unit includes -/

/-- Modelled from the spec: the transfer kind attached to every capture record
(`USBPCAP_TRANSFER_*` of `USBPcap.h`, whose numeric encoding is not under
`src/`): Control, Bulk, Interrupt, Isochronous, Unknown, IRP-info. -/
inductive USBPCAP_TRANSFER where
  | ISOCHRONOUS
  | INTERRUPT
  | CONTROL
  | BULK
  | IRP_INFO
  | UNKNOWN
  deriving DecidableEq, Repr, Inhabited

/-- Modelled from the spec: the one-byte stage tag of a control-transfer record
(`USBPCAP_CONTROL_STAGE_*` of `USBPcap.h`); the source uses Setup and
Complete. -/
inductive USBPCAP_CONTROL_STAGE where
  | SETUP
  | COMPLETE
  deriving DecidableEq, Repr, Inhabited

/-- Modelled from the spec: the observation-direction bit of the info flags
(`USBPCAP_INFO_PDO_TO_FDO` of `USBPcap.h`), set on the Complete side. -/
def USBPCAP_INFO_PDO_TO_FDO : Nat := 1

/-- Modelled from the spec: `sizeof(USBPCAP_BUFFER_PACKET_HEADER)`, the packed
base header of `USBPcap.h` (2+8+4+2+1+2+2+1+1+4 bytes). -/
def sizeof_USBPCAP_BUFFER_PACKET_HEADER : Nat := 27

/-- Modelled from the spec: `sizeof(USBPCAP_BUFFER_CONTROL_HEADER)`, the base
header followed by the one-byte stage tag. -/
def sizeof_USBPCAP_BUFFER_CONTROL_HEADER : Nat := 28

/-- Modelled from the spec: `sizeof(USBPCAP_BUFFER_ISOCH_HEADER)`, 51 bytes in
the packed layout (base header, start frame, packet count, error count and one
packet descriptor). -/
def sizeof_USBPCAP_BUFFER_ISOCH_HEADER : Nat := 51

/-- Modelled from the spec: `sizeof(USBPCAP_BUFFER_ISO_PACKET)`, 12 bytes in
the packed layout (offset, length, status). -/
def sizeof_USBPCAP_BUFFER_ISO_PACKET : Nat := 12

structure USBPCAP_BUFFER_PACKET_HEADER where
  headerLen : Nat := 0
  irpId : Nat := 0
  status : Nat := 0
  function : Nat := 0
  info : Nat := 0
  bus : Nat := 0
  device : Nat := 0
  endpoint : Nat := 0
  transfer : USBPCAP_TRANSFER := USBPCAP_TRANSFER.UNKNOWN
  dataLength : Nat := 0
  deriving DecidableEq, Repr, Inhabited

structure USBPCAP_BUFFER_CONTROL_HEADER where
  header : USBPCAP_BUFFER_PACKET_HEADER := {}
  stage : USBPCAP_CONTROL_STAGE := USBPCAP_CONTROL_STAGE.SETUP
  deriving DecidableEq, Repr, Inhabited

structure USBPCAP_BUFFER_ISO_PACKET where
  offset : Nat := 0
  length : Nat := 0
  status : Nat := 0
  deriving DecidableEq, Repr, Inhabited

structure USBPCAP_BUFFER_ISOCH_HEADER where
  header : USBPCAP_BUFFER_PACKET_HEADER := {}
  startFrame : Nat := 0
  numberOfPackets : Nat := 0
  errorCount : Nat := 0
  packet : List USBPCAP_BUFFER_ISO_PACKET := []
  deriving DecidableEq, Repr, Inhabited

/-- What a `PUSBPCAP_BUFFER_PACKET_HEADER` argument of a sink write points to:
the base header alone or the base header inside a control or isochronous
header. -/
inductive CAPTURE_HEADER where
  | packet (h : USBPCAP_BUFFER_PACKET_HEADER)
  | control (h : USBPCAP_BUFFER_CONTROL_HEADER)
  | isoch (h : USBPCAP_BUFFER_ISOCH_HEADER)
  deriving DecidableEq, Repr, Inhabited

/-- The base header that every capture header starts with. -/
def CAPTURE_HEADER.base : CAPTURE_HEADER → USBPCAP_BUFFER_PACKET_HEADER
  | .packet h => h
  | .control h => h.header
  | .isoch h => h.header

structure USBPCAP_PAYLOAD_ENTRY where
  size : Nat := 0
  buffer : Option (List Nat) := none
  deriving DecidableEq, Repr, Inhabited

/-- One call of the capture sink, with the arguments the source passes. -/
inductive SinkCall where
  | USBPcapBufferWritePacket (header : CAPTURE_HEADER) (buffer : Option (List Nat))
  | USBPcapBufferWritePayload (header : CAPTURE_HEADER)
      (payload : List USBPCAP_PAYLOAD_ENTRY)
  | USBPcapBufferWriteTimestampedPacket (timestamp : Nat) (header : CAPTURE_HEADER)
      (buffer : Option (List Nat))
  deriving DecidableEq, Repr, Inhabited

/-- The header handed to the sink by a write call. -/
def SinkCall.header : SinkCall → CAPTURE_HEADER
  | .USBPcapBufferWritePacket h _ => h
  | .USBPcapBufferWritePayload h _ => h
  | .USBPcapBufferWriteTimestampedPacket _ h _ => h

structure USBPCAP_ENDPOINT_INFO where
  handle : Nat := 0
  type : USBD_PIPE_TYPE := USBD_PIPE_TYPE.UsbdPipeTypeControl
  endpointAddress : Nat := 0
  deviceAddress : Nat := 0
  deriving DecidableEq, Repr, Inhabited

structure USBPCAP_URB_IRP_INFO where
  irp : Nat := 0
  timestamp : Nat := 0
  status : Nat := 0
  function : Nat := 0
  info : Nat := 0
  bus : Nat := 0
  device : Nat := 0
  deriving DecidableEq, Repr, Inhabited

/-- The fields of the root hub context that the source reads; the filter is
the set of device addresses in the active set. -/
structure USBPCAP_ROOTHUB_DATA where
  busId : Nat := 0
  filter : List Nat := []
  deriving DecidableEq, Repr, Inhabited

/-- The fields of the device context that the source reads and writes;
`descriptor` is the cached copy of the configuration descriptor bytes. -/
structure USBPCAP_DEVICE_DATA where
  deviceAddress : Nat := 0
  pRootData : USBPCAP_ROOTHUB_DATA := {}
  endpointTable : List USBPCAP_ENDPOINT_INFO := []
  URBIrpTable : List USBPCAP_URB_IRP_INFO := []
  descriptor : Option (List Nat) := none
  deriving DecidableEq, Repr, Inhabited

/-! ## The request structures of `usb.h` -/

structure URB_HEADER where
  Length : Nat := 0
  Function : Nat := 0
  Status : Nat := 0
  deriving DecidableEq, Repr, Inhabited

/-- A memory descriptor list; `systemAddress` is what
`MmGetSystemAddressForMdlSafe` returns for it (`none` when the mapping
fails). -/
structure MDL where
  systemAddress : Option (List Nat) := none
  deriving DecidableEq, Repr, Inhabited

structure USB_CONFIGURATION_DESCRIPTOR where
  wTotalLength : Nat := 0
  bConfigurationValue : Nat := 0
  /-- the bytes in memory from the start of the descriptor on -/
  bytes : List Nat := []
  deriving DecidableEq, Repr, Inhabited

structure USB_INTERFACE_DESCRIPTOR where
  bInterfaceNumber : Nat := 0
  bAlternateSetting : Nat := 0
  deriving DecidableEq, Repr, Inhabited

structure USBD_PIPE_INFORMATION where
  MaximumPacketSize : Nat := 0
  EndpointAddress : Nat := 0
  Interval : Nat := 0
  PipeType : USBD_PIPE_TYPE := USBD_PIPE_TYPE.UsbdPipeTypeControl
  PipeHandle : Nat := 0
  deriving DecidableEq, Repr, Inhabited

structure USBD_INTERFACE_INFORMATION where
  Length : Nat := 0
  InterfaceNumber : Nat := 0
  AlternateSetting : Nat := 0
  Class : Nat := 0
  SubClass : Nat := 0
  Protocol : Nat := 0
  NumberOfPipes : Nat := 0
  /-- `Pipes[j]`, read from memory at any index -/
  Pipes : Nat → USBD_PIPE_INFORMATION := fun _ => {}

instance : Inhabited USBD_INTERFACE_INFORMATION := ⟨{}⟩

structure URB_SELECT_CONFIGURATION where
  ConfigurationDescriptor : Option USB_CONFIGURATION_DESCRIPTOR := none
  /-- the interface record read at a byte offset from `&Interface` -/
  Interface : Nat → USBD_INTERFACE_INFORMATION := fun _ => {}

structure URB_SELECT_INTERFACE where
  /-- the interface record read at a byte offset from `&Interface` -/
  Interface : Nat → USBD_INTERFACE_INFORMATION := fun _ => {}

structure URB_PIPE_REQUEST where
  PipeHandle : Nat := 0
  deriving DecidableEq, Repr, Inhabited

structure URB_GET_CURRENT_FRAME_NUMBER where
  FrameNumber : Nat := 0
  deriving DecidableEq, Repr, Inhabited

structure URB_CONTROL_TRANSFER where
  PipeHandle : Nat := 0
  TransferFlags : Nat := 0
  TransferBufferLength : Nat := 0
  TransferBuffer : Option (List Nat) := none
  TransferBufferMDL : Option MDL := none
  SetupPacket : List Nat := [0, 0, 0, 0, 0, 0, 0, 0]
  deriving DecidableEq, Repr, Inhabited

structure URB_CONTROL_TRANSFER_EX where
  PipeHandle : Nat := 0
  TransferFlags : Nat := 0
  TransferBufferLength : Nat := 0
  TransferBuffer : Option (List Nat) := none
  TransferBufferMDL : Option MDL := none
  Timeout : Nat := 0
  SetupPacket : List Nat := [0, 0, 0, 0, 0, 0, 0, 0]
  deriving DecidableEq, Repr, Inhabited

structure URB_BULK_OR_INTERRUPT_TRANSFER where
  PipeHandle : Nat := 0
  TransferFlags : Nat := 0
  TransferBufferLength : Nat := 0
  TransferBuffer : Option (List Nat) := none
  TransferBufferMDL : Option MDL := none
  deriving DecidableEq, Repr, Inhabited

structure USBD_ISO_PACKET_DESCRIPTOR where
  Offset : Nat := 0
  Length : Nat := 0
  Status : Nat := 0
  deriving DecidableEq, Repr, Inhabited

structure URB_ISOCH_TRANSFER where
  PipeHandle : Nat := 0
  TransferFlags : Nat := 0
  TransferBufferLength : Nat := 0
  TransferBuffer : Option (List Nat) := none
  TransferBufferMDL : Option MDL := none
  StartFrame : Nat := 0
  NumberOfPackets : Nat := 0
  ErrorCount : Nat := 0
  /-- `IsoPacket[i]`, read from memory at any index -/
  IsoPacket : Nat → USBD_ISO_PACKET_DESCRIPTOR := fun _ => {}

structure URB_CONTROL_DESCRIPTOR_REQUEST where
  TransferBufferLength : Nat := 0
  TransferBuffer : Option (List Nat) := none
  TransferBufferMDL : Option MDL := none
  Index : Nat := 0
  DescriptorType : Nat := 0
  LanguageId : Nat := 0
  deriving DecidableEq, Repr, Inhabited

structure URB_CONTROL_GET_STATUS_REQUEST where
  TransferBufferLength : Nat := 0
  TransferBuffer : Option (List Nat) := none
  TransferBufferMDL : Option MDL := none
  Index : Nat := 0
  deriving DecidableEq, Repr, Inhabited

structure URB_CONTROL_VENDOR_OR_CLASS_REQUEST where
  TransferFlags : Nat := 0
  TransferBufferLength : Nat := 0
  TransferBuffer : Option (List Nat) := none
  TransferBufferMDL : Option MDL := none
  Request : Nat := 0
  Value : Nat := 0
  Index : Nat := 0
  deriving DecidableEq, Repr, Inhabited

/-- The union `URB`: every member is a view of the same request, selected by
`UrbHeader.Function`. -/
structure URB where
  UrbHeader : URB_HEADER := {}
  UrbSelectConfiguration : URB_SELECT_CONFIGURATION := {}
  UrbSelectInterface : URB_SELECT_INTERFACE := {}
  UrbPipeRequest : URB_PIPE_REQUEST := {}
  UrbGetCurrentFrameNumber : URB_GET_CURRENT_FRAME_NUMBER := {}
  UrbControlTransfer : URB_CONTROL_TRANSFER := {}
  UrbControlTransferEx : URB_CONTROL_TRANSFER_EX := {}
  UrbBulkOrInterruptTransfer : URB_BULK_OR_INTERRUPT_TRANSFER := {}
  UrbIsochronousTransfer : URB_ISOCH_TRANSFER := {}
  UrbControlDescriptorRequest : URB_CONTROL_DESCRIPTOR_REQUEST := {}
  UrbControlGetStatusRequest : URB_CONTROL_GET_STATUS_REQUEST := {}
  UrbControlVendorClassRequest : URB_CONTROL_VENDOR_OR_CLASS_REQUEST := {}

/-! ## The platform the driver is built for and runs on -/

/-- The pool tags of the three allocation sites. -/
inductive PoolTag where
  | DESC
  | HDR
  | ISOC
  deriving DecidableEq, Repr, Inhabited

/-- What the source takes from its build target and from the kernel: the
sizes and offsets of the pointer-bearing `usb.h` structures, the outcome of
each pool allocation, the Windows routine that searches a configuration
descriptor, the clock, and the indeterminate initial value of a local. -/
structure Platform where
  sizeof_USBD_INTERFACE_INFORMATION : Nat
  sizeof_USBD_PIPE_INFORMATION : Nat
  offsetof_URB_SELECT_CONFIGURATION_Interface : Nat
  offsetof_URB_SELECT_INTERFACE_Interface : Nat
  sizeof_USBPCAP_PAYLOAD_ENTRY : Nat
  /-- whether `ExAllocatePoolWithTag` of the given size and tag returns a
  block (`true`) or `NULL` -/
  ExAllocatePoolWithTag : Nat → PoolTag → Bool
  /-- the interface descriptor found in the descriptor bytes for an interface
  number and alternate setting (class, subclass and protocol are wildcards) -/
  USBD_ParseConfigurationDescriptorEx :
    List Nat → Nat → Nat → Option USB_INTERFACE_DESCRIPTOR
  USBPcapGetCurrentTimestamp : Nat
  /-- the bytes of the local `frameNum` before it is assigned -/
  frameNumUninitialized : List Nat

/-! ## Collaborators declared in `USBPcapTables.h` and `USBPcapMain.h` -/

/-- Modelled from the spec: `USBPcapAddEndpointInfo` of `USBPcapTables.c`
(not under `src/`). It registers pipe identity → device address, endpoint
address, pipe kind, overwriting any prior mapping for that pipe identity. -/
def USBPcapAddEndpointInfo (table : List USBPCAP_ENDPOINT_INFO)
    (pipeInfo : USBD_PIPE_INFORMATION) (deviceAddress : Nat) :
    List USBPCAP_ENDPOINT_INFO :=
  { handle := pipeInfo.PipeHandle
    type := pipeInfo.PipeType
    endpointAddress := pipeInfo.EndpointAddress
    deviceAddress := deviceAddress } ::
    table.filter (fun e => e.handle != pipeInfo.PipeHandle)

/-- Modelled from the spec: `USBPcapRetrieveEndpointInfo` of
`USBPcapTables.c` (not under `src/`), `resolve(pipeIdentity)` giving the
endpoint identity or not found. -/
def USBPcapRetrieveEndpointInfo (pDeviceData : USBPCAP_DEVICE_DATA) (handle : Nat) :
    Option USBPCAP_ENDPOINT_INFO :=
  pDeviceData.endpointTable.find? (fun e => e.handle == handle)

/-- Modelled from the spec: `USBPcapAddURBIRPInfo` of `USBPcapTables.c` (not
under `src/`), `InsertPending(entry)`, keeping at most one live entry per
correlation identity. -/
def USBPcapAddURBIRPInfo (table : List USBPCAP_URB_IRP_INFO)
    (irpinfo : USBPCAP_URB_IRP_INFO) : List USBPCAP_URB_IRP_INFO :=
  irpinfo :: table.filter (fun e => e.irp != irpinfo.irp)

/-- Modelled from the spec: `USBPcapObtainURBIRPInfo` of `USBPcapTables.c`
(not under `src/`), `TakePending(correlationIdentity)`: look up and remove the
entry for the correlation identity, if present. -/
def USBPcapObtainURBIRPInfo (pDeviceData : USBPCAP_DEVICE_DATA) (irp : Nat) :
    Option USBPCAP_URB_IRP_INFO × USBPCAP_DEVICE_DATA :=
  (pDeviceData.URBIrpTable.find? (fun e => e.irp == irp),
   { pDeviceData with
     URBIrpTable := pDeviceData.URBIrpTable.filter (fun e => e.irp != irp) })

/-- Modelled from the spec: `USBPcapIsDeviceFiltered` of the filter module
(not under `src/`), `IsDeviceFiltered(filterSet, deviceAddress)`: whether the
device address is in the filter's active set. -/
def USBPcapIsDeviceFiltered (filter : List Nat) (address : Nat) : Bool :=
  filter.contains address

/-! ## `USBPcapURB.c` -/

def USBPcapURBGetBufferPointer (length : Nat) (buffer : Option (List Nat))
    (bufferMDL : Option MDL) : Option (List Nat) :=
  if length = 0 then none
  else
    match buffer with
    | some b => some b
    | none =>
      match bufferMDL with
      | some mdl => mdl.systemAddress
      | none => none

/-- The inner `for` loop of `USBPcapParseInterfaceInformation`: the pipes
`0 .. NumberOfPipes-1` of one interface record are added to the endpoint
table. -/
def USBPcapParseInterfaceInformation.pipes (pDeviceData : USBPCAP_DEVICE_DATA)
    (pInterface : USBD_INTERFACE_INFORMATION) : USBPCAP_DEVICE_DATA :=
  (List.range pInterface.NumberOfPipes).foldl
    (fun d j =>
      { d with
        endpointTable :=
          USBPcapAddEndpointInfo d.endpointTable (pInterface.Pipes j) d.deviceAddress })
    pDeviceData

/-- The `while` loop of `USBPcapParseInterfaceInformation`. `memory off` is
the interface record read at `off` bytes from the first one; the first
argument bounds the number of iterations. `required_length` is a `ULONG`. -/
def USBPcapParseInterfaceInformation.loop (P : Platform)
    (memory : Nat → USBD_INTERFACE_INFORMATION) :
    Nat → Nat → Nat → USBPCAP_DEVICE_DATA → USBPCAP_DEVICE_DATA
  | 0, _, _, pDeviceData => pDeviceData
  | fuel + 1, off, interfaces_len, pDeviceData =>
    let pInterface := memory off
    if interfaces_len ≠ 0 ∧ pInterface.Length ≠ 0 then
      if interfaces_len < P.sizeof_USBD_INTERFACE_INFORMATION then pDeviceData
      else if pInterface.Length > interfaces_len then pDeviceData
      else if pInterface.NumberOfPipes > 1 ∧
          interfaces_len <
            (P.sizeof_USBD_INTERFACE_INFORMATION +
              (pInterface.NumberOfPipes - 1) * P.sizeof_USBD_PIPE_INFORMATION) % 2 ^ 32
        then pDeviceData
      else
        USBPcapParseInterfaceInformation.loop P memory fuel
          (off + pInterface.Length) (interfaces_len - pInterface.Length)
          (USBPcapParseInterfaceInformation.pipes pDeviceData pInterface)
    else pDeviceData

/-- `USBPcapParseInterfaceInformation`: every iteration that continues
consumes at least one of the `interfaces_len` bytes, so `interfaces_len`
iterations are enough. -/
def USBPcapParseInterfaceInformation (P : Platform) (pDeviceData : USBPCAP_DEVICE_DATA)
    (pInterface : Nat → USBD_INTERFACE_INFORMATION) (interfaces_len : Nat) :
    USBPCAP_DEVICE_DATA :=
  USBPcapParseInterfaceInformation.loop P pInterface interfaces_len 0 interfaces_len
    pDeviceData

/-- The value given to `packetHeader.header.endpoint` by
`USBPcapAnalyzeControlTransfer`: 0, replaced by the resolved endpoint address
for a found non-default pipe, then ORed with 0x80 when the transfer is from
the device. -/
def USBPcapAnalyzeControlTransfer_endpoint (transfer : URB_CONTROL_TRANSFER)
    (pDeviceData : USBPCAP_DEVICE_DATA) : Nat :=
  let transferFromDevice : Bool :=
    transfer.TransferFlags &&& USBD_TRANSFER_DIRECTION_IN != 0
  let endpoint : Nat :=
    if transfer.TransferFlags &&& USBD_DEFAULT_PIPE_TRANSFER != 0 ∨ transfer.PipeHandle = 0
    then 0
    else
      match USBPcapRetrieveEndpointInfo pDeviceData transfer.PipeHandle with
      | some info => info.endpointAddress
      | none => 0
  if transferFromDevice then endpoint ||| 0x80 else endpoint

/-- The base header that `USBPcapAnalyzeControlTransfer` fills in before the
stage is chosen (`dataLength` is assigned per stage). -/
def USBPcapAnalyzeControlTransfer_packetHeader (transfer : URB_CONTROL_TRANSFER)
    (header : URB_HEADER) (pDeviceData : USBPCAP_DEVICE_DATA) (pIrp : Nat) (post : Bool) :
    USBPCAP_BUFFER_PACKET_HEADER :=
  { headerLen := sizeof_USBPCAP_BUFFER_CONTROL_HEADER
    irpId := pIrp
    status := header.Status
    function := header.Function
    info := if post = true then 0 ||| USBPCAP_INFO_PDO_TO_FDO else 0
    bus := pDeviceData.pRootData.busId
    device := pDeviceData.deviceAddress
    endpoint := USBPcapAnalyzeControlTransfer_endpoint transfer pDeviceData
    transfer := USBPCAP_TRANSFER.CONTROL
    dataLength := 0 }

def USBPcapAnalyzeControlTransfer (transfer : URB_CONTROL_TRANSFER) (header : URB_HEADER)
    (pDeviceData : USBPCAP_DEVICE_DATA) (pIrp : Nat) (post : Bool) : List SinkCall :=
  let transferFromDevice : Bool :=
    transfer.TransferFlags &&& USBD_TRANSFER_DIRECTION_IN != 0
  let packetHeader : USBPCAP_BUFFER_PACKET_HEADER :=
    USBPcapAnalyzeControlTransfer_packetHeader transfer header pDeviceData pIrp post
  let dataBuffer : Option (List Nat) :=
    if transfer.TransferBufferLength ≠ 0 then
      USBPcapURBGetBufferPointer transfer.TransferBufferLength transfer.TransferBuffer
        transfer.TransferBufferMDL
    else none
  let dataBufferLength : Nat :=
    if transfer.TransferBufferLength ≠ 0 then transfer.TransferBufferLength % 2 ^ 32 else 0
  (if post = false then
    (if !transferFromDevice then
      [SinkCall.USBPcapBufferWritePayload
        (CAPTURE_HEADER.control
          { header := { packetHeader with dataLength := (8 + dataBufferLength) % 2 ^ 32 }
            stage := USBPCAP_CONTROL_STAGE.SETUP })
        [ { size := 8, buffer := some transfer.SetupPacket },
          { size := dataBufferLength, buffer := dataBuffer },
          { size := 0, buffer := none } ]]
     else
      [SinkCall.USBPcapBufferWritePayload
        (CAPTURE_HEADER.control
          { header := { packetHeader with dataLength := 8 }
            stage := USBPCAP_CONTROL_STAGE.SETUP })
        [ { size := 8, buffer := some transfer.SetupPacket },
          { size := 0, buffer := none },
          { size := 0, buffer := none } ]])
   else []) ++
  (if post = true then
    (if transferFromDevice then
      [SinkCall.USBPcapBufferWritePayload
        (CAPTURE_HEADER.control
          { header := { packetHeader with dataLength := (0 + dataBufferLength) % 2 ^ 32 }
            stage := USBPCAP_CONTROL_STAGE.COMPLETE })
        [ { size := dataBufferLength, buffer := dataBuffer },
          { size := 0, buffer := none } ]]
     else
      [SinkCall.USBPcapBufferWritePayload
        (CAPTURE_HEADER.control
          { header := { packetHeader with dataLength := 0 }
            stage := USBPCAP_CONTROL_STAGE.COMPLETE })
        [ { size := 0, buffer := none },
          { size := 0, buffer := none } ]])
   else [])

/-- The first `switch` of `USBPcapAnalyzeURB` ("Following URBs are always
analyzed"): endpoint learning and descriptor caching. The result of the
descriptor allocation is not tested before `RtlCopyMemory` writes through it,
so a failed allocation is a fault of the call, `none`. -/
def USBPcapAnalyzeURB.alwaysAnalyzed (P : Platform) (pUrb : URB) (post : Bool)
    (pDeviceData : USBPCAP_DEVICE_DATA) : Option USBPCAP_DEVICE_DATA :=
  if pUrb.UrbHeader.Function = URB_FUNCTION_SELECT_CONFIGURATION then
    if post = false then some pDeviceData
    else
      let pSelectConfiguration := pUrb.UrbSelectConfiguration
      let parsed : USBPCAP_DEVICE_DATA :=
        if pUrb.UrbHeader.Length > P.offsetof_URB_SELECT_CONFIGURATION_Interface then
          USBPcapParseInterfaceInformation P pDeviceData pSelectConfiguration.Interface
            (pUrb.UrbHeader.Length - P.offsetof_URB_SELECT_CONFIGURATION_Interface)
        else pDeviceData
      match pSelectConfiguration.ConfigurationDescriptor with
      | some ConfigurationDescriptor =>
        let descSize := ConfigurationDescriptor.wTotalLength
        if P.ExAllocatePoolWithTag descSize PoolTag.DESC then
          some { parsed with descriptor := some (ConfigurationDescriptor.bytes.take descSize) }
        else none
      | none => some { parsed with descriptor := none }
  else if pUrb.UrbHeader.Function = URB_FUNCTION_SELECT_INTERFACE then
    if post = false then some pDeviceData
    else
      let pSelectInterface := pUrb.UrbSelectInterface
      if pUrb.UrbHeader.Length > P.offsetof_URB_SELECT_INTERFACE_Interface then
        some (USBPcapParseInterfaceInformation P pDeviceData pSelectInterface.Interface
          (pUrb.UrbHeader.Length - P.offsetof_URB_SELECT_INTERFACE_Interface))
      else some pDeviceData
  else some pDeviceData

/-- The block `if (hasUnknownURBSubmitInfo)` of `USBPcapAnalyzeURB`. -/
def USBPcapAnalyzeURB.logUnknownURB (pIrp : Nat)
    (unknownURBSubmitInfo : Option USBPCAP_URB_IRP_INFO) : List SinkCall :=
  match unknownURBSubmitInfo with
  | some unknownURBSubmitInfo =>
    [SinkCall.USBPcapBufferWriteTimestampedPacket unknownURBSubmitInfo.timestamp
      (CAPTURE_HEADER.packet
        { headerLen := sizeof_USBPCAP_BUFFER_PACKET_HEADER
          irpId := pIrp
          status := unknownURBSubmitInfo.status
          function := unknownURBSubmitInfo.function
          info := unknownURBSubmitInfo.info
          bus := unknownURBSubmitInfo.bus
          device := unknownURBSubmitInfo.device
          endpoint := 0
          transfer := USBPCAP_TRANSFER.UNKNOWN
          dataLength := 0 })
      none]
  | none => []

/-- The `wrapTransfer` of `case URB_FUNCTION_SELECT_CONFIGURATION`. -/
def USBPcapAnalyzeURB.wrapSelectConfiguration
    (pSelectConfiguration : URB_SELECT_CONFIGURATION) : URB_CONTROL_TRANSFER :=
  { PipeHandle := 0
    TransferFlags := USBD_TRANSFER_DIRECTION_OUT
    TransferBufferLength := 0
    TransferBuffer := none
    TransferBufferMDL := none
    SetupPacket :=
      [ 0x00, 0x09,
        (match pSelectConfiguration.ConfigurationDescriptor with
         | none => 0
         | some ConfigurationDescriptor => ConfigurationDescriptor.bConfigurationValue),
        0, 0, 0, 0, 0 ] }

/-- The `wrapTransfer` of `case URB_FUNCTION_SELECT_INTERFACE`, built from the
interface descriptor found in the cached configuration descriptor. -/
def USBPcapAnalyzeURB.wrapSelectInterface (intDescriptor : USB_INTERFACE_DESCRIPTOR) :
    URB_CONTROL_TRANSFER :=
  { PipeHandle := 0
    TransferFlags := USBD_TRANSFER_DIRECTION_OUT
    TransferBufferLength := 0
    TransferBuffer := none
    TransferBufferMDL := none
    SetupPacket :=
      [ 0x00, 0x0B, intDescriptor.bAlternateSetting, 0, intDescriptor.bInterfaceNumber,
        0, 0, 0 ] }

/-- The `wrapTransfer` of `case URB_FUNCTION_CONTROL_TRANSFER_EX`. -/
def USBPcapAnalyzeURB.wrapControlTransferEx (transfer : URB_CONTROL_TRANSFER_EX) :
    URB_CONTROL_TRANSFER :=
  { PipeHandle := transfer.PipeHandle
    TransferFlags := transfer.TransferFlags
    TransferBufferLength := transfer.TransferBufferLength
    TransferBuffer := transfer.TransferBuffer
    TransferBufferMDL := transfer.TransferBufferMDL
    SetupPacket := transfer.SetupPacket.take 8 }

/-- The `if`/`else if` chain of the Get/SetDescriptor case: transfer flags,
`SetupPacket[0]` and `SetupPacket[1]` per function; `none` is the final `else`
("Invalid function", `break`). -/
def USBPcapAnalyzeURB.descriptorRequestKind (Function : Nat) : Option (Nat × Nat × Nat) :=
  if Function = URB_FUNCTION_GET_DESCRIPTOR_FROM_DEVICE then
    some (USBD_TRANSFER_DIRECTION_IN, 0x80, 0x06)
  else if Function = URB_FUNCTION_GET_DESCRIPTOR_FROM_ENDPOINT then
    some (USBD_TRANSFER_DIRECTION_IN, 0x82, 0x06)
  else if Function = URB_FUNCTION_GET_DESCRIPTOR_FROM_INTERFACE then
    some (USBD_TRANSFER_DIRECTION_IN, 0x81, 0x06)
  else if Function = URB_FUNCTION_SET_DESCRIPTOR_TO_DEVICE then
    some (USBD_TRANSFER_DIRECTION_OUT, 0x00, 0x07)
  else if Function = URB_FUNCTION_SET_DESCRIPTOR_TO_ENDPOINT then
    some (USBD_TRANSFER_DIRECTION_OUT, 0x02, 0x07)
  else if Function = URB_FUNCTION_SET_DESCRIPTOR_TO_INTERFACE then
    some (USBD_TRANSFER_DIRECTION_OUT, 0x01, 0x07)
  else none

/-- The `wrapTransfer` of the Get/SetDescriptor case. -/
def USBPcapAnalyzeURB.wrapDescriptorRequest (Function : Nat)
    (request : URB_CONTROL_DESCRIPTOR_REQUEST) : Option URB_CONTROL_TRANSFER :=
  match USBPcapAnalyzeURB.descriptorRequestKind Function with
  | none => none
  | some (TransferFlags, SetupPacket0, SetupPacket1) =>
    some
      { PipeHandle := 0
        TransferFlags := TransferFlags
        SetupPacket :=
          [ SetupPacket0, SetupPacket1, request.Index, request.DescriptorType,
            request.LanguageId &&& 0x00FF,
            (request.LanguageId &&& 0xFF00) >>> 8,
            request.TransferBufferLength &&& 0x00FF,
            (request.TransferBufferLength &&& 0xFF00) >>> 8 ]
        TransferBufferLength := request.TransferBufferLength
        TransferBuffer := request.TransferBuffer
        TransferBufferMDL := request.TransferBufferMDL }

/-- The `if`/`else if` chain of the GetStatus case: `SetupPacket[0]` per
function; `none` is the final `else` ("Invalid function", `break`). -/
def USBPcapAnalyzeURB.getStatusRequestType (Function : Nat) : Option Nat :=
  if Function = URB_FUNCTION_GET_STATUS_FROM_DEVICE then some 0x80
  else if Function = URB_FUNCTION_GET_STATUS_FROM_INTERFACE then some 0x81
  else if Function = URB_FUNCTION_GET_STATUS_FROM_ENDPOINT then some 0x82
  else if Function = URB_FUNCTION_GET_STATUS_FROM_OTHER then some 0x83
  else none

/-- The `wrapTransfer` of the GetStatus case. -/
def USBPcapAnalyzeURB.wrapGetStatusRequest (Function : Nat)
    (request : URB_CONTROL_GET_STATUS_REQUEST) : Option URB_CONTROL_TRANSFER :=
  match USBPcapAnalyzeURB.getStatusRequestType Function with
  | none => none
  | some SetupPacket0 =>
    some
      { PipeHandle := 0
        TransferFlags := USBD_TRANSFER_DIRECTION_IN
        SetupPacket :=
          [ SetupPacket0, 0x00, 0, 0,
            request.Index &&& 0x00FF,
            (request.Index &&& 0xFF00) >>> 8,
            request.TransferBufferLength &&& 0x00FF,
            (request.TransferBufferLength &&& 0xFF00) >>> 8 ]
        TransferBufferLength := request.TransferBufferLength
        TransferBuffer := request.TransferBuffer
        TransferBufferMDL := request.TransferBufferMDL }

/-- The inner `switch` of the Vendor/Class case: bits D6-D0 of the request
type. Its `default` leaves `SetupPacket[0]` unassigned; it is not reached,
the enclosing case labels being these eight functions, and reads as 0 here. -/
def USBPcapAnalyzeURB.vendorOrClassRequestType (Function : Nat) : Nat :=
  if Function = URB_FUNCTION_VENDOR_DEVICE then 0x40
  else if Function = URB_FUNCTION_VENDOR_INTERFACE then 0x41
  else if Function = URB_FUNCTION_VENDOR_ENDPOINT then 0x42
  else if Function = URB_FUNCTION_VENDOR_OTHER then 0x43
  else if Function = URB_FUNCTION_CLASS_DEVICE then 0x20
  else if Function = URB_FUNCTION_CLASS_INTERFACE then 0x21
  else if Function = URB_FUNCTION_CLASS_ENDPOINT then 0x22
  else if Function = URB_FUNCTION_CLASS_OTHER then 0x23
  else 0

/-- The `wrapTransfer` of the Vendor/Class case. -/
def USBPcapAnalyzeURB.wrapVendorOrClassRequest (Function : Nat)
    (request : URB_CONTROL_VENDOR_OR_CLASS_REQUEST) : URB_CONTROL_TRANSFER :=
  let SetupPacket0 := USBPcapAnalyzeURB.vendorOrClassRequestType Function
  { PipeHandle := 0
    TransferFlags := request.TransferFlags
    TransferBufferLength := request.TransferBufferLength
    TransferBuffer := request.TransferBuffer
    TransferBufferMDL := request.TransferBufferMDL
    SetupPacket :=
      [ (if request.TransferFlags &&& USBD_TRANSFER_DIRECTION_IN != 0
         then SetupPacket0 ||| 0x80 else SetupPacket0),
        request.Request,
        request.Value &&& 0x00FF,
        (request.Value &&& 0xFF00) >>> 8,
        request.Index &&& 0x00FF,
        (request.Index &&& 0xFF00) >>> 8,
        request.TransferBufferLength &&& 0x00FF,
        (request.TransferBufferLength &&& 0xFF00) >>> 8 ] }

/-- The header that `case URB_FUNCTION_BULK_OR_INTERRUPT_TRANSFER` fills in
before `dataLength` is assigned: device, endpoint and transfer kind come from
the endpoint table, or are the device context's address, 0xFF and bulk when the
pipe handle is not found. -/
def USBPcapAnalyzeURB.bulkOrInterruptPacketHeader (pIrp : Nat) (header : URB_HEADER)
    (transfer : URB_BULK_OR_INTERRUPT_TRANSFER) (post : Bool)
    (pDeviceData : USBPCAP_DEVICE_DATA) : USBPCAP_BUFFER_PACKET_HEADER :=
  let packetHeader : USBPCAP_BUFFER_PACKET_HEADER :=
    { headerLen := sizeof_USBPCAP_BUFFER_PACKET_HEADER
      irpId := pIrp
      status := header.Status
      function := header.Function
      info := if post = true then 0 ||| USBPCAP_INFO_PDO_TO_FDO else 0
      bus := pDeviceData.pRootData.busId }
  match USBPcapRetrieveEndpointInfo pDeviceData transfer.PipeHandle with
  | some info =>
    { packetHeader with
      device := info.deviceAddress
      endpoint := info.endpointAddress
      transfer :=
        match info.type with
        | USBD_PIPE_TYPE.UsbdPipeTypeInterrupt => USBPCAP_TRANSFER.INTERRUPT
        | USBD_PIPE_TYPE.UsbdPipeTypeBulk => USBPCAP_TRANSFER.BULK
        | _ => USBPCAP_TRANSFER.BULK }
  | none =>
    { packetHeader with
      device := pDeviceData.deviceAddress
      endpoint := 0xFF
      transfer := USBPCAP_TRANSFER.BULK }

/-- The condition under which `case URB_FUNCTION_BULK_OR_INTERRUPT_TRANSFER`
adds data to the log: `((endpoint & 0x80) && (post == TRUE)) ||
(!(endpoint & 0x80) && (post == FALSE))`. -/
def USBPcapAnalyzeURB.bulkOrInterruptAddsData (endpoint : Nat) (post : Bool) : Bool :=
  (endpoint &&& 0x80 != 0 && post == true) || (!(endpoint &&& 0x80 != 0) && post == false)

/-- The body of `case URB_FUNCTION_BULK_OR_INTERRUPT_TRANSFER`. -/
def USBPcapAnalyzeURB.bulkOrInterruptTransfer (pIrp : Nat) (header : URB_HEADER)
    (transfer : URB_BULK_OR_INTERRUPT_TRANSFER) (post : Bool)
    (pDeviceData : USBPCAP_DEVICE_DATA) : List SinkCall :=
  let packetHeader : USBPCAP_BUFFER_PACKET_HEADER :=
    USBPcapAnalyzeURB.bulkOrInterruptPacketHeader pIrp header transfer post pDeviceData
  if USBPcapAnalyzeURB.bulkOrInterruptAddsData packetHeader.endpoint post then
    [SinkCall.USBPcapBufferWritePacket
      (CAPTURE_HEADER.packet
        { packetHeader with dataLength := transfer.TransferBufferLength % 2 ^ 32 })
      (USBPcapURBGetBufferPointer transfer.TransferBufferLength transfer.TransferBuffer
        transfer.TransferBufferMDL)]
  else
    [SinkCall.USBPcapBufferWritePacket
      (CAPTURE_HEADER.packet { packetHeader with dataLength := 0 }) none]

/-- The value of `headerLen` in `case URB_FUNCTION_ISOCH_TRANSFER`:
`(USHORT)sizeof(HEADER) + (USHORT)(sizeof(PACKET) * (NumberOfPackets - 1))`
with `NumberOfPackets - 1` a `ULONG`, stored in a `USHORT`. -/
def USBPcapAnalyzeURB.isochHeaderLen (NumberOfPackets : Nat) : Nat :=
  (sizeof_USBPCAP_BUFFER_ISOCH_HEADER % 2 ^ 16 +
    (sizeof_USBPCAP_BUFFER_ISO_PACKET * ((NumberOfPackets + 2 ^ 32 - 1) % 2 ^ 32)) % 2 ^ 16)
    % 2 ^ 16

/-- The loop "Copy the packet headers untouched", over the packet descriptors
`IsoPacket[0 .. NumberOfPackets-1]`. -/
def USBPcapAnalyzeURB.copyPackets :
    List USBD_ISO_PACKET_DESCRIPTOR → List USBPCAP_BUFFER_ISO_PACKET
  | [] => []
  | IsoPacket :: rest =>
    { offset := IsoPacket.Offset, length := IsoPacket.Length, status := IsoPacket.Status } ::
      USBPcapAnalyzeURB.copyPackets rest

/-- The loop that sums the packet lengths into the `ULONG compactedLength`,
started at the second argument. -/
def USBPcapAnalyzeURB.compactedLength : List USBD_ISO_PACKET_DESCRIPTOR → Nat → Nat
  | [], compactedLength => compactedLength
  | IsoPacket :: rest, compactedLength =>
    USBPcapAnalyzeURB.compactedLength rest ((compactedLength + IsoPacket.Length) % 2 ^ 32)

/-- The compaction loop, started at `compactedOffset` (a `ULONG`): for each
packet the rewritten header entry and the payload entry `{Length,
&transferBuffer[Offset]}`; an entry computed from a `NULL` transfer buffer
points to no bytes. -/
def USBPcapAnalyzeURB.compact (transferBuffer : Option (List Nat)) :
    List USBD_ISO_PACKET_DESCRIPTOR → Nat →
      List (USBPCAP_BUFFER_ISO_PACKET × USBPCAP_PAYLOAD_ENTRY)
  | [], _ => []
  | IsoPacket :: rest, compactedOffset =>
    ({ offset := compactedOffset, length := IsoPacket.Length, status := IsoPacket.Status },
     { size := IsoPacket.Length
       buffer := transferBuffer.map (fun b => b.drop IsoPacket.Offset) }) ::
      USBPcapAnalyzeURB.compact transferBuffer rest
        ((compactedOffset + IsoPacket.Length) % 2 ^ 32)

/-- The base header that `case URB_FUNCTION_ISOCH_TRANSFER` fills in, with
the default `dataLength` 0 ("Default to no data"). -/
def USBPcapAnalyzeURB.isochPacketHeader (pIrp : Nat) (header : URB_HEADER)
    (transfer : URB_ISOCH_TRANSFER) (post : Bool) (pDeviceData : USBPCAP_DEVICE_DATA) :
    USBPCAP_BUFFER_PACKET_HEADER :=
  let epInfo := USBPcapRetrieveEndpointInfo pDeviceData transfer.PipeHandle
  { headerLen := USBPcapAnalyzeURB.isochHeaderLen transfer.NumberOfPackets
    irpId := pIrp
    status := header.Status
    function := header.Function
    info := if post = true then 0 ||| USBPCAP_INFO_PDO_TO_FDO else 0
    bus := pDeviceData.pRootData.busId
    device :=
      match epInfo with
      | some info => info.deviceAddress
      | none => pDeviceData.deviceAddress
    endpoint :=
      match epInfo with
      | some info => info.endpointAddress
      | none => 0xFF
    transfer := USBPCAP_TRANSFER.ISOCHRONOUS
    dataLength := 0 }

/-- The body of `case URB_FUNCTION_ISOCH_TRANSFER`. -/
def USBPcapAnalyzeURB.isochTransfer (P : Platform) (pIrp : Nat) (header : URB_HEADER)
    (transfer : URB_ISOCH_TRANSFER) (post : Bool) (pDeviceData : USBPCAP_DEVICE_DATA) :
    List SinkCall :=
  if transfer.NumberOfPackets > 1024 then []
  else
    let headerLen := USBPcapAnalyzeURB.isochHeaderLen transfer.NumberOfPackets
    if P.ExAllocatePoolWithTag headerLen PoolTag.HDR = false then []
    else
      let base : USBPCAP_BUFFER_PACKET_HEADER :=
        USBPcapAnalyzeURB.isochPacketHeader pIrp header transfer post pDeviceData
      let IsoPacket : List USBD_ISO_PACKET_DESCRIPTOR :=
        (List.range transfer.NumberOfPackets).map transfer.IsoPacket
      let packetHeader : USBPCAP_BUFFER_ISOCH_HEADER :=
        { header := base
          startFrame := transfer.StartFrame
          numberOfPackets := transfer.NumberOfPackets
          errorCount := transfer.ErrorCount
          packet := USBPcapAnalyzeURB.copyPackets IsoPacket }
      if transfer.TransferBufferLength ≠ 0 then
        let transferBuffer :=
          USBPcapURBGetBufferPointer transfer.TransferBufferLength transfer.TransferBuffer
            transfer.TransferBufferMDL
        if transfer.TransferFlags &&& USBD_TRANSFER_DIRECTION_IN = USBD_TRANSFER_DIRECTION_IN
            ∧ post = true then
          let compactedLength := USBPcapAnalyzeURB.compactedLength IsoPacket 0
          if compactedLength > transfer.TransferBufferLength then []
          else if P.ExAllocatePoolWithTag
              ((transfer.NumberOfPackets + 1) * P.sizeof_USBPCAP_PAYLOAD_ENTRY)
              PoolTag.ISOC = false then []
          else
            let compacted := USBPcapAnalyzeURB.compact transferBuffer IsoPacket 0
            [SinkCall.USBPcapBufferWritePayload
              (CAPTURE_HEADER.isoch
                { packetHeader with
                  header := { base with dataLength := compactedLength % 2 ^ 32 }
                  packet := compacted.map Prod.fst })
              (compacted.map Prod.snd ++ [{ size := 0, buffer := none }])]
        else if transfer.TransferFlags &&& USBD_TRANSFER_DIRECTION_IN =
            USBD_TRANSFER_DIRECTION_OUT ∧ post = false then
          [SinkCall.USBPcapBufferWritePacket
            (CAPTURE_HEADER.isoch
              { packetHeader with
                header := { base with dataLength := transfer.TransferBufferLength } })
            transferBuffer]
        else
          [SinkCall.USBPcapBufferWritePacket (CAPTURE_HEADER.isoch packetHeader) none]
      else
        [SinkCall.USBPcapBufferWritePacket (CAPTURE_HEADER.isoch packetHeader) none]

/-- The body of the pipe request cases (reset pipe and clear stall, reset
pipe, clear stall, abort pipe, close static streams). -/
def USBPcapAnalyzeURB.pipeRequest (pIrp : Nat) (header : URB_HEADER)
    (request : URB_PIPE_REQUEST) (post : Bool) (pDeviceData : USBPCAP_DEVICE_DATA) :
    List SinkCall :=
  let packetHeader : USBPCAP_BUFFER_PACKET_HEADER :=
    { headerLen := sizeof_USBPCAP_BUFFER_PACKET_HEADER
      irpId := pIrp
      status := header.Status
      function := header.Function
      info := if post = true then 0 ||| USBPCAP_INFO_PDO_TO_FDO else 0
      bus := pDeviceData.pRootData.busId
      transfer := USBPCAP_TRANSFER.IRP_INFO
      dataLength := 0 }
  let packetHeader : USBPCAP_BUFFER_PACKET_HEADER :=
    match USBPcapRetrieveEndpointInfo pDeviceData request.PipeHandle with
    | some info =>
      { packetHeader with device := info.deviceAddress, endpoint := info.endpointAddress }
    | none =>
      { packetHeader with
        device := pDeviceData.deviceAddress
        endpoint := 0xFF
        transfer := USBPCAP_TRANSFER.UNKNOWN }
  [SinkCall.USBPcapBufferWritePacket (CAPTURE_HEADER.packet packetHeader) none]

/-- The four bytes of a `UINT32` in memory (little-endian). -/
def bytesOfUINT32 (v : Nat) : List Nat :=
  [v % 256, v / 256 % 256, v / 65536 % 256, v / 16777216 % 256]

/-- The body of `case URB_FUNCTION_GET_CURRENT_FRAME_NUMBER`; the sink is
always handed `&frameNum`, which is assigned only when `post` is `TRUE`. -/
def USBPcapAnalyzeURB.getCurrentFrameNumber (P : Platform) (pIrp : Nat) (header : URB_HEADER)
    (request : URB_GET_CURRENT_FRAME_NUMBER) (post : Bool)
    (pDeviceData : USBPCAP_DEVICE_DATA) : List SinkCall :=
  let packetHeader : USBPCAP_BUFFER_PACKET_HEADER :=
    { headerLen := sizeof_USBPCAP_BUFFER_PACKET_HEADER
      irpId := pIrp
      status := header.Status
      function := header.Function
      info := 0
      bus := pDeviceData.pRootData.busId
      device := pDeviceData.deviceAddress
      endpoint := 0x80
      transfer := USBPCAP_TRANSFER.IRP_INFO
      dataLength := 0 }
  if post = true then
    [SinkCall.USBPcapBufferWritePacket
      (CAPTURE_HEADER.packet
        { packetHeader with info := 0 ||| USBPCAP_INFO_PDO_TO_FDO, dataLength := 4 })
      (some (bytesOfUINT32 (request.FrameNumber % 2 ^ 32)))]
  else
    [SinkCall.USBPcapBufferWritePacket (CAPTURE_HEADER.packet packetHeader)
      (some P.frameNumUninitialized)]

/-- The local `info` that the `default` case records when `post` is
`FALSE`. -/
def USBPcapAnalyzeURB.unknownURBInfo (P : Platform) (pIrp : Nat) (header : URB_HEADER)
    (pDeviceData : USBPCAP_DEVICE_DATA) : USBPCAP_URB_IRP_INFO :=
  { irp := pIrp
    timestamp := P.USBPcapGetCurrentTimestamp
    status := header.Status
    function := header.Function
    info := 0
    bus := pDeviceData.pRootData.busId
    device := pDeviceData.deviceAddress }

/-- The header that the `default` case writes when `post` is `TRUE`. -/
def USBPcapAnalyzeURB.unknownPacketHeader (pIrp : Nat) (header : URB_HEADER)
    (pDeviceData : USBPCAP_DEVICE_DATA) : USBPCAP_BUFFER_PACKET_HEADER :=
  { headerLen := sizeof_USBPCAP_BUFFER_PACKET_HEADER
    irpId := pIrp
    status := header.Status
    function := header.Function
    info := USBPCAP_INFO_PDO_TO_FDO
    bus := pDeviceData.pRootData.busId
    device := pDeviceData.deviceAddress
    endpoint := 0
    transfer := USBPCAP_TRANSFER.UNKNOWN
    dataLength := 0 }

/-- The `default` case of the second `switch`. -/
def USBPcapAnalyzeURB.unknownFunction (P : Platform) (pIrp : Nat) (header : URB_HEADER)
    (post : Bool) (pDeviceData : USBPCAP_DEVICE_DATA) :
    USBPCAP_DEVICE_DATA × List SinkCall :=
  if post = false then
    ({ pDeviceData with
       URBIrpTable :=
         USBPcapAddURBIRPInfo pDeviceData.URBIrpTable
           (USBPcapAnalyzeURB.unknownURBInfo P pIrp header pDeviceData) },
     [])
  else
    (pDeviceData,
     [SinkCall.USBPcapBufferWritePacket
        (CAPTURE_HEADER.packet
          (USBPcapAnalyzeURB.unknownPacketHeader pIrp header pDeviceData))
        none])

/-- The second `switch` of `USBPcapAnalyzeURB`, reached for a device in the
filter's active set: the device context after it and the sink calls made. -/
def USBPcapAnalyzeURB.dispatch (P : Platform) (pIrp : Nat) (pUrb : URB) (post : Bool)
    (pDeviceData : USBPCAP_DEVICE_DATA) : USBPCAP_DEVICE_DATA × List SinkCall :=
  let header := pUrb.UrbHeader
  if header.Function = URB_FUNCTION_SELECT_CONFIGURATION then
    (pDeviceData,
     USBPcapAnalyzeControlTransfer
       (USBPcapAnalyzeURB.wrapSelectConfiguration pUrb.UrbSelectConfiguration)
       header pDeviceData pIrp post)
  else if header.Function = URB_FUNCTION_SELECT_INTERFACE then
    match pDeviceData.descriptor with
    | none => (pDeviceData, [])
    | some descriptor =>
      let intInfo := pUrb.UrbSelectInterface.Interface 0
      match P.USBD_ParseConfigurationDescriptorEx descriptor intInfo.InterfaceNumber
          intInfo.AlternateSetting with
      | none => (pDeviceData, [])
      | some intDescriptor =>
        (pDeviceData,
         USBPcapAnalyzeControlTransfer (USBPcapAnalyzeURB.wrapSelectInterface intDescriptor)
           header pDeviceData pIrp post)
  else if header.Function = URB_FUNCTION_CONTROL_TRANSFER then
    (pDeviceData,
     USBPcapAnalyzeControlTransfer pUrb.UrbControlTransfer header pDeviceData pIrp post)
  else if header.Function = URB_FUNCTION_CONTROL_TRANSFER_EX then
    (pDeviceData,
     USBPcapAnalyzeControlTransfer
       (USBPcapAnalyzeURB.wrapControlTransferEx pUrb.UrbControlTransferEx)
       header pDeviceData pIrp post)
  else if header.Function = URB_FUNCTION_GET_DESCRIPTOR_FROM_DEVICE ∨
      header.Function = URB_FUNCTION_GET_DESCRIPTOR_FROM_ENDPOINT ∨
      header.Function = URB_FUNCTION_GET_DESCRIPTOR_FROM_INTERFACE ∨
      header.Function = URB_FUNCTION_SET_DESCRIPTOR_TO_DEVICE ∨
      header.Function = URB_FUNCTION_SET_DESCRIPTOR_TO_ENDPOINT ∨
      header.Function = URB_FUNCTION_SET_DESCRIPTOR_TO_INTERFACE then
    match USBPcapAnalyzeURB.wrapDescriptorRequest header.Function
        pUrb.UrbControlDescriptorRequest with
    | none => (pDeviceData, [])
    | some wrapTransfer =>
      (pDeviceData, USBPcapAnalyzeControlTransfer wrapTransfer header pDeviceData pIrp post)
  else if header.Function = URB_FUNCTION_GET_STATUS_FROM_DEVICE ∨
      header.Function = URB_FUNCTION_GET_STATUS_FROM_INTERFACE ∨
      header.Function = URB_FUNCTION_GET_STATUS_FROM_ENDPOINT ∨
      header.Function = URB_FUNCTION_GET_STATUS_FROM_OTHER then
    match USBPcapAnalyzeURB.wrapGetStatusRequest header.Function
        pUrb.UrbControlGetStatusRequest with
    | none => (pDeviceData, [])
    | some wrapTransfer =>
      (pDeviceData, USBPcapAnalyzeControlTransfer wrapTransfer header pDeviceData pIrp post)
  else if header.Function = URB_FUNCTION_VENDOR_DEVICE ∨
      header.Function = URB_FUNCTION_VENDOR_INTERFACE ∨
      header.Function = URB_FUNCTION_VENDOR_ENDPOINT ∨
      header.Function = URB_FUNCTION_VENDOR_OTHER ∨
      header.Function = URB_FUNCTION_CLASS_DEVICE ∨
      header.Function = URB_FUNCTION_CLASS_INTERFACE ∨
      header.Function = URB_FUNCTION_CLASS_ENDPOINT ∨
      header.Function = URB_FUNCTION_CLASS_OTHER then
    (pDeviceData,
     USBPcapAnalyzeControlTransfer
       (USBPcapAnalyzeURB.wrapVendorOrClassRequest header.Function
         pUrb.UrbControlVendorClassRequest)
       header pDeviceData pIrp post)
  else if header.Function = URB_FUNCTION_BULK_OR_INTERRUPT_TRANSFER then
    (pDeviceData,
     USBPcapAnalyzeURB.bulkOrInterruptTransfer pIrp header pUrb.UrbBulkOrInterruptTransfer
       post pDeviceData)
  else if header.Function = URB_FUNCTION_ISOCH_TRANSFER then
    (pDeviceData,
     USBPcapAnalyzeURB.isochTransfer P pIrp header pUrb.UrbIsochronousTransfer post
       pDeviceData)
  else if header.Function = URB_FUNCTION_SYNC_RESET_PIPE_AND_CLEAR_STALL ∨
      header.Function = URB_FUNCTION_SYNC_RESET_PIPE ∨
      header.Function = URB_FUNCTION_SYNC_CLEAR_STALL ∨
      header.Function = URB_FUNCTION_ABORT_PIPE ∨
      header.Function = URB_FUNCTION_CLOSE_STATIC_STREAMS then
    (pDeviceData,
     USBPcapAnalyzeURB.pipeRequest pIrp header pUrb.UrbPipeRequest post pDeviceData)
  else if header.Function = URB_FUNCTION_GET_CURRENT_FRAME_NUMBER then
    (pDeviceData,
     USBPcapAnalyzeURB.getCurrentFrameNumber P pIrp header pUrb.UrbGetCurrentFrameNumber
       post pDeviceData)
  else USBPcapAnalyzeURB.unknownFunction P pIrp header post pDeviceData

/-- The opening `if (post)` of `USBPcapAnalyzeURB`: `unknownURBSubmitInfo`
when `hasUnknownURBSubmitInfo`, and the device context after the lookup. -/
def USBPcapAnalyzeURB.obtained (pIrp : Nat) (post : Bool)
    (pDeviceData : USBPCAP_DEVICE_DATA) :
    Option USBPCAP_URB_IRP_INFO × USBPCAP_DEVICE_DATA :=
  if post = true then USBPcapObtainURBIRPInfo pDeviceData pIrp else (none, pDeviceData)

/-- `USBPcapAnalyzeURB`: the device context after the call and the sink calls
made, in order; `none` when the call faults (see `alwaysAnalyzed`). -/
def USBPcapAnalyzeURB (P : Platform) (pIrp : Nat) (pUrb : URB) (post : Bool)
    (pDeviceData : USBPCAP_DEVICE_DATA) : Option (USBPCAP_DEVICE_DATA × List SinkCall) :=
  let obtained := USBPcapAnalyzeURB.obtained pIrp post pDeviceData
  match USBPcapAnalyzeURB.alwaysAnalyzed P pUrb post obtained.2 with
  | none => none
  | some pDeviceData =>
    if USBPcapIsDeviceFiltered pDeviceData.pRootData.filter pDeviceData.deviceAddress = false
    then some (pDeviceData, [])
    else
      let dispatched := USBPcapAnalyzeURB.dispatch P pIrp pUrb post pDeviceData
      some (dispatched.1, USBPcapAnalyzeURB.logUnknownURB pIrp obtained.1 ++ dispatched.2)

/-! ## What the capture sink writes -/

/-- Modelled from the spec: the bytes the sink writes for a payload list
(`USBPcapBufferWritePayload` of `USBPcapBuffer.c`, not under `src/`): the
segments in order, `size` bytes of each, with no added framing. -/
def payloadBytes : List USBPCAP_PAYLOAD_ENTRY → List Nat
  | [] => []
  | entry :: rest =>
    (match entry.buffer with
     | some b => b.take entry.size
     | none => []) ++ payloadBytes rest

/-- The number of payload bytes a payload list declares: the sum of the
segment sizes. -/
def payloadSize : List USBPCAP_PAYLOAD_ENTRY → Nat
  | [] => 0
  | entry :: rest => entry.size + payloadSize rest

/-- Modelled from the spec: the payload a sink call hands over
(`USBPcapBuffer.c`, not under `src/`): the payload list of
`USBPcapBufferWritePayload`, or the single buffer of `dataLength` bytes of
`USBPcapBufferWritePacket` and `USBPcapBufferWriteTimestampedPacket`. -/
def SinkCall.payload : SinkCall → List USBPCAP_PAYLOAD_ENTRY
  | .USBPcapBufferWritePacket header buffer =>
    [{ size := header.base.dataLength, buffer := buffer }]
  | .USBPcapBufferWritePayload _ payload => payload
  | .USBPcapBufferWriteTimestampedPacket _ header buffer =>
    [{ size := header.base.dataLength, buffer := buffer }]

/-! ## Concrete inputs at which the theorems are instantiated -/

/-- A 32-bit x86 build (4-byte pointers: `USBD_PIPE_INFORMATION` is 20 bytes,
`USBD_INTERFACE_INFORMATION` 36, the `URB` header 16) on which every
allocation succeeds and the cached descriptor holds no interface. -/
def x86Platform : Platform :=
  { sizeof_USBD_INTERFACE_INFORMATION := 36
    sizeof_USBD_PIPE_INFORMATION := 20
    offsetof_URB_SELECT_CONFIGURATION_Interface := 24
    offsetof_URB_SELECT_INTERFACE_Interface := 20
    sizeof_USBPCAP_PAYLOAD_ENTRY := 8
    ExAllocatePoolWithTag := fun _ _ => true
    USBD_ParseConfigurationDescriptorEx := fun _ _ _ => none
    USBPcapGetCurrentTimestamp := 1000
    frameNumUninitialized := [0, 0, 0, 0] }

/-- Device 2 on bus 1, in the filter's active set, with empty tables. -/
def filteredDevice : USBPCAP_DEVICE_DATA :=
  { deviceAddress := 2, pRootData := { busId := 1, filter := [2] } }

/-- GetDescriptor from device: index 0, descriptor type 1 (DEVICE), language
id 0, 18 bytes. -/
def getDeviceDescriptorUrb : URB :=
  { UrbHeader := { Length := 80, Function := URB_FUNCTION_GET_DESCRIPTOR_FROM_DEVICE }
    UrbControlDescriptorRequest :=
      { TransferBufferLength := 18
        TransferBuffer := some (List.replicate 18 0)
        Index := 0
        DescriptorType := 1
        LanguageId := 0 } }

/-- A vendor request to the device, device-to-host: request 1, value 0x1234,
index 2, 0x0140 bytes. -/
def vendorDeviceUrb : URB :=
  { UrbHeader := { Length := 80, Function := URB_FUNCTION_VENDOR_DEVICE }
    UrbControlVendorClassRequest :=
      { TransferFlags := USBD_TRANSFER_DIRECTION_IN
        TransferBufferLength := 0x0140
        TransferBuffer := some (List.replicate 0x0140 0)
        Request := 0x01
        Value := 0x1234
        Index := 0x0002 } }

/-- GetStatus from endpoint 0x81 with the 2-byte status buffer. -/
def getEndpointStatusUrb : URB :=
  { UrbHeader := { Length := 80, Function := URB_FUNCTION_GET_STATUS_FROM_ENDPOINT }
    UrbControlGetStatusRequest :=
      { TransferBufferLength := 2
        TransferBuffer := some [0, 0]
        Index := 0x0081 } }

/-- A host-to-device control transfer on the default pipe declaring the
largest `ULONG` buffer length. -/
def hugeOutControlTransfer : URB_CONTROL_TRANSFER :=
  { PipeHandle := 0
    TransferFlags := USBD_TRANSFER_DIRECTION_OUT
    TransferBufferLength := 0xFFFFFFFF
    TransferBuffer := some [0xAA]
    SetupPacket := [0x40, 0x01, 0x00, 0x00, 0x00, 0x00, 0xFF, 0xFF] }

/-- A device-to-host control transfer on the default pipe with a 2-byte
buffer (a GET_STATUS of the device). -/
def inControlTransfer : URB_CONTROL_TRANSFER :=
  { PipeHandle := 0
    TransferFlags := USBD_TRANSFER_DIRECTION_IN
    TransferBufferLength := 2
    TransferBuffer := some [0x01, 0x00]
    SetupPacket := [0x80, 0x00, 0x00, 0x00, 0x00, 0x00, 0x02, 0x00] }

/-- A host-to-device control transfer on the default pipe with a 3-byte
buffer. -/
def outControlTransfer : URB_CONTROL_TRANSFER :=
  { PipeHandle := 0
    TransferFlags := USBD_TRANSFER_DIRECTION_OUT
    TransferBufferLength := 3
    TransferBuffer := some [0x0A, 0x0B, 0x0C]
    SetupPacket := [0x40, 0x01, 0x00, 0x00, 0x00, 0x00, 0x03, 0x00] }

/-- The `URB` header of a control transfer. -/
def controlTransferHeader : URB_HEADER :=
  { Length := 80, Function := URB_FUNCTION_CONTROL_TRANSFER, Status := 0 }

/-- A request of a function that `USBPcapAnalyzeURB` has no case for
(`URB_FUNCTION_GET_CONFIGURATION`). -/
def getConfigurationUrb : URB :=
  { UrbHeader := { Length := 80, Function := URB_FUNCTION_GET_CONFIGURATION } }

/-- A SelectConfiguration request carrying one interface record with one
bulk pipe of endpoint address 0x81 and pipe handle 0x1000 (x86 layout: the
interface area starts at offset 24 and holds one 36-byte record). -/
def selectConfigurationUrb : URB :=
  { UrbHeader := { Length := 60, Function := URB_FUNCTION_SELECT_CONFIGURATION }
    UrbSelectConfiguration :=
      { ConfigurationDescriptor :=
          some
            { wTotalLength := 25
              bConfigurationValue := 1
              bytes :=
                [ 9, 2, 25, 0, 1, 1, 0, 0x80, 50,
                  9, 4, 0, 0, 1, 0xFF, 0, 0, 0,
                  7, 5, 0x81, 2, 64, 0, 0 ] }
        Interface := fun off =>
          if off = 0 then
            { Length := 36
              NumberOfPipes := 1
              Pipes := fun j =>
                if j = 0 then
                  { MaximumPacketSize := 64
                    EndpointAddress := 0x81
                    PipeType := USBD_PIPE_TYPE.UsbdPipeTypeBulk
                    PipeHandle := 0x1000 }
                else {} }
          else {} } }

/-- A bulk transfer on pipe handle 0x1000 with a 64-byte buffer. -/
def bulkUrb : URB :=
  { UrbHeader := { Length := 72, Function := URB_FUNCTION_BULK_OR_INTERRUPT_TRANSFER }
    UrbBulkOrInterruptTransfer :=
      { PipeHandle := 0x1000
        TransferFlags := USBD_TRANSFER_DIRECTION_OUT
        TransferBufferLength := 64
        TransferBuffer := some (List.replicate 64 0x55) } }

/-- The device context after the completion of `selectConfigurationUrb` on
`filteredDevice`: pipe 0x1000 is registered and the descriptor is cached. -/
def learnedDevice : USBPCAP_DEVICE_DATA :=
  { filteredDevice with
    endpointTable :=
      [ { handle := 0x1000
          type := USBD_PIPE_TYPE.UsbdPipeTypeBulk
          endpointAddress := 0x81
          deviceAddress := 2 } ]
    descriptor :=
      some
        [ 9, 2, 25, 0, 1, 1, 0, 0x80, 50,
          9, 4, 0, 0, 1, 0xFF, 0, 0, 0,
          7, 5, 0x81, 2, 64, 0, 0 ] }

/-- The sink call made by the completion of `selectConfigurationUrb` under
correlation identity 5: the Complete stage of the synthesized
SET_CONFIGURATION transfer. -/
def selectCompletionCalls : List SinkCall :=
  [ SinkCall.USBPcapBufferWritePayload
      (CAPTURE_HEADER.control
        { header :=
            { headerLen := 28, irpId := 5, status := 0
              function := URB_FUNCTION_SELECT_CONFIGURATION
              info := 1, bus := 1, device := 2, endpoint := 0
              transfer := USBPCAP_TRANSFER.CONTROL
              dataLength := 0 }
          stage := USBPCAP_CONTROL_STAGE.COMPLETE })
      [ { size := 0, buffer := none }, { size := 0, buffer := none } ] ]

/-- An inbound isochronous transfer of three packets on an unregistered pipe:
2 bytes at offset 0, none at offset 8 and 3 bytes at offset 16 of a 24-byte
buffer; at completion `TransferBufferLength` is the 5 bytes received. -/
def isochInUrb : URB :=
  { UrbHeader := { Length := 128, Function := URB_FUNCTION_ISOCH_TRANSFER }
    UrbIsochronousTransfer :=
      { PipeHandle := 0x2000
        TransferFlags := USBD_TRANSFER_DIRECTION_IN
        TransferBufferLength := 5
        TransferBuffer := some (List.range 24)
        StartFrame := 100
        NumberOfPackets := 3
        ErrorCount := 0
        IsoPacket := fun i =>
          if i = 0 then { Offset := 0, Length := 2 }
          else if i = 1 then { Offset := 8, Length := 0 }
          else if i = 2 then { Offset := 16, Length := 3 }
          else {} } }

/-- The offset fields of the packet entries of an isochronous header, in
order (a header of another kind has none). -/
def CAPTURE_HEADER.packetOffsets : CAPTURE_HEADER → List Nat
  | .isoch h => h.packet.map (fun p => p.offset)
  | _ => []

/-- The case labels of the second `switch` of `USBPcapAnalyzeURB`: the
functions it has a case for; every other function takes `default`. -/
def USBPcapAnalyzeURB.caseLabels : List Nat :=
  [ URB_FUNCTION_SELECT_CONFIGURATION, URB_FUNCTION_SELECT_INTERFACE,
    URB_FUNCTION_CONTROL_TRANSFER, URB_FUNCTION_CONTROL_TRANSFER_EX,
    URB_FUNCTION_GET_DESCRIPTOR_FROM_DEVICE, URB_FUNCTION_GET_DESCRIPTOR_FROM_ENDPOINT,
    URB_FUNCTION_GET_DESCRIPTOR_FROM_INTERFACE, URB_FUNCTION_SET_DESCRIPTOR_TO_DEVICE,
    URB_FUNCTION_SET_DESCRIPTOR_TO_ENDPOINT, URB_FUNCTION_SET_DESCRIPTOR_TO_INTERFACE,
    URB_FUNCTION_GET_STATUS_FROM_DEVICE, URB_FUNCTION_GET_STATUS_FROM_INTERFACE,
    URB_FUNCTION_GET_STATUS_FROM_ENDPOINT, URB_FUNCTION_GET_STATUS_FROM_OTHER,
    URB_FUNCTION_VENDOR_DEVICE, URB_FUNCTION_VENDOR_INTERFACE,
    URB_FUNCTION_VENDOR_ENDPOINT, URB_FUNCTION_VENDOR_OTHER,
    URB_FUNCTION_CLASS_DEVICE, URB_FUNCTION_CLASS_INTERFACE,
    URB_FUNCTION_CLASS_ENDPOINT, URB_FUNCTION_CLASS_OTHER,
    URB_FUNCTION_BULK_OR_INTERRUPT_TRANSFER, URB_FUNCTION_ISOCH_TRANSFER,
    URB_FUNCTION_SYNC_RESET_PIPE_AND_CLEAR_STALL, URB_FUNCTION_SYNC_RESET_PIPE,
    URB_FUNCTION_SYNC_CLEAR_STALL, URB_FUNCTION_ABORT_PIPE,
    URB_FUNCTION_CLOSE_STATIC_STREAMS, URB_FUNCTION_GET_CURRENT_FRAME_NUMBER ]

/-- The device context with the filter's active set replaced: the same state
under another filter answer. -/
def USBPCAP_DEVICE_DATA.withFilter (pDeviceData : USBPCAP_DEVICE_DATA) (filter : List Nat) :
    USBPCAP_DEVICE_DATA :=
  { pDeviceData with pRootData := { pDeviceData.pRootData with filter := filter } }

/-- Device 3 on bus 1, which is not in the filter's active set. -/
def unfilteredDevice : USBPCAP_DEVICE_DATA :=
  { deviceAddress := 3, pRootData := { busId := 1, filter := [2] } }

/-- The filtered device after the Submit of `getConfigurationUrb` under
correlation identity 9 at time 1000: one pending entry. -/
def pendingDevice : USBPCAP_DEVICE_DATA :=
  { filteredDevice with
    URBIrpTable :=
      [ { irp := 9, timestamp := 1000, status := 0
          function := URB_FUNCTION_GET_CONFIGURATION
          info := 0, bus := 1, device := 2 } ] }

/-- An inbound isochronous transfer whose packet lengths 2, 0 and 3 add up to
more than the 4 bytes of `TransferBufferLength`. -/
def isochOverrunUrb : URB :=
  { UrbHeader := { Length := 128, Function := URB_FUNCTION_ISOCH_TRANSFER }
    UrbIsochronousTransfer :=
      { PipeHandle := 0x2000
        TransferFlags := USBD_TRANSFER_DIRECTION_IN
        TransferBufferLength := 4
        TransferBuffer := some (List.range 24)
        StartFrame := 100
        NumberOfPackets := 3
        IsoPacket := fun i =>
          if i = 0 then { Offset := 0, Length := 2 }
          else if i = 1 then { Offset := 8, Length := 0 }
          else if i = 2 then { Offset := 16, Length := 3 }
          else {} } }

/-- An inbound isochronous transfer whose two packet lengths 0xFFFFFFFF and 2
add up to 2^32 + 1, with a `TransferBufferLength` of 5. -/
def isochWrapUrb : URB :=
  { UrbHeader := { Length := 128, Function := URB_FUNCTION_ISOCH_TRANSFER }
    UrbIsochronousTransfer :=
      { PipeHandle := 0x2000
        TransferFlags := USBD_TRANSFER_DIRECTION_IN
        TransferBufferLength := 5
        TransferBuffer := some (List.range 24)
        StartFrame := 100
        NumberOfPackets := 2
        IsoPacket := fun i =>
          if i = 0 then { Offset := 0, Length := 0xFFFFFFFF }
          else if i = 1 then { Offset := 8, Length := 2 }
          else {} } }

/-- An isochronous transfer declaring 1025 packets. -/
def isochManyPacketsUrb : URB :=
  { UrbHeader := { Length := 128, Function := URB_FUNCTION_ISOCH_TRANSFER }
    UrbIsochronousTransfer :=
      { PipeHandle := 0x2000
        TransferFlags := USBD_TRANSFER_DIRECTION_IN
        TransferBufferLength := 5
        TransferBuffer := some (List.range 24)
        NumberOfPackets := 1025 } }

/-- A platform like `x86Platform` on which every pool allocation fails. -/
def x86PlatformNoPool : Platform :=
  { x86Platform with ExAllocatePoolWithTag := fun _ _ => false }

/-- The request `getConfigurationUrb` as seen at Complete, after the bus driver
stored the status 0xC0000004 in its header. -/
def getConfigurationStalledUrb : URB :=
  { UrbHeader :=
      { Length := 80, Function := URB_FUNCTION_GET_CONFIGURATION, Status := 0xC0000004 } }

/-- The platform `x86Platform` at the later time 2000. -/
def x86PlatformLater : Platform :=
  { x86Platform with USBPcapGetCurrentTimestamp := 2000 }

/-! ## The interface walk as the specification words it -/

/-- The checks the specification lists for one interface record at remaining
byte count `r`, in exact integer arithmetic: `r > 0`, declared `Length > 0`,
`r` at least the minimum interface record size, `Length ≤ r`, and
(`NumberOfPipes ≤ 1` or base size + (`NumberOfPipes` - 1) × pipe-entry size
`≤ r`). -/
def specInterfaceAccepted (P : Platform) (r : Nat)
    (pInterface : USBD_INTERFACE_INFORMATION) : Bool :=
  decide (0 < r ∧ 0 < pInterface.Length ∧ P.sizeof_USBD_INTERFACE_INFORMATION ≤ r ∧
    pInterface.Length ≤ r ∧
    (pInterface.NumberOfPipes ≤ 1 ∨
      P.sizeof_USBD_INTERFACE_INFORMATION +
        (pInterface.NumberOfPipes - 1) * P.sizeof_USBD_PIPE_INFORMATION ≤ r))

/-- The longest prefix of interface records that pass `specInterfaceAccepted`,
record k+1 starting `Length` bytes after record k; the first argument bounds
the number of records. -/
def specAcceptedInterfaces (P : Platform) (memory : Nat → USBD_INTERFACE_INFORMATION) :
    Nat → Nat → Nat → List USBD_INTERFACE_INFORMATION
  | 0, _, _ => []
  | fuel + 1, off, r =>
    if specInterfaceAccepted P r (memory off) then
      memory off ::
        specAcceptedInterfaces P memory fuel (off + (memory off).Length)
          (r - (memory off).Length)
    else []

/-- The pipes of a list of interface records, in record and pipe order. -/
def specPipesOf (records : List USBD_INTERFACE_INFORMATION) : List USBD_PIPE_INFORMATION :=
  records.flatMap (fun pInterface => (List.range pInterface.NumberOfPipes).map pInterface.Pipes)

/-- Registering a list of pipes, in order, each with the device context's
device address. -/
def specRegisterPipes (pDeviceData : USBPCAP_DEVICE_DATA)
    (pipes : List USBD_PIPE_INFORMATION) : USBPCAP_DEVICE_DATA :=
  { pDeviceData with
    endpointTable :=
      pipes.foldl
        (fun table pipe => USBPcapAddEndpointInfo table pipe pDeviceData.deviceAddress)
        pDeviceData.endpointTable }

/-- An interface record of 36 bytes declaring 2^30 pipes; pipe `j` has pipe
handle 0x1000 + `j`. On the x86 layout 36 + (2^30 - 1) × 20 is 5 × 2^32 + 16. -/
def wrappingInterface : USBD_INTERFACE_INFORMATION :=
  { Length := 36
    NumberOfPipes := 1073741824
    Pipes := fun j =>
      { PipeHandle := 0x1000 + j
        EndpointAddress := 0x81
        PipeType := USBD_PIPE_TYPE.UsbdPipeTypeBulk } }

/-- An interface area of 36 bytes holding `wrappingInterface`. -/
def wrappingInterfaces : Nat → USBD_INTERFACE_INFORMATION :=
  fun off => if off = 0 then wrappingInterface else {}

/-- The offset, from the start of an interface record, of the first byte after
`Pipes[j]`: `sizeof(USBD_INTERFACE_INFORMATION)` covers the record together
with one pipe entry, and the entries follow each other. -/
def endOfPipeEntry (P : Platform) (j : Nat) : Nat :=
  P.sizeof_USBD_INTERFACE_INFORMATION + j * P.sizeof_USBD_PIPE_INFORMATION

/-- An AbortPipe request on pipe handle 0x1000. -/
def abortPipeUrb : URB :=
  { UrbHeader := { Length := 24, Function := URB_FUNCTION_ABORT_PIPE }
    UrbPipeRequest := { PipeHandle := 0x1000 } }

/-- A GetCurrentFrameNumber request whose `FrameNumber` is 0x12345678. -/
def getCurrentFrameNumberUrb : URB :=
  { UrbHeader := { Length := 24, Function := URB_FUNCTION_GET_CURRENT_FRAME_NUMBER }
    UrbGetCurrentFrameNumber := { FrameNumber := 0x12345678 } }

/-- A platform like `x86Platform` on which the descriptor search finds, for
every interface number and alternate setting asked for, an interface
descriptor carrying them. -/
def x86PlatformWithInterfaces : Platform :=
  { x86Platform with
    USBD_ParseConfigurationDescriptorEx := fun _ InterfaceNumber AlternateSetting =>
      some { bInterfaceNumber := InterfaceNumber, bAlternateSetting := AlternateSetting } }

/-- A SelectInterface request for interface 0, alternate setting 1, carrying
one interface record with one bulk pipe of endpoint address 0x02 and pipe
handle 0x2000. -/
def selectInterfaceUrb : URB :=
  { UrbHeader := { Length := 56, Function := URB_FUNCTION_SELECT_INTERFACE }
    UrbSelectInterface :=
      { Interface := fun off =>
          if off = 0 then
            { Length := 36
              InterfaceNumber := 0
              AlternateSetting := 1
              NumberOfPipes := 1
              Pipes := fun j =>
                if j = 0 then
                  { MaximumPacketSize := 64
                    EndpointAddress := 0x02
                    PipeType := USBD_PIPE_TYPE.UsbdPipeTypeBulk
                    PipeHandle := 0x2000 }
                else {} }
          else {} } }

/-- An outbound isochronous transfer of two packets on an unregistered pipe,
3 bytes at offset 0 and 2 bytes at offset 3 of a 5-byte buffer. -/
def isochOutUrb : URB :=
  { UrbHeader := { Length := 104, Function := URB_FUNCTION_ISOCH_TRANSFER }
    UrbIsochronousTransfer :=
      { PipeHandle := 0x2000
        TransferFlags := USBD_TRANSFER_DIRECTION_OUT
        TransferBufferLength := 5
        TransferBuffer := some [10, 11, 12, 13, 14]
        StartFrame := 200
        NumberOfPackets := 2
        ErrorCount := 0
        IsoPacket := fun i =>
          if i = 0 then { Offset := 0, Length := 3 }
          else if i = 1 then { Offset := 3, Length := 2 }
          else {} } }

/-- A host-to-device control transfer on pipe handle 0x3000, without the
default-pipe flag and without a buffer. -/
def nonDefaultControlUrb : URB :=
  { UrbHeader := { Length := 80, Function := URB_FUNCTION_CONTROL_TRANSFER }
    UrbControlTransfer :=
      { PipeHandle := 0x3000
        TransferFlags := USBD_TRANSFER_DIRECTION_OUT
        TransferBufferLength := 0
        SetupPacket := [0x02, 0x01, 0, 0, 0x81, 0, 0, 0] } }

/-- The tests an iteration of the `while` loop of
`USBPcapParseInterfaceInformation` passes before it consumes a record: the loop
condition and the negations of the three `break` tests. -/
def USBPcapParseInterfaceInformation.consumes (P : Platform) (interfaces_len : Nat)
    (pInterface : USBD_INTERFACE_INFORMATION) : Bool :=
  decide (interfaces_len ≠ 0 ∧ pInterface.Length ≠ 0) &&
    !decide (interfaces_len < P.sizeof_USBD_INTERFACE_INFORMATION) &&
    !decide (pInterface.Length > interfaces_len) &&
    !decide (pInterface.NumberOfPipes > 1 ∧
      interfaces_len <
        (P.sizeof_USBD_INTERFACE_INFORMATION +
          (pInterface.NumberOfPipes - 1) * P.sizeof_USBD_PIPE_INFORMATION) % 2 ^ 32)

/-- The `while` loop of `USBPcapParseInterfaceInformation` with its device
context left out: the offset of `pInterface` and the value of `interfaces_len`
at the start of each iteration that does not break, in order. -/
def USBPcapParseInterfaceInformation.iterations (P : Platform)
    (memory : Nat → USBD_INTERFACE_INFORMATION) : Nat → Nat → Nat → List (Nat × Nat)
  | 0, _, _ => []
  | fuel + 1, off, interfaces_len =>
    let pInterface := memory off
    if USBPcapParseInterfaceInformation.consumes P interfaces_len pInterface = true then
      (off, interfaces_len) ::
        USBPcapParseInterfaceInformation.iterations P memory fuel
          (off + pInterface.Length) (interfaces_len - pInterface.Length)
    else []

/-- The record of `vendorDeviceUrb` at Submit with correlation identity 7 on
`filteredDevice`: a control record on endpoint 0x80 carrying the setup packet. -/
def vendorDeviceSubmitRecord : SinkCall :=
  SinkCall.USBPcapBufferWritePayload
    (CAPTURE_HEADER.control
      { header :=
          { headerLen := 28, irpId := 7, status := 0, function := URB_FUNCTION_VENDOR_DEVICE
            info := 0, bus := 1, device := 2, endpoint := 0x80
            transfer := USBPCAP_TRANSFER.CONTROL, dataLength := 8 }
        stage := USBPCAP_CONTROL_STAGE.SETUP })
    [ { size := 8, buffer := some [0xC0, 0x01, 0x34, 0x12, 0x02, 0x00, 0x40, 0x01] },
      { size := 0, buffer := none },
      { size := 0, buffer := none } ]

/-- A ControlTransferEx request: a device-to-host transfer on the default
pipe with a 2-byte buffer and a timeout of 500 ms. -/
def controlTransferExUrb : URB :=
  { UrbHeader := { Length := 88, Function := URB_FUNCTION_CONTROL_TRANSFER_EX }
    UrbControlTransferEx :=
      { PipeHandle := 0
        TransferFlags := USBD_TRANSFER_DIRECTION_IN
        TransferBufferLength := 2
        TransferBuffer := some [0x01, 0x00]
        Timeout := 500
        SetupPacket := [0x80, 0x00, 0x00, 0x00, 0x00, 0x00, 0x02, 0x00] } }

/-- A ControlTransfer request carrying `hugeOutControlTransfer`: host-to-device
on the default pipe, declaring a buffer of 0xFFFFFFFF bytes. -/
def hugeOutControlUrb : URB :=
  { UrbHeader := controlTransferHeader
    UrbControlTransfer := hugeOutControlTransfer }

/-- Modelled from the spec: the capture record a sink call writes
(`USBPcapBuffer.c`, not under `src/`): the timestamp when the caller supplies
one, the header, and the payload bytes. -/
def SinkCall.record (c : SinkCall) : Option Nat × CAPTURE_HEADER × List Nat :=
  ((match c with
    | .USBPcapBufferWriteTimestampedPacket timestamp _ _ => some timestamp
    | _ => none),
   c.header, payloadBytes c.payload)

/-- The Unknown record of the pending entry of `pendingDevice`, written with
the entry's Submit-time timestamp when a call completes under correlation
identity 9. -/
def pendingUnknownRecord : SinkCall :=
  SinkCall.USBPcapBufferWriteTimestampedPacket 1000
    (CAPTURE_HEADER.packet
      { headerLen := 27, irpId := 9, status := 0, function := URB_FUNCTION_GET_CONFIGURATION
        info := 0, bus := 1, device := 2, endpoint := 0
        transfer := USBPCAP_TRANSFER.UNKNOWN, dataLength := 0 })
    none

/-- The record of `getCurrentFrameNumberUrb` completing under correlation
identity 9 on a device of address 2 on bus 1: IRP-info, endpoint 0x80, the four
little-endian bytes of the frame number. -/
def frameNumberCompleteRecord : SinkCall :=
  SinkCall.USBPcapBufferWritePacket
    (CAPTURE_HEADER.packet
      { headerLen := 27, irpId := 9, status := 0
        function := URB_FUNCTION_GET_CURRENT_FRAME_NUMBER, info := 1, bus := 1
        device := 2, endpoint := 0x80, transfer := USBPCAP_TRANSFER.IRP_INFO
        dataLength := 4 })
    (some [0x78, 0x56, 0x34, 0x12])

/-! ## Theorems -/

/-! ### Arithmetic of the setup bytes and the frame of a call -/

theorem and_FF00_shiftRight (x : Nat) : (x &&& 0xFF00) >>> 8 = (x >>> 8) &&& 0xFF := by
  apply Nat.eq_of_testBit_eq
  intro j
  simp only [Nat.testBit_shiftRight, Nat.testBit_and]
  congr 1
  rw [← Nat.testBit_shiftRight]
  rfl

theorem and_FF00_shiftRight_of_lt (x : Nat) (h : x < 2 ^ 16) :
    (x &&& 0xFF00) >>> 8 = x >>> 8 := by
  have hlt : x >>> 8 < 2 ^ 8 := by
    rw [Nat.shiftRight_eq_div_pow]; omega
  rw [and_FF00_shiftRight]
  exact Nat.and_pow_two_sub_one_of_lt_two_pow hlt

theorem obtained_pRootData (pIrp : Nat) (post : Bool) (d : USBPCAP_DEVICE_DATA) :
    (USBPcapAnalyzeURB.obtained pIrp post d).2.pRootData = d.pRootData := by
  unfold USBPcapAnalyzeURB.obtained USBPcapObtainURBIRPInfo
  split <;> rfl

theorem obtained_deviceAddress (pIrp : Nat) (post : Bool) (d : USBPCAP_DEVICE_DATA) :
    (USBPcapAnalyzeURB.obtained pIrp post d).2.deviceAddress = d.deviceAddress := by
  unfold USBPcapAnalyzeURB.obtained USBPcapObtainURBIRPInfo
  split <;> rfl

theorem alwaysAnalyzed_of_ne (P : Platform) (pUrb : URB) (post : Bool)
    (d : USBPCAP_DEVICE_DATA)
    (h0 : pUrb.UrbHeader.Function ≠ URB_FUNCTION_SELECT_CONFIGURATION)
    (h1 : pUrb.UrbHeader.Function ≠ URB_FUNCTION_SELECT_INTERFACE) :
    USBPcapAnalyzeURB.alwaysAnalyzed P pUrb post d = some d := by
  simp [USBPcapAnalyzeURB.alwaysAnalyzed, h0, h1]

theorem USBPcapAnalyzeURB_of_filtered (P : Platform) (pIrp : Nat) (pUrb : URB) (post : Bool)
    (d : USBPCAP_DEVICE_DATA)
    (h0 : pUrb.UrbHeader.Function ≠ URB_FUNCTION_SELECT_CONFIGURATION)
    (h1 : pUrb.UrbHeader.Function ≠ URB_FUNCTION_SELECT_INTERFACE)
    (hf : USBPcapIsDeviceFiltered d.pRootData.filter d.deviceAddress = true) :
    USBPcapAnalyzeURB P pIrp pUrb post d =
      some ((USBPcapAnalyzeURB.dispatch P pIrp pUrb post
                (USBPcapAnalyzeURB.obtained pIrp post d).2).1,
            USBPcapAnalyzeURB.logUnknownURB pIrp (USBPcapAnalyzeURB.obtained pIrp post d).1 ++
              (USBPcapAnalyzeURB.dispatch P pIrp pUrb post
                (USBPcapAnalyzeURB.obtained pIrp post d).2).2) := by
  simp [USBPcapAnalyzeURB, alwaysAnalyzed_of_ne P pUrb post _ h0 h1, obtained_pRootData,
    obtained_deviceAddress, hf]


theorem USBPcapURBGetBufferPointer_zero (buffer : Option (List Nat)) (bufferMDL : Option MDL) :
    USBPcapURBGetBufferPointer 0 buffer bufferMDL = none := by
  simp [USBPcapURBGetBufferPointer]

/-- The Submit call of `USBPcapAnalyzeControlTransfer` in closed form. -/
theorem USBPcapAnalyzeControlTransfer_submit (transfer : URB_CONTROL_TRANSFER)
    (header : URB_HEADER) (pDeviceData : USBPCAP_DEVICE_DATA) (pIrp : Nat) :
    USBPcapAnalyzeControlTransfer transfer header pDeviceData pIrp false =
      [SinkCall.USBPcapBufferWritePayload
        (CAPTURE_HEADER.control
          { header :=
              { USBPcapAnalyzeControlTransfer_packetHeader transfer header pDeviceData pIrp
                  false with
                dataLength :=
                  if transfer.TransferFlags &&& USBD_TRANSFER_DIRECTION_IN = 0
                  then (8 + transfer.TransferBufferLength % 2 ^ 32) % 2 ^ 32 else 8 }
            stage := USBPCAP_CONTROL_STAGE.SETUP })
        [ { size := 8, buffer := some transfer.SetupPacket },
          (if transfer.TransferFlags &&& USBD_TRANSFER_DIRECTION_IN = 0 then
            { size := transfer.TransferBufferLength % 2 ^ 32
              buffer :=
                USBPcapURBGetBufferPointer transfer.TransferBufferLength
                  transfer.TransferBuffer transfer.TransferBufferMDL }
           else { size := 0, buffer := none }),
          { size := 0, buffer := none } ]] := by
  by_cases hdir : transfer.TransferFlags &&& USBD_TRANSFER_DIRECTION_IN = 0 <;>
  by_cases hz : transfer.TransferBufferLength = 0 <;>
  simp [USBPcapAnalyzeControlTransfer, hdir, hz, USBPcapURBGetBufferPointer_zero]

/-- The Complete call of `USBPcapAnalyzeControlTransfer` in closed form. -/
theorem USBPcapAnalyzeControlTransfer_complete (transfer : URB_CONTROL_TRANSFER)
    (header : URB_HEADER) (pDeviceData : USBPCAP_DEVICE_DATA) (pIrp : Nat) :
    USBPcapAnalyzeControlTransfer transfer header pDeviceData pIrp true =
      [SinkCall.USBPcapBufferWritePayload
        (CAPTURE_HEADER.control
          { header :=
              { USBPcapAnalyzeControlTransfer_packetHeader transfer header pDeviceData pIrp
                  true with
                dataLength :=
                  if transfer.TransferFlags &&& USBD_TRANSFER_DIRECTION_IN = 0
                  then 0 else transfer.TransferBufferLength % 2 ^ 32 }
            stage := USBPCAP_CONTROL_STAGE.COMPLETE })
        [ (if transfer.TransferFlags &&& USBD_TRANSFER_DIRECTION_IN = 0 then
            { size := 0, buffer := none }
           else
            { size := transfer.TransferBufferLength % 2 ^ 32
              buffer :=
                USBPcapURBGetBufferPointer transfer.TransferBufferLength
                  transfer.TransferBuffer transfer.TransferBufferMDL }),
          { size := 0, buffer := none } ]] := by
  by_cases hdir : transfer.TransferFlags &&& USBD_TRANSFER_DIRECTION_IN = 0 <;>
  by_cases hz : transfer.TransferBufferLength = 0 <;>
  simp [USBPcapAnalyzeControlTransfer, hdir, hz, USBPcapURBGetBufferPointer_zero]


/-! ### Synthesized control transfers -/

/-- C1. For each of the six Get/SetDescriptor functions on a device in the
filter's active set, with `rt` and `rc` the request type and request code of
the variant (0x80/0x82/0x81 and 0x06 for GET from device/endpoint/interface,
0x00/0x02/0x01 and 0x07 for SET), the setup packet that `USBPcapAnalyzeURB`
builds is `[rt, rc, Index, DescriptorType, LanguageId & 0xFF, LanguageId >> 8,
len & 0xFF, (len >> 8) & 0xFF]` with `len = TransferBufferLength`, and the
call is the control-transfer analysis of the default-pipe transfer carrying
it (IN for GET, OUT for SET). For GetDescriptorFromDevice with index 0,
descriptor type 1, language id 0 and length 18 the Submit record starts with
the eight bytes `80 06 00 01 00 00 12 00`. -/
theorem C1_descriptor_request_setup_packet (P : Platform) (pIrp : Nat) (pUrb : URB)
    (post : Bool) (pDeviceData : USBPCAP_DEVICE_DATA) (rt rc : Nat)
    (hvariant : (pUrb.UrbHeader.Function, rt, rc) ∈
      [ (URB_FUNCTION_GET_DESCRIPTOR_FROM_DEVICE, 0x80, 0x06),
        (URB_FUNCTION_GET_DESCRIPTOR_FROM_ENDPOINT, 0x82, 0x06),
        (URB_FUNCTION_GET_DESCRIPTOR_FROM_INTERFACE, 0x81, 0x06),
        (URB_FUNCTION_SET_DESCRIPTOR_TO_DEVICE, 0x00, 0x07),
        (URB_FUNCTION_SET_DESCRIPTOR_TO_ENDPOINT, 0x02, 0x07),
        (URB_FUNCTION_SET_DESCRIPTOR_TO_INTERFACE, 0x01, 0x07) ])
    (hLanguageId : pUrb.UrbControlDescriptorRequest.LanguageId < 2 ^ 16)
    (hfiltered :
      USBPcapIsDeviceFiltered pDeviceData.pRootData.filter pDeviceData.deviceAddress = true) :
    (USBPcapAnalyzeURB.wrapDescriptorRequest pUrb.UrbHeader.Function
        pUrb.UrbControlDescriptorRequest).map (fun w => w.SetupPacket) =
      some
        [ rt, rc, pUrb.UrbControlDescriptorRequest.Index,
          pUrb.UrbControlDescriptorRequest.DescriptorType,
          pUrb.UrbControlDescriptorRequest.LanguageId &&& 0xFF,
          pUrb.UrbControlDescriptorRequest.LanguageId >>> 8,
          pUrb.UrbControlDescriptorRequest.TransferBufferLength &&& 0xFF,
          (pUrb.UrbControlDescriptorRequest.TransferBufferLength >>> 8) &&& 0xFF ] ∧
    USBPcapAnalyzeURB P pIrp pUrb post pDeviceData =
      some
        ((USBPcapAnalyzeURB.obtained pIrp post pDeviceData).2,
         USBPcapAnalyzeURB.logUnknownURB pIrp
             (USBPcapAnalyzeURB.obtained pIrp post pDeviceData).1 ++
           USBPcapAnalyzeControlTransfer
             { PipeHandle := 0
               TransferFlags :=
                 if rc = 0x06 then USBD_TRANSFER_DIRECTION_IN
                 else USBD_TRANSFER_DIRECTION_OUT
               TransferBufferLength := pUrb.UrbControlDescriptorRequest.TransferBufferLength
               TransferBuffer := pUrb.UrbControlDescriptorRequest.TransferBuffer
               TransferBufferMDL := pUrb.UrbControlDescriptorRequest.TransferBufferMDL
               SetupPacket :=
                 [ rt, rc, pUrb.UrbControlDescriptorRequest.Index,
                   pUrb.UrbControlDescriptorRequest.DescriptorType,
                   pUrb.UrbControlDescriptorRequest.LanguageId &&& 0xFF,
                   pUrb.UrbControlDescriptorRequest.LanguageId >>> 8,
                   pUrb.UrbControlDescriptorRequest.TransferBufferLength &&& 0xFF,
                   (pUrb.UrbControlDescriptorRequest.TransferBufferLength >>> 8) &&& 0xFF ] }
             pUrb.UrbHeader (USBPcapAnalyzeURB.obtained pIrp post pDeviceData).2 pIrp post) ∧
    (pUrb.UrbHeader.Function = URB_FUNCTION_GET_DESCRIPTOR_FROM_DEVICE →
      pUrb.UrbControlDescriptorRequest.Index = 0 →
      pUrb.UrbControlDescriptorRequest.DescriptorType = 1 →
      pUrb.UrbControlDescriptorRequest.LanguageId = 0 →
      pUrb.UrbControlDescriptorRequest.TransferBufferLength = 18 →
      ∃ header rest,
        USBPcapAnalyzeURB P pIrp pUrb false pDeviceData =
          some
            (pDeviceData,
             [SinkCall.USBPcapBufferWritePayload header
               ({ size := 8, buffer := some [0x80, 0x06, 0x00, 0x01, 0x00, 0x00, 0x12, 0x00] } ::
                 rest)])) := by
  have h0 : pUrb.UrbHeader.Function ≠ URB_FUNCTION_SELECT_CONFIGURATION := by
    intro h
    simp [h, URB_FUNCTION_SELECT_CONFIGURATION, URB_FUNCTION_GET_DESCRIPTOR_FROM_DEVICE,
      URB_FUNCTION_GET_DESCRIPTOR_FROM_ENDPOINT, URB_FUNCTION_GET_DESCRIPTOR_FROM_INTERFACE,
      URB_FUNCTION_SET_DESCRIPTOR_TO_DEVICE, URB_FUNCTION_SET_DESCRIPTOR_TO_ENDPOINT,
      URB_FUNCTION_SET_DESCRIPTOR_TO_INTERFACE] at hvariant
  have h1 : pUrb.UrbHeader.Function ≠ URB_FUNCTION_SELECT_INTERFACE := by
    intro h
    simp [h, URB_FUNCTION_SELECT_INTERFACE, URB_FUNCTION_GET_DESCRIPTOR_FROM_DEVICE,
      URB_FUNCTION_GET_DESCRIPTOR_FROM_ENDPOINT, URB_FUNCTION_GET_DESCRIPTOR_FROM_INTERFACE,
      URB_FUNCTION_SET_DESCRIPTOR_TO_DEVICE, URB_FUNCTION_SET_DESCRIPTOR_TO_ENDPOINT,
      URB_FUNCTION_SET_DESCRIPTOR_TO_INTERFACE] at hvariant
  have hgen := USBPcapAnalyzeURB_of_filtered P pIrp pUrb post pDeviceData h0 h1 hfiltered
  have hsub := USBPcapAnalyzeURB_of_filtered P pIrp pUrb false pDeviceData h0 h1 hfiltered
  simp only [List.mem_cons, Prod.mk.injEq, List.mem_singleton, List.not_mem_nil, or_false]
    at hvariant
  refine ⟨?_, ?_, ?_⟩
  · rcases hvariant with ⟨hF, rfl, rfl⟩ | ⟨hF, rfl, rfl⟩ | ⟨hF, rfl, rfl⟩ | ⟨hF, rfl, rfl⟩ |
      ⟨hF, rfl, rfl⟩ | ⟨hF, rfl, rfl⟩ <;>
    simp [hF, USBPcapAnalyzeURB.wrapDescriptorRequest, USBPcapAnalyzeURB.descriptorRequestKind,
      URB_FUNCTION_GET_DESCRIPTOR_FROM_DEVICE, URB_FUNCTION_GET_DESCRIPTOR_FROM_ENDPOINT,
      URB_FUNCTION_GET_DESCRIPTOR_FROM_INTERFACE, URB_FUNCTION_SET_DESCRIPTOR_TO_DEVICE,
      URB_FUNCTION_SET_DESCRIPTOR_TO_ENDPOINT, URB_FUNCTION_SET_DESCRIPTOR_TO_INTERFACE,
      and_FF00_shiftRight_of_lt _ hLanguageId, and_FF00_shiftRight]
  · rw [hgen]
    rcases hvariant with ⟨hF, rfl, rfl⟩ | ⟨hF, rfl, rfl⟩ | ⟨hF, rfl, rfl⟩ | ⟨hF, rfl, rfl⟩ |
      ⟨hF, rfl, rfl⟩ | ⟨hF, rfl, rfl⟩ <;>
    simp [hF, USBPcapAnalyzeURB.dispatch, USBPcapAnalyzeURB.wrapDescriptorRequest,
      USBPcapAnalyzeURB.descriptorRequestKind,
      URB_FUNCTION_SELECT_CONFIGURATION, URB_FUNCTION_SELECT_INTERFACE,
      URB_FUNCTION_CONTROL_TRANSFER, URB_FUNCTION_CONTROL_TRANSFER_EX,
      URB_FUNCTION_GET_DESCRIPTOR_FROM_DEVICE, URB_FUNCTION_GET_DESCRIPTOR_FROM_ENDPOINT,
      URB_FUNCTION_GET_DESCRIPTOR_FROM_INTERFACE, URB_FUNCTION_SET_DESCRIPTOR_TO_DEVICE,
      URB_FUNCTION_SET_DESCRIPTOR_TO_ENDPOINT, URB_FUNCTION_SET_DESCRIPTOR_TO_INTERFACE,
      USBD_TRANSFER_DIRECTION_IN, USBD_TRANSFER_DIRECTION_OUT,
      and_FF00_shiftRight_of_lt _ hLanguageId, and_FF00_shiftRight]
  · intro hF hI hD hL hT
    rw [hsub]
    simp [hF, hI, hD, hL, hT, USBPcapAnalyzeURB.dispatch, USBPcapAnalyzeURB.wrapDescriptorRequest,
      USBPcapAnalyzeURB.descriptorRequestKind, USBPcapAnalyzeURB.obtained,
      USBPcapAnalyzeURB.logUnknownURB, USBPcapAnalyzeControlTransfer_submit,
      URB_FUNCTION_SELECT_CONFIGURATION, URB_FUNCTION_SELECT_INTERFACE,
      URB_FUNCTION_CONTROL_TRANSFER, URB_FUNCTION_CONTROL_TRANSFER_EX,
      URB_FUNCTION_GET_DESCRIPTOR_FROM_DEVICE]
    decide


/-- C1 instantiated at GetDescriptorFromDevice (index 0, type 1, language id
0, length 18) on a filtered device: the synthesized setup packet. -/
theorem C1_descriptor_request_setup_packet_witness :
    (getDeviceDescriptorUrb.UrbHeader.Function, 0x80, 0x06) ∈
      [ (URB_FUNCTION_GET_DESCRIPTOR_FROM_DEVICE, 0x80, 0x06),
        (URB_FUNCTION_GET_DESCRIPTOR_FROM_ENDPOINT, 0x82, 0x06),
        (URB_FUNCTION_GET_DESCRIPTOR_FROM_INTERFACE, 0x81, 0x06),
        (URB_FUNCTION_SET_DESCRIPTOR_TO_DEVICE, 0x00, 0x07),
        (URB_FUNCTION_SET_DESCRIPTOR_TO_ENDPOINT, 0x02, 0x07),
        (URB_FUNCTION_SET_DESCRIPTOR_TO_INTERFACE, 0x01, 0x07) ] ∧
    getDeviceDescriptorUrb.UrbControlDescriptorRequest.LanguageId < 2 ^ 16 ∧
    USBPcapIsDeviceFiltered filteredDevice.pRootData.filter filteredDevice.deviceAddress
      = true ∧
    (USBPcapAnalyzeURB.wrapDescriptorRequest getDeviceDescriptorUrb.UrbHeader.Function
        getDeviceDescriptorUrb.UrbControlDescriptorRequest).map (fun w => w.SetupPacket) =
      some [0x80, 0x06, 0x00, 0x01, 0x00, 0x00, 0x12, 0x00] :=
  ⟨by decide, by decide, by decide,
   (C1_descriptor_request_setup_packet x86Platform 7 getDeviceDescriptorUrb false
      filteredDevice 0x80 0x06 (by decide) (by decide) (by decide)).1⟩


theorem and_FF_eq_mod (x : Nat) : x &&& 0xFF = x % 256 :=
  Nat.and_pow_two_sub_one_eq_mod x 8

theorem and_FF00_shiftRight_eq_div (x : Nat) : (x &&& 0xFF00) >>> 8 = x % 2 ^ 16 / 256 := by
  rw [and_FF00_shiftRight, and_FF_eq_mod, Nat.shiftRight_eq_div_pow]
  omega

/-- C2. For each of the eight Vendor/Class functions on a device in the
filter's active set, with `t` the type and recipient bits of the variant
(0x40..0x43 for vendor device/interface/endpoint/other, 0x20..0x23 for class),
the setup packet that `USBPcapAnalyzeURB` builds has byte 0 = (0x80 if
`TransferFlags` has the IN bit, else 0) OR `t`, byte 1 = `Request`, bytes 2-3 =
`Value` little-endian, bytes 4-5 = `Index` little-endian and bytes 6-7 = the
low 16 bits of `TransferBufferLength` little-endian; the call is the
control-transfer analysis of the default-pipe transfer carrying it, and at
Submit the one record written starts with these eight bytes. -/
theorem C2_vendor_class_setup_packet (P : Platform) (pIrp : Nat) (pUrb : URB)
    (post : Bool) (pDeviceData : USBPCAP_DEVICE_DATA) (t : Nat)
    (hvariant : (pUrb.UrbHeader.Function, t) ∈
      [ (URB_FUNCTION_VENDOR_DEVICE, 0x40), (URB_FUNCTION_VENDOR_INTERFACE, 0x41),
        (URB_FUNCTION_VENDOR_ENDPOINT, 0x42), (URB_FUNCTION_VENDOR_OTHER, 0x43),
        (URB_FUNCTION_CLASS_DEVICE, 0x20), (URB_FUNCTION_CLASS_INTERFACE, 0x21),
        (URB_FUNCTION_CLASS_ENDPOINT, 0x22), (URB_FUNCTION_CLASS_OTHER, 0x23) ])
    (hValue : pUrb.UrbControlVendorClassRequest.Value < 2 ^ 16)
    (hIndex : pUrb.UrbControlVendorClassRequest.Index < 2 ^ 16)
    (hfiltered :
      USBPcapIsDeviceFiltered pDeviceData.pRootData.filter pDeviceData.deviceAddress = true) :
    (USBPcapAnalyzeURB.wrapVendorOrClassRequest pUrb.UrbHeader.Function
        pUrb.UrbControlVendorClassRequest).SetupPacket =
      [ (if pUrb.UrbControlVendorClassRequest.TransferFlags &&& USBD_TRANSFER_DIRECTION_IN ≠ 0
          then 0x80 else 0) ||| t,
        pUrb.UrbControlVendorClassRequest.Request,
        pUrb.UrbControlVendorClassRequest.Value % 256,
        pUrb.UrbControlVendorClassRequest.Value / 256,
        pUrb.UrbControlVendorClassRequest.Index % 256,
        pUrb.UrbControlVendorClassRequest.Index / 256,
        pUrb.UrbControlVendorClassRequest.TransferBufferLength % 2 ^ 16 % 256,
        pUrb.UrbControlVendorClassRequest.TransferBufferLength % 2 ^ 16 / 256 ] ∧
    USBPcapAnalyzeURB P pIrp pUrb post pDeviceData =
      some
        ((USBPcapAnalyzeURB.obtained pIrp post pDeviceData).2,
         USBPcapAnalyzeURB.logUnknownURB pIrp
             (USBPcapAnalyzeURB.obtained pIrp post pDeviceData).1 ++
           USBPcapAnalyzeControlTransfer
             (USBPcapAnalyzeURB.wrapVendorOrClassRequest pUrb.UrbHeader.Function
               pUrb.UrbControlVendorClassRequest)
             pUrb.UrbHeader (USBPcapAnalyzeURB.obtained pIrp post pDeviceData).2 pIrp post) ∧
    ∃ header rest,
      USBPcapAnalyzeURB P pIrp pUrb false pDeviceData =
        some
          (pDeviceData,
           [SinkCall.USBPcapBufferWritePayload header
             ({ size := 8
                buffer := some
                  [ (if pUrb.UrbControlVendorClassRequest.TransferFlags &&&
                        USBD_TRANSFER_DIRECTION_IN ≠ 0 then 0x80 else 0) ||| t,
                    pUrb.UrbControlVendorClassRequest.Request,
                    pUrb.UrbControlVendorClassRequest.Value % 256,
                    pUrb.UrbControlVendorClassRequest.Value / 256,
                    pUrb.UrbControlVendorClassRequest.Index % 256,
                    pUrb.UrbControlVendorClassRequest.Index / 256,
                    pUrb.UrbControlVendorClassRequest.TransferBufferLength % 2 ^ 16 % 256,
                    pUrb.UrbControlVendorClassRequest.TransferBufferLength % 2 ^ 16 / 256 ] } ::
               rest)]) := by
  have hV : pUrb.UrbControlVendorClassRequest.Value % 2 ^ 16 =
      pUrb.UrbControlVendorClassRequest.Value := Nat.mod_eq_of_lt hValue
  have hI : pUrb.UrbControlVendorClassRequest.Index % 2 ^ 16 =
      pUrb.UrbControlVendorClassRequest.Index := Nat.mod_eq_of_lt hIndex
  have hmod : ∀ x : Nat, x % 2 ^ 16 % 256 = x % 256 := fun x => by omega
  have hpacket : (USBPcapAnalyzeURB.wrapVendorOrClassRequest pUrb.UrbHeader.Function
        pUrb.UrbControlVendorClassRequest).SetupPacket =
      [ (if pUrb.UrbControlVendorClassRequest.TransferFlags &&& USBD_TRANSFER_DIRECTION_IN ≠ 0
          then 0x80 else 0) ||| t,
        pUrb.UrbControlVendorClassRequest.Request,
        pUrb.UrbControlVendorClassRequest.Value % 256,
        pUrb.UrbControlVendorClassRequest.Value / 256,
        pUrb.UrbControlVendorClassRequest.Index % 256,
        pUrb.UrbControlVendorClassRequest.Index / 256,
        pUrb.UrbControlVendorClassRequest.TransferBufferLength % 2 ^ 16 % 256,
        pUrb.UrbControlVendorClassRequest.TransferBufferLength % 2 ^ 16 / 256 ] := by
    simp only [USBPcapAnalyzeURB.wrapVendorOrClassRequest, and_FF_eq_mod,
      and_FF00_shiftRight_eq_div, hV, hI, hmod]
    simp only [List.mem_cons, Prod.mk.injEq, List.mem_singleton, List.not_mem_nil, or_false]
      at hvariant
    rcases hvariant with ⟨hF, rfl⟩ | ⟨hF, rfl⟩ | ⟨hF, rfl⟩ | ⟨hF, rfl⟩ | ⟨hF, rfl⟩ |
      ⟨hF, rfl⟩ | ⟨hF, rfl⟩ | ⟨hF, rfl⟩ <;>
    · by_cases hdir :
          pUrb.UrbControlVendorClassRequest.TransferFlags &&& USBD_TRANSFER_DIRECTION_IN = 0 <;>
      simp [hF, hdir, USBPcapAnalyzeURB.vendorOrClassRequestType, URB_FUNCTION_VENDOR_DEVICE,
        URB_FUNCTION_VENDOR_INTERFACE, URB_FUNCTION_VENDOR_ENDPOINT, URB_FUNCTION_VENDOR_OTHER,
        URB_FUNCTION_CLASS_DEVICE, URB_FUNCTION_CLASS_INTERFACE, URB_FUNCTION_CLASS_ENDPOINT,
        URB_FUNCTION_CLASS_OTHER]
  have hne : pUrb.UrbHeader.Function ≠ URB_FUNCTION_SELECT_CONFIGURATION ∧
      pUrb.UrbHeader.Function ≠ URB_FUNCTION_SELECT_INTERFACE := by
    constructor <;> intro h <;>
    simp [h, URB_FUNCTION_SELECT_CONFIGURATION, URB_FUNCTION_SELECT_INTERFACE,
      URB_FUNCTION_VENDOR_DEVICE,
      URB_FUNCTION_VENDOR_INTERFACE, URB_FUNCTION_VENDOR_ENDPOINT, URB_FUNCTION_VENDOR_OTHER,
      URB_FUNCTION_CLASS_DEVICE, URB_FUNCTION_CLASS_INTERFACE, URB_FUNCTION_CLASS_ENDPOINT,
      URB_FUNCTION_CLASS_OTHER] at hvariant
  have hdispatch : ∀ (post : Bool) (d : USBPCAP_DEVICE_DATA),
      USBPcapAnalyzeURB.dispatch P pIrp pUrb post d =
        (d, USBPcapAnalyzeControlTransfer
              (USBPcapAnalyzeURB.wrapVendorOrClassRequest pUrb.UrbHeader.Function
                pUrb.UrbControlVendorClassRequest) pUrb.UrbHeader d pIrp post) := by
    intro post d
    simp only [List.mem_cons, Prod.mk.injEq, List.mem_singleton, List.not_mem_nil, or_false]
      at hvariant
    rcases hvariant with ⟨hF, rfl⟩ | ⟨hF, rfl⟩ | ⟨hF, rfl⟩ | ⟨hF, rfl⟩ | ⟨hF, rfl⟩ |
      ⟨hF, rfl⟩ | ⟨hF, rfl⟩ | ⟨hF, rfl⟩ <;>
    simp [hF, USBPcapAnalyzeURB.dispatch,
      URB_FUNCTION_SELECT_CONFIGURATION, URB_FUNCTION_SELECT_INTERFACE,
      URB_FUNCTION_CONTROL_TRANSFER, URB_FUNCTION_CONTROL_TRANSFER_EX,
      URB_FUNCTION_GET_DESCRIPTOR_FROM_DEVICE, URB_FUNCTION_GET_DESCRIPTOR_FROM_ENDPOINT,
      URB_FUNCTION_GET_DESCRIPTOR_FROM_INTERFACE, URB_FUNCTION_SET_DESCRIPTOR_TO_DEVICE,
      URB_FUNCTION_SET_DESCRIPTOR_TO_ENDPOINT, URB_FUNCTION_SET_DESCRIPTOR_TO_INTERFACE,
      URB_FUNCTION_GET_STATUS_FROM_DEVICE, URB_FUNCTION_GET_STATUS_FROM_INTERFACE,
      URB_FUNCTION_GET_STATUS_FROM_ENDPOINT, URB_FUNCTION_GET_STATUS_FROM_OTHER,
      URB_FUNCTION_VENDOR_DEVICE,
      URB_FUNCTION_VENDOR_INTERFACE, URB_FUNCTION_VENDOR_ENDPOINT, URB_FUNCTION_VENDOR_OTHER,
      URB_FUNCTION_CLASS_DEVICE, URB_FUNCTION_CLASS_INTERFACE, URB_FUNCTION_CLASS_ENDPOINT,
      URB_FUNCTION_CLASS_OTHER]
  refine ⟨hpacket, ?_, ?_⟩
  · rw [USBPcapAnalyzeURB_of_filtered P pIrp pUrb post pDeviceData hne.1 hne.2 hfiltered,
      hdispatch]
  · rw [USBPcapAnalyzeURB_of_filtered P pIrp pUrb false pDeviceData hne.1 hne.2 hfiltered,
      hdispatch]
    simp [USBPcapAnalyzeURB.obtained, USBPcapAnalyzeURB.logUnknownURB,
      USBPcapAnalyzeControlTransfer_submit, hpacket]


/-- C3. For each of the four GetStatus functions on a device in the filter's
active set, with `r` = 0, 1, 2, 3 for device, interface, endpoint, other, the
setup packet that `USBPcapAnalyzeURB` builds is `[0x80 + r, 0, 0, 0,
Index & 0xFF, Index >> 8, len & 0xFF, (len >> 8) & 0xFF]` with `len =
TransferBufferLength`, the wrapped default-pipe transfer has direction IN, and
the call is its control-transfer analysis; at Submit the one record written
carries exactly these eight bytes. -/
theorem C3_get_status_setup_packet (P : Platform) (pIrp : Nat) (pUrb : URB)
    (post : Bool) (pDeviceData : USBPCAP_DEVICE_DATA) (r : Nat)
    (hvariant : (pUrb.UrbHeader.Function, r) ∈
      [ (URB_FUNCTION_GET_STATUS_FROM_DEVICE, 0), (URB_FUNCTION_GET_STATUS_FROM_INTERFACE, 1),
        (URB_FUNCTION_GET_STATUS_FROM_ENDPOINT, 2), (URB_FUNCTION_GET_STATUS_FROM_OTHER, 3) ])
    (hIndex : pUrb.UrbControlGetStatusRequest.Index < 2 ^ 16)
    (hfiltered :
      USBPcapIsDeviceFiltered pDeviceData.pRootData.filter pDeviceData.deviceAddress = true) :
    USBPcapAnalyzeURB.wrapGetStatusRequest pUrb.UrbHeader.Function
        pUrb.UrbControlGetStatusRequest =
      some
        { PipeHandle := 0
          TransferFlags := USBD_TRANSFER_DIRECTION_IN
          TransferBufferLength := pUrb.UrbControlGetStatusRequest.TransferBufferLength
          TransferBuffer := pUrb.UrbControlGetStatusRequest.TransferBuffer
          TransferBufferMDL := pUrb.UrbControlGetStatusRequest.TransferBufferMDL
          SetupPacket :=
            [ 0x80 + r, 0x00, 0x00, 0x00,
              pUrb.UrbControlGetStatusRequest.Index &&& 0xFF,
              pUrb.UrbControlGetStatusRequest.Index >>> 8,
              pUrb.UrbControlGetStatusRequest.TransferBufferLength &&& 0xFF,
              (pUrb.UrbControlGetStatusRequest.TransferBufferLength >>> 8) &&& 0xFF ] } ∧
    USBPcapAnalyzeURB P pIrp pUrb post pDeviceData =
      some
        ((USBPcapAnalyzeURB.obtained pIrp post pDeviceData).2,
         USBPcapAnalyzeURB.logUnknownURB pIrp
             (USBPcapAnalyzeURB.obtained pIrp post pDeviceData).1 ++
           USBPcapAnalyzeControlTransfer
             { PipeHandle := 0
               TransferFlags := USBD_TRANSFER_DIRECTION_IN
               TransferBufferLength := pUrb.UrbControlGetStatusRequest.TransferBufferLength
               TransferBuffer := pUrb.UrbControlGetStatusRequest.TransferBuffer
               TransferBufferMDL := pUrb.UrbControlGetStatusRequest.TransferBufferMDL
               SetupPacket :=
                 [ 0x80 + r, 0x00, 0x00, 0x00,
                   pUrb.UrbControlGetStatusRequest.Index &&& 0xFF,
                   pUrb.UrbControlGetStatusRequest.Index >>> 8,
                   pUrb.UrbControlGetStatusRequest.TransferBufferLength &&& 0xFF,
                   (pUrb.UrbControlGetStatusRequest.TransferBufferLength >>> 8) &&& 0xFF ] }
             pUrb.UrbHeader (USBPcapAnalyzeURB.obtained pIrp post pDeviceData).2 pIrp post) ∧
    ∃ header,
      USBPcapAnalyzeURB P pIrp pUrb false pDeviceData =
        some
          (pDeviceData,
           [SinkCall.USBPcapBufferWritePayload header
             [ { size := 8
                 buffer := some
                   [ 0x80 + r, 0x00, 0x00, 0x00,
                     pUrb.UrbControlGetStatusRequest.Index &&& 0xFF,
                     pUrb.UrbControlGetStatusRequest.Index >>> 8,
                     pUrb.UrbControlGetStatusRequest.TransferBufferLength &&& 0xFF,
                     (pUrb.UrbControlGetStatusRequest.TransferBufferLength >>> 8) &&& 0xFF ] },
               { size := 0, buffer := none }, { size := 0, buffer := none } ]]) := by
  have hne : pUrb.UrbHeader.Function ≠ URB_FUNCTION_SELECT_CONFIGURATION ∧
      pUrb.UrbHeader.Function ≠ URB_FUNCTION_SELECT_INTERFACE := by
    constructor <;> intro h <;>
    simp [h, URB_FUNCTION_SELECT_CONFIGURATION, URB_FUNCTION_SELECT_INTERFACE,
      URB_FUNCTION_GET_STATUS_FROM_DEVICE, URB_FUNCTION_GET_STATUS_FROM_INTERFACE,
      URB_FUNCTION_GET_STATUS_FROM_ENDPOINT, URB_FUNCTION_GET_STATUS_FROM_OTHER] at hvariant
  simp only [List.mem_cons, Prod.mk.injEq, List.mem_singleton, List.not_mem_nil, or_false]
    at hvariant
  refine ⟨?_, ?_, ?_⟩
  · rcases hvariant with ⟨hF, rfl⟩ | ⟨hF, rfl⟩ | ⟨hF, rfl⟩ | ⟨hF, rfl⟩ <;>
    simp [hF, USBPcapAnalyzeURB.wrapGetStatusRequest, USBPcapAnalyzeURB.getStatusRequestType,
      URB_FUNCTION_GET_STATUS_FROM_DEVICE, URB_FUNCTION_GET_STATUS_FROM_INTERFACE,
      URB_FUNCTION_GET_STATUS_FROM_ENDPOINT, URB_FUNCTION_GET_STATUS_FROM_OTHER,
      and_FF00_shiftRight_of_lt _ hIndex, and_FF00_shiftRight]
  · rw [USBPcapAnalyzeURB_of_filtered P pIrp pUrb post pDeviceData hne.1 hne.2 hfiltered]
    rcases hvariant with ⟨hF, rfl⟩ | ⟨hF, rfl⟩ | ⟨hF, rfl⟩ | ⟨hF, rfl⟩ <;>
    simp [hF, USBPcapAnalyzeURB.dispatch, USBPcapAnalyzeURB.wrapGetStatusRequest,
      USBPcapAnalyzeURB.getStatusRequestType,
      URB_FUNCTION_SELECT_CONFIGURATION, URB_FUNCTION_SELECT_INTERFACE,
      URB_FUNCTION_CONTROL_TRANSFER, URB_FUNCTION_CONTROL_TRANSFER_EX,
      URB_FUNCTION_GET_DESCRIPTOR_FROM_DEVICE, URB_FUNCTION_GET_DESCRIPTOR_FROM_ENDPOINT,
      URB_FUNCTION_GET_DESCRIPTOR_FROM_INTERFACE, URB_FUNCTION_SET_DESCRIPTOR_TO_DEVICE,
      URB_FUNCTION_SET_DESCRIPTOR_TO_ENDPOINT, URB_FUNCTION_SET_DESCRIPTOR_TO_INTERFACE,
      URB_FUNCTION_GET_STATUS_FROM_DEVICE, URB_FUNCTION_GET_STATUS_FROM_INTERFACE,
      URB_FUNCTION_GET_STATUS_FROM_ENDPOINT, URB_FUNCTION_GET_STATUS_FROM_OTHER,
      and_FF00_shiftRight_of_lt _ hIndex, and_FF00_shiftRight]
  · rw [USBPcapAnalyzeURB_of_filtered P pIrp pUrb false pDeviceData hne.1 hne.2 hfiltered]
    rcases hvariant with ⟨hF, rfl⟩ | ⟨hF, rfl⟩ | ⟨hF, rfl⟩ | ⟨hF, rfl⟩ <;>
    simp [hF, USBPcapAnalyzeURB.dispatch, USBPcapAnalyzeURB.wrapGetStatusRequest,
      USBPcapAnalyzeURB.getStatusRequestType, USBPcapAnalyzeURB.obtained,
      USBPcapAnalyzeURB.logUnknownURB, USBPcapAnalyzeControlTransfer_submit,
      URB_FUNCTION_SELECT_CONFIGURATION, URB_FUNCTION_SELECT_INTERFACE,
      URB_FUNCTION_CONTROL_TRANSFER, URB_FUNCTION_CONTROL_TRANSFER_EX,
      URB_FUNCTION_GET_DESCRIPTOR_FROM_DEVICE, URB_FUNCTION_GET_DESCRIPTOR_FROM_ENDPOINT,
      URB_FUNCTION_GET_DESCRIPTOR_FROM_INTERFACE, URB_FUNCTION_SET_DESCRIPTOR_TO_DEVICE,
      URB_FUNCTION_SET_DESCRIPTOR_TO_ENDPOINT, URB_FUNCTION_SET_DESCRIPTOR_TO_INTERFACE,
      URB_FUNCTION_GET_STATUS_FROM_DEVICE, URB_FUNCTION_GET_STATUS_FROM_INTERFACE,
      URB_FUNCTION_GET_STATUS_FROM_ENDPOINT, URB_FUNCTION_GET_STATUS_FROM_OTHER,
      USBD_TRANSFER_DIRECTION_IN,
      and_FF00_shiftRight_of_lt _ hIndex, and_FF00_shiftRight]


/-- C2 instantiated at a vendor request to the device with the IN bit set,
request 1, value 0x1234, index 2 and length 0x0140. -/
theorem C2_vendor_class_setup_packet_witness :
    (vendorDeviceUrb.UrbHeader.Function, 0x40) ∈
      [ (URB_FUNCTION_VENDOR_DEVICE, 0x40), (URB_FUNCTION_VENDOR_INTERFACE, 0x41),
        (URB_FUNCTION_VENDOR_ENDPOINT, 0x42), (URB_FUNCTION_VENDOR_OTHER, 0x43),
        (URB_FUNCTION_CLASS_DEVICE, 0x20), (URB_FUNCTION_CLASS_INTERFACE, 0x21),
        (URB_FUNCTION_CLASS_ENDPOINT, 0x22), (URB_FUNCTION_CLASS_OTHER, 0x23) ] ∧
    vendorDeviceUrb.UrbControlVendorClassRequest.Value < 2 ^ 16 ∧
    vendorDeviceUrb.UrbControlVendorClassRequest.Index < 2 ^ 16 ∧
    USBPcapIsDeviceFiltered filteredDevice.pRootData.filter filteredDevice.deviceAddress
      = true ∧
    (USBPcapAnalyzeURB.wrapVendorOrClassRequest vendorDeviceUrb.UrbHeader.Function
        vendorDeviceUrb.UrbControlVendorClassRequest).SetupPacket =
      [0xC0, 0x01, 0x34, 0x12, 0x02, 0x00, 0x40, 0x01] :=
  ⟨by decide, by decide, by decide, by decide,
   (C2_vendor_class_setup_packet x86Platform 7 vendorDeviceUrb false filteredDevice 0x40
      (by decide) (by decide) (by decide) (by decide)).1⟩

/-- C3 instantiated at GetStatus from endpoint 0x81 with a 2-byte buffer. -/
theorem C3_get_status_setup_packet_witness :
    (getEndpointStatusUrb.UrbHeader.Function, 2) ∈
      [ (URB_FUNCTION_GET_STATUS_FROM_DEVICE, 0), (URB_FUNCTION_GET_STATUS_FROM_INTERFACE, 1),
        (URB_FUNCTION_GET_STATUS_FROM_ENDPOINT, 2), (URB_FUNCTION_GET_STATUS_FROM_OTHER, 3) ] ∧
    getEndpointStatusUrb.UrbControlGetStatusRequest.Index < 2 ^ 16 ∧
    USBPcapIsDeviceFiltered filteredDevice.pRootData.filter filteredDevice.deviceAddress
      = true ∧
    (USBPcapAnalyzeURB.wrapGetStatusRequest getEndpointStatusUrb.UrbHeader.Function
        getEndpointStatusUrb.UrbControlGetStatusRequest).map (fun w => w.SetupPacket) =
      some [0x82, 0x00, 0x00, 0x00, 0x81, 0x00, 0x02, 0x00] :=
  ⟨by decide, by decide, by decide,
   congrArg (Option.map (fun w => w.SetupPacket))
     (C3_get_status_setup_packet x86Platform 7 getEndpointStatusUrb false filteredDevice 2
        (by decide) (by decide) (by decide)).1⟩


/-! ### Control transfer stages -/

/-- C4, counterexample. A host-to-device control transfer declaring a buffer
of 0xFFFFFFFF bytes: at Submit the payload list declares 8 + 0xFFFFFFFF bytes,
and the 32-bit `dataLength` of the record is 7, not 8 +
`TransferBufferLength`. -/
theorem C4_counterexample :
    ∃ packetHeader payload,
      USBPcapAnalyzeControlTransfer hugeOutControlTransfer controlTransferHeader
          filteredDevice 7 false =
        [SinkCall.USBPcapBufferWritePayload
          (CAPTURE_HEADER.control
            { header := packetHeader, stage := USBPCAP_CONTROL_STAGE.SETUP })
          payload] ∧
      hugeOutControlTransfer.TransferFlags &&& USBD_TRANSFER_DIRECTION_IN = 0 ∧
      payloadSize payload = 8 + hugeOutControlTransfer.TransferBufferLength ∧
      packetHeader.dataLength = 7 ∧
      packetHeader.dataLength ≠ 8 + hugeOutControlTransfer.TransferBufferLength := by
  refine ⟨_, _, rfl, ?_, ?_, ?_, ?_⟩ <;> decide

/-- C4, amended. `USBPcapAnalyzeControlTransfer` called with `post = FALSE`
makes exactly one sink call: a control record of stage Setup with the
observation-direction bit clear (`info` = 0), whose payload list is the 8 setup bytes
followed, if and only if the direction is OUT, by `TransferBufferLength`
bytes of the transfer buffer. Its `dataLength` is 8 for IN, and 8 +
`TransferBufferLength` for OUT whenever that sum fits the 32-bit field. -/
theorem C4_submit_setup_stage_record (transfer : URB_CONTROL_TRANSFER) (header : URB_HEADER)
    (pDeviceData : USBPCAP_DEVICE_DATA) (pIrp : Nat)
    (hfit : transfer.TransferFlags &&& USBD_TRANSFER_DIRECTION_IN = 0 →
      8 + transfer.TransferBufferLength < 2 ^ 32) :
    USBPcapAnalyzeControlTransfer transfer header pDeviceData pIrp false =
      [SinkCall.USBPcapBufferWritePayload
        (CAPTURE_HEADER.control
          { header :=
              { headerLen := sizeof_USBPCAP_BUFFER_CONTROL_HEADER
                irpId := pIrp
                status := header.Status
                function := header.Function
                info := 0
                bus := pDeviceData.pRootData.busId
                device := pDeviceData.deviceAddress
                endpoint := USBPcapAnalyzeControlTransfer_endpoint transfer pDeviceData
                transfer := USBPCAP_TRANSFER.CONTROL
                dataLength :=
                  if transfer.TransferFlags &&& USBD_TRANSFER_DIRECTION_IN = 0
                  then 8 + transfer.TransferBufferLength else 8 }
            stage := USBPCAP_CONTROL_STAGE.SETUP })
        [ { size := 8, buffer := some transfer.SetupPacket },
          (if transfer.TransferFlags &&& USBD_TRANSFER_DIRECTION_IN = 0 then
            { size := transfer.TransferBufferLength
              buffer :=
                USBPcapURBGetBufferPointer transfer.TransferBufferLength
                  transfer.TransferBuffer transfer.TransferBufferMDL }
           else { size := 0, buffer := none }),
          { size := 0, buffer := none } ]] := by
  rw [USBPcapAnalyzeControlTransfer_submit]
  by_cases hdir : transfer.TransferFlags &&& USBD_TRANSFER_DIRECTION_IN = 0
  · have hlt := hfit hdir
    have h1 : transfer.TransferBufferLength % 2 ^ 32 = transfer.TransferBufferLength :=
      Nat.mod_eq_of_lt (by omega)
    have h2 : (8 + transfer.TransferBufferLength) % 2 ^ 32 =
        8 + transfer.TransferBufferLength := Nat.mod_eq_of_lt hlt
    simp [USBPcapAnalyzeControlTransfer_packetHeader, hdir, h1, h2]
    omega
  · simp [USBPcapAnalyzeControlTransfer_packetHeader, hdir]

/-- C4 (amended) instantiated at a 3-byte host-to-device transfer. -/
theorem C4_submit_setup_stage_record_witness :
    (outControlTransfer.TransferFlags &&& USBD_TRANSFER_DIRECTION_IN = 0 →
      8 + outControlTransfer.TransferBufferLength < 2 ^ 32) ∧
    (USBPcapAnalyzeControlTransfer outControlTransfer controlTransferHeader filteredDevice 7
        false).map (fun c => (c.header.base.dataLength, payloadBytes c.payload)) =
      [(11, [0x40, 0x01, 0x00, 0x00, 0x00, 0x00, 0x03, 0x00, 0x0A, 0x0B, 0x0C])] :=
  ⟨fun _ => by decide,
   by
    rw [C4_submit_setup_stage_record outControlTransfer controlTransferHeader filteredDevice
      7 (fun _ => by decide)]
    decide⟩


/-- C6, counterexample. For a device-to-host control transfer with a 2-byte
buffer the Setup-stage record declares 8 payload bytes and the Complete-stage
record 2: 10 bytes in total, more than `TransferBufferLength` = 2. -/
theorem C6_counterexample :
    ∃ setupHeader setupPayload completeHeader completePayload,
      USBPcapAnalyzeControlTransfer inControlTransfer controlTransferHeader filteredDevice 7
          false = [SinkCall.USBPcapBufferWritePayload setupHeader setupPayload] ∧
      USBPcapAnalyzeControlTransfer inControlTransfer controlTransferHeader filteredDevice 7
          true = [SinkCall.USBPcapBufferWritePayload completeHeader completePayload] ∧
      payloadSize setupPayload + payloadSize completePayload = 10 ∧
      (payloadBytes setupPayload ++ payloadBytes completePayload).length = 10 ∧
      setupHeader.base.dataLength + completeHeader.base.dataLength = 10 ∧
      ¬ payloadSize setupPayload + payloadSize completePayload ≤
          inControlTransfer.TransferBufferLength := by
  refine ⟨_, _, _, _, rfl, rfl, ?_, ?_, ?_, ?_⟩ <;> decide

/-- C6, amended. For a control transfer seen at Submit and at Complete, the
Setup-stage payload starts with the 8 setup bytes, and the bytes declared
after them in the Setup-stage record plus the bytes declared in the
Complete-stage record are `TransferBufferLength` in total (the transfer
buffer is attached exactly once); with the setup bytes the total is 8 +
`TransferBufferLength`. -/
theorem C6_transfer_buffer_bytes_total (transfer : URB_CONTROL_TRANSFER)
    (header : URB_HEADER) (pDeviceData : USBPCAP_DEVICE_DATA) (pIrp : Nat)
    (hULONG : transfer.TransferBufferLength < 2 ^ 32) :
    ∃ setupHeader setupRest completeHeader completePayload,
      USBPcapAnalyzeControlTransfer transfer header pDeviceData pIrp false =
        [SinkCall.USBPcapBufferWritePayload setupHeader
          ({ size := 8, buffer := some transfer.SetupPacket } :: setupRest)] ∧
      USBPcapAnalyzeControlTransfer transfer header pDeviceData pIrp true =
        [SinkCall.USBPcapBufferWritePayload completeHeader completePayload] ∧
      payloadSize setupRest + payloadSize completePayload = transfer.TransferBufferLength ∧
      payloadSize ({ size := 8, buffer := some transfer.SetupPacket } :: setupRest) +
        payloadSize completePayload = 8 + transfer.TransferBufferLength := by
  have hlt : transfer.TransferBufferLength < 4294967296 := by omega
  have h1 : transfer.TransferBufferLength % 4294967296 = transfer.TransferBufferLength :=
    Nat.mod_eq_of_lt hlt
  refine ⟨_, _, _, _, USBPcapAnalyzeControlTransfer_submit transfer header pDeviceData pIrp,
    USBPcapAnalyzeControlTransfer_complete transfer header pDeviceData pIrp, ?_, ?_⟩ <;>
  by_cases hdir : transfer.TransferFlags &&& USBD_TRANSFER_DIRECTION_IN = 0 <;>
  simp [payloadSize, hdir, h1, hlt]

/-- C6 (amended) instantiated at a 3-byte host-to-device transfer: the two
records declare 8 + 3 payload bytes. -/
theorem C6_transfer_buffer_bytes_total_witness :
    outControlTransfer.TransferBufferLength < 2 ^ 32 ∧
    ∃ setupHeader setupRest completeHeader completePayload,
      USBPcapAnalyzeControlTransfer outControlTransfer controlTransferHeader filteredDevice 7
          false =
        [SinkCall.USBPcapBufferWritePayload setupHeader
          ({ size := 8, buffer := some outControlTransfer.SetupPacket } :: setupRest)] ∧
      USBPcapAnalyzeControlTransfer outControlTransfer controlTransferHeader filteredDevice 7
          true = [SinkCall.USBPcapBufferWritePayload completeHeader completePayload] ∧
      payloadSize setupRest + payloadSize completePayload =
        outControlTransfer.TransferBufferLength ∧
      payloadSize ({ size := 8, buffer := some outControlTransfer.SetupPacket } :: setupRest) +
        payloadSize completePayload = 8 + outControlTransfer.TransferBufferLength :=
  ⟨by decide,
   C6_transfer_buffer_bytes_total outControlTransfer controlTransferHeader filteredDevice 7
     (by decide)⟩

/-- C7, counterexample. A device-to-host control transfer on the default pipe
(null pipe handle): the record of either phase has endpoint address 0x80, not
0x00. -/
theorem C7_counterexample :
    inControlTransfer.PipeHandle = 0 ∧
    (USBPcapAnalyzeControlTransfer inControlTransfer controlTransferHeader filteredDevice 7
        false).map (fun c => c.header.base.endpoint) = [0x80] ∧
    (USBPcapAnalyzeControlTransfer inControlTransfer controlTransferHeader filteredDevice 7
        true).map (fun c => c.header.base.endpoint) = [0x80] := by
  decide

/-- C7, amended. For a control transfer on the default pipe (the
default-pipe transfer flag set, or a null pipe handle), in either phase
`USBPcapAnalyzeControlTransfer` emits one record whose endpoint address is
endpoint number 0 with the direction bit: 0x00 for OUT and 0x80 for IN. -/
theorem C7_default_pipe_endpoint (transfer : URB_CONTROL_TRANSFER) (header : URB_HEADER)
    (pDeviceData : USBPCAP_DEVICE_DATA) (pIrp : Nat) (post : Bool)
    (hdefault : transfer.TransferFlags &&& USBD_DEFAULT_PIPE_TRANSFER ≠ 0 ∨
      transfer.PipeHandle = 0) :
    (USBPcapAnalyzeControlTransfer transfer header pDeviceData pIrp post).map
        (fun c => c.header.base.endpoint) =
      [if transfer.TransferFlags &&& USBD_TRANSFER_DIRECTION_IN ≠ 0 then 0x80 else 0x00] := by
  have hep : USBPcapAnalyzeControlTransfer_endpoint transfer pDeviceData =
      if transfer.TransferFlags &&& USBD_TRANSFER_DIRECTION_IN ≠ 0 then 0x80 else 0x00 := by
    by_cases hdir : transfer.TransferFlags &&& USBD_TRANSFER_DIRECTION_IN = 0 <;>
    rcases hdefault with h | h <;>
    simp [USBPcapAnalyzeControlTransfer_endpoint, hdir, h]
  cases post
  · rw [USBPcapAnalyzeControlTransfer_submit]
    simp [SinkCall.header, CAPTURE_HEADER.base, USBPcapAnalyzeControlTransfer_packetHeader, hep]
  · rw [USBPcapAnalyzeControlTransfer_complete]
    simp [SinkCall.header, CAPTURE_HEADER.base, USBPcapAnalyzeControlTransfer_packetHeader, hep]

/-- C7 (amended) instantiated at a host-to-device transfer on the default
pipe: the Submit record has endpoint address 0x00. -/
theorem C7_default_pipe_endpoint_witness :
    (outControlTransfer.TransferFlags &&& USBD_DEFAULT_PIPE_TRANSFER ≠ 0 ∨
      outControlTransfer.PipeHandle = 0) ∧
    (USBPcapAnalyzeControlTransfer outControlTransfer controlTransferHeader filteredDevice 7
        false).map (fun c => c.header.base.endpoint) = [0x00] :=
  ⟨by decide,
   C7_default_pipe_endpoint outControlTransfer controlTransferHeader filteredDevice 7 false
     (by decide)⟩


/-! ### Bulk and interrupt transfers -/

theorem obtained_endpointTable (pIrp : Nat) (post : Bool) (d : USBPCAP_DEVICE_DATA) :
    (USBPcapAnalyzeURB.obtained pIrp post d).2.endpointTable = d.endpointTable := by
  unfold USBPcapAnalyzeURB.obtained USBPcapObtainURBIRPInfo
  split <;> rfl

theorem obtained_false (pIrp : Nat) (d : USBPCAP_DEVICE_DATA) :
    USBPcapAnalyzeURB.obtained pIrp false d = (none, d) := by
  simp [USBPcapAnalyzeURB.obtained]

theorem USBPcapRetrieveEndpointInfo_congr (d d' : USBPCAP_DEVICE_DATA) (handle : Nat)
    (h : d.endpointTable = d'.endpointTable) :
    USBPcapRetrieveEndpointInfo d handle = USBPcapRetrieveEndpointInfo d' handle := by
  simp [USBPcapRetrieveEndpointInfo, h]

/-- The endpoint address in the bulk/interrupt header depends on the endpoint
table alone. -/
theorem bulkOrInterruptPacketHeader_endpoint (pIrp pIrp' : Nat) (header header' : URB_HEADER)
    (transfer : URB_BULK_OR_INTERRUPT_TRANSFER) (post post' : Bool)
    (d d' : USBPCAP_DEVICE_DATA) (h : d.endpointTable = d'.endpointTable) :
    (USBPcapAnalyzeURB.bulkOrInterruptPacketHeader pIrp header transfer post d).endpoint =
      (USBPcapAnalyzeURB.bulkOrInterruptPacketHeader pIrp' header' transfer post' d').endpoint := by
  unfold USBPcapAnalyzeURB.bulkOrInterruptPacketHeader
  rw [USBPcapRetrieveEndpointInfo_congr d d' _ h]
  cases USBPcapRetrieveEndpointInfo d' transfer.PipeHandle <;> rfl

theorem dispatch_bulkOrInterrupt (P : Platform) (pIrp : Nat) (pUrb : URB) (post : Bool)
    (d : USBPCAP_DEVICE_DATA)
    (hF : pUrb.UrbHeader.Function = URB_FUNCTION_BULK_OR_INTERRUPT_TRANSFER) :
    USBPcapAnalyzeURB.dispatch P pIrp pUrb post d =
      (d, USBPcapAnalyzeURB.bulkOrInterruptTransfer pIrp pUrb.UrbHeader
            pUrb.UrbBulkOrInterruptTransfer post d) := by
  simp [USBPcapAnalyzeURB.dispatch, hF,
    URB_FUNCTION_SELECT_CONFIGURATION, URB_FUNCTION_SELECT_INTERFACE,
    URB_FUNCTION_CONTROL_TRANSFER, URB_FUNCTION_CONTROL_TRANSFER_EX,
    URB_FUNCTION_GET_DESCRIPTOR_FROM_DEVICE, URB_FUNCTION_GET_DESCRIPTOR_FROM_ENDPOINT,
    URB_FUNCTION_GET_DESCRIPTOR_FROM_INTERFACE, URB_FUNCTION_SET_DESCRIPTOR_TO_DEVICE,
    URB_FUNCTION_SET_DESCRIPTOR_TO_ENDPOINT, URB_FUNCTION_SET_DESCRIPTOR_TO_INTERFACE,
    URB_FUNCTION_GET_STATUS_FROM_DEVICE, URB_FUNCTION_GET_STATUS_FROM_INTERFACE,
    URB_FUNCTION_GET_STATUS_FROM_ENDPOINT, URB_FUNCTION_GET_STATUS_FROM_OTHER,
    URB_FUNCTION_VENDOR_DEVICE,
    URB_FUNCTION_VENDOR_INTERFACE, URB_FUNCTION_VENDOR_ENDPOINT, URB_FUNCTION_VENDOR_OTHER,
    URB_FUNCTION_CLASS_DEVICE, URB_FUNCTION_CLASS_INTERFACE, URB_FUNCTION_CLASS_ENDPOINT,
    URB_FUNCTION_CLASS_OTHER, URB_FUNCTION_BULK_OR_INTERRUPT_TRANSFER]

/-- A BulkOrInterruptTransfer on a device in the active set: the optional
record of a pending entry, then the one bulk/interrupt record. -/
theorem USBPcapAnalyzeURB_bulkOrInterrupt (P : Platform) (pIrp : Nat) (pUrb : URB)
    (post : Bool) (pDeviceData : USBPCAP_DEVICE_DATA)
    (hF : pUrb.UrbHeader.Function = URB_FUNCTION_BULK_OR_INTERRUPT_TRANSFER)
    (hULONG : pUrb.UrbBulkOrInterruptTransfer.TransferBufferLength < 2 ^ 32)
    (hfiltered :
      USBPcapIsDeviceFiltered pDeviceData.pRootData.filter pDeviceData.deviceAddress = true) :
    USBPcapAnalyzeURB P pIrp pUrb post pDeviceData =
      some
        ((USBPcapAnalyzeURB.obtained pIrp post pDeviceData).2,
         USBPcapAnalyzeURB.logUnknownURB pIrp
             (USBPcapAnalyzeURB.obtained pIrp post pDeviceData).1 ++
           [SinkCall.USBPcapBufferWritePacket
             (CAPTURE_HEADER.packet
               { USBPcapAnalyzeURB.bulkOrInterruptPacketHeader pIrp pUrb.UrbHeader
                   pUrb.UrbBulkOrInterruptTransfer post
                   (USBPcapAnalyzeURB.obtained pIrp post pDeviceData).2 with
                 dataLength :=
                   if USBPcapAnalyzeURB.bulkOrInterruptAddsData
                       (USBPcapAnalyzeURB.bulkOrInterruptPacketHeader pIrp pUrb.UrbHeader
                         pUrb.UrbBulkOrInterruptTransfer post
                         (USBPcapAnalyzeURB.obtained pIrp post pDeviceData).2).endpoint post
                   then pUrb.UrbBulkOrInterruptTransfer.TransferBufferLength else 0 })
             (if USBPcapAnalyzeURB.bulkOrInterruptAddsData
                 (USBPcapAnalyzeURB.bulkOrInterruptPacketHeader pIrp pUrb.UrbHeader
                   pUrb.UrbBulkOrInterruptTransfer post
                   (USBPcapAnalyzeURB.obtained pIrp post pDeviceData).2).endpoint post
              then
                USBPcapURBGetBufferPointer
                  pUrb.UrbBulkOrInterruptTransfer.TransferBufferLength
                  pUrb.UrbBulkOrInterruptTransfer.TransferBuffer
                  pUrb.UrbBulkOrInterruptTransfer.TransferBufferMDL
              else none)]) := by
  have h0 : pUrb.UrbHeader.Function ≠ URB_FUNCTION_SELECT_CONFIGURATION := by
    rw [hF]; decide
  have h1 : pUrb.UrbHeader.Function ≠ URB_FUNCTION_SELECT_INTERFACE := by
    rw [hF]; decide
  have hlt : pUrb.UrbBulkOrInterruptTransfer.TransferBufferLength < 4294967296 := by omega
  have hmod : pUrb.UrbBulkOrInterruptTransfer.TransferBufferLength % 4294967296 =
      pUrb.UrbBulkOrInterruptTransfer.TransferBufferLength := Nat.mod_eq_of_lt hlt
  rw [USBPcapAnalyzeURB_of_filtered P pIrp pUrb post pDeviceData h0 h1 hfiltered,
    dispatch_bulkOrInterrupt P pIrp pUrb post _ hF]
  simp only [USBPcapAnalyzeURB.bulkOrInterruptTransfer]
  split <;> simp [hmod]

/-- C8, counterexample. An unclassified request submitted under the
correlation identity 7 leaves a pending entry; a BulkOrInterruptTransfer
completing under the same identity on the filtered device then makes two sink
calls, the Unknown record of the pending entry and the bulk record. -/
theorem C8_counterexample :
    ∃ pending,
      USBPcapAnalyzeURB x86Platform 7 getConfigurationUrb false filteredDevice =
        some (pending, []) ∧
      USBPcapIsDeviceFiltered pending.pRootData.filter pending.deviceAddress = true ∧
      bulkUrb.UrbHeader.Function = URB_FUNCTION_BULK_OR_INTERRUPT_TRANSFER ∧
      (USBPcapAnalyzeURB x86Platform 7 bulkUrb true pending).map
          (fun r => r.2.map (fun c => c.header.base.transfer)) =
        some [USBPCAP_TRANSFER.UNKNOWN, USBPCAP_TRANSFER.BULK] ∧
      (USBPcapAnalyzeURB x86Platform 7 bulkUrb true pending).map (fun r => r.2.length) ≠
        some 1 := by
  refine ⟨_, rfl, ?_, ?_, ?_, ?_⟩ <;> decide

/-- C8, amended. For a BulkOrInterruptTransfer on a device in the filter's
active set, `USBPcapAnalyzeURB` emits exactly one bulk/interrupt record,
preceded at Complete by the Unknown record of a pending entry for the same
correlation identity when there is one (so it emits exactly one record when
there is none, in particular at Submit). The record's `dataLength` is
`TransferBufferLength`, with the transfer buffer attached, when (its endpoint
address has bit 0x80 set and the phase is Complete) or (the bit is clear and
the phase is Submit); in the other two combinations `dataLength` is 0 and no
payload is attached. The endpoint address is the same at Submit and at
Complete, so the condition holds in exactly one of the two phases. -/
theorem C8_bulk_or_interrupt_record (P : Platform) (pIrp : Nat) (pUrb : URB) (post : Bool)
    (pDeviceData : USBPCAP_DEVICE_DATA)
    (hF : pUrb.UrbHeader.Function = URB_FUNCTION_BULK_OR_INTERRUPT_TRANSFER)
    (hULONG : pUrb.UrbBulkOrInterruptTransfer.TransferBufferLength < 2 ^ 32)
    (hfiltered :
      USBPcapIsDeviceFiltered pDeviceData.pRootData.filter pDeviceData.deviceAddress = true) :
    (∀ endpoint : Nat,
      USBPcapAnalyzeURB.bulkOrInterruptAddsData endpoint post = true ↔
        (endpoint &&& 0x80 ≠ 0 ∧ post = true) ∨ (endpoint &&& 0x80 = 0 ∧ post = false)) ∧
    USBPcapAnalyzeURB P pIrp pUrb post pDeviceData =
      some
        ((USBPcapAnalyzeURB.obtained pIrp post pDeviceData).2,
         USBPcapAnalyzeURB.logUnknownURB pIrp
             (USBPcapAnalyzeURB.obtained pIrp post pDeviceData).1 ++
           [SinkCall.USBPcapBufferWritePacket
             (CAPTURE_HEADER.packet
               { USBPcapAnalyzeURB.bulkOrInterruptPacketHeader pIrp pUrb.UrbHeader
                   pUrb.UrbBulkOrInterruptTransfer post
                   (USBPcapAnalyzeURB.obtained pIrp post pDeviceData).2 with
                 dataLength :=
                   if USBPcapAnalyzeURB.bulkOrInterruptAddsData
                       (USBPcapAnalyzeURB.bulkOrInterruptPacketHeader pIrp pUrb.UrbHeader
                         pUrb.UrbBulkOrInterruptTransfer post
                         (USBPcapAnalyzeURB.obtained pIrp post pDeviceData).2).endpoint post
                   then pUrb.UrbBulkOrInterruptTransfer.TransferBufferLength else 0 })
             (if USBPcapAnalyzeURB.bulkOrInterruptAddsData
                 (USBPcapAnalyzeURB.bulkOrInterruptPacketHeader pIrp pUrb.UrbHeader
                   pUrb.UrbBulkOrInterruptTransfer post
                   (USBPcapAnalyzeURB.obtained pIrp post pDeviceData).2).endpoint post
              then
                USBPcapURBGetBufferPointer
                  pUrb.UrbBulkOrInterruptTransfer.TransferBufferLength
                  pUrb.UrbBulkOrInterruptTransfer.TransferBuffer
                  pUrb.UrbBulkOrInterruptTransfer.TransferBufferMDL
              else none)]) ∧
    ((USBPcapAnalyzeURB.obtained pIrp post pDeviceData).1 = none →
      (USBPcapAnalyzeURB P pIrp pUrb post pDeviceData).map (fun r => r.2.length) = some 1) ∧
    (USBPcapAnalyzeURB.bulkOrInterruptPacketHeader pIrp pUrb.UrbHeader
        pUrb.UrbBulkOrInterruptTransfer false
        (USBPcapAnalyzeURB.obtained pIrp false pDeviceData).2).endpoint =
      (USBPcapAnalyzeURB.bulkOrInterruptPacketHeader pIrp pUrb.UrbHeader
        pUrb.UrbBulkOrInterruptTransfer true
        (USBPcapAnalyzeURB.obtained pIrp true pDeviceData).2).endpoint ∧
    (∀ endpoint : Nat,
      USBPcapAnalyzeURB.bulkOrInterruptAddsData endpoint false =
        !USBPcapAnalyzeURB.bulkOrInterruptAddsData endpoint true) := by
  have hform :=
    USBPcapAnalyzeURB_bulkOrInterrupt P pIrp pUrb post pDeviceData hF hULONG hfiltered
  refine ⟨?_, hform, ?_, ?_, ?_⟩
  · intro endpoint
    cases post <;> simp [USBPcapAnalyzeURB.bulkOrInterruptAddsData]
  · intro hnone
    rw [hform, hnone]
    simp [USBPcapAnalyzeURB.logUnknownURB]
  · exact bulkOrInterruptPacketHeader_endpoint _ _ _ _ _ _ _ _ _
      ((obtained_endpointTable pIrp false pDeviceData).trans
        (obtained_endpointTable pIrp true pDeviceData).symm)
  · intro endpoint
    by_cases h : endpoint &&& 0x80 = 0 <;>
    simp [USBPcapAnalyzeURB.bulkOrInterruptAddsData, h]


/-- C8 (amended) instantiated at the Submit of a 64-byte bulk transfer on the
filtered device: one record. -/
theorem C8_bulk_or_interrupt_record_witness :
    bulkUrb.UrbHeader.Function = URB_FUNCTION_BULK_OR_INTERRUPT_TRANSFER ∧
    bulkUrb.UrbBulkOrInterruptTransfer.TransferBufferLength < 2 ^ 32 ∧
    USBPcapIsDeviceFiltered filteredDevice.pRootData.filter filteredDevice.deviceAddress
      = true ∧
    (USBPcapAnalyzeURB.obtained 7 false filteredDevice).1 = none ∧
    (USBPcapAnalyzeURB x86Platform 7 bulkUrb false filteredDevice).map
      (fun r => r.2.length) = some 1 :=
  ⟨by decide, by decide, by decide, by decide,
   (C8_bulk_or_interrupt_record x86Platform 7 bulkUrb false filteredDevice (by decide)
      (by decide) (by decide)).2.2.1 (by decide)⟩


/-! ### Endpoint learning followed by a bulk transfer -/

theorem parseLoop_zero_len (P : Platform) (memory : Nat → USBD_INTERFACE_INFORMATION)
    (fuel off : Nat) (d : USBPCAP_DEVICE_DATA) :
    USBPcapParseInterfaceInformation.loop P memory fuel off 0 d = d := by
  cases fuel <;> simp [USBPcapParseInterfaceInformation.loop]

/-- One interface record that fills the interface area and declares one pipe:
the walk registers that pipe and stops. -/
theorem USBPcapParseInterfaceInformation_single (P : Platform) (d : USBPCAP_DEVICE_DATA)
    (memory : Nat → USBD_INTERFACE_INFORMATION)
    (hpos : 0 < (memory 0).Length)
    (hsize : P.sizeof_USBD_INTERFACE_INFORMATION ≤ (memory 0).Length)
    (hpipes : (memory 0).NumberOfPipes = 1) :
    USBPcapParseInterfaceInformation P d memory (memory 0).Length =
      { d with
        endpointTable :=
          USBPcapAddEndpointInfo d.endpointTable ((memory 0).Pipes 0) d.deviceAddress } := by
  unfold USBPcapParseInterfaceInformation
  obtain ⟨n, hn⟩ : ∃ n, (memory 0).Length = n + 1 := ⟨(memory 0).Length - 1, by omega⟩
  rw [hn]
  have hsize' : ¬ n + 1 < P.sizeof_USBD_INTERFACE_INFORMATION := by omega
  simp [USBPcapParseInterfaceInformation.loop, hn, hpipes, hsize', parseLoop_zero_len,
    USBPcapParseInterfaceInformation.pipes, List.range_succ]

theorem USBPcapRetrieveEndpointInfo_add (d : USBPCAP_DEVICE_DATA)
    (table : List USBPCAP_ENDPOINT_INFO) (pipeInfo : USBD_PIPE_INFORMATION)
    (deviceAddress : Nat)
    (h : d.endpointTable = USBPcapAddEndpointInfo table pipeInfo deviceAddress) :
    USBPcapRetrieveEndpointInfo d pipeInfo.PipeHandle =
      some
        { handle := pipeInfo.PipeHandle
          type := pipeInfo.PipeType
          endpointAddress := pipeInfo.EndpointAddress
          deviceAddress := deviceAddress } := by
  simp [USBPcapRetrieveEndpointInfo, h, USBPcapAddEndpointInfo]

/-- What a SelectConfiguration completion leaves in the device context: the
endpoint table is the one the interface walk produced, and address and root
context are unchanged. -/
theorem selectConfiguration_completion (P : Platform) (pIrp : Nat) (pUrb : URB)
    (d d1 : USBPCAP_DEVICE_DATA) (calls : List SinkCall)
    (hF : pUrb.UrbHeader.Function = URB_FUNCTION_SELECT_CONFIGURATION)
    (hlen : pUrb.UrbHeader.Length > P.offsetof_URB_SELECT_CONFIGURATION_Interface)
    (hcall : USBPcapAnalyzeURB P pIrp pUrb true d = some (d1, calls)) :
    d1.endpointTable =
      (USBPcapParseInterfaceInformation P (USBPcapAnalyzeURB.obtained pIrp true d).2
        pUrb.UrbSelectConfiguration.Interface
        (pUrb.UrbHeader.Length - P.offsetof_URB_SELECT_CONFIGURATION_Interface)).endpointTable ∧
    d1.deviceAddress =
      (USBPcapParseInterfaceInformation P (USBPcapAnalyzeURB.obtained pIrp true d).2
        pUrb.UrbSelectConfiguration.Interface
        (pUrb.UrbHeader.Length - P.offsetof_URB_SELECT_CONFIGURATION_Interface)).deviceAddress ∧
    d1.pRootData =
      (USBPcapParseInterfaceInformation P (USBPcapAnalyzeURB.obtained pIrp true d).2
        pUrb.UrbSelectConfiguration.Interface
        (pUrb.UrbHeader.Length - P.offsetof_URB_SELECT_CONFIGURATION_Interface)).pRootData := by
  unfold USBPcapAnalyzeURB at hcall
  simp only [USBPcapAnalyzeURB.alwaysAnalyzed, hF, if_true, hlen] at hcall
  simp only [Bool.true_eq_false, if_false] at hcall
  cases hcd : pUrb.UrbSelectConfiguration.ConfigurationDescriptor with
  | none =>
    simp only [hcd] at hcall
    split at hcall
    · simp only [Option.some.injEq, Prod.mk.injEq] at hcall
      obtain ⟨rfl, -⟩ := hcall
      exact ⟨rfl, rfl, rfl⟩
    · simp only [USBPcapAnalyzeURB.dispatch, hF, if_true, Option.some.injEq,
        Prod.mk.injEq] at hcall
      obtain ⟨rfl, -⟩ := hcall
      exact ⟨rfl, rfl, rfl⟩
  | some cd =>
    simp only [hcd] at hcall
    by_cases halloc : P.ExAllocatePoolWithTag cd.wTotalLength PoolTag.DESC = true
    · simp only [halloc, if_true] at hcall
      split at hcall
      · simp only [Option.some.injEq, Prod.mk.injEq] at hcall
        obtain ⟨rfl, -⟩ := hcall
        exact ⟨rfl, rfl, rfl⟩
      · simp only [USBPcapAnalyzeURB.dispatch, hF, if_true, Option.some.injEq,
          Prod.mk.injEq] at hcall
        obtain ⟨rfl, -⟩ := hcall
        exact ⟨rfl, rfl, rfl⟩
    · simp [halloc] at hcall


/-- C9, counterexample. The SelectConfiguration completion registers pipe
0x1000 with endpoint address 0x81 and kind Bulk; the 64-byte bulk transfer on
that pipe then gives, on the filtered device, a header-only record with
`dataLength` 0 at Submit and the record carrying the 64 bytes at Complete, not
64 bytes at Submit and none at Complete. -/
theorem C9_counterexample :
    USBPcapAnalyzeURB x86Platform 5 selectConfigurationUrb true filteredDevice =
      some (learnedDevice, selectCompletionCalls) ∧
    USBPcapRetrieveEndpointInfo learnedDevice 0x1000 =
      some
        { handle := 0x1000
          type := USBD_PIPE_TYPE.UsbdPipeTypeBulk
          endpointAddress := 0x81
          deviceAddress := 2 } ∧
    USBPcapIsDeviceFiltered learnedDevice.pRootData.filter learnedDevice.deviceAddress
      = true ∧
    USBPcapAnalyzeURB x86Platform 7 bulkUrb false learnedDevice =
      some
        (learnedDevice,
         [SinkCall.USBPcapBufferWritePacket
           (CAPTURE_HEADER.packet
             { headerLen := 27, irpId := 7, status := 0
               function := URB_FUNCTION_BULK_OR_INTERRUPT_TRANSFER
               info := 0, bus := 1, device := 2, endpoint := 0x81
               transfer := USBPCAP_TRANSFER.BULK
               dataLength := 0 })
           none]) ∧
    USBPcapAnalyzeURB x86Platform 7 bulkUrb true learnedDevice =
      some
        (learnedDevice,
         [SinkCall.USBPcapBufferWritePacket
           (CAPTURE_HEADER.packet
             { headerLen := 27, irpId := 7, status := 0
               function := URB_FUNCTION_BULK_OR_INTERRUPT_TRANSFER
               info := 1, bus := 1, device := 2, endpoint := 0x81
               transfer := USBPCAP_TRANSFER.BULK
               dataLength := 64 })
           (some (List.replicate 64 0x55))]) := by
  refine ⟨?_, ?_, ?_, ?_, ?_⟩ <;> decide

/-- C9, amended. After a SelectConfiguration completion whose interface area
is one interface record with one pipe of endpoint address 0x81 and kind Bulk,
the pipe resolves to (device address, 0x81, Bulk), and a BulkOrInterruptTransfer
on that pipe with a 64-byte buffer on a filtered device produces a record with
endpoint 0x81 and transfer kind Bulk that is header-only with `dataLength` 0
at Submit and carries the 64-byte buffer (`dataLength` 64) at Complete. -/
theorem C9_bulk_in_after_select_configuration (P : Platform) (selectIrp bulkIrp : Nat)
    (pSelectUrb pBulkUrb : URB) (pDeviceData learned : USBPCAP_DEVICE_DATA)
    (selectCalls : List SinkCall) (handle : Nat)
    (hselect : pSelectUrb.UrbHeader.Function = URB_FUNCTION_SELECT_CONFIGURATION)
    (hlength : pSelectUrb.UrbHeader.Length =
      P.offsetof_URB_SELECT_CONFIGURATION_Interface +
        (pSelectUrb.UrbSelectConfiguration.Interface 0).Length)
    (hpos : 0 < (pSelectUrb.UrbSelectConfiguration.Interface 0).Length)
    (hsize : P.sizeof_USBD_INTERFACE_INFORMATION ≤
      (pSelectUrb.UrbSelectConfiguration.Interface 0).Length)
    (hpipes : (pSelectUrb.UrbSelectConfiguration.Interface 0).NumberOfPipes = 1)
    (hhandle : ((pSelectUrb.UrbSelectConfiguration.Interface 0).Pipes 0).PipeHandle = handle)
    (hendpoint :
      ((pSelectUrb.UrbSelectConfiguration.Interface 0).Pipes 0).EndpointAddress = 0x81)
    (hkind : ((pSelectUrb.UrbSelectConfiguration.Interface 0).Pipes 0).PipeType =
      USBD_PIPE_TYPE.UsbdPipeTypeBulk)
    (hcompletion :
      USBPcapAnalyzeURB P selectIrp pSelectUrb true pDeviceData = some (learned, selectCalls))
    (hbulk : pBulkUrb.UrbHeader.Function = URB_FUNCTION_BULK_OR_INTERRUPT_TRANSFER)
    (hbulkPipe : pBulkUrb.UrbBulkOrInterruptTransfer.PipeHandle = handle)
    (hbulkLength : pBulkUrb.UrbBulkOrInterruptTransfer.TransferBufferLength = 64)
    (hfiltered :
      USBPcapIsDeviceFiltered learned.pRootData.filter learned.deviceAddress = true) :
    USBPcapRetrieveEndpointInfo learned handle =
      some
        { handle := handle
          type := USBD_PIPE_TYPE.UsbdPipeTypeBulk
          endpointAddress := 0x81
          deviceAddress := pDeviceData.deviceAddress } ∧
    USBPcapAnalyzeURB P bulkIrp pBulkUrb false learned =
      some
        (learned,
         [SinkCall.USBPcapBufferWritePacket
           (CAPTURE_HEADER.packet
             { headerLen := sizeof_USBPCAP_BUFFER_PACKET_HEADER
               irpId := bulkIrp
               status := pBulkUrb.UrbHeader.Status
               function := URB_FUNCTION_BULK_OR_INTERRUPT_TRANSFER
               info := 0
               bus := pDeviceData.pRootData.busId
               device := pDeviceData.deviceAddress
               endpoint := 0x81
               transfer := USBPCAP_TRANSFER.BULK
               dataLength := 0 })
           none]) ∧
    USBPcapAnalyzeURB P bulkIrp pBulkUrb true learned =
      some
        ((USBPcapAnalyzeURB.obtained bulkIrp true learned).2,
         USBPcapAnalyzeURB.logUnknownURB bulkIrp
             (USBPcapAnalyzeURB.obtained bulkIrp true learned).1 ++
           [SinkCall.USBPcapBufferWritePacket
             (CAPTURE_HEADER.packet
               { headerLen := sizeof_USBPCAP_BUFFER_PACKET_HEADER
                 irpId := bulkIrp
                 status := pBulkUrb.UrbHeader.Status
                 function := URB_FUNCTION_BULK_OR_INTERRUPT_TRANSFER
                 info := USBPCAP_INFO_PDO_TO_FDO
                 bus := pDeviceData.pRootData.busId
                 device := pDeviceData.deviceAddress
                 endpoint := 0x81
                 transfer := USBPCAP_TRANSFER.BULK
                 dataLength := 64 })
             (USBPcapURBGetBufferPointer 64 pBulkUrb.UrbBulkOrInterruptTransfer.TransferBuffer
               pBulkUrb.UrbBulkOrInterruptTransfer.TransferBufferMDL)]) := by
  have hgt : pSelectUrb.UrbHeader.Length > P.offsetof_URB_SELECT_CONFIGURATION_Interface := by
    omega
  have hsub : pSelectUrb.UrbHeader.Length - P.offsetof_URB_SELECT_CONFIGURATION_Interface =
      (pSelectUrb.UrbSelectConfiguration.Interface 0).Length := by omega
  obtain ⟨htable, haddr, hroot⟩ :=
    selectConfiguration_completion P selectIrp pSelectUrb pDeviceData learned selectCalls
      hselect hgt hcompletion
  rw [hsub, USBPcapParseInterfaceInformation_single P _ _ hpos hsize hpipes] at htable haddr hroot
  simp only [obtained_deviceAddress, obtained_pRootData] at htable haddr hroot
  have hretrieve := USBPcapRetrieveEndpointInfo_add learned _ _ _ htable
  rw [hhandle, hendpoint, hkind] at hretrieve
  have hretrieve' : USBPcapRetrieveEndpointInfo (USBPcapAnalyzeURB.obtained bulkIrp true learned).2
      handle = USBPcapRetrieveEndpointInfo learned handle :=
    USBPcapRetrieveEndpointInfo_congr _ _ _ (obtained_endpointTable bulkIrp true learned)
  have hULONG : pBulkUrb.UrbBulkOrInterruptTransfer.TransferBufferLength < 2 ^ 32 := by
    rw [hbulkLength]; decide
  refine ⟨hretrieve, ?_, ?_⟩
  · rw [USBPcapAnalyzeURB_bulkOrInterrupt P bulkIrp pBulkUrb false learned hbulk hULONG
      hfiltered]
    simp [obtained_false, USBPcapAnalyzeURB.logUnknownURB,
      USBPcapAnalyzeURB.bulkOrInterruptPacketHeader, hbulkPipe, hretrieve, hbulk, hroot,
      USBPcapAnalyzeURB.bulkOrInterruptAddsData]
  · rw [USBPcapAnalyzeURB_bulkOrInterrupt P bulkIrp pBulkUrb true learned hbulk hULONG
      hfiltered]
    simp [USBPcapAnalyzeURB.bulkOrInterruptPacketHeader, hbulkPipe, hretrieve', hretrieve,
      hbulk, hroot, hbulkLength, obtained_pRootData,
      USBPcapAnalyzeURB.bulkOrInterruptAddsData, USBPCAP_INFO_PDO_TO_FDO]

/-- C9 (amended) instantiated at the example: one interface with the bulk
pipe 0x1000 of endpoint address 0x81, then a 64-byte transfer on it. -/
theorem C9_bulk_in_after_select_configuration_witness :
    selectConfigurationUrb.UrbHeader.Function = URB_FUNCTION_SELECT_CONFIGURATION ∧
    selectConfigurationUrb.UrbHeader.Length =
      x86Platform.offsetof_URB_SELECT_CONFIGURATION_Interface +
        (selectConfigurationUrb.UrbSelectConfiguration.Interface 0).Length ∧
    0 < (selectConfigurationUrb.UrbSelectConfiguration.Interface 0).Length ∧
    x86Platform.sizeof_USBD_INTERFACE_INFORMATION ≤
      (selectConfigurationUrb.UrbSelectConfiguration.Interface 0).Length ∧
    (selectConfigurationUrb.UrbSelectConfiguration.Interface 0).NumberOfPipes = 1 ∧
    ((selectConfigurationUrb.UrbSelectConfiguration.Interface 0).Pipes 0).PipeHandle
      = 0x1000 ∧
    ((selectConfigurationUrb.UrbSelectConfiguration.Interface 0).Pipes 0).EndpointAddress
      = 0x81 ∧
    ((selectConfigurationUrb.UrbSelectConfiguration.Interface 0).Pipes 0).PipeType =
      USBD_PIPE_TYPE.UsbdPipeTypeBulk ∧
    USBPcapAnalyzeURB x86Platform 5 selectConfigurationUrb true filteredDevice =
      some (learnedDevice, selectCompletionCalls) ∧
    bulkUrb.UrbHeader.Function = URB_FUNCTION_BULK_OR_INTERRUPT_TRANSFER ∧
    bulkUrb.UrbBulkOrInterruptTransfer.PipeHandle = 0x1000 ∧
    bulkUrb.UrbBulkOrInterruptTransfer.TransferBufferLength = 64 ∧
    USBPcapIsDeviceFiltered learnedDevice.pRootData.filter learnedDevice.deviceAddress
      = true ∧
    USBPcapRetrieveEndpointInfo learnedDevice 0x1000 =
      some
        { handle := 0x1000
          type := USBD_PIPE_TYPE.UsbdPipeTypeBulk
          endpointAddress := 0x81
          deviceAddress := filteredDevice.deviceAddress } :=
  ⟨by decide, by decide, by decide, by decide, by decide, by decide, by decide,
   by decide, by decide, by decide, by decide, by decide, by decide,
   (C9_bulk_in_after_select_configuration x86Platform 5 7 selectConfigurationUrb bulkUrb
      filteredDevice learnedDevice selectCompletionCalls 0x1000 (by decide) (by decide)
      (by decide) (by decide) (by decide) (by decide) (by decide) (by decide) (by decide)
      (by decide) (by decide) (by decide) (by decide)).1⟩


/-! ### Isochronous compaction -/

theorem compactedLength_eq_sum (l : List USBD_ISO_PACKET_DESCRIPTOR) (acc : Nat)
    (h : acc + (l.map (fun p => p.Length)).sum < 2 ^ 32) :
    USBPcapAnalyzeURB.compactedLength l acc = acc + (l.map (fun p => p.Length)).sum := by
  induction l generalizing acc with
  | nil => simp [USBPcapAnalyzeURB.compactedLength]
  | cons p rest ih =>
    simp only [List.map_cons, List.sum_cons] at h
    have hmod : (acc + p.Length) % 2 ^ 32 = acc + p.Length := Nat.mod_eq_of_lt (by omega)
    simp only [USBPcapAnalyzeURB.compactedLength, hmod, List.map_cons, List.sum_cons]
    rw [ih (acc + p.Length) (by omega)]
    omega

theorem compact_map_snd (transferBuffer : Option (List Nat))
    (l : List USBD_ISO_PACKET_DESCRIPTOR) (compactedOffset : Nat) :
    (USBPcapAnalyzeURB.compact transferBuffer l compactedOffset).map Prod.snd =
      l.map (fun p =>
        ({ size := p.Length, buffer := transferBuffer.map (fun b => b.drop p.Offset) } :
          USBPCAP_PAYLOAD_ENTRY)) := by
  induction l generalizing compactedOffset with
  | nil => simp [USBPcapAnalyzeURB.compact]
  | cons p rest ih => simp [USBPcapAnalyzeURB.compact, ih]

theorem dispatch_isoch (P : Platform) (pIrp : Nat) (pUrb : URB) (post : Bool)
    (d : USBPCAP_DEVICE_DATA) (hF : pUrb.UrbHeader.Function = URB_FUNCTION_ISOCH_TRANSFER) :
    USBPcapAnalyzeURB.dispatch P pIrp pUrb post d =
      (d, USBPcapAnalyzeURB.isochTransfer P pIrp pUrb.UrbHeader
            pUrb.UrbIsochronousTransfer post d) := by
  simp [USBPcapAnalyzeURB.dispatch, hF,
    URB_FUNCTION_SELECT_CONFIGURATION, URB_FUNCTION_SELECT_INTERFACE,
    URB_FUNCTION_CONTROL_TRANSFER, URB_FUNCTION_CONTROL_TRANSFER_EX,
    URB_FUNCTION_GET_DESCRIPTOR_FROM_DEVICE, URB_FUNCTION_GET_DESCRIPTOR_FROM_ENDPOINT,
    URB_FUNCTION_GET_DESCRIPTOR_FROM_INTERFACE, URB_FUNCTION_SET_DESCRIPTOR_TO_DEVICE,
    URB_FUNCTION_SET_DESCRIPTOR_TO_ENDPOINT, URB_FUNCTION_SET_DESCRIPTOR_TO_INTERFACE,
    URB_FUNCTION_GET_STATUS_FROM_DEVICE, URB_FUNCTION_GET_STATUS_FROM_INTERFACE,
    URB_FUNCTION_GET_STATUS_FROM_ENDPOINT, URB_FUNCTION_GET_STATUS_FROM_OTHER,
    URB_FUNCTION_VENDOR_DEVICE,
    URB_FUNCTION_VENDOR_INTERFACE, URB_FUNCTION_VENDOR_ENDPOINT, URB_FUNCTION_VENDOR_OTHER,
    URB_FUNCTION_CLASS_DEVICE, URB_FUNCTION_CLASS_INTERFACE, URB_FUNCTION_CLASS_ENDPOINT,
    URB_FUNCTION_CLASS_OTHER, URB_FUNCTION_BULK_OR_INTERRUPT_TRANSFER,
    URB_FUNCTION_ISOCH_TRANSFER]

theorem sum_range_succ_shift (g : Nat → Nat) (n : Nat) :
    ((List.range (n + 1)).map g).sum = g 0 + ((List.range n).map (fun i => g (i + 1))).sum := by
  rw [List.range_succ_eq_map]
  simp [List.map_map, Function.comp_def]

/-- The compaction loop over packets `f 0 .. f (n-1)` without wrap-around:
packet `i` gets the start offset plus the lengths of the packets before it. -/
theorem compact_map_fst_range (transferBuffer : Option (List Nat)) (n : Nat) :
    ∀ (f : Nat → USBD_ISO_PACKET_DESCRIPTOR) (compactedOffset : Nat),
      compactedOffset + ((List.range n).map (fun i => (f i).Length)).sum < 2 ^ 32 →
      (USBPcapAnalyzeURB.compact transferBuffer ((List.range n).map f) compactedOffset).map
          Prod.fst =
        (List.range n).map (fun i =>
          ({ offset := compactedOffset + ((List.range i).map (fun j => (f j).Length)).sum
             length := (f i).Length
             status := (f i).Status } : USBPCAP_BUFFER_ISO_PACKET)) := by
  induction n with
  | zero => intro f off _; simp [USBPcapAnalyzeURB.compact]
  | succ n ih =>
    intro f off h
    rw [sum_range_succ_shift (fun i => (f i).Length)] at h
    have hmod : (off + (f 0).Length) % 2 ^ 32 = off + (f 0).Length :=
      Nat.mod_eq_of_lt (by omega)
    have ih' := ih (fun i => f (i + 1)) (off + (f 0).Length) (by
      beta_reduce
      omega)
    beta_reduce at ih'
    rw [List.range_succ_eq_map]
    simp only [List.map_cons, List.map_map, Function.comp_def, USBPcapAnalyzeURB.compact,
      hmod, Nat.succ_eq_add_one, ih']
    congr 1
    simp only [List.map_inj_left, USBPCAP_BUFFER_ISO_PACKET.mk.injEq, and_true]
    intro i _
    rw [sum_range_succ_shift (fun j => (f j).Length)]
    omega

/-- The body of the isochronous case on the compaction path (IN, Complete,
non-zero buffer length, at most 1024 packets, exact sum of the lengths within
the buffer length), with the rewritten offsets in closed form. -/
theorem isochTransfer_compaction (P : Platform) (pIrp : Nat) (header : URB_HEADER)
    (transfer : URB_ISOCH_TRANSFER) (d : USBPCAP_DEVICE_DATA)
    (hIN : transfer.TransferFlags &&& USBD_TRANSFER_DIRECTION_IN = USBD_TRANSFER_DIRECTION_IN)
    (hnonzero : transfer.TransferBufferLength ≠ 0)
    (hULONG : transfer.TransferBufferLength < 2 ^ 32)
    (hpackets : transfer.NumberOfPackets ≤ 1024)
    (hsum : ((List.range transfer.NumberOfPackets).map
        (fun i => (transfer.IsoPacket i).Length)).sum ≤ transfer.TransferBufferLength) :
    USBPcapAnalyzeURB.isochTransfer P pIrp header transfer true d =
      if P.ExAllocatePoolWithTag (USBPcapAnalyzeURB.isochHeaderLen transfer.NumberOfPackets)
            PoolTag.HDR = true ∧
          P.ExAllocatePoolWithTag
            ((transfer.NumberOfPackets + 1) * P.sizeof_USBPCAP_PAYLOAD_ENTRY)
            PoolTag.ISOC = true
      then
        [SinkCall.USBPcapBufferWritePayload
          (CAPTURE_HEADER.isoch
            { header :=
                { USBPcapAnalyzeURB.isochPacketHeader pIrp header transfer true d with
                  dataLength :=
                    ((List.range transfer.NumberOfPackets).map
                      (fun i => (transfer.IsoPacket i).Length)).sum }
              startFrame := transfer.StartFrame
              numberOfPackets := transfer.NumberOfPackets
              errorCount := transfer.ErrorCount
              packet :=
                (List.range transfer.NumberOfPackets).map (fun i =>
                  { offset :=
                      ((List.range i).map (fun j => (transfer.IsoPacket j).Length)).sum
                    length := (transfer.IsoPacket i).Length
                    status := (transfer.IsoPacket i).Status }) })
          ((List.range transfer.NumberOfPackets).map
              (fun i =>
                { size := (transfer.IsoPacket i).Length
                  buffer :=
                    (USBPcapURBGetBufferPointer transfer.TransferBufferLength
                      transfer.TransferBuffer transfer.TransferBufferMDL).map
                      (fun b => b.drop (transfer.IsoPacket i).Offset) })
            ++ [{ size := 0, buffer := none }])]
      else [] := by
  have hmapsum :
      (((List.range transfer.NumberOfPackets).map transfer.IsoPacket).map
          (fun p => p.Length)).sum =
        ((List.range transfer.NumberOfPackets).map
          (fun i => (transfer.IsoPacket i).Length)).sum := by
    rw [List.map_map]; rfl
  have hcl :
      USBPcapAnalyzeURB.compactedLength
          ((List.range transfer.NumberOfPackets).map transfer.IsoPacket) 0 =
        ((List.range transfer.NumberOfPackets).map
          (fun i => (transfer.IsoPacket i).Length)).sum := by
    rw [compactedLength_eq_sum _ 0 (by rw [hmapsum]; omega), hmapsum]
    omega
  have hsumlt :
      ((List.range transfer.NumberOfPackets).map
          (fun i => (transfer.IsoPacket i).Length)).sum % 2 ^ 32 =
        ((List.range transfer.NumberOfPackets).map
          (fun i => (transfer.IsoPacket i).Length)).sum :=
    Nat.mod_eq_of_lt (by omega)
  have hfst := compact_map_fst_range
    (USBPcapURBGetBufferPointer transfer.TransferBufferLength transfer.TransferBuffer
      transfer.TransferBufferMDL) transfer.NumberOfPackets transfer.IsoPacket 0 (by omega)
  simp only [Nat.zero_add] at hfst
  have hnot : ¬ transfer.NumberOfPackets > 1024 := by omega
  have hle : ¬ ((List.range transfer.NumberOfPackets).map
        (fun i => (transfer.IsoPacket i).Length)).sum > transfer.TransferBufferLength := by
    omega
  simp only [USBPcapAnalyzeURB.isochTransfer, hnot, if_false, hnonzero, ne_eq,
    not_false_eq_true, if_true, hIN, and_self, hcl, hle, hsumlt, compact_map_snd, hfst,
    List.map_map]
  by_cases hA : P.ExAllocatePoolWithTag
      (USBPcapAnalyzeURB.isochHeaderLen transfer.NumberOfPackets) PoolTag.HDR = true <;>
  by_cases hB : P.ExAllocatePoolWithTag
      ((transfer.NumberOfPackets + 1) * P.sizeof_USBPCAP_PAYLOAD_ENTRY) PoolTag.ISOC = true <;>
  simp [hA, hB, Function.comp_def]

/-- C11. On the compaction path (IN, Complete, non-zero buffer length, at
most 1024 packets, sum of the packet lengths not above the declared length,
device in the filter's active set), the header of the isochronous record that
`USBPcapAnalyzeURB` emits holds `NumberOfPackets` packet entries whose offsets
satisfy offset[0] = 0 and offset[i] + length[i] = offset[i+1] for every
i + 1 < `NumberOfPackets`: entry `i` has as offset the sum of the lengths of
the packets before it, and the length and status of packet `i`. -/
theorem C11_compacted_offsets (P : Platform) (pIrp : Nat) (pUrb : URB)
    (pDeviceData : USBPCAP_DEVICE_DATA)
    (hF : pUrb.UrbHeader.Function = URB_FUNCTION_ISOCH_TRANSFER)
    (hfiltered :
      USBPcapIsDeviceFiltered pDeviceData.pRootData.filter pDeviceData.deviceAddress = true)
    (hIN : pUrb.UrbIsochronousTransfer.TransferFlags &&& USBD_TRANSFER_DIRECTION_IN =
      USBD_TRANSFER_DIRECTION_IN)
    (hnonzero : pUrb.UrbIsochronousTransfer.TransferBufferLength ≠ 0)
    (hULONG : pUrb.UrbIsochronousTransfer.TransferBufferLength < 2 ^ 32)
    (hpackets : pUrb.UrbIsochronousTransfer.NumberOfPackets ≤ 1024)
    (hsum :
      ((List.range pUrb.UrbIsochronousTransfer.NumberOfPackets).map
          (fun i => (pUrb.UrbIsochronousTransfer.IsoPacket i).Length)).sum ≤
        pUrb.UrbIsochronousTransfer.TransferBufferLength) :
    ∃ packet : List USBPCAP_BUFFER_ISO_PACKET,
      (USBPcapAnalyzeURB P pIrp pUrb true pDeviceData).map
          (fun r => r.2.map SinkCall.header) =
        some
          ((USBPcapAnalyzeURB.logUnknownURB pIrp
              (USBPcapAnalyzeURB.obtained pIrp true pDeviceData).1).map SinkCall.header ++
            if P.ExAllocatePoolWithTag
                  (USBPcapAnalyzeURB.isochHeaderLen
                    pUrb.UrbIsochronousTransfer.NumberOfPackets) PoolTag.HDR = true ∧
                P.ExAllocatePoolWithTag
                  ((pUrb.UrbIsochronousTransfer.NumberOfPackets + 1) *
                    P.sizeof_USBPCAP_PAYLOAD_ENTRY) PoolTag.ISOC = true
            then
              [CAPTURE_HEADER.isoch
                { header :=
                    { USBPcapAnalyzeURB.isochPacketHeader pIrp pUrb.UrbHeader
                        pUrb.UrbIsochronousTransfer true
                        (USBPcapAnalyzeURB.obtained pIrp true pDeviceData).2 with
                      dataLength :=
                        ((List.range pUrb.UrbIsochronousTransfer.NumberOfPackets).map
                          (fun i => (pUrb.UrbIsochronousTransfer.IsoPacket i).Length)).sum }
                  startFrame := pUrb.UrbIsochronousTransfer.StartFrame
                  numberOfPackets := pUrb.UrbIsochronousTransfer.NumberOfPackets
                  errorCount := pUrb.UrbIsochronousTransfer.ErrorCount
                  packet := packet }]
            else []) ∧
      packet.length = pUrb.UrbIsochronousTransfer.NumberOfPackets ∧
      (∀ i, i < pUrb.UrbIsochronousTransfer.NumberOfPackets →
        packet[i]? =
          some
            { offset :=
                ((List.range i).map
                  (fun j => (pUrb.UrbIsochronousTransfer.IsoPacket j).Length)).sum
              length := (pUrb.UrbIsochronousTransfer.IsoPacket i).Length
              status := (pUrb.UrbIsochronousTransfer.IsoPacket i).Status }) ∧
      (0 < pUrb.UrbIsochronousTransfer.NumberOfPackets →
        packet[0]?.map (fun p => p.offset) = some 0) ∧
      (∀ i, i + 1 < pUrb.UrbIsochronousTransfer.NumberOfPackets →
        ∃ a b, packet[i]? = some a ∧ packet[i + 1]? = some b ∧
          a.offset + a.length = b.offset) := by
  have h0 : pUrb.UrbHeader.Function ≠ URB_FUNCTION_SELECT_CONFIGURATION := by
    rw [hF]; decide
  have h1 : pUrb.UrbHeader.Function ≠ URB_FUNCTION_SELECT_INTERFACE := by
    rw [hF]; decide
  have hget : ∀ i, i < pUrb.UrbIsochronousTransfer.NumberOfPackets →
      ((List.range pUrb.UrbIsochronousTransfer.NumberOfPackets).map (fun i =>
          ({ offset :=
               ((List.range i).map
                 (fun j => (pUrb.UrbIsochronousTransfer.IsoPacket j).Length)).sum
             length := (pUrb.UrbIsochronousTransfer.IsoPacket i).Length
             status := (pUrb.UrbIsochronousTransfer.IsoPacket i).Status } :
            USBPCAP_BUFFER_ISO_PACKET)))[i]? =
        some
          { offset :=
              ((List.range i).map
                (fun j => (pUrb.UrbIsochronousTransfer.IsoPacket j).Length)).sum
            length := (pUrb.UrbIsochronousTransfer.IsoPacket i).Length
            status := (pUrb.UrbIsochronousTransfer.IsoPacket i).Status } := by
    intro i hi
    simp [List.getElem?_range hi]
  refine ⟨_, ?_, by simp, hget, ?_, ?_⟩
  · rw [USBPcapAnalyzeURB_of_filtered P pIrp pUrb true pDeviceData h0 h1 hfiltered,
      dispatch_isoch P pIrp pUrb true _ hF,
      isochTransfer_compaction P pIrp pUrb.UrbHeader pUrb.UrbIsochronousTransfer _ hIN
        hnonzero hULONG hpackets hsum]
    simp only [Option.map_some', List.map_append]
    split <;> simp [SinkCall.header]
  · intro hpos
    rw [hget 0 hpos]
    simp
  · intro i hi
    refine ⟨_, _, hget i (by omega), hget (i + 1) hi, ?_⟩
    simp [List.range_succ]


/-- C11 instantiated at the inbound transfer of three packets with lengths 2,
0 and 3: three entries, the first at offset 0, and offset[1] + length[1] =
offset[2]. -/
theorem C11_compacted_offsets_witness :
    isochInUrb.UrbHeader.Function = URB_FUNCTION_ISOCH_TRANSFER ∧
    USBPcapIsDeviceFiltered filteredDevice.pRootData.filter filteredDevice.deviceAddress
      = true ∧
    isochInUrb.UrbIsochronousTransfer.TransferFlags &&& USBD_TRANSFER_DIRECTION_IN =
      USBD_TRANSFER_DIRECTION_IN ∧
    isochInUrb.UrbIsochronousTransfer.TransferBufferLength ≠ 0 ∧
    isochInUrb.UrbIsochronousTransfer.TransferBufferLength < 2 ^ 32 ∧
    isochInUrb.UrbIsochronousTransfer.NumberOfPackets ≤ 1024 ∧
    ((List.range isochInUrb.UrbIsochronousTransfer.NumberOfPackets).map
        (fun i => (isochInUrb.UrbIsochronousTransfer.IsoPacket i).Length)).sum ≤
      isochInUrb.UrbIsochronousTransfer.TransferBufferLength ∧
    ∃ packet : List USBPCAP_BUFFER_ISO_PACKET,
      packet.length = 3 ∧
      packet[0]?.map (fun p => p.offset) = some 0 ∧
      ∃ a b, packet[1]? = some a ∧ packet[2]? = some b ∧ a.offset + a.length = b.offset :=
  ⟨by decide, by decide, by decide, by decide, by decide, by decide, by decide,
   by
    obtain ⟨packet, -, hlength, -, hfirst, hnext⟩ :=
      C11_compacted_offsets x86Platform 9 isochInUrb filteredDevice (by decide) (by decide)
        (by decide) (by decide) (by decide) (by decide) (by decide)
    exact ⟨packet, hlength, hfirst (by decide), hnext 1 (by decide)⟩⟩

/-- C12, counterexample. The inbound transfer of three packets with lengths
2, 0 and 3 is on the compaction path, and the rewritten offsets in the emitted
header are 0, 2, 2: offset[1] is not below offset[2]. -/
theorem C12_counterexample :
    isochInUrb.UrbIsochronousTransfer.TransferFlags &&& USBD_TRANSFER_DIRECTION_IN =
      USBD_TRANSFER_DIRECTION_IN ∧
    isochInUrb.UrbIsochronousTransfer.TransferBufferLength ≠ 0 ∧
    isochInUrb.UrbIsochronousTransfer.NumberOfPackets = 3 ∧
    ((List.range isochInUrb.UrbIsochronousTransfer.NumberOfPackets).map
        (fun i => (isochInUrb.UrbIsochronousTransfer.IsoPacket i).Length)).sum ≤
      isochInUrb.UrbIsochronousTransfer.TransferBufferLength ∧
    (USBPcapAnalyzeURB x86Platform 9 isochInUrb true filteredDevice).map
        (fun r => r.2.map (fun c => c.header.packetOffsets)) = some [[0, 2, 2]] ∧
    ¬ ([0, 2, 2].get ⟨1, by decide⟩ < [0, 2, 2].get ⟨2, by decide⟩) := by
  refine ⟨?_, ?_, ?_, ?_, ?_, ?_⟩ <;> decide

/-- C12, amended. On the compaction path (IN, Complete, non-zero buffer
length, at most 1024 packets, sum of the packet lengths not above the declared
length, device in the filter's active set), the rewritten offsets in the
emitted header are non-decreasing: offset[i] ≤ offset[i+1] for every
i + 1 < `NumberOfPackets`, and offset[i] < offset[i+1] exactly when packet `i`
has a non-zero length. -/
theorem C12_compacted_offsets_monotone (P : Platform) (pIrp : Nat) (pUrb : URB)
    (pDeviceData : USBPCAP_DEVICE_DATA)
    (hF : pUrb.UrbHeader.Function = URB_FUNCTION_ISOCH_TRANSFER)
    (hfiltered :
      USBPcapIsDeviceFiltered pDeviceData.pRootData.filter pDeviceData.deviceAddress = true)
    (hIN : pUrb.UrbIsochronousTransfer.TransferFlags &&& USBD_TRANSFER_DIRECTION_IN =
      USBD_TRANSFER_DIRECTION_IN)
    (hnonzero : pUrb.UrbIsochronousTransfer.TransferBufferLength ≠ 0)
    (hULONG : pUrb.UrbIsochronousTransfer.TransferBufferLength < 2 ^ 32)
    (hpackets : pUrb.UrbIsochronousTransfer.NumberOfPackets ≤ 1024)
    (hsum :
      ((List.range pUrb.UrbIsochronousTransfer.NumberOfPackets).map
          (fun i => (pUrb.UrbIsochronousTransfer.IsoPacket i).Length)).sum ≤
        pUrb.UrbIsochronousTransfer.TransferBufferLength) :
    ∃ packet : List USBPCAP_BUFFER_ISO_PACKET,
      (USBPcapAnalyzeURB P pIrp pUrb true pDeviceData).map
          (fun r => r.2.map SinkCall.header) =
        some
          ((USBPcapAnalyzeURB.logUnknownURB pIrp
              (USBPcapAnalyzeURB.obtained pIrp true pDeviceData).1).map SinkCall.header ++
            if P.ExAllocatePoolWithTag
                  (USBPcapAnalyzeURB.isochHeaderLen
                    pUrb.UrbIsochronousTransfer.NumberOfPackets) PoolTag.HDR = true ∧
                P.ExAllocatePoolWithTag
                  ((pUrb.UrbIsochronousTransfer.NumberOfPackets + 1) *
                    P.sizeof_USBPCAP_PAYLOAD_ENTRY) PoolTag.ISOC = true
            then
              [CAPTURE_HEADER.isoch
                { header :=
                    { USBPcapAnalyzeURB.isochPacketHeader pIrp pUrb.UrbHeader
                        pUrb.UrbIsochronousTransfer true
                        (USBPcapAnalyzeURB.obtained pIrp true pDeviceData).2 with
                      dataLength :=
                        ((List.range pUrb.UrbIsochronousTransfer.NumberOfPackets).map
                          (fun i => (pUrb.UrbIsochronousTransfer.IsoPacket i).Length)).sum }
                  startFrame := pUrb.UrbIsochronousTransfer.StartFrame
                  numberOfPackets := pUrb.UrbIsochronousTransfer.NumberOfPackets
                  errorCount := pUrb.UrbIsochronousTransfer.ErrorCount
                  packet := packet }]
            else []) ∧
      packet.length = pUrb.UrbIsochronousTransfer.NumberOfPackets ∧
      (∀ i, i + 1 < pUrb.UrbIsochronousTransfer.NumberOfPackets →
        ∃ a b, packet[i]? = some a ∧ packet[i + 1]? = some b ∧
          a.offset ≤ b.offset ∧
          (a.offset < b.offset ↔ 0 < (pUrb.UrbIsochronousTransfer.IsoPacket i).Length)) := by
  have h0 : pUrb.UrbHeader.Function ≠ URB_FUNCTION_SELECT_CONFIGURATION := by
    rw [hF]; decide
  have h1 : pUrb.UrbHeader.Function ≠ URB_FUNCTION_SELECT_INTERFACE := by
    rw [hF]; decide
  have hget : ∀ i, i < pUrb.UrbIsochronousTransfer.NumberOfPackets →
      ((List.range pUrb.UrbIsochronousTransfer.NumberOfPackets).map (fun i =>
          ({ offset :=
               ((List.range i).map
                 (fun j => (pUrb.UrbIsochronousTransfer.IsoPacket j).Length)).sum
             length := (pUrb.UrbIsochronousTransfer.IsoPacket i).Length
             status := (pUrb.UrbIsochronousTransfer.IsoPacket i).Status } :
            USBPCAP_BUFFER_ISO_PACKET)))[i]? =
        some
          { offset :=
              ((List.range i).map
                (fun j => (pUrb.UrbIsochronousTransfer.IsoPacket j).Length)).sum
            length := (pUrb.UrbIsochronousTransfer.IsoPacket i).Length
            status := (pUrb.UrbIsochronousTransfer.IsoPacket i).Status } := by
    intro i hi
    simp [List.getElem?_range hi]
  refine ⟨(List.range pUrb.UrbIsochronousTransfer.NumberOfPackets).map (fun i =>
      { offset :=
          ((List.range i).map
            (fun j => (pUrb.UrbIsochronousTransfer.IsoPacket j).Length)).sum
        length := (pUrb.UrbIsochronousTransfer.IsoPacket i).Length
        status := (pUrb.UrbIsochronousTransfer.IsoPacket i).Status }), ?_, by simp, ?_⟩
  · rw [USBPcapAnalyzeURB_of_filtered P pIrp pUrb true pDeviceData h0 h1 hfiltered,
      dispatch_isoch P pIrp pUrb true _ hF,
      isochTransfer_compaction P pIrp pUrb.UrbHeader pUrb.UrbIsochronousTransfer _ hIN
        hnonzero hULONG hpackets hsum]
    simp only [Option.map_some', List.map_append]
    split <;> simp [SinkCall.header]
  · intro i hi
    refine ⟨_, _, hget i (by omega), hget (i + 1) hi, ?_, ?_⟩ <;>
    simp [List.range_succ]

/-- C12 (amended) instantiated at the inbound transfer of three packets with
lengths 2, 0 and 3: offset[1] ≤ offset[2]. -/
theorem C12_compacted_offsets_monotone_witness :
    isochInUrb.UrbHeader.Function = URB_FUNCTION_ISOCH_TRANSFER ∧
    USBPcapIsDeviceFiltered filteredDevice.pRootData.filter filteredDevice.deviceAddress
      = true ∧
    isochInUrb.UrbIsochronousTransfer.TransferFlags &&& USBD_TRANSFER_DIRECTION_IN =
      USBD_TRANSFER_DIRECTION_IN ∧
    isochInUrb.UrbIsochronousTransfer.TransferBufferLength ≠ 0 ∧
    isochInUrb.UrbIsochronousTransfer.TransferBufferLength < 2 ^ 32 ∧
    isochInUrb.UrbIsochronousTransfer.NumberOfPackets ≤ 1024 ∧
    ((List.range isochInUrb.UrbIsochronousTransfer.NumberOfPackets).map
        (fun i => (isochInUrb.UrbIsochronousTransfer.IsoPacket i).Length)).sum ≤
      isochInUrb.UrbIsochronousTransfer.TransferBufferLength ∧
    ∃ packet : List USBPCAP_BUFFER_ISO_PACKET,
      packet.length = 3 ∧
      ∃ a b, packet[1]? = some a ∧ packet[2]? = some b ∧ a.offset ≤ b.offset ∧
        (a.offset < b.offset ↔ 0 < (isochInUrb.UrbIsochronousTransfer.IsoPacket 1).Length) :=
  ⟨by decide, by decide, by decide, by decide, by decide, by decide, by decide,
   by
    obtain ⟨packet, -, hlength, hnext⟩ :=
      C12_compacted_offsets_monotone x86Platform 9 isochInUrb filteredDevice (by decide)
        (by decide) (by decide) (by decide) (by decide) (by decide) (by decide)
    exact ⟨packet, hlength, hnext 1 (by decide)⟩⟩


/-! ### What a call changes in the device context -/

theorem parsePipes_frame (d : USBPCAP_DEVICE_DATA) (pInterface : USBD_INTERFACE_INFORMATION) :
    (USBPcapParseInterfaceInformation.pipes d pInterface).deviceAddress = d.deviceAddress ∧
    (USBPcapParseInterfaceInformation.pipes d pInterface).pRootData = d.pRootData ∧
    (USBPcapParseInterfaceInformation.pipes d pInterface).URBIrpTable = d.URBIrpTable ∧
    (USBPcapParseInterfaceInformation.pipes d pInterface).descriptor = d.descriptor := by
  unfold USBPcapParseInterfaceInformation.pipes
  generalize List.range pInterface.NumberOfPipes = l
  induction l generalizing d with
  | nil => simp
  | cons j rest ih =>
    simp only [List.foldl_cons]
    obtain ⟨h1, h2, h3, h4⟩ := ih
      { d with
        endpointTable :=
          USBPcapAddEndpointInfo d.endpointTable (pInterface.Pipes j) d.deviceAddress }
    exact ⟨h1, h2, h3, h4⟩

theorem parsePipes_withFilter (d : USBPCAP_DEVICE_DATA) (pInterface : USBD_INTERFACE_INFORMATION)
    (filter : List Nat) :
    USBPcapParseInterfaceInformation.pipes (d.withFilter filter) pInterface =
      (USBPcapParseInterfaceInformation.pipes d pInterface).withFilter filter := by
  unfold USBPcapParseInterfaceInformation.pipes
  generalize List.range pInterface.NumberOfPipes = l
  induction l generalizing d with
  | nil => simp
  | cons j rest ih =>
    simp only [List.foldl_cons]
    exact ih
      { d with
        endpointTable :=
          USBPcapAddEndpointInfo d.endpointTable (pInterface.Pipes j) d.deviceAddress }

theorem parseLoop_frame (P : Platform) (memory : Nat → USBD_INTERFACE_INFORMATION)
    (fuel : Nat) :
    ∀ (off interfaces_len : Nat) (d : USBPCAP_DEVICE_DATA),
      (USBPcapParseInterfaceInformation.loop P memory fuel off interfaces_len d).deviceAddress
          = d.deviceAddress ∧
      (USBPcapParseInterfaceInformation.loop P memory fuel off interfaces_len d).pRootData
          = d.pRootData ∧
      (USBPcapParseInterfaceInformation.loop P memory fuel off interfaces_len d).URBIrpTable
          = d.URBIrpTable ∧
      (USBPcapParseInterfaceInformation.loop P memory fuel off interfaces_len d).descriptor
          = d.descriptor := by
  induction fuel with
  | zero => intro off len d; simp [USBPcapParseInterfaceInformation.loop]
  | succ fuel ih =>
    intro off len d
    simp only [USBPcapParseInterfaceInformation.loop]
    split
    · split
      · simp
      · split
        · simp
        · split
          · simp
          · obtain ⟨h1, h2, h3, h4⟩ := ih (off + (memory off).Length)
              (len - (memory off).Length)
              (USBPcapParseInterfaceInformation.pipes d (memory off))
            obtain ⟨g1, g2, g3, g4⟩ := parsePipes_frame d (memory off)
            exact ⟨h1.trans g1, h2.trans g2, h3.trans g3, h4.trans g4⟩
    · simp

theorem parseLoop_withFilter (P : Platform) (memory : Nat → USBD_INTERFACE_INFORMATION)
    (filter : List Nat) (fuel : Nat) :
    ∀ (off interfaces_len : Nat) (d : USBPCAP_DEVICE_DATA),
      USBPcapParseInterfaceInformation.loop P memory fuel off interfaces_len
          (d.withFilter filter) =
        (USBPcapParseInterfaceInformation.loop P memory fuel off interfaces_len
          d).withFilter filter := by
  induction fuel with
  | zero => intro off len d; simp [USBPcapParseInterfaceInformation.loop]
  | succ fuel ih =>
    intro off len d
    simp only [USBPcapParseInterfaceInformation.loop]
    split
    · split
      · rfl
      · split
        · rfl
        · split
          · rfl
          · rw [parsePipes_withFilter, ih]
    · rfl

theorem alwaysAnalyzed_frame (P : Platform) (pUrb : URB) (post : Bool)
    (d dA : USBPCAP_DEVICE_DATA)
    (h : USBPcapAnalyzeURB.alwaysAnalyzed P pUrb post d = some dA) :
    dA.deviceAddress = d.deviceAddress ∧ dA.pRootData = d.pRootData ∧
      dA.URBIrpTable = d.URBIrpTable := by
  have hparse := fun memory len =>
    parseLoop_frame P memory len 0 len d
  unfold USBPcapAnalyzeURB.alwaysAnalyzed at h
  unfold USBPcapParseInterfaceInformation at h
  split at h
  · split at h
    · cases h; exact ⟨rfl, rfl, rfl⟩
    · simp only at h
      split at h
      · split at h
        · cases h
          split
          · obtain ⟨h1, h2, h3, -⟩ := hparse pUrb.UrbSelectConfiguration.Interface
              (pUrb.UrbHeader.Length - P.offsetof_URB_SELECT_CONFIGURATION_Interface)
            exact ⟨h1, h2, h3⟩
          · exact ⟨rfl, rfl, rfl⟩
        · cases h
      · cases h
        split
        · obtain ⟨h1, h2, h3, -⟩ := hparse pUrb.UrbSelectConfiguration.Interface
            (pUrb.UrbHeader.Length - P.offsetof_URB_SELECT_CONFIGURATION_Interface)
          exact ⟨h1, h2, h3⟩
        · exact ⟨rfl, rfl, rfl⟩
  · split at h
    · split at h
      · cases h; exact ⟨rfl, rfl, rfl⟩
      · simp only at h
        split at h
        · cases h
          obtain ⟨h1, h2, h3, -⟩ := hparse pUrb.UrbSelectInterface.Interface
            (pUrb.UrbHeader.Length - P.offsetof_URB_SELECT_INTERFACE_Interface)
          exact ⟨h1, h2, h3⟩
        · cases h; exact ⟨rfl, rfl, rfl⟩
    · cases h; exact ⟨rfl, rfl, rfl⟩

theorem alwaysAnalyzed_withFilter (P : Platform) (pUrb : URB) (post : Bool)
    (d : USBPCAP_DEVICE_DATA) (filter : List Nat) :
    USBPcapAnalyzeURB.alwaysAnalyzed P pUrb post (d.withFilter filter) =
      (USBPcapAnalyzeURB.alwaysAnalyzed P pUrb post d).map (fun dA => dA.withFilter filter) := by
  unfold USBPcapAnalyzeURB.alwaysAnalyzed USBPcapParseInterfaceInformation
  simp only [parseLoop_withFilter]
  split
  · split
    · rfl
    · split
      · split
        · split <;> rfl
        · rfl
      · split <;> rfl
  · split
    · split
      · rfl
      · split <;> rfl
    · rfl


/-- A function without a case label takes the `default` case. -/
theorem dispatch_of_not_mem (P : Platform) (pIrp : Nat) (pUrb : URB) (post : Bool)
    (d : USBPCAP_DEVICE_DATA)
    (h : pUrb.UrbHeader.Function ∉ USBPcapAnalyzeURB.caseLabels) :
    USBPcapAnalyzeURB.dispatch P pIrp pUrb post d =
      USBPcapAnalyzeURB.unknownFunction P pIrp pUrb.UrbHeader post d := by
  simp only [USBPcapAnalyzeURB.caseLabels, List.mem_cons, List.mem_singleton, not_or,
    List.not_mem_nil, or_false] at h
  simp [USBPcapAnalyzeURB.dispatch, h]

/-- A function with a case label leaves the device context as it is. -/
theorem dispatch_fst_of_mem (P : Platform) (pIrp : Nat) (pUrb : URB) (post : Bool)
    (d : USBPCAP_DEVICE_DATA)
    (h : pUrb.UrbHeader.Function ∈ USBPcapAnalyzeURB.caseLabels) :
    (USBPcapAnalyzeURB.dispatch P pIrp pUrb post d).1 = d := by
  simp only [USBPcapAnalyzeURB.caseLabels, List.mem_cons, List.mem_singleton,
    List.not_mem_nil, or_false] at h
  rcases h with h | h | h | h | h | h | h | h | h | h | h | h | h | h | h | h | h | h | h | h | h | h | h | h | h | h | h | h | h | h
  all_goals
    simp only [USBPcapAnalyzeURB.dispatch, h, URB_FUNCTION_SELECT_CONFIGURATION,
      URB_FUNCTION_SELECT_INTERFACE, URB_FUNCTION_CONTROL_TRANSFER,
      URB_FUNCTION_CONTROL_TRANSFER_EX, URB_FUNCTION_GET_DESCRIPTOR_FROM_DEVICE,
      URB_FUNCTION_GET_DESCRIPTOR_FROM_ENDPOINT, URB_FUNCTION_GET_DESCRIPTOR_FROM_INTERFACE,
      URB_FUNCTION_SET_DESCRIPTOR_TO_DEVICE, URB_FUNCTION_SET_DESCRIPTOR_TO_ENDPOINT,
      URB_FUNCTION_SET_DESCRIPTOR_TO_INTERFACE, URB_FUNCTION_GET_STATUS_FROM_DEVICE,
      URB_FUNCTION_GET_STATUS_FROM_INTERFACE, URB_FUNCTION_GET_STATUS_FROM_ENDPOINT,
      URB_FUNCTION_GET_STATUS_FROM_OTHER, URB_FUNCTION_VENDOR_DEVICE,
      URB_FUNCTION_VENDOR_INTERFACE, URB_FUNCTION_VENDOR_ENDPOINT, URB_FUNCTION_VENDOR_OTHER,
      URB_FUNCTION_CLASS_DEVICE, URB_FUNCTION_CLASS_INTERFACE, URB_FUNCTION_CLASS_ENDPOINT,
      URB_FUNCTION_CLASS_OTHER, URB_FUNCTION_BULK_OR_INTERRUPT_TRANSFER,
      URB_FUNCTION_ISOCH_TRANSFER, URB_FUNCTION_SYNC_RESET_PIPE_AND_CLEAR_STALL,
      URB_FUNCTION_SYNC_RESET_PIPE, URB_FUNCTION_SYNC_CLEAR_STALL, URB_FUNCTION_ABORT_PIPE,
      URB_FUNCTION_CLOSE_STATIC_STREAMS, URB_FUNCTION_GET_CURRENT_FRAME_NUMBER,
      Nat.reduceEqDiff, if_true, if_false, or_true, true_or, or_false, false_or] <;>
    first
      | rfl
      | (split <;> first | rfl | (split <;> rfl))

theorem unknownFunction_fst_frame (P : Platform) (pIrp : Nat) (header : URB_HEADER)
    (post : Bool) (d : USBPCAP_DEVICE_DATA) :
    (USBPcapAnalyzeURB.unknownFunction P pIrp header post d).1.endpointTable = d.endpointTable ∧
    (USBPcapAnalyzeURB.unknownFunction P pIrp header post d).1.descriptor = d.descriptor ∧
    (USBPcapAnalyzeURB.unknownFunction P pIrp header post d).1.deviceAddress = d.deviceAddress ∧
    (USBPcapAnalyzeURB.unknownFunction P pIrp header post d).1.pRootData = d.pRootData := by
  unfold USBPcapAnalyzeURB.unknownFunction
  split <;> exact ⟨rfl, rfl, rfl, rfl⟩

/-- The second `switch` changes neither the endpoint table nor the cached
descriptor. -/
theorem dispatch_fst_frame (P : Platform) (pIrp : Nat) (pUrb : URB) (post : Bool)
    (d : USBPCAP_DEVICE_DATA) :
    (USBPcapAnalyzeURB.dispatch P pIrp pUrb post d).1.endpointTable = d.endpointTable ∧
    (USBPcapAnalyzeURB.dispatch P pIrp pUrb post d).1.descriptor = d.descriptor := by
  by_cases h : pUrb.UrbHeader.Function ∈ USBPcapAnalyzeURB.caseLabels
  · rw [dispatch_fst_of_mem P pIrp pUrb post d h]
    exact ⟨rfl, rfl⟩
  · rw [dispatch_of_not_mem P pIrp pUrb post d h]
    exact ⟨(unknownFunction_fst_frame P pIrp _ post d).1,
      (unknownFunction_fst_frame P pIrp _ post d).2.1⟩

/-- `USBPcapAnalyzeURB` unfolded: the pending lookup, the first `switch`, the
filter gate (which reads fields the first `switch` does not change), and the
second `switch`. -/
theorem USBPcapAnalyzeURB_eq (P : Platform) (pIrp : Nat) (pUrb : URB) (post : Bool)
    (d : USBPCAP_DEVICE_DATA) :
    USBPcapAnalyzeURB P pIrp pUrb post d =
      (USBPcapAnalyzeURB.alwaysAnalyzed P pUrb post
          (USBPcapAnalyzeURB.obtained pIrp post d).2).map
        (fun dA =>
          if USBPcapIsDeviceFiltered d.pRootData.filter d.deviceAddress = false then (dA, [])
          else
            ((USBPcapAnalyzeURB.dispatch P pIrp pUrb post dA).1,
             USBPcapAnalyzeURB.logUnknownURB pIrp (USBPcapAnalyzeURB.obtained pIrp post d).1 ++
               (USBPcapAnalyzeURB.dispatch P pIrp pUrb post dA).2)) := by
  unfold USBPcapAnalyzeURB
  simp only
  cases hA : USBPcapAnalyzeURB.alwaysAnalyzed P pUrb post
      (USBPcapAnalyzeURB.obtained pIrp post d).2 with
  | none => rfl
  | some dA =>
    obtain ⟨h1, h2, -⟩ := alwaysAnalyzed_frame P pUrb post _ dA hA
    rw [obtained_deviceAddress] at h1
    rw [obtained_pRootData] at h2
    simp only [Option.map_some', h1, h2]
    split <;> rfl


/-! ### Isochronous guards -/

theorem obtained_true (pIrp : Nat) (d : USBPCAP_DEVICE_DATA) :
    USBPcapAnalyzeURB.obtained pIrp true d = USBPcapObtainURBIRPInfo d pIrp := by
  simp [USBPcapAnalyzeURB.obtained]

theorem obtained_descriptor (pIrp : Nat) (post : Bool) (d : USBPCAP_DEVICE_DATA) :
    (USBPcapAnalyzeURB.obtained pIrp post d).2.descriptor = d.descriptor := by
  unfold USBPcapAnalyzeURB.obtained USBPcapObtainURBIRPInfo
  split <;> rfl

/-- When the lookup finds no pending entry it leaves the device context as it
is. -/
theorem USBPcapObtainURBIRPInfo_none (d : USBPCAP_DEVICE_DATA) (irp : Nat)
    (h : (USBPcapObtainURBIRPInfo d irp).1 = none) :
    (USBPcapObtainURBIRPInfo d irp).2 = d := by
  simp only [USBPcapObtainURBIRPInfo, List.find?_eq_none] at h
  have hfilter : d.URBIrpTable.filter (fun e => e.irp != irp) = d.URBIrpTable := by
    rw [List.filter_eq_self]
    intro e he
    have := h e he
    simpa using this
  simp only [USBPcapObtainURBIRPInfo, hfilter]

theorem logUnknownURB_transfer (pIrp : Nat) (info : Option USBPCAP_URB_IRP_INFO) :
    ∀ c ∈ USBPcapAnalyzeURB.logUnknownURB pIrp info,
      c.header.base.transfer = USBPCAP_TRANSFER.UNKNOWN := by
  intro c hc
  cases info with
  | none => simp [USBPcapAnalyzeURB.logUnknownURB] at hc
  | some e =>
    simp only [USBPcapAnalyzeURB.logUnknownURB, List.mem_singleton] at hc
    subst hc
    rfl

theorem USBPcapAnalyzeURB_isoch (P : Platform) (pIrp : Nat) (pUrb : URB) (post : Bool)
    (d : USBPCAP_DEVICE_DATA) (hF : pUrb.UrbHeader.Function = URB_FUNCTION_ISOCH_TRANSFER) :
    USBPcapAnalyzeURB P pIrp pUrb post d =
      some
        (if USBPcapIsDeviceFiltered d.pRootData.filter d.deviceAddress = false then
          ((USBPcapAnalyzeURB.obtained pIrp post d).2, [])
         else
          ((USBPcapAnalyzeURB.obtained pIrp post d).2,
           USBPcapAnalyzeURB.logUnknownURB pIrp (USBPcapAnalyzeURB.obtained pIrp post d).1 ++
             USBPcapAnalyzeURB.isochTransfer P pIrp pUrb.UrbHeader pUrb.UrbIsochronousTransfer
               post (USBPcapAnalyzeURB.obtained pIrp post d).2)) := by
  have h0 : pUrb.UrbHeader.Function ≠ URB_FUNCTION_SELECT_CONFIGURATION := by
    rw [hF]; decide
  have h1 : pUrb.UrbHeader.Function ≠ URB_FUNCTION_SELECT_INTERFACE := by
    rw [hF]; decide
  rw [USBPcapAnalyzeURB_eq, alwaysAnalyzed_of_ne P pUrb post _ h0 h1]
  simp only [Option.map_some', dispatch_isoch P pIrp pUrb post _ hF]

/-- The isochronous case when the 32-bit sum of the packet lengths, here equal
to the exact sum, is above the buffer length: no sink call. -/
theorem isochTransfer_overrun (P : Platform) (pIrp : Nat) (header : URB_HEADER)
    (transfer : URB_ISOCH_TRANSFER) (d : USBPCAP_DEVICE_DATA)
    (hIN : transfer.TransferFlags &&& USBD_TRANSFER_DIRECTION_IN = USBD_TRANSFER_DIRECTION_IN)
    (hnonzero : transfer.TransferBufferLength ≠ 0)
    (hover : transfer.TransferBufferLength <
      ((List.range transfer.NumberOfPackets).map (fun i => (transfer.IsoPacket i).Length)).sum)
    (hfit : ((List.range transfer.NumberOfPackets).map
      (fun i => (transfer.IsoPacket i).Length)).sum < 2 ^ 32) :
    USBPcapAnalyzeURB.isochTransfer P pIrp header transfer true d = [] := by
  have hmapsum :
      (((List.range transfer.NumberOfPackets).map transfer.IsoPacket).map
          (fun p => p.Length)).sum =
        ((List.range transfer.NumberOfPackets).map
          (fun i => (transfer.IsoPacket i).Length)).sum := by
    rw [List.map_map]; rfl
  have hcl :
      USBPcapAnalyzeURB.compactedLength
          ((List.range transfer.NumberOfPackets).map transfer.IsoPacket) 0 =
        ((List.range transfer.NumberOfPackets).map
          (fun i => (transfer.IsoPacket i).Length)).sum := by
    rw [compactedLength_eq_sum _ 0 (by rw [hmapsum]; omega), hmapsum]
    omega
  simp only [USBPcapAnalyzeURB.isochTransfer, hnonzero, ne_eq, not_false_eq_true, if_true,
    hIN, and_self, hcl, gt_iff_lt, hover]
  split
  · rfl
  · split <;> rfl


/-- C13, counterexample. (a) With a pending entry under correlation identity
9 (left by the Submit of an unclassified request), the completion of an
inbound isochronous transfer whose packet lengths add up to 5 > 4 =
`TransferBufferLength` removes the entry: the pending table changes. (b) With
packet lengths 0xFFFFFFFF and 2 the exact sum 2^32 + 1 exceeds
`TransferBufferLength` = 5, the 32-bit sum is 1, and an isochronous record is
emitted. -/
theorem C13_counterexample :
    (USBPcapAnalyzeURB x86Platform 9 getConfigurationUrb false filteredDevice =
        some (pendingDevice, []) ∧
      isochOverrunUrb.UrbIsochronousTransfer.TransferBufferLength <
        ((List.range isochOverrunUrb.UrbIsochronousTransfer.NumberOfPackets).map
          (fun i => (isochOverrunUrb.UrbIsochronousTransfer.IsoPacket i).Length)).sum ∧
      (USBPcapAnalyzeURB x86Platform 9 isochOverrunUrb true pendingDevice).map
          (fun r => r.1.URBIrpTable) = some [] ∧
      pendingDevice.URBIrpTable ≠ []) ∧
    (isochWrapUrb.UrbIsochronousTransfer.TransferBufferLength <
        ((List.range isochWrapUrb.UrbIsochronousTransfer.NumberOfPackets).map
          (fun i => (isochWrapUrb.UrbIsochronousTransfer.IsoPacket i).Length)).sum ∧
      (USBPcapAnalyzeURB x86Platform 9 isochWrapUrb true filteredDevice).map
          (fun r => r.2.map (fun c => (c.header.base.transfer, c.header.base.dataLength))) =
        some [(USBPCAP_TRANSFER.ISOCHRONOUS, 1)]) := by
  refine ⟨⟨?_, ?_, ?_, ?_⟩, ?_, ?_⟩ <;> decide

/-- C13, amended. For an IN isochronous transfer seen at Complete with
non-zero `TransferBufferLength`, if the sum of the packet lengths exceeds
`TransferBufferLength` and is below 2^32, `USBPcapAnalyzeURB` emits no
isochronous record (only the Unknown record of a pending entry for the
correlation identity, if there is one and the device is filtered), and leaves
the endpoint table and the descriptor cache unchanged; the pending table
changes only by the removal of the entry of this correlation identity, so the
device context is unchanged when there is none. -/
theorem C13_isoch_overrun_guard (P : Platform) (pIrp : Nat) (pUrb : URB)
    (pDeviceData : USBPCAP_DEVICE_DATA)
    (hF : pUrb.UrbHeader.Function = URB_FUNCTION_ISOCH_TRANSFER)
    (hIN : pUrb.UrbIsochronousTransfer.TransferFlags &&& USBD_TRANSFER_DIRECTION_IN =
      USBD_TRANSFER_DIRECTION_IN)
    (hnonzero : pUrb.UrbIsochronousTransfer.TransferBufferLength ≠ 0)
    (hover : pUrb.UrbIsochronousTransfer.TransferBufferLength <
      ((List.range pUrb.UrbIsochronousTransfer.NumberOfPackets).map
        (fun i => (pUrb.UrbIsochronousTransfer.IsoPacket i).Length)).sum)
    (hfit : ((List.range pUrb.UrbIsochronousTransfer.NumberOfPackets).map
      (fun i => (pUrb.UrbIsochronousTransfer.IsoPacket i).Length)).sum < 2 ^ 32) :
    USBPcapAnalyzeURB P pIrp pUrb true pDeviceData =
      some
        ((USBPcapObtainURBIRPInfo pDeviceData pIrp).2,
         if USBPcapIsDeviceFiltered pDeviceData.pRootData.filter pDeviceData.deviceAddress
             = false then []
         else USBPcapAnalyzeURB.logUnknownURB pIrp
           (USBPcapObtainURBIRPInfo pDeviceData pIrp).1) ∧
    (∀ r, USBPcapAnalyzeURB P pIrp pUrb true pDeviceData = some r →
      ∀ c ∈ r.2, c.header.base.transfer ≠ USBPCAP_TRANSFER.ISOCHRONOUS) ∧
    (USBPcapObtainURBIRPInfo pDeviceData pIrp).2.endpointTable = pDeviceData.endpointTable ∧
    (USBPcapObtainURBIRPInfo pDeviceData pIrp).2.descriptor = pDeviceData.descriptor ∧
    (USBPcapObtainURBIRPInfo pDeviceData pIrp).2.URBIrpTable =
      pDeviceData.URBIrpTable.filter (fun e => e.irp != pIrp) ∧
    ((USBPcapObtainURBIRPInfo pDeviceData pIrp).1 = none →
      (USBPcapObtainURBIRPInfo pDeviceData pIrp).2 = pDeviceData) := by
  have hcall : USBPcapAnalyzeURB P pIrp pUrb true pDeviceData =
      some
        ((USBPcapObtainURBIRPInfo pDeviceData pIrp).2,
         if USBPcapIsDeviceFiltered pDeviceData.pRootData.filter pDeviceData.deviceAddress
             = false then []
         else USBPcapAnalyzeURB.logUnknownURB pIrp
           (USBPcapObtainURBIRPInfo pDeviceData pIrp).1) := by
    rw [USBPcapAnalyzeURB_isoch P pIrp pUrb true pDeviceData hF,
      isochTransfer_overrun P pIrp _ _ _ hIN hnonzero hover hfit, obtained_true]
    split <;> simp
  refine ⟨hcall, ?_, rfl, rfl, rfl, USBPcapObtainURBIRPInfo_none pDeviceData pIrp⟩
  intro r hr c hc
  rw [hcall] at hr
  cases hr
  simp only at hc
  split at hc
  · simp at hc
  · rw [logUnknownURB_transfer pIrp _ c hc]
    decide

/-- C13 (amended) instantiated at packet lengths 2, 0, 3 against a 4-byte
buffer on the filtered device without pending entry: no sink call and the
device context is unchanged. -/
theorem C13_isoch_overrun_guard_witness :
    isochOverrunUrb.UrbHeader.Function = URB_FUNCTION_ISOCH_TRANSFER ∧
    isochOverrunUrb.UrbIsochronousTransfer.TransferFlags &&& USBD_TRANSFER_DIRECTION_IN =
      USBD_TRANSFER_DIRECTION_IN ∧
    isochOverrunUrb.UrbIsochronousTransfer.TransferBufferLength ≠ 0 ∧
    isochOverrunUrb.UrbIsochronousTransfer.TransferBufferLength <
      ((List.range isochOverrunUrb.UrbIsochronousTransfer.NumberOfPackets).map
        (fun i => (isochOverrunUrb.UrbIsochronousTransfer.IsoPacket i).Length)).sum ∧
    ((List.range isochOverrunUrb.UrbIsochronousTransfer.NumberOfPackets).map
      (fun i => (isochOverrunUrb.UrbIsochronousTransfer.IsoPacket i).Length)).sum < 2 ^ 32 ∧
    USBPcapAnalyzeURB x86Platform 9 isochOverrunUrb true filteredDevice =
      some (filteredDevice, []) :=
  ⟨by decide, by decide, by decide, by decide, by decide,
   (C13_isoch_overrun_guard x86Platform 9 isochOverrunUrb filteredDevice (by decide)
      (by decide) (by decide) (by decide) (by decide)).1⟩

/-- C14. For an isochronous transfer declaring more than 1024 packets, in
either phase and direction, `USBPcapAnalyzeURB` emits no isochronous record:
the call makes no sink call but the Unknown record of a pending entry (on a
filtered device at Complete), and its outcome is the same on every platform,
whatever the pool allocator would answer, since no allocation is reached. -/
theorem C14_isoch_packet_count_bound (P P' : Platform) (pIrp : Nat) (pUrb : URB)
    (post : Bool) (pDeviceData : USBPCAP_DEVICE_DATA)
    (hF : pUrb.UrbHeader.Function = URB_FUNCTION_ISOCH_TRANSFER)
    (hmany : 1024 < pUrb.UrbIsochronousTransfer.NumberOfPackets) :
    USBPcapAnalyzeURB P pIrp pUrb post pDeviceData =
      some
        ((USBPcapAnalyzeURB.obtained pIrp post pDeviceData).2,
         if USBPcapIsDeviceFiltered pDeviceData.pRootData.filter pDeviceData.deviceAddress
             = false then []
         else USBPcapAnalyzeURB.logUnknownURB pIrp
           (USBPcapAnalyzeURB.obtained pIrp post pDeviceData).1) ∧
    USBPcapAnalyzeURB P' pIrp pUrb post pDeviceData =
      USBPcapAnalyzeURB P pIrp pUrb post pDeviceData ∧
    USBPcapAnalyzeURB.isochTransfer P pIrp pUrb.UrbHeader pUrb.UrbIsochronousTransfer post
      (USBPcapAnalyzeURB.obtained pIrp post pDeviceData).2 = [] ∧
    (∀ r, USBPcapAnalyzeURB P pIrp pUrb post pDeviceData = some r →
      ∀ c ∈ r.2, c.header.base.transfer ≠ USBPCAP_TRANSFER.ISOCHRONOUS) := by
  have hbody : ∀ (Q : Platform) (d : USBPCAP_DEVICE_DATA),
      USBPcapAnalyzeURB.isochTransfer Q pIrp pUrb.UrbHeader pUrb.UrbIsochronousTransfer post
        d = [] := by
    intro Q d
    simp [USBPcapAnalyzeURB.isochTransfer, hmany]
  have hcall : ∀ Q : Platform, USBPcapAnalyzeURB Q pIrp pUrb post pDeviceData =
      some
        ((USBPcapAnalyzeURB.obtained pIrp post pDeviceData).2,
         if USBPcapIsDeviceFiltered pDeviceData.pRootData.filter pDeviceData.deviceAddress
             = false then []
         else USBPcapAnalyzeURB.logUnknownURB pIrp
           (USBPcapAnalyzeURB.obtained pIrp post pDeviceData).1) := by
    intro Q
    rw [USBPcapAnalyzeURB_isoch Q pIrp pUrb post pDeviceData hF, hbody]
    split <;> simp
  refine ⟨hcall P, (hcall P').trans (hcall P).symm, hbody P _, ?_⟩
  intro r hr c hc
  rw [hcall P] at hr
  cases hr
  simp only at hc
  split at hc
  · simp at hc
  · rw [logUnknownURB_transfer pIrp _ c hc]
    decide

/-- C14 instantiated at a transfer declaring 1025 packets at Complete on the
filtered device: no sink call, with a pool that always fails as with one that
never does. -/
theorem C14_isoch_packet_count_bound_witness :
    isochManyPacketsUrb.UrbHeader.Function = URB_FUNCTION_ISOCH_TRANSFER ∧
    1024 < isochManyPacketsUrb.UrbIsochronousTransfer.NumberOfPackets ∧
    USBPcapAnalyzeURB x86PlatformNoPool 9 isochManyPacketsUrb true filteredDevice =
      USBPcapAnalyzeURB x86Platform 9 isochManyPacketsUrb true filteredDevice :=
  ⟨by decide, by decide,
   (C14_isoch_packet_count_bound x86Platform x86PlatformNoPool 9 isochManyPacketsUrb true
      filteredDevice (by decide) (by decide)).2.1⟩


/-! ### The `default` case and the pending table -/

theorem ne_select_of_not_mem (f : Nat) (h : f ∉ USBPcapAnalyzeURB.caseLabels) :
    f ≠ URB_FUNCTION_SELECT_CONFIGURATION ∧ f ≠ URB_FUNCTION_SELECT_INTERFACE := by
  constructor
  · intro hf; apply h; rw [hf]; decide
  · intro hf; apply h; rw [hf]; decide

/-- A call for a function without a case label, on a device in the filter's
active set. -/
theorem USBPcapAnalyzeURB_unknown (P : Platform) (pIrp : Nat) (pUrb : URB) (post : Bool)
    (d : USBPCAP_DEVICE_DATA)
    (hF : pUrb.UrbHeader.Function ∉ USBPcapAnalyzeURB.caseLabels)
    (hf : USBPcapIsDeviceFiltered d.pRootData.filter d.deviceAddress = true) :
    USBPcapAnalyzeURB P pIrp pUrb post d =
      some ((USBPcapAnalyzeURB.unknownFunction P pIrp pUrb.UrbHeader post
                (USBPcapAnalyzeURB.obtained pIrp post d).2).1,
            USBPcapAnalyzeURB.logUnknownURB pIrp (USBPcapAnalyzeURB.obtained pIrp post d).1 ++
              (USBPcapAnalyzeURB.unknownFunction P pIrp pUrb.UrbHeader post
                (USBPcapAnalyzeURB.obtained pIrp post d).2).2) := by
  obtain ⟨h0, h1⟩ := ne_select_of_not_mem _ hF
  rw [USBPcapAnalyzeURB_of_filtered P pIrp pUrb post d h0 h1 hf,
    dispatch_of_not_mem P pIrp pUrb post _ hF]

/-- After the lookup has removed the entry of a correlation identity, a second
lookup finds nothing. -/
theorem USBPcapObtainURBIRPInfo_twice (d : USBPCAP_DEVICE_DATA) (irp : Nat) :
    (USBPcapObtainURBIRPInfo (USBPcapObtainURBIRPInfo d irp).2 irp).1 = none := by
  simp only [USBPcapObtainURBIRPInfo, List.find?_eq_none, List.mem_filter]
  intro e he
  simpa using he.2

/-- The lookup finds the entry that was just inserted. -/
theorem USBPcapObtainURBIRPInfo_add (d : USBPCAP_DEVICE_DATA) (info : USBPCAP_URB_IRP_INFO) :
    (USBPcapObtainURBIRPInfo
        { d with URBIrpTable := USBPcapAddURBIRPInfo d.URBIrpTable info } info.irp).1 =
      some info := by
  simp [USBPcapObtainURBIRPInfo, USBPcapAddURBIRPInfo]

theorem unknownFunction_submit (P : Platform) (pIrp : Nat) (header : URB_HEADER)
    (d : USBPCAP_DEVICE_DATA) :
    USBPcapAnalyzeURB.unknownFunction P pIrp header false d =
      ({ d with
         URBIrpTable :=
           USBPcapAddURBIRPInfo d.URBIrpTable
             (USBPcapAnalyzeURB.unknownURBInfo P pIrp header d) }, []) := by
  simp [USBPcapAnalyzeURB.unknownFunction]

theorem unknownFunction_complete (P : Platform) (pIrp : Nat) (header : URB_HEADER)
    (d : USBPCAP_DEVICE_DATA) :
    USBPcapAnalyzeURB.unknownFunction P pIrp header true d =
      (d, [SinkCall.USBPcapBufferWritePacket
            (CAPTURE_HEADER.packet (USBPcapAnalyzeURB.unknownPacketHeader pIrp header d))
            none]) := by
  simp [USBPcapAnalyzeURB.unknownFunction]

theorem unknownPacketHeader_congr (pIrp : Nat) (header : URB_HEADER)
    (d d' : USBPCAP_DEVICE_DATA) (h1 : d'.pRootData = d.pRootData)
    (h2 : d'.deviceAddress = d.deviceAddress) :
    USBPcapAnalyzeURB.unknownPacketHeader pIrp header d' =
      USBPcapAnalyzeURB.unknownPacketHeader pIrp header d := by
  simp [USBPcapAnalyzeURB.unknownPacketHeader, h1, h2]

/-! ### C15: the Complete call of a request recorded at Submit -/

/-- C15, counterexample. `getConfigurationUrb` is
submitted under correlation identity 9 at time 1000 on the filtered device,
which records one pending entry and emits nothing. The Complete call for the
same identity at time 2000, where the request carries status 0xC0000004, emits
two Unknown-kind records, not one: the record of the pending entry (time
1000, status 0, info flags 0) and then the record of the `default` case
(status 0xC0000004, info flags 1). -/
theorem C15_counterexample :
    USBPcapAnalyzeURB x86Platform 9 getConfigurationUrb false filteredDevice =
      some (pendingDevice, []) ∧
    USBPcapAnalyzeURB x86PlatformLater 9 getConfigurationStalledUrb true pendingDevice =
      some (filteredDevice,
        [SinkCall.USBPcapBufferWriteTimestampedPacket 1000
           (CAPTURE_HEADER.packet
             { headerLen := 27, irpId := 9, status := 0
               function := URB_FUNCTION_GET_CONFIGURATION, info := 0, bus := 1, device := 2
               endpoint := 0, transfer := USBPCAP_TRANSFER.UNKNOWN, dataLength := 0 })
           none,
         SinkCall.USBPcapBufferWritePacket
           (CAPTURE_HEADER.packet
             { headerLen := 27, irpId := 9, status := 0xC0000004
               function := URB_FUNCTION_GET_CONFIGURATION, info := 1, bus := 1, device := 2
               endpoint := 0, transfer := USBPCAP_TRANSFER.UNKNOWN, dataLength := 0 })
           none]) ∧
    ((USBPcapAnalyzeURB x86PlatformLater 9 getConfigurationStalledUrb true pendingDevice).map
        (fun r =>
          (r.2.filter
            (fun c => decide (c.header.base.transfer = USBPCAP_TRANSFER.UNKNOWN))).length)) =
      some 2 := by
  refine ⟨?_, ?_, ?_⟩ <;> decide

/-- C15, amended. Let the lookup of the correlation identity find a
pending entry and let the device be in the filter's active set. Then at
Complete: (1) for every request the first record emitted is the Unknown-kind
record of the pending entry, written with the entry's timestamp and carrying
the entry's status, operation kind, info flags, bus id and device address, and
it is followed by the records of the request itself; (2) for a request whose
operation kind is still unclassified these are exactly two Unknown-kind
records, the second one carrying the status and operation kind of the request
as seen at Complete; (3) the entry is removed: a second lookup finds nothing,
and a second Complete of the unclassified request emits only the record of
the request itself. -/
theorem C15_pending_record_at_complete (P : Platform) (pIrp : Nat) (pUrb : URB)
    (d : USBPCAP_DEVICE_DATA) (entry : USBPCAP_URB_IRP_INFO)
    (hpending : (USBPcapObtainURBIRPInfo d pIrp).1 = some entry)
    (hfiltered : USBPcapIsDeviceFiltered d.pRootData.filter d.deviceAddress = true) :
    USBPcapAnalyzeURB P pIrp pUrb true d =
        (USBPcapAnalyzeURB.alwaysAnalyzed P pUrb true (USBPcapObtainURBIRPInfo d pIrp).2).map
          (fun dA =>
            ((USBPcapAnalyzeURB.dispatch P pIrp pUrb true dA).1,
             SinkCall.USBPcapBufferWriteTimestampedPacket entry.timestamp
               (CAPTURE_HEADER.packet
                 { headerLen := sizeof_USBPCAP_BUFFER_PACKET_HEADER
                   irpId := pIrp
                   status := entry.status
                   function := entry.function
                   info := entry.info
                   bus := entry.bus
                   device := entry.device
                   endpoint := 0
                   transfer := USBPCAP_TRANSFER.UNKNOWN
                   dataLength := 0 })
               none ::
             (USBPcapAnalyzeURB.dispatch P pIrp pUrb true dA).2)) ∧
    (pUrb.UrbHeader.Function ∉ USBPcapAnalyzeURB.caseLabels →
      USBPcapAnalyzeURB P pIrp pUrb true d =
        some ((USBPcapObtainURBIRPInfo d pIrp).2,
          [SinkCall.USBPcapBufferWriteTimestampedPacket entry.timestamp
             (CAPTURE_HEADER.packet
               { headerLen := sizeof_USBPCAP_BUFFER_PACKET_HEADER
                 irpId := pIrp
                 status := entry.status
                 function := entry.function
                 info := entry.info
                 bus := entry.bus
                 device := entry.device
                 endpoint := 0
                 transfer := USBPCAP_TRANSFER.UNKNOWN
                 dataLength := 0 })
             none,
           SinkCall.USBPcapBufferWritePacket
             (CAPTURE_HEADER.packet
               (USBPcapAnalyzeURB.unknownPacketHeader pIrp pUrb.UrbHeader d))
             none]) ∧
      USBPcapAnalyzeURB P pIrp pUrb true (USBPcapObtainURBIRPInfo d pIrp).2 =
        some ((USBPcapObtainURBIRPInfo d pIrp).2,
          [SinkCall.USBPcapBufferWritePacket
             (CAPTURE_HEADER.packet
               (USBPcapAnalyzeURB.unknownPacketHeader pIrp pUrb.UrbHeader d))
             none])) ∧
    (USBPcapObtainURBIRPInfo (USBPcapObtainURBIRPInfo d pIrp).2 pIrp).1 = none ∧
    (USBPcapObtainURBIRPInfo d pIrp).2.URBIrpTable =
      d.URBIrpTable.filter (fun e => e.irp != pIrp) := by
  have hcongr : USBPcapAnalyzeURB.unknownPacketHeader pIrp pUrb.UrbHeader
      (USBPcapObtainURBIRPInfo d pIrp).2 =
      USBPcapAnalyzeURB.unknownPacketHeader pIrp pUrb.UrbHeader d :=
    unknownPacketHeader_congr pIrp pUrb.UrbHeader d _ rfl rfl
  refine ⟨?_, ?_, USBPcapObtainURBIRPInfo_twice d pIrp, rfl⟩
  · rw [USBPcapAnalyzeURB_eq, obtained_true, hpending]
    simp [hfiltered, USBPcapAnalyzeURB.logUnknownURB]
  · intro hF
    constructor
    · rw [USBPcapAnalyzeURB_unknown P pIrp pUrb true d hF hfiltered, obtained_true, hpending,
        unknownFunction_complete, hcongr]
      rfl
    · have hnone := USBPcapObtainURBIRPInfo_twice d pIrp
      rw [USBPcapAnalyzeURB_unknown P pIrp pUrb true (USBPcapObtainURBIRPInfo d pIrp).2 hF
          hfiltered, obtained_true, hnone,
        USBPcapObtainURBIRPInfo_none _ _ hnone, unknownFunction_complete, hcongr]
      rfl

/-- C15 (amended) instantiated at the Complete of the unclassified request
under correlation identity 9 with its pending entry in the table: two Unknown
records, and a second lookup finds nothing. -/
theorem C15_pending_record_at_complete_witness :
    (USBPcapObtainURBIRPInfo pendingDevice 9).1 =
        some { irp := 9, timestamp := 1000, status := 0
               function := URB_FUNCTION_GET_CONFIGURATION
               info := 0, bus := 1, device := 2 } ∧
    USBPcapIsDeviceFiltered pendingDevice.pRootData.filter pendingDevice.deviceAddress = true ∧
    getConfigurationStalledUrb.UrbHeader.Function ∉ USBPcapAnalyzeURB.caseLabels ∧
    USBPcapAnalyzeURB x86PlatformLater 9 getConfigurationStalledUrb true pendingDevice =
      some ((USBPcapObtainURBIRPInfo pendingDevice 9).2,
        [SinkCall.USBPcapBufferWriteTimestampedPacket 1000
           (CAPTURE_HEADER.packet
             { headerLen := sizeof_USBPCAP_BUFFER_PACKET_HEADER
               irpId := 9
               status := 0
               function := URB_FUNCTION_GET_CONFIGURATION
               info := 0
               bus := 1
               device := 2
               endpoint := 0
               transfer := USBPCAP_TRANSFER.UNKNOWN
               dataLength := 0 })
           none,
         SinkCall.USBPcapBufferWritePacket
           (CAPTURE_HEADER.packet
             (USBPcapAnalyzeURB.unknownPacketHeader 9 getConfigurationStalledUrb.UrbHeader
               pendingDevice))
           none]) ∧
    (USBPcapObtainURBIRPInfo (USBPcapObtainURBIRPInfo pendingDevice 9).2 9).1 = none :=
  ⟨by decide, by decide, by decide,
   ((C15_pending_record_at_complete x86PlatformLater 9 getConfigurationStalledUrb
      pendingDevice
      { irp := 9, timestamp := 1000, status := 0, function := URB_FUNCTION_GET_CONFIGURATION
        info := 0, bus := 1, device := 2 }
      (by decide) (by decide)).2.1 (by decide)).1,
   (C15_pending_record_at_complete x86PlatformLater 9 getConfigurationStalledUrb
      pendingDevice
      { irp := 9, timestamp := 1000, status := 0, function := URB_FUNCTION_GET_CONFIGURATION
        info := 0, bus := 1, device := 2 }
      (by decide) (by decide)).2.2.1⟩

/-! ### C16: Complete of an unclassified request with no pending entry -/

/-- C16. At Complete, on a device in the filter's active set, for a request
whose operation kind has no case label and whose correlation identity has no
pending entry, exactly one record is written, through `USBPcapBufferWritePacket`
with no payload: header length 27, dataLength 0, transfer kind Unknown,
endpoint 0, info flags `USBPCAP_INFO_PDO_TO_FDO`, status and operation kind of
the request as seen at Complete, bus id of the root context and device address
of the device context; the device context is left as it was. -/
theorem C16_unknown_complete_no_pending (P : Platform) (pIrp : Nat) (pUrb : URB)
    (d : USBPCAP_DEVICE_DATA)
    (hF : pUrb.UrbHeader.Function ∉ USBPcapAnalyzeURB.caseLabels)
    (hfiltered : USBPcapIsDeviceFiltered d.pRootData.filter d.deviceAddress = true)
    (hnone : (USBPcapObtainURBIRPInfo d pIrp).1 = none) :
    USBPcapAnalyzeURB P pIrp pUrb true d =
      some (d,
        [SinkCall.USBPcapBufferWritePacket
           (CAPTURE_HEADER.packet
             { headerLen := sizeof_USBPCAP_BUFFER_PACKET_HEADER
               irpId := pIrp
               status := pUrb.UrbHeader.Status
               function := pUrb.UrbHeader.Function
               info := USBPCAP_INFO_PDO_TO_FDO
               bus := d.pRootData.busId
               device := d.deviceAddress
               endpoint := 0
               transfer := USBPCAP_TRANSFER.UNKNOWN
               dataLength := 0 })
           none]) ∧
    (USBPcapAnalyzeURB P pIrp pUrb true d).map
        (fun r => r.2.map (fun c => (c.header.base.dataLength, payloadBytes c.payload))) =
      some [(0, [])] := by
  have h : USBPcapAnalyzeURB P pIrp pUrb true d =
      some (d,
        [SinkCall.USBPcapBufferWritePacket
           (CAPTURE_HEADER.packet (USBPcapAnalyzeURB.unknownPacketHeader pIrp pUrb.UrbHeader d))
           none]) := by
    rw [USBPcapAnalyzeURB_unknown P pIrp pUrb true d hF hfiltered, obtained_true, hnone,
      USBPcapObtainURBIRPInfo_none _ _ hnone, unknownFunction_complete]
    rfl
  refine ⟨h, ?_⟩
  rw [h]
  rfl

/-- C16 instantiated at the Complete of the unclassified request on the
filtered device with an empty pending table: one header-only Unknown record. -/
theorem C16_unknown_complete_no_pending_witness :
    getConfigurationStalledUrb.UrbHeader.Function ∉ USBPcapAnalyzeURB.caseLabels ∧
    USBPcapIsDeviceFiltered filteredDevice.pRootData.filter filteredDevice.deviceAddress =
      true ∧
    (USBPcapObtainURBIRPInfo filteredDevice 9).1 = none ∧
    USBPcapAnalyzeURB x86PlatformLater 9 getConfigurationStalledUrb true filteredDevice =
      some (filteredDevice,
        [SinkCall.USBPcapBufferWritePacket
           (CAPTURE_HEADER.packet
             { headerLen := 27, irpId := 9, status := 0xC0000004
               function := URB_FUNCTION_GET_CONFIGURATION, info := 1, bus := 1, device := 2
               endpoint := 0, transfer := USBPCAP_TRANSFER.UNKNOWN, dataLength := 0 })
           none]) :=
  ⟨by decide, by decide, by decide,
   (C16_unknown_complete_no_pending x86PlatformLater 9 getConfigurationStalledUrb
      filteredDevice (by decide) (by decide) (by decide)).1⟩

/-! ### C17: Submit of an unclassified request -/

/-- C17. At Submit, on a device in the filter's active set, for a request whose
operation kind has no case label, no sink call is made and the pending table
receives one entry for the correlation identity, holding the current
timestamp, the status and operation kind of the request, the bus id of the
root context, the device address of the device context and info flags 0; the
rest of the device context is unchanged. After the call the table holds
exactly one entry for the identity, which the lookup finds, and the entries of
other identities are the ones it held before. -/
theorem C17_unknown_submit_records_pending (P : Platform) (pIrp : Nat) (pUrb : URB)
    (d : USBPCAP_DEVICE_DATA)
    (hF : pUrb.UrbHeader.Function ∉ USBPcapAnalyzeURB.caseLabels)
    (hfiltered : USBPcapIsDeviceFiltered d.pRootData.filter d.deviceAddress = true) :
    USBPcapAnalyzeURB P pIrp pUrb false d =
      some ({ d with
              URBIrpTable :=
                USBPcapAddURBIRPInfo d.URBIrpTable
                  { irp := pIrp
                    timestamp := P.USBPcapGetCurrentTimestamp
                    status := pUrb.UrbHeader.Status
                    function := pUrb.UrbHeader.Function
                    info := 0
                    bus := d.pRootData.busId
                    device := d.deviceAddress } }, []) ∧
    ∀ d', (USBPcapAnalyzeURB P pIrp pUrb false d).map (fun r => r.1) = some d' →
      d'.URBIrpTable.filter (fun e => e.irp == pIrp) =
        [{ irp := pIrp
           timestamp := P.USBPcapGetCurrentTimestamp
           status := pUrb.UrbHeader.Status
           function := pUrb.UrbHeader.Function
           info := 0
           bus := d.pRootData.busId
           device := d.deviceAddress }] ∧
      d'.URBIrpTable.filter (fun e => e.irp != pIrp) =
        d.URBIrpTable.filter (fun e => e.irp != pIrp) ∧
      (USBPcapObtainURBIRPInfo d' pIrp).1 =
        some { irp := pIrp
               timestamp := P.USBPcapGetCurrentTimestamp
               status := pUrb.UrbHeader.Status
               function := pUrb.UrbHeader.Function
               info := 0
               bus := d.pRootData.busId
               device := d.deviceAddress } := by
  have h : USBPcapAnalyzeURB P pIrp pUrb false d =
      some ({ d with
              URBIrpTable :=
                USBPcapAddURBIRPInfo d.URBIrpTable
                  (USBPcapAnalyzeURB.unknownURBInfo P pIrp pUrb.UrbHeader d) }, []) := by
    rw [USBPcapAnalyzeURB_unknown P pIrp pUrb false d hF hfiltered, obtained_false,
      unknownFunction_submit]
    rfl
  refine ⟨h, ?_⟩
  intro d' hd'
  rw [h] at hd'
  simp only [Option.map_some', Option.some.injEq] at hd'
  subst hd'
  refine ⟨?_, ?_, ?_⟩
  · simp [USBPcapAddURBIRPInfo, USBPcapAnalyzeURB.unknownURBInfo, List.filter_cons,
      List.filter_filter]
  · simp [USBPcapAddURBIRPInfo, USBPcapAnalyzeURB.unknownURBInfo, List.filter_cons,
      List.filter_filter]
  · exact USBPcapObtainURBIRPInfo_add d (USBPcapAnalyzeURB.unknownURBInfo P pIrp pUrb.UrbHeader d)

/-- C17 instantiated at the Submit of the unclassified request under
correlation identity 9 at time 1000 on the filtered device: no sink call and
one pending entry. -/
theorem C17_unknown_submit_records_pending_witness :
    getConfigurationUrb.UrbHeader.Function ∉ USBPcapAnalyzeURB.caseLabels ∧
    USBPcapIsDeviceFiltered filteredDevice.pRootData.filter filteredDevice.deviceAddress =
      true ∧
    USBPcapAnalyzeURB x86Platform 9 getConfigurationUrb false filteredDevice =
      some ({ filteredDevice with
              URBIrpTable :=
                [{ irp := 9, timestamp := 1000, status := 0
                   function := URB_FUNCTION_GET_CONFIGURATION
                   info := 0, bus := 1, device := 2 }] }, []) :=
  ⟨by decide, by decide,
   (C17_unknown_submit_records_pending x86Platform 9 getConfigurationUrb filteredDevice
      (by decide) (by decide)).1⟩


/-! ### The filter gate -/

theorem obtained_withFilter (pIrp : Nat) (post : Bool) (d : USBPCAP_DEVICE_DATA)
    (filter : List Nat) :
    USBPcapAnalyzeURB.obtained pIrp post (d.withFilter filter) =
      ((USBPcapAnalyzeURB.obtained pIrp post d).1,
       (USBPcapAnalyzeURB.obtained pIrp post d).2.withFilter filter) := by
  unfold USBPcapAnalyzeURB.obtained USBPcapObtainURBIRPInfo
  split <;> rfl

/-- The endpoint table and the cached descriptor after a call are those the
first `switch` leaves. -/
theorem USBPcapAnalyzeURB_learned (P : Platform) (pIrp : Nat) (pUrb : URB) (post : Bool)
    (d : USBPCAP_DEVICE_DATA) :
    (USBPcapAnalyzeURB P pIrp pUrb post d).map
        (fun r => (r.1.endpointTable, r.1.descriptor)) =
      (USBPcapAnalyzeURB.alwaysAnalyzed P pUrb post
          (USBPcapAnalyzeURB.obtained pIrp post d).2).map
        (fun dA => (dA.endpointTable, dA.descriptor)) := by
  rw [USBPcapAnalyzeURB_eq]
  cases USBPcapAnalyzeURB.alwaysAnalyzed P pUrb post
      (USBPcapAnalyzeURB.obtained pIrp post d).2 with
  | none => rfl
  | some dA =>
    simp only [Option.map_some']
    split
    · rfl
    · rw [(dispatch_fst_frame P pIrp pUrb post dA).1, (dispatch_fst_frame P pIrp pUrb post dA).2]

/-- The pending table after a call: the one the lookup leaves, with the entry
of the `default` case added when the call is a Submit of a function without a
case label on a device in the filter's active set. -/
theorem USBPcapAnalyzeURB_URBIrpTable (P : Platform) (pIrp : Nat) (pUrb : URB) (post : Bool)
    (d : USBPCAP_DEVICE_DATA) :
    (USBPcapAnalyzeURB P pIrp pUrb post d).map (fun r => r.1.URBIrpTable) =
      (USBPcapAnalyzeURB.alwaysAnalyzed P pUrb post
          (USBPcapAnalyzeURB.obtained pIrp post d).2).map
        (fun _ =>
          if USBPcapIsDeviceFiltered d.pRootData.filter d.deviceAddress = true ∧
              post = false ∧ pUrb.UrbHeader.Function ∉ USBPcapAnalyzeURB.caseLabels then
            USBPcapAddURBIRPInfo d.URBIrpTable
              (USBPcapAnalyzeURB.unknownURBInfo P pIrp pUrb.UrbHeader d)
          else (USBPcapAnalyzeURB.obtained pIrp post d).2.URBIrpTable) := by
  rw [USBPcapAnalyzeURB_eq]
  cases hA : USBPcapAnalyzeURB.alwaysAnalyzed P pUrb post
      (USBPcapAnalyzeURB.obtained pIrp post d).2 with
  | none => rfl
  | some dA =>
    obtain ⟨h1, h2, h3⟩ := alwaysAnalyzed_frame P pUrb post _ dA hA
    rw [obtained_deviceAddress] at h1
    rw [obtained_pRootData] at h2
    simp only [Option.map_some', Option.some.injEq]
    by_cases hf : USBPcapIsDeviceFiltered d.pRootData.filter d.deviceAddress = true
    · have hf' : ¬ USBPcapIsDeviceFiltered d.pRootData.filter d.deviceAddress = false := by
        simp [hf]
      rw [if_neg hf']
      by_cases hF : pUrb.UrbHeader.Function ∈ USBPcapAnalyzeURB.caseLabels
      · rw [dispatch_fst_of_mem P pIrp pUrb post dA hF, if_neg (fun h => h.2.2 hF), h3]
      · rw [dispatch_of_not_mem P pIrp pUrb post dA hF]
        cases post with
        | false =>
          rw [if_pos ⟨hf, rfl, hF⟩, unknownFunction_submit]
          have hinfo : USBPcapAnalyzeURB.unknownURBInfo P pIrp pUrb.UrbHeader dA =
              USBPcapAnalyzeURB.unknownURBInfo P pIrp pUrb.UrbHeader d := by
            simp [USBPcapAnalyzeURB.unknownURBInfo, h1, h2]
          rw [obtained_false] at h3
          simp only [hinfo, h3]
        | true =>
          rw [if_neg (fun h => Bool.noConfusion h.2.1), unknownFunction_complete, h3]
    · have hf' : USBPcapIsDeviceFiltered d.pRootData.filter d.deviceAddress = false := by
        simpa using hf
      rw [if_pos hf', if_neg (fun h => hf h.1), h3]

/-! ### C18: a device outside the filter's active set -/

/-- C18. When `USBPcapIsDeviceFiltered` answers that the device address is not
in the active set, `USBPcapAnalyzeURB` makes no sink call, for every request,
phase and device context: the call is the pending lookup followed by the first
`switch`, and whenever it returns its list of sink calls is empty. -/
theorem C18_unfiltered_device_emits_nothing (P : Platform) (pIrp : Nat) (pUrb : URB)
    (post : Bool) (d : USBPCAP_DEVICE_DATA)
    (hunfiltered : USBPcapIsDeviceFiltered d.pRootData.filter d.deviceAddress = false) :
    USBPcapAnalyzeURB P pIrp pUrb post d =
        (USBPcapAnalyzeURB.alwaysAnalyzed P pUrb post
            (USBPcapAnalyzeURB.obtained pIrp post d).2).map (fun dA => (dA, [])) ∧
    ∀ r, USBPcapAnalyzeURB P pIrp pUrb post d = some r → r.2 = [] := by
  have h : USBPcapAnalyzeURB P pIrp pUrb post d =
      (USBPcapAnalyzeURB.alwaysAnalyzed P pUrb post
          (USBPcapAnalyzeURB.obtained pIrp post d).2).map (fun dA => (dA, [])) := by
    rw [USBPcapAnalyzeURB_eq]
    simp [hunfiltered]
  refine ⟨h, ?_⟩
  intro r hr
  rw [h] at hr
  cases hA : USBPcapAnalyzeURB.alwaysAnalyzed P pUrb post
      (USBPcapAnalyzeURB.obtained pIrp post d).2 with
  | none => rw [hA] at hr; cases hr
  | some dA => rw [hA] at hr; cases hr; rfl

/-- C18 instantiated at the SelectConfiguration completion on a device outside
the active set: the endpoint is learned and the descriptor cached, and no sink
call is made. -/
theorem C18_unfiltered_device_emits_nothing_witness :
    USBPcapIsDeviceFiltered (filteredDevice.withFilter []).pRootData.filter
        (filteredDevice.withFilter []).deviceAddress = false ∧
    USBPcapAnalyzeURB x86Platform 7 selectConfigurationUrb true (filteredDevice.withFilter []) =
      some (learnedDevice.withFilter [], []) ∧
    ∀ r, USBPcapAnalyzeURB x86Platform 7 selectConfigurationUrb true
        (filteredDevice.withFilter []) = some r → r.2 = [] :=
  ⟨by decide, by decide,
   (C18_unfiltered_device_emits_nothing x86Platform 7 selectConfigurationUrb true
      (filteredDevice.withFilter []) (by decide)).2⟩

/-! ### C19: the filter and what the device context learns -/

/-- C19. For every request and phase, two calls of `USBPcapAnalyzeURB` from
device contexts that differ only in the filter's active set agree on whether
the call returns, and end with the same endpoint table and the same cached
configuration descriptor. -/
theorem C19_filter_does_not_change_learning (P : Platform) (pIrp : Nat) (pUrb : URB)
    (post : Bool) (d : USBPCAP_DEVICE_DATA) (filter : List Nat) :
    (USBPcapAnalyzeURB P pIrp pUrb post (d.withFilter filter)).map
        (fun r => (r.1.endpointTable, r.1.descriptor)) =
      (USBPcapAnalyzeURB P pIrp pUrb post d).map
        (fun r => (r.1.endpointTable, r.1.descriptor)) := by
  rw [USBPcapAnalyzeURB_learned, USBPcapAnalyzeURB_learned, obtained_withFilter,
    alwaysAnalyzed_withFilter]
  cases USBPcapAnalyzeURB.alwaysAnalyzed P pUrb post
      (USBPcapAnalyzeURB.obtained pIrp post d).2 with
  | none => rfl
  | some dA => rfl

/-! ### C20: the filter and the pending table -/

/-- C20, counterexample. The Submit of
`getConfigurationUrb`, an unclassified operation kind, is run from two device
contexts that differ only in the filter's active set. With the device in the
active set the pending table ends with one entry; with the device outside it
the call returns at the filter gate and the pending table stays empty. -/
theorem C20_counterexample :
    filteredDevice.withFilter [] =
      { filteredDevice with pRootData := { busId := 1, filter := [] } } ∧
    (USBPcapAnalyzeURB x86Platform 9 getConfigurationUrb false filteredDevice).map
        (fun r => r.1.URBIrpTable) =
      some [{ irp := 9, timestamp := 1000, status := 0
              function := URB_FUNCTION_GET_CONFIGURATION
              info := 0, bus := 1, device := 2 }] ∧
    (USBPcapAnalyzeURB x86Platform 9 getConfigurationUrb false
        (filteredDevice.withFilter [])).map (fun r => r.1.URBIrpTable) =
      some [] := by
  refine ⟨?_, ?_, ?_⟩ <;> decide

/-- C20, amended. Two calls of `USBPcapAnalyzeURB` from device
contexts that differ only in the filter's active set end with the same pending
table whenever the call is a Complete or the operation kind has a case label.
At Submit of an operation kind without a case label the pending entry is
inserted exactly when the device is in the active set; otherwise the pending
table is left as it was. -/
theorem C20_filter_and_pending_table (P : Platform) (pIrp : Nat) (pUrb : URB)
    (post : Bool) (d : USBPCAP_DEVICE_DATA) (filter : List Nat) :
    (post = true ∨ pUrb.UrbHeader.Function ∈ USBPcapAnalyzeURB.caseLabels →
      (USBPcapAnalyzeURB P pIrp pUrb post (d.withFilter filter)).map
          (fun r => r.1.URBIrpTable) =
        (USBPcapAnalyzeURB P pIrp pUrb post d).map (fun r => r.1.URBIrpTable)) ∧
    (post = false → pUrb.UrbHeader.Function ∉ USBPcapAnalyzeURB.caseLabels →
      (USBPcapAnalyzeURB P pIrp pUrb post d).map (fun r => r.1.URBIrpTable) =
        some
          (if USBPcapIsDeviceFiltered d.pRootData.filter d.deviceAddress = true then
            USBPcapAddURBIRPInfo d.URBIrpTable
              { irp := pIrp
                timestamp := P.USBPcapGetCurrentTimestamp
                status := pUrb.UrbHeader.Status
                function := pUrb.UrbHeader.Function
                info := 0
                bus := d.pRootData.busId
                device := d.deviceAddress }
           else d.URBIrpTable)) := by
  constructor
  · intro h
    have hnot : ∀ f : List Nat,
        ¬ (USBPcapIsDeviceFiltered f d.deviceAddress = true ∧
            post = false ∧ pUrb.UrbHeader.Function ∉ USBPcapAnalyzeURB.caseLabels) := by
      intro f hc
      rcases h with h | h
      · rw [h] at hc; exact Bool.noConfusion hc.2.1
      · exact hc.2.2 h
    rw [USBPcapAnalyzeURB_URBIrpTable, USBPcapAnalyzeURB_URBIrpTable, obtained_withFilter,
      alwaysAnalyzed_withFilter]
    have e1 : (d.withFilter filter).pRootData.filter = filter := rfl
    have e2 : (d.withFilter filter).deviceAddress = d.deviceAddress := rfl
    rw [e1, e2, if_neg (hnot filter), if_neg (hnot d.pRootData.filter)]
    cases USBPcapAnalyzeURB.alwaysAnalyzed P pUrb post
        (USBPcapAnalyzeURB.obtained pIrp post d).2 with
    | none => rfl
    | some dA => rfl
  · intro hpost hF
    obtain ⟨h0, h1⟩ := ne_select_of_not_mem _ hF
    subst hpost
    rw [USBPcapAnalyzeURB_URBIrpTable, alwaysAnalyzed_of_ne P pUrb false _ h0 h1, obtained_false]
    simp only [Option.map_some', Option.some.injEq]
    by_cases hf : USBPcapIsDeviceFiltered d.pRootData.filter d.deviceAddress = true
    · rw [if_pos ⟨hf, trivial, hF⟩, if_pos hf]
      rfl
    · rw [if_neg (fun h => hf h.1), if_neg hf]

/-- C20 (amended) instantiated at the Complete of the unclassified request
with a pending entry (same pending table with the device in or out of the
active set) and at its Submit on a device outside the active set (the pending
table stays empty). -/
theorem C20_filter_and_pending_table_witness :
    (USBPcapAnalyzeURB x86PlatformLater 9 getConfigurationStalledUrb true
        (pendingDevice.withFilter [])).map (fun r => r.1.URBIrpTable) =
      (USBPcapAnalyzeURB x86PlatformLater 9 getConfigurationStalledUrb true
        pendingDevice).map (fun r => r.1.URBIrpTable) ∧
    (USBPcapAnalyzeURB x86Platform 9 getConfigurationUrb false unfilteredDevice).map
        (fun r => r.1.URBIrpTable) =
      some [] :=
  ⟨(C20_filter_and_pending_table x86PlatformLater 9 getConfigurationStalledUrb true
      pendingDevice []).1 (Or.inl rfl),
   (C20_filter_and_pending_table x86Platform 9 getConfigurationUrb false
      unfilteredDevice []).2 rfl (by decide)⟩


/-! ### The interface walk -/

/-- One iteration of the `while` loop that passes every check. -/
theorem parseLoop_step (P : Platform) (memory : Nat → USBD_INTERFACE_INFORMATION)
    (fuel off len : Nat) (d : USBPCAP_DEVICE_DATA)
    (h1 : len ≠ 0) (h2 : (memory off).Length ≠ 0)
    (h3 : P.sizeof_USBD_INTERFACE_INFORMATION ≤ len)
    (h4 : (memory off).Length ≤ len)
    (h5 : (memory off).NumberOfPipes ≤ 1 ∨
      (P.sizeof_USBD_INTERFACE_INFORMATION +
        ((memory off).NumberOfPipes - 1) * P.sizeof_USBD_PIPE_INFORMATION) % 2 ^ 32 ≤ len) :
    USBPcapParseInterfaceInformation.loop P memory (fuel + 1) off len d =
      USBPcapParseInterfaceInformation.loop P memory fuel (off + (memory off).Length)
        (len - (memory off).Length) (USBPcapParseInterfaceInformation.pipes d (memory off)) := by
  have h3' : ¬ len < P.sizeof_USBD_INTERFACE_INFORMATION := by omega
  have h4' : ¬ (memory off).Length > len := by omega
  have h5' : ¬ ((memory off).NumberOfPipes > 1 ∧
      len < (P.sizeof_USBD_INTERFACE_INFORMATION +
        ((memory off).NumberOfPipes - 1) * P.sizeof_USBD_PIPE_INFORMATION) % 2 ^ 32) := by
    intro h
    rcases h5 with h5 | h5 <;> omega
  rw [USBPcapParseInterfaceInformation.loop]
  simp only [h3', h4', h5', if_false, if_pos (And.intro h1 h2)]

/-- One iteration of the `while` loop that fails a check leaves the device
context as it is. -/
theorem parseLoop_stop (P : Platform) (memory : Nat → USBD_INTERFACE_INFORMATION)
    (fuel off len : Nat) (d : USBPCAP_DEVICE_DATA)
    (h : len = 0 ∨ (memory off).Length = 0 ∨ len < P.sizeof_USBD_INTERFACE_INFORMATION ∨
      len < (memory off).Length ∨
      ((memory off).NumberOfPipes > 1 ∧
        len < (P.sizeof_USBD_INTERFACE_INFORMATION +
          ((memory off).NumberOfPipes - 1) * P.sizeof_USBD_PIPE_INFORMATION) % 2 ^ 32)) :
    USBPcapParseInterfaceInformation.loop P memory (fuel + 1) off len d = d := by
  rw [USBPcapParseInterfaceInformation.loop]
  split
  · split
    · rfl
    · split
      · rfl
      · split
        · rfl
        · rename_i hc h3 h4 h5
          rcases h with h | h | h | h | h
          · exact absurd h hc.1
          · exact absurd h hc.2
          · exact absurd h h3
          · exact absurd h h4
          · exact absurd h h5
  · rfl

/-- The inner loop over `n + 1` pipes is the inner loop over `n` pipes followed
by the registration of pipe `n`. -/
theorem parsePipes_succ (d : USBPCAP_DEVICE_DATA) (pInterface : USBD_INTERFACE_INFORMATION)
    (n : Nat) (hn : pInterface.NumberOfPipes = n + 1) :
    (USBPcapParseInterfaceInformation.pipes d pInterface).endpointTable =
      USBPcapAddEndpointInfo
        (USBPcapParseInterfaceInformation.pipes d
          { pInterface with NumberOfPipes := n }).endpointTable
        (pInterface.Pipes n) d.deviceAddress := by
  have hframe := (parsePipes_frame d { pInterface with NumberOfPipes := n }).1
  unfold USBPcapParseInterfaceInformation.pipes at hframe ⊢
  rw [hn, List.range_succ, List.foldl_append]
  simp only [List.foldl_cons, List.foldl_nil]
  rw [hframe]


/-- The inner loop registers the pipes `0 .. NumberOfPipes-1` of the record in
order, each with the device address of the device context. -/
theorem parsePipes_eq_spec (d : USBPCAP_DEVICE_DATA) (pInterface : USBD_INTERFACE_INFORMATION) :
    USBPcapParseInterfaceInformation.pipes d pInterface =
      specRegisterPipes d ((List.range pInterface.NumberOfPipes).map pInterface.Pipes) := by
  unfold USBPcapParseInterfaceInformation.pipes specRegisterPipes
  generalize List.range pInterface.NumberOfPipes = l
  induction l generalizing d with
  | nil => rfl
  | cons j rest ih =>
    simp only [List.foldl_cons, List.map_cons]
    rw [ih]

theorem specRegisterPipes_append (d : USBPCAP_DEVICE_DATA)
    (a b : List USBD_PIPE_INFORMATION) :
    specRegisterPipes (specRegisterPipes d a) b = specRegisterPipes d (a ++ b) := by
  simp [specRegisterPipes, List.foldl_append]

/-- More records than remaining bytes are never walked: the bound on the
number of records does not cut the prefix short. -/
theorem specAcceptedInterfaces_fuel (P : Platform) (memory : Nat → USBD_INTERFACE_INFORMATION)
    (fuel : Nat) :
    ∀ (off r fuel' : Nat), r ≤ fuel → fuel ≤ fuel' →
      specAcceptedInterfaces P memory fuel' off r = specAcceptedInterfaces P memory fuel off r := by
  induction fuel with
  | zero =>
    intro off r fuel' hr _
    have hr0 : r = 0 := by omega
    subst hr0
    cases fuel' with
    | zero => rfl
    | succ k => simp [specAcceptedInterfaces, specInterfaceAccepted]
  | succ fuel ih =>
    intro off r fuel' hr hle
    obtain ⟨k, rfl⟩ : ∃ k, fuel' = k + 1 := ⟨fuel' - 1, by omega⟩
    simp only [specAcceptedInterfaces]
    by_cases hacc : specInterfaceAccepted P r (memory off) = true
    · simp only [hacc, if_true]
      have hlen : 0 < (memory off).Length := by
        simp only [specInterfaceAccepted, decide_eq_true_eq] at hacc
        exact hacc.2.1
      rw [ih (off + (memory off).Length) (r - (memory off).Length) k (by omega) (by omega)]
    · simp only [hacc, if_false]
      rfl

/-- Where `required_length` does not wrap, the `while` loop registers the
pipes of the longest prefix of records that pass the checks of the
specification. -/
theorem parseLoop_eq_spec (P : Platform) (memory : Nat → USBD_INTERFACE_INFORMATION)
    (hnowrap : ∀ off,
      P.sizeof_USBD_INTERFACE_INFORMATION +
        ((memory off).NumberOfPipes - 1) * P.sizeof_USBD_PIPE_INFORMATION < 2 ^ 32)
    (fuel : Nat) :
    ∀ (off r : Nat) (d : USBPCAP_DEVICE_DATA),
      USBPcapParseInterfaceInformation.loop P memory fuel off r d =
        specRegisterPipes d (specPipesOf (specAcceptedInterfaces P memory fuel off r)) := by
  induction fuel with
  | zero => intro off r d; rfl
  | succ fuel ih =>
    intro off r d
    have hmod := Nat.mod_eq_of_lt (hnowrap off)
    by_cases hacc : specInterfaceAccepted P r (memory off) = true
    · have hacc' := hacc
      simp only [specInterfaceAccepted, decide_eq_true_eq] at hacc'
      obtain ⟨h1, h2, h3, h4, h5⟩ := hacc'
      rw [parseLoop_step P memory fuel off r d (by omega) (by omega) h3 h4
        (by rw [hmod]; exact h5), ih, parsePipes_eq_spec, specRegisterPipes_append]
      simp only [specAcceptedInterfaces, hacc, if_true, specPipesOf, List.flatMap_cons]
    · have hacc' := hacc
      simp only [specInterfaceAccepted, decide_eq_true_eq, not_and_or, not_or, not_le,
        not_lt] at hacc'
      rw [parseLoop_stop P memory fuel off r d (by
        rw [hmod]
        rcases hacc' with h | h | h | h | h
        · left; omega
        · right; left; omega
        · right; right; left; omega
        · right; right; right; left; omega
        · right; right; right; right; exact ⟨by omega, by omega⟩)]
      simp only [specAcceptedInterfaces, hacc]
      rfl

/-! ### C21 and C22: a pipe count for which `required_length` wraps -/

theorem wrappingInterfaces_parse :
    USBPcapParseInterfaceInformation x86Platform filteredDevice wrappingInterfaces 36 =
      USBPcapParseInterfaceInformation.pipes filteredDevice wrappingInterface := by
  unfold USBPcapParseInterfaceInformation
  have h0 : wrappingInterfaces 0 = wrappingInterface := rfl
  rw [parseLoop_step x86Platform wrappingInterfaces 35 0 36 filteredDevice (by decide)
    (by rw [h0]; decide) (by decide) (by rw [h0]; decide) (by rw [h0]; right; decide), h0]
  have hlen : 36 - wrappingInterface.Length = 0 := by decide
  rw [hlen, parseLoop_zero_len]


theorem wrappingInterfaces_spec :
    specAcceptedInterfaces x86Platform wrappingInterfaces 36 0 36 = [] := by
  have h : specInterfaceAccepted x86Platform 36 (wrappingInterfaces 0) = false := by decide
  rw [specAcceptedInterfaces, h]
  rfl

/-- C21, failing input. On the x86 layout (interface record 36 bytes, pipe
entry 20 bytes) an interface area of 36 bytes holds one record of `Length` 36
that declares 2^30 pipes. The record fails the check base size +
(`NumberOfPipes` - 1) × pipe-entry size ≤ remaining bytes, so the longest
prefix of records passing the checks is empty and nothing is to be
registered. The walk accepts the record all the same, because the 32-bit
`required_length` is 16, and registers its pipes: the endpoint table is no
longer the one the prefix gives. -/
theorem C21_wrapped_pipe_count_walk :
    specInterfaceAccepted x86Platform 36 (wrappingInterfaces 0) = false ∧
    specAcceptedInterfaces x86Platform wrappingInterfaces 36 0 36 = [] ∧
    specRegisterPipes filteredDevice
        (specPipesOf (specAcceptedInterfaces x86Platform wrappingInterfaces 36 0 36)) =
      filteredDevice ∧
    USBPcapParseInterfaceInformation x86Platform filteredDevice wrappingInterfaces 36 =
      USBPcapParseInterfaceInformation.pipes filteredDevice wrappingInterface ∧
    (USBPcapParseInterfaceInformation x86Platform filteredDevice wrappingInterfaces
        36).endpointTable ≠
      (specRegisterPipes filteredDevice
        (specPipesOf
          (specAcceptedInterfaces x86Platform wrappingInterfaces 36 0 36))).endpointTable := by
  refine ⟨by decide, wrappingInterfaces_spec, ?_, wrappingInterfaces_parse, ?_⟩
  · rw [wrappingInterfaces_spec]; rfl
  · rw [wrappingInterfaces_spec, wrappingInterfaces_parse,
      parsePipes_succ filteredDevice wrappingInterface 1073741823 rfl]
    exact List.cons_ne_nil _ _

/-- C22, failing input. On the x86 layout a record of `Length` 36 declaring
2^30 pipes in an interface area of 36 bytes: base size + (`NumberOfPipes` - 1)
× pipe-entry size is 5 × 2^32 + 16, above the 36 remaining bytes, and the
32-bit `required_length` is 16. The walk accepts the record and registers its
pipes up to index 2^30 - 1; already `Pipes[1]` ends at byte 56 of the record,
past the 36 remaining bytes. -/
theorem C22_wrapped_pipe_count_reads_past_end :
    wrappingInterface.NumberOfPipes < 2 ^ 32 ∧
    ¬ (x86Platform.sizeof_USBD_INTERFACE_INFORMATION +
        (wrappingInterface.NumberOfPipes - 1) * x86Platform.sizeof_USBD_PIPE_INFORMATION ≤ 36) ∧
    (x86Platform.sizeof_USBD_INTERFACE_INFORMATION +
        (wrappingInterface.NumberOfPipes - 1) * x86Platform.sizeof_USBD_PIPE_INFORMATION) %
      2 ^ 32 = 16 ∧
    (USBPcapParseInterfaceInformation x86Platform filteredDevice wrappingInterfaces
        36).endpointTable.head? =
      some { handle := 0x1000 + 1073741823
             type := USBD_PIPE_TYPE.UsbdPipeTypeBulk
             endpointAddress := 0x81
             deviceAddress := 2 } ∧
    endOfPipeEntry x86Platform 1 = 56 ∧
    36 < endOfPipeEntry x86Platform 1073741823 := by
  refine ⟨by decide, by decide, by decide, ?_, by decide, by decide⟩
  rw [wrappingInterfaces_parse, parsePipes_succ filteredDevice wrappingInterface 1073741823 rfl]
  rfl


/-! ### Pipe requests and GetCurrentFrameNumber -/

theorem dispatch_pipeRequest (P : Platform) (pIrp : Nat) (pUrb : URB) (post : Bool)
    (d : USBPCAP_DEVICE_DATA)
    (hF : pUrb.UrbHeader.Function = URB_FUNCTION_SYNC_RESET_PIPE_AND_CLEAR_STALL ∨
      pUrb.UrbHeader.Function = URB_FUNCTION_SYNC_RESET_PIPE ∨
      pUrb.UrbHeader.Function = URB_FUNCTION_SYNC_CLEAR_STALL ∨
      pUrb.UrbHeader.Function = URB_FUNCTION_ABORT_PIPE ∨
      pUrb.UrbHeader.Function = URB_FUNCTION_CLOSE_STATIC_STREAMS) :
    USBPcapAnalyzeURB.dispatch P pIrp pUrb post d =
      (d, USBPcapAnalyzeURB.pipeRequest pIrp pUrb.UrbHeader pUrb.UrbPipeRequest post d) := by
  rcases hF with h | h | h | h | h <;>
  simp [USBPcapAnalyzeURB.dispatch, h,
    URB_FUNCTION_SELECT_CONFIGURATION, URB_FUNCTION_SELECT_INTERFACE,
    URB_FUNCTION_CONTROL_TRANSFER, URB_FUNCTION_CONTROL_TRANSFER_EX,
    URB_FUNCTION_GET_DESCRIPTOR_FROM_DEVICE, URB_FUNCTION_GET_DESCRIPTOR_FROM_ENDPOINT,
    URB_FUNCTION_GET_DESCRIPTOR_FROM_INTERFACE, URB_FUNCTION_SET_DESCRIPTOR_TO_DEVICE,
    URB_FUNCTION_SET_DESCRIPTOR_TO_ENDPOINT, URB_FUNCTION_SET_DESCRIPTOR_TO_INTERFACE,
    URB_FUNCTION_GET_STATUS_FROM_DEVICE, URB_FUNCTION_GET_STATUS_FROM_INTERFACE,
    URB_FUNCTION_GET_STATUS_FROM_ENDPOINT, URB_FUNCTION_GET_STATUS_FROM_OTHER,
    URB_FUNCTION_VENDOR_DEVICE,
    URB_FUNCTION_VENDOR_INTERFACE, URB_FUNCTION_VENDOR_ENDPOINT, URB_FUNCTION_VENDOR_OTHER,
    URB_FUNCTION_CLASS_DEVICE, URB_FUNCTION_CLASS_INTERFACE, URB_FUNCTION_CLASS_ENDPOINT,
    URB_FUNCTION_CLASS_OTHER, URB_FUNCTION_BULK_OR_INTERRUPT_TRANSFER,
    URB_FUNCTION_ISOCH_TRANSFER, URB_FUNCTION_SYNC_RESET_PIPE_AND_CLEAR_STALL,
    URB_FUNCTION_SYNC_RESET_PIPE, URB_FUNCTION_SYNC_CLEAR_STALL, URB_FUNCTION_ABORT_PIPE,
    URB_FUNCTION_CLOSE_STATIC_STREAMS]

theorem dispatch_getCurrentFrameNumber (P : Platform) (pIrp : Nat) (pUrb : URB) (post : Bool)
    (d : USBPCAP_DEVICE_DATA)
    (hF : pUrb.UrbHeader.Function = URB_FUNCTION_GET_CURRENT_FRAME_NUMBER) :
    USBPcapAnalyzeURB.dispatch P pIrp pUrb post d =
      (d, USBPcapAnalyzeURB.getCurrentFrameNumber P pIrp pUrb.UrbHeader
            pUrb.UrbGetCurrentFrameNumber post d) := by
  simp [USBPcapAnalyzeURB.dispatch, hF,
    URB_FUNCTION_SELECT_CONFIGURATION, URB_FUNCTION_SELECT_INTERFACE,
    URB_FUNCTION_CONTROL_TRANSFER, URB_FUNCTION_CONTROL_TRANSFER_EX,
    URB_FUNCTION_GET_DESCRIPTOR_FROM_DEVICE, URB_FUNCTION_GET_DESCRIPTOR_FROM_ENDPOINT,
    URB_FUNCTION_GET_DESCRIPTOR_FROM_INTERFACE, URB_FUNCTION_SET_DESCRIPTOR_TO_DEVICE,
    URB_FUNCTION_SET_DESCRIPTOR_TO_ENDPOINT, URB_FUNCTION_SET_DESCRIPTOR_TO_INTERFACE,
    URB_FUNCTION_GET_STATUS_FROM_DEVICE, URB_FUNCTION_GET_STATUS_FROM_INTERFACE,
    URB_FUNCTION_GET_STATUS_FROM_ENDPOINT, URB_FUNCTION_GET_STATUS_FROM_OTHER,
    URB_FUNCTION_VENDOR_DEVICE,
    URB_FUNCTION_VENDOR_INTERFACE, URB_FUNCTION_VENDOR_ENDPOINT, URB_FUNCTION_VENDOR_OTHER,
    URB_FUNCTION_CLASS_DEVICE, URB_FUNCTION_CLASS_INTERFACE, URB_FUNCTION_CLASS_ENDPOINT,
    URB_FUNCTION_CLASS_OTHER, URB_FUNCTION_BULK_OR_INTERRUPT_TRANSFER,
    URB_FUNCTION_ISOCH_TRANSFER, URB_FUNCTION_SYNC_RESET_PIPE_AND_CLEAR_STALL,
    URB_FUNCTION_SYNC_RESET_PIPE, URB_FUNCTION_SYNC_CLEAR_STALL, URB_FUNCTION_ABORT_PIPE,
    URB_FUNCTION_CLOSE_STATIC_STREAMS, URB_FUNCTION_GET_CURRENT_FRAME_NUMBER]

/-- A call for a function with a case label other than the two Select
functions, on a device in the filter's active set: the device context after
the pending lookup, the optional record of the pending entry, and the sink
calls of the case. -/
theorem USBPcapAnalyzeURB_classified (P : Platform) (pIrp : Nat) (pUrb : URB) (post : Bool)
    (d : USBPCAP_DEVICE_DATA) (calls : USBPCAP_DEVICE_DATA → List SinkCall)
    (h0 : pUrb.UrbHeader.Function ≠ URB_FUNCTION_SELECT_CONFIGURATION)
    (h1 : pUrb.UrbHeader.Function ≠ URB_FUNCTION_SELECT_INTERFACE)
    (hdispatch : ∀ d', USBPcapAnalyzeURB.dispatch P pIrp pUrb post d' = (d', calls d'))
    (hf : USBPcapIsDeviceFiltered d.pRootData.filter d.deviceAddress = true) :
    USBPcapAnalyzeURB P pIrp pUrb post d =
      some ((USBPcapAnalyzeURB.obtained pIrp post d).2,
            USBPcapAnalyzeURB.logUnknownURB pIrp (USBPcapAnalyzeURB.obtained pIrp post d).1 ++
              calls (USBPcapAnalyzeURB.obtained pIrp post d).2) := by
  rw [USBPcapAnalyzeURB_of_filtered P pIrp pUrb post d h0 h1 hf, hdispatch]

/-- The record of a pipe request whose pipe handle is in the endpoint table. -/
theorem pipeRequest_found (pIrp : Nat) (header : URB_HEADER) (request : URB_PIPE_REQUEST)
    (post : Bool) (d : USBPCAP_DEVICE_DATA) (info : USBPCAP_ENDPOINT_INFO)
    (h : USBPcapRetrieveEndpointInfo d request.PipeHandle = some info) :
    USBPcapAnalyzeURB.pipeRequest pIrp header request post d =
      [SinkCall.USBPcapBufferWritePacket
        (CAPTURE_HEADER.packet
          { headerLen := sizeof_USBPCAP_BUFFER_PACKET_HEADER
            irpId := pIrp
            status := header.Status
            function := header.Function
            info := if post = true then USBPCAP_INFO_PDO_TO_FDO else 0
            bus := d.pRootData.busId
            device := info.deviceAddress
            endpoint := info.endpointAddress
            transfer := USBPCAP_TRANSFER.IRP_INFO
            dataLength := 0 })
        none] := by
  cases post <;> simp [USBPcapAnalyzeURB.pipeRequest, h, USBPCAP_INFO_PDO_TO_FDO]

/-- The record of a pipe request whose pipe handle is not in the endpoint
table. -/
theorem pipeRequest_not_found (pIrp : Nat) (header : URB_HEADER) (request : URB_PIPE_REQUEST)
    (post : Bool) (d : USBPCAP_DEVICE_DATA)
    (h : USBPcapRetrieveEndpointInfo d request.PipeHandle = none) :
    USBPcapAnalyzeURB.pipeRequest pIrp header request post d =
      [SinkCall.USBPcapBufferWritePacket
        (CAPTURE_HEADER.packet
          { headerLen := sizeof_USBPCAP_BUFFER_PACKET_HEADER
            irpId := pIrp
            status := header.Status
            function := header.Function
            info := if post = true then USBPCAP_INFO_PDO_TO_FDO else 0
            bus := d.pRootData.busId
            device := d.deviceAddress
            endpoint := 0xFF
            transfer := USBPCAP_TRANSFER.UNKNOWN
            dataLength := 0 })
        none] := by
  cases post <;> simp [USBPcapAnalyzeURB.pipeRequest, h, USBPCAP_INFO_PDO_TO_FDO]

theorem obtained_retrieve (pIrp : Nat) (post : Bool) (d : USBPCAP_DEVICE_DATA) (handle : Nat) :
    USBPcapRetrieveEndpointInfo (USBPcapAnalyzeURB.obtained pIrp post d).2 handle =
      USBPcapRetrieveEndpointInfo d handle :=
  USBPcapRetrieveEndpointInfo_congr _ _ _ (obtained_endpointTable pIrp post d)

/-! ### C23: pipe and endpoint management requests -/

/-- C23, counterexample. With a pending entry under correlation identity 9, an
AbortPipe request completing under that identity on the filtered device makes
two sink calls, each header-only with `dataLength` 0: the Unknown record of the
pending entry (endpoint 0) and the record of the request (pipe handle not in
the endpoint table: Unknown, endpoint 0xFF). -/
theorem C23_counterexample :
    abortPipeUrb.UrbHeader.Function = URB_FUNCTION_ABORT_PIPE ∧
    USBPcapIsDeviceFiltered pendingDevice.pRootData.filter pendingDevice.deviceAddress = true ∧
    (USBPcapAnalyzeURB x86Platform 9 abortPipeUrb true pendingDevice).map
        (fun r => r.2.map (fun c =>
          (c.header.base.transfer, c.header.base.endpoint, c.header.base.dataLength,
            payloadBytes c.payload))) =
      some [(USBPCAP_TRANSFER.UNKNOWN, 0, 0, []), (USBPCAP_TRANSFER.UNKNOWN, 0xFF, 0, [])] ∧
    (USBPcapAnalyzeURB x86Platform 9 abortPipeUrb true pendingDevice).map
        (fun r => r.2.length) ≠ some 1 := by
  refine ⟨?_, ?_, ?_, ?_⟩ <;> decide

/-- C23, amended. For a pipe request (reset pipe and clear stall, reset pipe,
clear stall, abort pipe, close static streams) on a device in the filter's
active set, in either phase, `USBPcapAnalyzeURB` emits exactly one record for
the request, through `USBPcapBufferWritePacket` with no buffer and `dataLength`
0, preceded at Complete by the Unknown record of a pending entry for the same
correlation identity when there is one. If the pipe handle is in the endpoint
table the record has transfer kind IRP-info and the resolved device address and
endpoint address; if it is not, transfer kind Unknown, endpoint address 0xFF and
the device address of the device context. Without a pending entry, in
particular at Submit, it is the only record. -/
theorem C23_pipe_request_record (P : Platform) (pIrp : Nat) (pUrb : URB) (post : Bool)
    (pDeviceData : USBPCAP_DEVICE_DATA)
    (hF : pUrb.UrbHeader.Function = URB_FUNCTION_SYNC_RESET_PIPE_AND_CLEAR_STALL ∨
      pUrb.UrbHeader.Function = URB_FUNCTION_SYNC_RESET_PIPE ∨
      pUrb.UrbHeader.Function = URB_FUNCTION_SYNC_CLEAR_STALL ∨
      pUrb.UrbHeader.Function = URB_FUNCTION_ABORT_PIPE ∨
      pUrb.UrbHeader.Function = URB_FUNCTION_CLOSE_STATIC_STREAMS)
    (hfiltered :
      USBPcapIsDeviceFiltered pDeviceData.pRootData.filter pDeviceData.deviceAddress = true) :
    (∀ info, USBPcapRetrieveEndpointInfo pDeviceData pUrb.UrbPipeRequest.PipeHandle = some info →
      USBPcapAnalyzeURB P pIrp pUrb post pDeviceData =
        some ((USBPcapAnalyzeURB.obtained pIrp post pDeviceData).2,
          USBPcapAnalyzeURB.logUnknownURB pIrp
              (USBPcapAnalyzeURB.obtained pIrp post pDeviceData).1 ++
            [SinkCall.USBPcapBufferWritePacket
              (CAPTURE_HEADER.packet
                { headerLen := sizeof_USBPCAP_BUFFER_PACKET_HEADER
                  irpId := pIrp
                  status := pUrb.UrbHeader.Status
                  function := pUrb.UrbHeader.Function
                  info := if post = true then USBPCAP_INFO_PDO_TO_FDO else 0
                  bus := pDeviceData.pRootData.busId
                  device := info.deviceAddress
                  endpoint := info.endpointAddress
                  transfer := USBPCAP_TRANSFER.IRP_INFO
                  dataLength := 0 })
              none])) ∧
    (USBPcapRetrieveEndpointInfo pDeviceData pUrb.UrbPipeRequest.PipeHandle = none →
      USBPcapAnalyzeURB P pIrp pUrb post pDeviceData =
        some ((USBPcapAnalyzeURB.obtained pIrp post pDeviceData).2,
          USBPcapAnalyzeURB.logUnknownURB pIrp
              (USBPcapAnalyzeURB.obtained pIrp post pDeviceData).1 ++
            [SinkCall.USBPcapBufferWritePacket
              (CAPTURE_HEADER.packet
                { headerLen := sizeof_USBPCAP_BUFFER_PACKET_HEADER
                  irpId := pIrp
                  status := pUrb.UrbHeader.Status
                  function := pUrb.UrbHeader.Function
                  info := if post = true then USBPCAP_INFO_PDO_TO_FDO else 0
                  bus := pDeviceData.pRootData.busId
                  device := pDeviceData.deviceAddress
                  endpoint := 0xFF
                  transfer := USBPCAP_TRANSFER.UNKNOWN
                  dataLength := 0 })
              none])) ∧
    ((USBPcapAnalyzeURB.obtained pIrp post pDeviceData).1 = none →
      (USBPcapAnalyzeURB P pIrp pUrb post pDeviceData).map (fun r => r.2.length) = some 1) ∧
    (USBPcapAnalyzeURB.obtained pIrp false pDeviceData).1 = none := by
  have h0 : pUrb.UrbHeader.Function ≠ URB_FUNCTION_SELECT_CONFIGURATION := by
    rcases hF with h | h | h | h | h <;> rw [h] <;> decide
  have h1 : pUrb.UrbHeader.Function ≠ URB_FUNCTION_SELECT_INTERFACE := by
    rcases hF with h | h | h | h | h <;> rw [h] <;> decide
  have hcall := USBPcapAnalyzeURB_classified P pIrp pUrb post pDeviceData
    (fun d' => USBPcapAnalyzeURB.pipeRequest pIrp pUrb.UrbHeader pUrb.UrbPipeRequest post d')
    h0 h1 (fun d' => dispatch_pipeRequest P pIrp pUrb post d' hF) hfiltered
  beta_reduce at hcall
  have hbus := obtained_pRootData pIrp post pDeviceData
  have hdev := obtained_deviceAddress pIrp post pDeviceData
  refine ⟨?_, ?_, ?_, ?_⟩
  · intro info hinfo
    rw [hcall, pipeRequest_found pIrp pUrb.UrbHeader pUrb.UrbPipeRequest post _ info
      (by rw [obtained_retrieve]; exact hinfo), hbus]
  · intro hnone
    rw [hcall, pipeRequest_not_found pIrp pUrb.UrbHeader pUrb.UrbPipeRequest post _
      (by rw [obtained_retrieve]; exact hnone), hbus, hdev]
  · intro hpending
    rw [hcall, hpending]
    cases hr : USBPcapRetrieveEndpointInfo (USBPcapAnalyzeURB.obtained pIrp post pDeviceData).2
        pUrb.UrbPipeRequest.PipeHandle with
    | none => rw [pipeRequest_not_found _ _ _ _ _ hr]; rfl
    | some info => rw [pipeRequest_found _ _ _ _ _ info hr]; rfl
  · rw [obtained_false]

/-- C23 (amended) instantiated at AbortPipe on a registered pipe, in either
phase on the device that learned pipe 0x1000 (endpoint 0x81): one IRP-info
record with endpoint address 0x81. -/
theorem C23_pipe_request_record_witness :
    (abortPipeUrb.UrbHeader.Function = URB_FUNCTION_SYNC_RESET_PIPE_AND_CLEAR_STALL ∨
      abortPipeUrb.UrbHeader.Function = URB_FUNCTION_SYNC_RESET_PIPE ∨
      abortPipeUrb.UrbHeader.Function = URB_FUNCTION_SYNC_CLEAR_STALL ∨
      abortPipeUrb.UrbHeader.Function = URB_FUNCTION_ABORT_PIPE ∨
      abortPipeUrb.UrbHeader.Function = URB_FUNCTION_CLOSE_STATIC_STREAMS) ∧
    USBPcapIsDeviceFiltered learnedDevice.pRootData.filter learnedDevice.deviceAddress = true ∧
    USBPcapRetrieveEndpointInfo learnedDevice abortPipeUrb.UrbPipeRequest.PipeHandle =
      some { handle := 0x1000, type := USBD_PIPE_TYPE.UsbdPipeTypeBulk
             endpointAddress := 0x81, deviceAddress := 2 } ∧
    USBPcapAnalyzeURB x86Platform 9 abortPipeUrb true learnedDevice =
      some (learnedDevice,
        [SinkCall.USBPcapBufferWritePacket
          (CAPTURE_HEADER.packet
            { headerLen := 27, irpId := 9, status := 0
              function := URB_FUNCTION_ABORT_PIPE, info := 1, bus := 1, device := 2
              endpoint := 0x81, transfer := USBPCAP_TRANSFER.IRP_INFO, dataLength := 0 })
          none]) :=
  ⟨by decide, by decide, by decide,
   (C23_pipe_request_record x86Platform 9 abortPipeUrb true learnedDevice (by decide)
      (by decide)).1
     { handle := 0x1000, type := USBD_PIPE_TYPE.UsbdPipeTypeBulk
       endpointAddress := 0x81, deviceAddress := 2 } (by decide)⟩

/-! ### C24: GetCurrentFrameNumber -/

/-- C24. For a GetCurrentFrameNumber request on a device in the filter's
active set, `USBPcapAnalyzeURB` emits exactly one record of transfer kind
IRP-info with endpoint 0x80 (at Complete the Unknown record of a pending entry
for the correlation identity, if there is one, comes before it). At Submit the
record has `dataLength` 0 and no byte of payload; at Complete its `dataLength`
is 4 and its payload is the four bytes of the 32-bit `FrameNumber` of the
request, and the observation-direction bit is set. -/
theorem C24_get_current_frame_number (P : Platform) (pIrp : Nat) (pUrb : URB)
    (pDeviceData : USBPCAP_DEVICE_DATA)
    (hF : pUrb.UrbHeader.Function = URB_FUNCTION_GET_CURRENT_FRAME_NUMBER)
    (hULONG : pUrb.UrbGetCurrentFrameNumber.FrameNumber < 2 ^ 32)
    (hfiltered :
      USBPcapIsDeviceFiltered pDeviceData.pRootData.filter pDeviceData.deviceAddress = true) :
    USBPcapAnalyzeURB P pIrp pUrb false pDeviceData =
      some (pDeviceData,
        [SinkCall.USBPcapBufferWritePacket
          (CAPTURE_HEADER.packet
            { headerLen := sizeof_USBPCAP_BUFFER_PACKET_HEADER
              irpId := pIrp
              status := pUrb.UrbHeader.Status
              function := pUrb.UrbHeader.Function
              info := 0
              bus := pDeviceData.pRootData.busId
              device := pDeviceData.deviceAddress
              endpoint := 0x80
              transfer := USBPCAP_TRANSFER.IRP_INFO
              dataLength := 0 })
          (some P.frameNumUninitialized)]) ∧
    (USBPcapAnalyzeURB P pIrp pUrb false pDeviceData).map
        (fun r => r.2.map (fun c => payloadBytes c.payload)) = some [[]] ∧
    USBPcapAnalyzeURB P pIrp pUrb true pDeviceData =
      some ((USBPcapObtainURBIRPInfo pDeviceData pIrp).2,
        USBPcapAnalyzeURB.logUnknownURB pIrp (USBPcapObtainURBIRPInfo pDeviceData pIrp).1 ++
        [SinkCall.USBPcapBufferWritePacket
          (CAPTURE_HEADER.packet
            { headerLen := sizeof_USBPCAP_BUFFER_PACKET_HEADER
              irpId := pIrp
              status := pUrb.UrbHeader.Status
              function := pUrb.UrbHeader.Function
              info := USBPCAP_INFO_PDO_TO_FDO
              bus := pDeviceData.pRootData.busId
              device := pDeviceData.deviceAddress
              endpoint := 0x80
              transfer := USBPCAP_TRANSFER.IRP_INFO
              dataLength := 4 })
          (some (bytesOfUINT32 pUrb.UrbGetCurrentFrameNumber.FrameNumber))]) ∧
    (∀ post, (USBPcapAnalyzeURB P pIrp pUrb post pDeviceData).map
        (fun r => (r.2.filter (fun c =>
          decide (c.header.base.transfer = USBPCAP_TRANSFER.IRP_INFO ∧
            c.header.base.endpoint = 0x80))).length) = some 1) ∧
    payloadBytes
        (SinkCall.USBPcapBufferWritePacket
          (CAPTURE_HEADER.packet
            { headerLen := sizeof_USBPCAP_BUFFER_PACKET_HEADER
              irpId := pIrp
              status := pUrb.UrbHeader.Status
              function := pUrb.UrbHeader.Function
              info := USBPCAP_INFO_PDO_TO_FDO
              bus := pDeviceData.pRootData.busId
              device := pDeviceData.deviceAddress
              endpoint := 0x80
              transfer := USBPCAP_TRANSFER.IRP_INFO
              dataLength := 4 })
          (some (bytesOfUINT32 pUrb.UrbGetCurrentFrameNumber.FrameNumber))).payload =
      bytesOfUINT32 pUrb.UrbGetCurrentFrameNumber.FrameNumber := by
  have h0 : pUrb.UrbHeader.Function ≠ URB_FUNCTION_SELECT_CONFIGURATION := by
    rw [hF]; decide
  have h1 : pUrb.UrbHeader.Function ≠ URB_FUNCTION_SELECT_INTERFACE := by
    rw [hF]; decide
  have hcall := fun post => USBPcapAnalyzeURB_classified P pIrp pUrb post pDeviceData
    (fun d' => USBPcapAnalyzeURB.getCurrentFrameNumber P pIrp pUrb.UrbHeader
      pUrb.UrbGetCurrentFrameNumber post d')
    h0 h1 (fun d' => dispatch_getCurrentFrameNumber P pIrp pUrb post d' hF) hfiltered
  have hmod : pUrb.UrbGetCurrentFrameNumber.FrameNumber % 2 ^ 32 =
      pUrb.UrbGetCurrentFrameNumber.FrameNumber := Nat.mod_eq_of_lt hULONG
  have hsubmit := hcall false
  have hcomplete := hcall true
  rw [obtained_false] at hsubmit
  rw [obtained_true] at hcomplete
  simp only [USBPcapAnalyzeURB.getCurrentFrameNumber, USBPcapAnalyzeURB.logUnknownURB,
    List.nil_append, Bool.false_eq_true, if_false, if_true, hmod] at hsubmit hcomplete
  refine ⟨hsubmit, ?_, ?_, ?_, ?_⟩
  · rw [hsubmit]; rfl
  · rw [hcomplete]; rfl
  · intro post
    cases post with
    | false => rw [hsubmit]; rfl
    | true =>
      rw [hcomplete]
      cases (USBPcapObtainURBIRPInfo pDeviceData pIrp).1 <;> rfl
  · simp [SinkCall.payload, payloadBytes, CAPTURE_HEADER.base, bytesOfUINT32]

/-- C24 instantiated at a request with `FrameNumber` 0x12345678 completing on
the filtered device: one record with `dataLength` 4 carrying the bytes 0x78,
0x56, 0x34, 0x12. -/
theorem C24_get_current_frame_number_witness :
    getCurrentFrameNumberUrb.UrbHeader.Function = URB_FUNCTION_GET_CURRENT_FRAME_NUMBER ∧
    getCurrentFrameNumberUrb.UrbGetCurrentFrameNumber.FrameNumber < 2 ^ 32 ∧
    USBPcapIsDeviceFiltered filteredDevice.pRootData.filter filteredDevice.deviceAddress =
      true ∧
    USBPcapAnalyzeURB x86Platform 9 getCurrentFrameNumberUrb true filteredDevice =
      some (filteredDevice,
        [SinkCall.USBPcapBufferWritePacket
          (CAPTURE_HEADER.packet
            { headerLen := 27, irpId := 9, status := 0
              function := URB_FUNCTION_GET_CURRENT_FRAME_NUMBER, info := 1, bus := 1
              device := 2, endpoint := 0x80, transfer := USBPCAP_TRANSFER.IRP_INFO
              dataLength := 4 })
          (some [0x78, 0x56, 0x34, 0x12])]) :=
  ⟨by decide, by decide, by decide,
   (C24_get_current_frame_number x86Platform 9 getCurrentFrameNumberUrb filteredDevice
      (by decide) (by decide) (by decide)).2.2.1⟩


/-! ### SelectConfiguration and SelectInterface as control transfers -/

/-- The two records of an OUT control transfer on the default pipe (null pipe
handle) with no buffer: the Setup-stage record carries the 8 setup bytes, the
Complete-stage record carries nothing. -/
theorem USBPcapAnalyzeControlTransfer_default_out (SetupPacket : List Nat)
    (header : URB_HEADER) (d : USBPCAP_DEVICE_DATA) (pIrp : Nat) :
    USBPcapAnalyzeControlTransfer
        { PipeHandle := 0, TransferFlags := USBD_TRANSFER_DIRECTION_OUT
          TransferBufferLength := 0, TransferBuffer := none, TransferBufferMDL := none
          SetupPacket := SetupPacket } header d pIrp false =
      [SinkCall.USBPcapBufferWritePayload
        (CAPTURE_HEADER.control
          { header :=
              { headerLen := sizeof_USBPCAP_BUFFER_CONTROL_HEADER
                irpId := pIrp
                status := header.Status
                function := header.Function
                info := 0
                bus := d.pRootData.busId
                device := d.deviceAddress
                endpoint := 0x00
                transfer := USBPCAP_TRANSFER.CONTROL
                dataLength := 8 }
            stage := USBPCAP_CONTROL_STAGE.SETUP })
        [ { size := 8, buffer := some SetupPacket },
          { size := 0, buffer := none },
          { size := 0, buffer := none } ]] ∧
    USBPcapAnalyzeControlTransfer
        { PipeHandle := 0, TransferFlags := USBD_TRANSFER_DIRECTION_OUT
          TransferBufferLength := 0, TransferBuffer := none, TransferBufferMDL := none
          SetupPacket := SetupPacket } header d pIrp true =
      [SinkCall.USBPcapBufferWritePayload
        (CAPTURE_HEADER.control
          { header :=
              { headerLen := sizeof_USBPCAP_BUFFER_CONTROL_HEADER
                irpId := pIrp
                status := header.Status
                function := header.Function
                info := USBPCAP_INFO_PDO_TO_FDO
                bus := d.pRootData.busId
                device := d.deviceAddress
                endpoint := 0x00
                transfer := USBPCAP_TRANSFER.CONTROL
                dataLength := 0 }
            stage := USBPCAP_CONTROL_STAGE.COMPLETE })
        [ { size := 0, buffer := none },
          { size := 0, buffer := none } ]] := by
  constructor
  · rw [USBPcapAnalyzeControlTransfer_submit]
    simp [USBPcapAnalyzeControlTransfer_packetHeader, USBPcapAnalyzeControlTransfer_endpoint,
      USBD_TRANSFER_DIRECTION_OUT, USBD_TRANSFER_DIRECTION_IN, USBPcapURBGetBufferPointer]
  · rw [USBPcapAnalyzeControlTransfer_complete]
    simp [USBPcapAnalyzeControlTransfer_packetHeader, USBPcapAnalyzeControlTransfer_endpoint,
      USBD_TRANSFER_DIRECTION_OUT, USBD_TRANSFER_DIRECTION_IN, USBPCAP_INFO_PDO_TO_FDO]

theorem dispatch_selectConfiguration (P : Platform) (pIrp : Nat) (pUrb : URB) (post : Bool)
    (d : USBPCAP_DEVICE_DATA)
    (hF : pUrb.UrbHeader.Function = URB_FUNCTION_SELECT_CONFIGURATION) :
    USBPcapAnalyzeURB.dispatch P pIrp pUrb post d =
      (d, USBPcapAnalyzeControlTransfer
            (USBPcapAnalyzeURB.wrapSelectConfiguration pUrb.UrbSelectConfiguration)
            pUrb.UrbHeader d pIrp post) := by
  simp [USBPcapAnalyzeURB.dispatch, hF]

theorem dispatch_selectInterface (P : Platform) (pIrp : Nat) (pUrb : URB) (post : Bool)
    (d : USBPCAP_DEVICE_DATA)
    (hF : pUrb.UrbHeader.Function = URB_FUNCTION_SELECT_INTERFACE) :
    USBPcapAnalyzeURB.dispatch P pIrp pUrb post d =
      (d,
       match d.descriptor with
       | none => []
       | some descriptor =>
         match P.USBD_ParseConfigurationDescriptorEx descriptor
             (pUrb.UrbSelectInterface.Interface 0).InterfaceNumber
             (pUrb.UrbSelectInterface.Interface 0).AlternateSetting with
         | none => []
         | some intDescriptor =>
           USBPcapAnalyzeControlTransfer (USBPcapAnalyzeURB.wrapSelectInterface intDescriptor)
             pUrb.UrbHeader d pIrp post) := by
  simp only [USBPcapAnalyzeURB.dispatch, hF, URB_FUNCTION_SELECT_CONFIGURATION,
    URB_FUNCTION_SELECT_INTERFACE]
  simp only [Nat.reduceEqDiff, if_false, if_true]
  cases d.descriptor with
  | none => rfl
  | some descriptor =>
    simp only
    cases P.USBD_ParseConfigurationDescriptorEx descriptor
        (pUrb.UrbSelectInterface.Interface 0).InterfaceNumber
        (pUrb.UrbSelectInterface.Interface 0).AlternateSetting <;> rfl

/-- The first `switch` returns for a SelectConfiguration whenever the
allocation of the descriptor copy succeeds. -/
theorem alwaysAnalyzed_selectConfiguration (P : Platform) (pUrb : URB) (post : Bool)
    (d : USBPCAP_DEVICE_DATA)
    (halloc : ∀ cd, pUrb.UrbSelectConfiguration.ConfigurationDescriptor = some cd →
      P.ExAllocatePoolWithTag cd.wTotalLength PoolTag.DESC = true) :
    ∃ dA, USBPcapAnalyzeURB.alwaysAnalyzed P pUrb post d = some dA := by
  unfold USBPcapAnalyzeURB.alwaysAnalyzed
  split
  · split
    · exact ⟨_, rfl⟩
    · dsimp only
      cases hcd : pUrb.UrbSelectConfiguration.ConfigurationDescriptor with
      | none => exact ⟨_, rfl⟩
      | some cd =>
        simp only [halloc cd hcd, if_true]
        exact ⟨_, rfl⟩
  · split
    · split
      · exact ⟨_, rfl⟩
      · split <;> exact ⟨_, rfl⟩
    · exact ⟨_, rfl⟩

/-- The first `switch` leaves the cached descriptor as it is for every
function but SelectConfiguration, and always returns for them. -/
theorem alwaysAnalyzed_descriptor (P : Platform) (pUrb : URB) (post : Bool)
    (d : USBPCAP_DEVICE_DATA)
    (hF : pUrb.UrbHeader.Function ≠ URB_FUNCTION_SELECT_CONFIGURATION) :
    ∃ dA, USBPcapAnalyzeURB.alwaysAnalyzed P pUrb post d = some dA ∧
      dA.descriptor = d.descriptor := by
  unfold USBPcapAnalyzeURB.alwaysAnalyzed
  rw [if_neg hF]
  split
  · split
    · exact ⟨_, rfl, rfl⟩
    · split
      · refine ⟨_, rfl, ?_⟩
        unfold USBPcapParseInterfaceInformation
        exact (parseLoop_frame P _ _ _ _ d).2.2.2
      · exact ⟨_, rfl, rfl⟩
  · exact ⟨_, rfl, rfl⟩

/-! ### The records of SelectConfiguration -/

/-- For a SelectConfiguration request on a device in the filter's active
set, `USBPcapAnalyzeURB` hands `USBPcapAnalyzeControlTransfer` an OUT transfer
on the default pipe (null pipe handle) with zero buffer length and setup packet
`[0x00, 0x09, v, 0, 0, 0, 0, 0]`, `v` being `bConfigurationValue` of the
request's configuration descriptor, or 0 when it carries none. At Submit the
call emits one Setup-stage control record with `dataLength` 8, whose payload is
these 8 bytes, and endpoint 0x00. At Complete, when the copy of the descriptor
can be allocated, it emits one Complete-stage control record with `dataLength`
0 and endpoint 0x00 (after the Unknown record of a pending entry for the
correlation identity, if there is one). -/
theorem selectConfiguration_records (P : Platform) (pIrp : Nat) (pUrb : URB)
    (pDeviceData : USBPCAP_DEVICE_DATA)
    (hF : pUrb.UrbHeader.Function = URB_FUNCTION_SELECT_CONFIGURATION)
    (hfiltered :
      USBPcapIsDeviceFiltered pDeviceData.pRootData.filter pDeviceData.deviceAddress = true)
    (halloc : ∀ cd, pUrb.UrbSelectConfiguration.ConfigurationDescriptor = some cd →
      P.ExAllocatePoolWithTag cd.wTotalLength PoolTag.DESC = true) :
    USBPcapAnalyzeURB.wrapSelectConfiguration pUrb.UrbSelectConfiguration =
      { PipeHandle := 0, TransferFlags := USBD_TRANSFER_DIRECTION_OUT
        TransferBufferLength := 0, TransferBuffer := none, TransferBufferMDL := none
        SetupPacket :=
          [0x00, 0x09,
           (match pUrb.UrbSelectConfiguration.ConfigurationDescriptor with
            | none => 0
            | some ConfigurationDescriptor => ConfigurationDescriptor.bConfigurationValue),
           0, 0, 0, 0, 0] } ∧
    USBPcapAnalyzeURB P pIrp pUrb false pDeviceData =
      some (pDeviceData,
        [SinkCall.USBPcapBufferWritePayload
          (CAPTURE_HEADER.control
            { header :=
                { headerLen := sizeof_USBPCAP_BUFFER_CONTROL_HEADER
                  irpId := pIrp
                  status := pUrb.UrbHeader.Status
                  function := pUrb.UrbHeader.Function
                  info := 0
                  bus := pDeviceData.pRootData.busId
                  device := pDeviceData.deviceAddress
                  endpoint := 0x00
                  transfer := USBPCAP_TRANSFER.CONTROL
                  dataLength := 8 }
              stage := USBPCAP_CONTROL_STAGE.SETUP })
          [ { size := 8
              buffer :=
                some
                  [0x00, 0x09,
                   (match pUrb.UrbSelectConfiguration.ConfigurationDescriptor with
                    | none => 0
                    | some ConfigurationDescriptor =>
                      ConfigurationDescriptor.bConfigurationValue),
                   0, 0, 0, 0, 0] },
            { size := 0, buffer := none },
            { size := 0, buffer := none } ]]) ∧
    (USBPcapAnalyzeURB P pIrp pUrb true pDeviceData).map (fun r => r.2) =
      some
        (USBPcapAnalyzeURB.logUnknownURB pIrp (USBPcapObtainURBIRPInfo pDeviceData pIrp).1 ++
          [SinkCall.USBPcapBufferWritePayload
            (CAPTURE_HEADER.control
              { header :=
                  { headerLen := sizeof_USBPCAP_BUFFER_CONTROL_HEADER
                    irpId := pIrp
                    status := pUrb.UrbHeader.Status
                    function := pUrb.UrbHeader.Function
                    info := USBPCAP_INFO_PDO_TO_FDO
                    bus := pDeviceData.pRootData.busId
                    device := pDeviceData.deviceAddress
                    endpoint := 0x00
                    transfer := USBPCAP_TRANSFER.CONTROL
                    dataLength := 0 }
                stage := USBPCAP_CONTROL_STAGE.COMPLETE })
            [ { size := 0, buffer := none },
              { size := 0, buffer := none } ]]) := by
  have hf' : ¬ USBPcapIsDeviceFiltered pDeviceData.pRootData.filter
      pDeviceData.deviceAddress = false := by simp [hfiltered]
  refine ⟨rfl, ?_, ?_⟩
  · rw [USBPcapAnalyzeURB_eq, obtained_false]
    have hA : USBPcapAnalyzeURB.alwaysAnalyzed P pUrb false pDeviceData = some pDeviceData := by
      simp [USBPcapAnalyzeURB.alwaysAnalyzed, hF]
    rw [hA]
    simp only [Option.map_some', if_neg hf', dispatch_selectConfiguration P pIrp pUrb false _ hF,
      USBPcapAnalyzeURB.logUnknownURB, List.nil_append]
    unfold USBPcapAnalyzeURB.wrapSelectConfiguration
    rw [(USBPcapAnalyzeControlTransfer_default_out _ pUrb.UrbHeader pDeviceData pIrp).1]
  · rw [USBPcapAnalyzeURB_eq, obtained_true]
    obtain ⟨dA, hA⟩ := alwaysAnalyzed_selectConfiguration P pUrb true
      (USBPcapObtainURBIRPInfo pDeviceData pIrp).2 halloc
    obtain ⟨h1, h2, -⟩ := alwaysAnalyzed_frame P pUrb true _ dA hA
    rw [hA]
    simp only [Option.map_some', if_neg hf', dispatch_selectConfiguration P pIrp pUrb true _ hF]
    unfold USBPcapAnalyzeURB.wrapSelectConfiguration
    rw [(USBPcapAnalyzeControlTransfer_default_out _ pUrb.UrbHeader dA pIrp).2, h1, h2]
    rfl

/-- The records of a SelectConfiguration request whose descriptor has
`bConfigurationValue` 1, on the filtered device: the Setup-stage record at
Submit carries the setup bytes 00 09 01 00 00 00 00 00. -/
theorem selectConfiguration_records_example :
    selectConfigurationUrb.UrbHeader.Function = URB_FUNCTION_SELECT_CONFIGURATION ∧
    USBPcapIsDeviceFiltered filteredDevice.pRootData.filter filteredDevice.deviceAddress =
      true ∧
    (∀ cd, selectConfigurationUrb.UrbSelectConfiguration.ConfigurationDescriptor = some cd →
      x86Platform.ExAllocatePoolWithTag cd.wTotalLength PoolTag.DESC = true) ∧
    USBPcapAnalyzeURB x86Platform 7 selectConfigurationUrb false filteredDevice =
      some (filteredDevice,
        [SinkCall.USBPcapBufferWritePayload
          (CAPTURE_HEADER.control
            { header :=
                { headerLen := 28, irpId := 7, status := 0
                  function := URB_FUNCTION_SELECT_CONFIGURATION, info := 0, bus := 1
                  device := 2, endpoint := 0x00, transfer := USBPCAP_TRANSFER.CONTROL
                  dataLength := 8 }
              stage := USBPCAP_CONTROL_STAGE.SETUP })
          [ { size := 8, buffer := some [0x00, 0x09, 1, 0, 0, 0, 0, 0] },
            { size := 0, buffer := none },
            { size := 0, buffer := none } ]]) :=
  ⟨by decide, by decide, fun _ _ => rfl,
   (selectConfiguration_records x86Platform 7 selectConfigurationUrb filteredDevice
      (by decide) (by decide) (fun _ _ => rfl)).2.1⟩


/-! ### C26: SelectInterface -/

/-- A SelectInterface call on a device in the filter's active set: the
optional record of the pending entry, then the sink calls of the case, which
reads the descriptor cached in the device context. -/
theorem USBPcapAnalyzeURB_selectInterface (P : Platform) (pIrp : Nat) (pUrb : URB)
    (post : Bool) (d : USBPCAP_DEVICE_DATA)
    (hF : pUrb.UrbHeader.Function = URB_FUNCTION_SELECT_INTERFACE)
    (hf : USBPcapIsDeviceFiltered d.pRootData.filter d.deviceAddress = true) :
    ∃ dA, dA.descriptor = d.descriptor ∧ dA.deviceAddress = d.deviceAddress ∧
      dA.pRootData = d.pRootData ∧
      USBPcapAnalyzeURB P pIrp pUrb post d =
        some (dA,
          USBPcapAnalyzeURB.logUnknownURB pIrp (USBPcapAnalyzeURB.obtained pIrp post d).1 ++
            (USBPcapAnalyzeURB.dispatch P pIrp pUrb post dA).2) := by
  have h0 : pUrb.UrbHeader.Function ≠ URB_FUNCTION_SELECT_CONFIGURATION := by
    rw [hF]; decide
  have hf' : ¬ USBPcapIsDeviceFiltered d.pRootData.filter d.deviceAddress = false := by
    simp [hf]
  obtain ⟨dA, hA, hdesc⟩ := alwaysAnalyzed_descriptor P pUrb post
    (USBPcapAnalyzeURB.obtained pIrp post d).2 h0
  obtain ⟨h1, h2, -⟩ := alwaysAnalyzed_frame P pUrb post _ dA hA
  refine ⟨dA, ?_, ?_, ?_, ?_⟩
  · rw [hdesc, obtained_descriptor]
  · rw [h1, obtained_deviceAddress]
  · rw [h2, obtained_pRootData]
  · rw [USBPcapAnalyzeURB_eq, hA]
    simp only [Option.map_some', if_neg hf', dispatch_selectInterface P pIrp pUrb post _ hF]

/-- C26. For a SelectInterface request on a device in the filter's active set:
when the device context holds no cached configuration descriptor, or
`USBD_ParseConfigurationDescriptorEx` finds no interface descriptor for the
interface number and alternate setting of the request, the case emits nothing
(the only sink call is the Unknown record of a pending entry for the
correlation identity, if there is one at Complete). Otherwise the call emits
one control record for the OUT default-pipe transfer with zero buffer length
and setup packet `[0x00, 0x0B, bAlternateSetting, 0, bInterfaceNumber, 0, 0,
0]` of the matched interface descriptor: the Setup-stage record with these 8
bytes at Submit, the Complete-stage record at Complete. -/
theorem C26_select_interface_records (P : Platform) (pIrp : Nat) (pUrb : URB)
    (pDeviceData : USBPCAP_DEVICE_DATA)
    (hF : pUrb.UrbHeader.Function = URB_FUNCTION_SELECT_INTERFACE)
    (hfiltered :
      USBPcapIsDeviceFiltered pDeviceData.pRootData.filter pDeviceData.deviceAddress = true) :
    (pDeviceData.descriptor = none →
      ∀ post, (USBPcapAnalyzeURB P pIrp pUrb post pDeviceData).map (fun r => r.2) =
        some (USBPcapAnalyzeURB.logUnknownURB pIrp
          (USBPcapAnalyzeURB.obtained pIrp post pDeviceData).1)) ∧
    (∀ descriptor, pDeviceData.descriptor = some descriptor →
      P.USBD_ParseConfigurationDescriptorEx descriptor
          (pUrb.UrbSelectInterface.Interface 0).InterfaceNumber
          (pUrb.UrbSelectInterface.Interface 0).AlternateSetting = none →
      ∀ post, (USBPcapAnalyzeURB P pIrp pUrb post pDeviceData).map (fun r => r.2) =
        some (USBPcapAnalyzeURB.logUnknownURB pIrp
          (USBPcapAnalyzeURB.obtained pIrp post pDeviceData).1)) ∧
    (∀ descriptor intDescriptor, pDeviceData.descriptor = some descriptor →
      P.USBD_ParseConfigurationDescriptorEx descriptor
          (pUrb.UrbSelectInterface.Interface 0).InterfaceNumber
          (pUrb.UrbSelectInterface.Interface 0).AlternateSetting = some intDescriptor →
      (USBPcapAnalyzeURB P pIrp pUrb false pDeviceData).map (fun r => r.2) =
        some
          [SinkCall.USBPcapBufferWritePayload
            (CAPTURE_HEADER.control
              { header :=
                  { headerLen := sizeof_USBPCAP_BUFFER_CONTROL_HEADER
                    irpId := pIrp
                    status := pUrb.UrbHeader.Status
                    function := pUrb.UrbHeader.Function
                    info := 0
                    bus := pDeviceData.pRootData.busId
                    device := pDeviceData.deviceAddress
                    endpoint := 0x00
                    transfer := USBPCAP_TRANSFER.CONTROL
                    dataLength := 8 }
                stage := USBPCAP_CONTROL_STAGE.SETUP })
            [ { size := 8
                buffer :=
                  some [0x00, 0x0B, intDescriptor.bAlternateSetting, 0,
                    intDescriptor.bInterfaceNumber, 0, 0, 0] },
              { size := 0, buffer := none },
              { size := 0, buffer := none } ]] ∧
      (USBPcapAnalyzeURB P pIrp pUrb true pDeviceData).map (fun r => r.2) =
        some
          (USBPcapAnalyzeURB.logUnknownURB pIrp (USBPcapObtainURBIRPInfo pDeviceData pIrp).1 ++
            [SinkCall.USBPcapBufferWritePayload
              (CAPTURE_HEADER.control
                { header :=
                    { headerLen := sizeof_USBPCAP_BUFFER_CONTROL_HEADER
                      irpId := pIrp
                      status := pUrb.UrbHeader.Status
                      function := pUrb.UrbHeader.Function
                      info := USBPCAP_INFO_PDO_TO_FDO
                      bus := pDeviceData.pRootData.busId
                      device := pDeviceData.deviceAddress
                      endpoint := 0x00
                      transfer := USBPCAP_TRANSFER.CONTROL
                      dataLength := 0 }
                  stage := USBPCAP_CONTROL_STAGE.COMPLETE })
              [ { size := 0, buffer := none },
                { size := 0, buffer := none } ]])) := by
  refine ⟨?_, ?_, ?_⟩
  · intro hdesc post
    obtain ⟨dA, hd, -, -, hcall⟩ :=
      USBPcapAnalyzeURB_selectInterface P pIrp pUrb post pDeviceData hF hfiltered
    rw [hcall, dispatch_selectInterface P pIrp pUrb post dA hF, hd, hdesc]
    simp
  · intro descriptor hdesc hparse post
    obtain ⟨dA, hd, -, -, hcall⟩ :=
      USBPcapAnalyzeURB_selectInterface P pIrp pUrb post pDeviceData hF hfiltered
    rw [hcall, dispatch_selectInterface P pIrp pUrb post dA hF, hd, hdesc]
    simp [hparse]
  · intro descriptor intDescriptor hdesc hparse
    constructor
    · obtain ⟨dA, hd, hdev, hroot, hcall⟩ :=
        USBPcapAnalyzeURB_selectInterface P pIrp pUrb false pDeviceData hF hfiltered
      rw [hcall, dispatch_selectInterface P pIrp pUrb false dA hF, hd, hdesc, obtained_false]
      simp only [hparse, USBPcapAnalyzeURB.logUnknownURB, List.nil_append, Option.map_some']
      unfold USBPcapAnalyzeURB.wrapSelectInterface
      rw [(USBPcapAnalyzeControlTransfer_default_out _ pUrb.UrbHeader dA pIrp).1, hdev, hroot]
    · obtain ⟨dA, hd, hdev, hroot, hcall⟩ :=
        USBPcapAnalyzeURB_selectInterface P pIrp pUrb true pDeviceData hF hfiltered
      rw [hcall, dispatch_selectInterface P pIrp pUrb true dA hF, hd, hdesc, obtained_true]
      simp only [hparse, Option.map_some']
      unfold USBPcapAnalyzeURB.wrapSelectInterface
      rw [(USBPcapAnalyzeControlTransfer_default_out _ pUrb.UrbHeader dA pIrp).2, hdev, hroot]

/-- C26 instantiated at a SelectInterface request for interface 0, alternate
setting 1: on the device with a cached descriptor the Submit call emits the
Setup-stage record with setup bytes 00 0B 01 00 00 00 00 00, and on the device
without a cached descriptor it emits nothing. -/
theorem C26_select_interface_records_witness :
    selectInterfaceUrb.UrbHeader.Function = URB_FUNCTION_SELECT_INTERFACE ∧
    USBPcapIsDeviceFiltered learnedDevice.pRootData.filter learnedDevice.deviceAddress = true ∧
    (USBPcapAnalyzeURB x86PlatformWithInterfaces 7 selectInterfaceUrb false learnedDevice).map
        (fun r => r.2) =
      some
        [SinkCall.USBPcapBufferWritePayload
          (CAPTURE_HEADER.control
            { header :=
                { headerLen := 28, irpId := 7, status := 0
                  function := URB_FUNCTION_SELECT_INTERFACE, info := 0, bus := 1
                  device := 2, endpoint := 0x00, transfer := USBPCAP_TRANSFER.CONTROL
                  dataLength := 8 }
              stage := USBPCAP_CONTROL_STAGE.SETUP })
          [ { size := 8, buffer := some [0x00, 0x0B, 1, 0, 0, 0, 0, 0] },
            { size := 0, buffer := none },
            { size := 0, buffer := none } ]] ∧
    filteredDevice.descriptor = none ∧
    (USBPcapAnalyzeURB x86PlatformWithInterfaces 7 selectInterfaceUrb false
        filteredDevice).map (fun r => r.2) = some [] :=
  ⟨by decide, by decide,
   ((C26_select_interface_records x86PlatformWithInterfaces 7 selectInterfaceUrb learnedDevice
      (by decide) (by decide)).2.2
      [ 9, 2, 25, 0, 1, 1, 0, 0x80, 50, 9, 4, 0, 0, 1, 0xFF, 0, 0, 0, 7, 5, 0x81, 2, 64, 0, 0 ]
      { bInterfaceNumber := 0, bAlternateSetting := 1 } rfl rfl).1,
   rfl,
   (C26_select_interface_records x86PlatformWithInterfaces 7 selectInterfaceUrb filteredDevice
      (by decide) (by decide)).1 rfl false⟩


/-! ### Two calls in succession -/

/-- Whether the first `switch` returns does not depend on the device context. -/
theorem alwaysAnalyzed_isSome_congr (P : Platform) (pUrb : URB) (post : Bool)
    (d d' : USBPCAP_DEVICE_DATA) :
    (USBPcapAnalyzeURB.alwaysAnalyzed P pUrb post d).isSome =
      (USBPcapAnalyzeURB.alwaysAnalyzed P pUrb post d').isSome := by
  unfold USBPcapAnalyzeURB.alwaysAnalyzed
  split
  · split
    · rfl
    · dsimp only
      cases pUrb.UrbSelectConfiguration.ConfigurationDescriptor with
      | none => rfl
      | some cd =>
        dsimp only
        split <;> rfl
  · split
    · split
      · rfl
      · split <;> rfl
    · rfl

/-- On the default pipe (null pipe handle) the control-transfer analysis reads
the root context and the device address of the device context and nothing
else of it. -/
theorem USBPcapAnalyzeControlTransfer_default_congr (transfer : URB_CONTROL_TRANSFER)
    (header : URB_HEADER) (d d' : USBPCAP_DEVICE_DATA) (pIrp : Nat) (post : Bool)
    (hpipe : transfer.PipeHandle = 0)
    (hroot : d'.pRootData = d.pRootData) (hdev : d'.deviceAddress = d.deviceAddress) :
    USBPcapAnalyzeControlTransfer transfer header d' pIrp post =
      USBPcapAnalyzeControlTransfer transfer header d pIrp post := by
  have hh : USBPcapAnalyzeControlTransfer_packetHeader transfer header d' pIrp post =
      USBPcapAnalyzeControlTransfer_packetHeader transfer header d pIrp post := by
    simp [USBPcapAnalyzeControlTransfer_packetHeader, USBPcapAnalyzeControlTransfer_endpoint,
      hpipe, hroot, hdev]
  unfold USBPcapAnalyzeControlTransfer
  rw [hh]

/-- The records of the two Select cases depend on the device context through
its root context, device address and cached descriptor only. -/
theorem dispatch_snd_select_congr (P : Platform) (pIrp : Nat) (pUrb : URB) (post : Bool)
    (d d' : USBPCAP_DEVICE_DATA)
    (hF : pUrb.UrbHeader.Function = URB_FUNCTION_SELECT_CONFIGURATION ∨
      pUrb.UrbHeader.Function = URB_FUNCTION_SELECT_INTERFACE)
    (hroot : d'.pRootData = d.pRootData) (hdev : d'.deviceAddress = d.deviceAddress)
    (hdesc : d'.descriptor = d.descriptor) :
    (USBPcapAnalyzeURB.dispatch P pIrp pUrb post d').2 =
      (USBPcapAnalyzeURB.dispatch P pIrp pUrb post d).2 := by
  rcases hF with hF | hF
  · rw [dispatch_selectConfiguration P pIrp pUrb post d' hF,
      dispatch_selectConfiguration P pIrp pUrb post d hF]
    exact USBPcapAnalyzeControlTransfer_default_congr _ _ d d' pIrp post rfl hroot hdev
  · rw [dispatch_selectInterface P pIrp pUrb post d' hF,
      dispatch_selectInterface P pIrp pUrb post d hF, hdesc]
    dsimp only
    cases d.descriptor with
    | none => rfl
    | some descriptor =>
      dsimp only
      cases P.USBD_ParseConfigurationDescriptorEx descriptor
          (pUrb.UrbSelectInterface.Interface 0).InterfaceNumber
          (pUrb.UrbSelectInterface.Interface 0).AlternateSetting with
      | none => rfl
      | some intDescriptor =>
        exact USBPcapAnalyzeControlTransfer_default_congr _ _ d d' pIrp post rfl hroot hdev

/-- At Complete the second `switch` leaves the device context as it is. -/
theorem dispatch_fst_complete (P : Platform) (pIrp : Nat) (pUrb : URB)
    (d : USBPCAP_DEVICE_DATA) :
    (USBPcapAnalyzeURB.dispatch P pIrp pUrb true d).1 = d := by
  by_cases h : pUrb.UrbHeader.Function ∈ USBPcapAnalyzeURB.caseLabels
  · exact dispatch_fst_of_mem P pIrp pUrb true d h
  · rw [dispatch_of_not_mem P pIrp pUrb true d h, unknownFunction_complete]

theorem dispatch_fst_root (P : Platform) (pIrp : Nat) (pUrb : URB) (post : Bool)
    (d : USBPCAP_DEVICE_DATA) :
    (USBPcapAnalyzeURB.dispatch P pIrp pUrb post d).1.pRootData = d.pRootData ∧
    (USBPcapAnalyzeURB.dispatch P pIrp pUrb post d).1.deviceAddress = d.deviceAddress := by
  by_cases h : pUrb.UrbHeader.Function ∈ USBPcapAnalyzeURB.caseLabels
  · rw [dispatch_fst_of_mem P pIrp pUrb post d h]
    exact ⟨rfl, rfl⟩
  · rw [dispatch_of_not_mem P pIrp pUrb post d h]
    exact ⟨(unknownFunction_fst_frame P pIrp _ post d).2.2.2,
      (unknownFunction_fst_frame P pIrp _ post d).2.2.1⟩

/-- A device context whose pending table is the one a lookup left has no
entry for the correlation identity of that lookup. -/
theorem USBPcapObtainURBIRPInfo_after (d d' : USBPCAP_DEVICE_DATA) (irp : Nat)
    (h : d'.URBIrpTable = (USBPcapObtainURBIRPInfo d irp).2.URBIrpTable) :
    (USBPcapObtainURBIRPInfo d' irp).1 = none := by
  simp only [USBPcapObtainURBIRPInfo] at h
  simp only [USBPcapObtainURBIRPInfo, h, List.find?_eq_none, List.mem_filter]
  intro e he
  simpa using he.2


/-- When a call returns, the same call repeated on the device context it left
returns too, and the sink calls of the first call are those of the second
call preceded by the record of the pending entry that the first call took. -/
theorem USBPcapAnalyzeURB_twice (P : Platform) (pIrp : Nat) (pUrb : URB) (post : Bool)
    (d : USBPCAP_DEVICE_DATA) (r1 : USBPCAP_DEVICE_DATA × List SinkCall)
    (hfirst : USBPcapAnalyzeURB P pIrp pUrb post d = some r1) :
    ∃ r2, USBPcapAnalyzeURB P pIrp pUrb post r1.1 = some r2 ∧
      r1.2 =
        (if USBPcapIsDeviceFiltered d.pRootData.filter d.deviceAddress = false then []
         else USBPcapAnalyzeURB.logUnknownURB pIrp (USBPcapAnalyzeURB.obtained pIrp post d).1) ++
          r2.2 := by
  rw [USBPcapAnalyzeURB_eq] at hfirst
  cases hA : USBPcapAnalyzeURB.alwaysAnalyzed P pUrb post
      (USBPcapAnalyzeURB.obtained pIrp post d).2 with
  | none => rw [hA] at hfirst; cases hfirst
  | some dA =>
    rw [hA] at hfirst
    simp only [Option.map_some', Option.some.injEq] at hfirst
    obtain ⟨hdev, hroot, htable⟩ := alwaysAnalyzed_frame P pUrb post _ dA hA
    rw [obtained_deviceAddress] at hdev
    rw [obtained_pRootData] at hroot
    -- the second call returns from the first `switch`
    have hsome : ∀ d', ∃ dA', USBPcapAnalyzeURB.alwaysAnalyzed P pUrb post d' = some dA' := by
      intro d'
      have h := alwaysAnalyzed_isSome_congr P pUrb post d' (USBPcapAnalyzeURB.obtained pIrp post d).2
      rw [hA] at h
      exact Option.isSome_iff_exists.mp h
    by_cases hf : USBPcapIsDeviceFiltered d.pRootData.filter d.deviceAddress = false
    · rw [if_pos hf] at hfirst
      subst hfirst
      obtain ⟨dA', hA'⟩ := hsome (USBPcapAnalyzeURB.obtained pIrp post dA).2
      refine ⟨(dA', []), ?_, ?_⟩
      · rw [USBPcapAnalyzeURB_eq, hA']
        simp only [Option.map_some', hroot, hdev, if_pos hf]
      · simp [hf]
    · rw [if_neg hf] at hfirst
      subst hfirst
      simp only [if_neg hf]
      have hroot1 := (dispatch_fst_root P pIrp pUrb post dA).1
      have hdev1 := (dispatch_fst_root P pIrp pUrb post dA).2
      -- the second lookup finds nothing
      have hnone : (USBPcapAnalyzeURB.obtained pIrp post
          (USBPcapAnalyzeURB.dispatch P pIrp pUrb post dA).1).1 = none := by
        cases post with
        | false => rw [obtained_false]
        | true =>
          rw [obtained_true, dispatch_fst_complete]
          apply USBPcapObtainURBIRPInfo_after d dA pIrp
          rw [htable, obtained_true]
      obtain ⟨dA', hA'⟩ := hsome (USBPcapAnalyzeURB.obtained pIrp post
        (USBPcapAnalyzeURB.dispatch P pIrp pUrb post dA).1).2
      obtain ⟨hdev', hroot', htable'⟩ := alwaysAnalyzed_frame P pUrb post _ dA' hA'
      rw [obtained_deviceAddress, hdev1] at hdev'
      rw [obtained_pRootData, hroot1] at hroot'
      refine ⟨((USBPcapAnalyzeURB.dispatch P pIrp pUrb post dA').1,
        (USBPcapAnalyzeURB.dispatch P pIrp pUrb post dA').2), ?_, ?_⟩
      · rw [USBPcapAnalyzeURB_eq, hA']
        simp only [Option.map_some', hroot1, hdev1, hroot, hdev, if_neg hf, hnone,
          USBPcapAnalyzeURB.logUnknownURB, List.nil_append]
      · dsimp only
        congr 1
        -- the records of the second `switch` are the same in both calls
        by_cases hcfg : pUrb.UrbHeader.Function = URB_FUNCTION_SELECT_CONFIGURATION
        · exact (dispatch_snd_select_congr P pIrp pUrb post dA dA' (Or.inl hcfg) hroot' hdev'
            (by
              -- SelectConfiguration stores the same descriptor copy in both calls
              have hmem : pUrb.UrbHeader.Function ∈ USBPcapAnalyzeURB.caseLabels := by
                rw [hcfg]; decide
              have hd1 := dispatch_fst_of_mem P pIrp pUrb post dA hmem
              rw [hd1] at hA' hnone
              unfold USBPcapAnalyzeURB.alwaysAnalyzed at hA hA'
              rw [if_pos hcfg] at hA hA'
              cases post with
              | false =>
                simp only [if_true, Option.some.injEq, obtained_false] at hA hA'
                rw [← hA']
              | true =>
                simp only [Bool.true_eq_false, if_false] at hA hA'
                cases hcd : pUrb.UrbSelectConfiguration.ConfigurationDescriptor with
                | none =>
                  simp only [hcd, Option.some.injEq] at hA hA'
                  rw [← hA, ← hA']
                | some cd =>
                  simp only [hcd] at hA hA'
                  split at hA
                  · rename_i halloc
                    simp only [halloc, if_true, Option.some.injEq] at hA hA'
                    rw [← hA, ← hA']
                  · cases hA)).symm
        · by_cases hint : pUrb.UrbHeader.Function = URB_FUNCTION_SELECT_INTERFACE
          · have hmem : pUrb.UrbHeader.Function ∈ USBPcapAnalyzeURB.caseLabels := by
              rw [hint]; decide
            have hd1 := dispatch_fst_of_mem P pIrp pUrb post dA hmem
            obtain ⟨dB, hB, hdescB⟩ := alwaysAnalyzed_descriptor P pUrb post
              (USBPcapAnalyzeURB.obtained pIrp post
                (USBPcapAnalyzeURB.dispatch P pIrp pUrb post dA).1).2 hcfg
            rw [hA'] at hB
            cases hB
            rw [obtained_descriptor, hd1] at hdescB
            exact (dispatch_snd_select_congr P pIrp pUrb post dA dA' (Or.inr hint) hroot' hdev'
              hdescB).symm
          · rw [alwaysAnalyzed_of_ne P pUrb post _ hcfg hint] at hA hA'
            have hdA' := (Option.some.inj hA').symm
            cases post with
            | true =>
              have hsame : dA' = dA := by
                rw [obtained_true] at hnone
                rw [hdA', obtained_true, USBPcapObtainURBIRPInfo_none _ _ hnone,
                  dispatch_fst_complete]
              rw [hsame]
            | false =>
              rw [obtained_false] at hdA'
              by_cases hmem : pUrb.UrbHeader.Function ∈ USBPcapAnalyzeURB.caseLabels
              · rw [hdA', dispatch_fst_of_mem P pIrp pUrb false dA hmem]
              · rw [dispatch_of_not_mem P pIrp pUrb false _ hmem,
                  dispatch_of_not_mem P pIrp pUrb false _ hmem, unknownFunction_submit,
                  unknownFunction_submit]


/-! ### The isochronous record in each path -/

theorem copyPackets_eq_map (l : List USBD_ISO_PACKET_DESCRIPTOR) :
    USBPcapAnalyzeURB.copyPackets l =
      l.map (fun p =>
        ({ offset := p.Offset, length := p.Length, status := p.Status } :
          USBPCAP_BUFFER_ISO_PACKET)) := by
  induction l with
  | nil => rfl
  | cons p rest ih => simp [USBPcapAnalyzeURB.copyPackets, ih]

/-- The compaction loop copies the length and status of every packet. -/
theorem compact_map_fst_length_status (transferBuffer : Option (List Nat))
    (l : List USBD_ISO_PACKET_DESCRIPTOR) (compactedOffset : Nat) :
    ((USBPcapAnalyzeURB.compact transferBuffer l compactedOffset).map Prod.fst).map
        (fun p => (p.length, p.status)) =
      l.map (fun p => (p.Length, p.Status)) := by
  induction l generalizing compactedOffset with
  | nil => simp [USBPcapAnalyzeURB.compact]
  | cons p rest ih => simp [USBPcapAnalyzeURB.compact, ih]

/-- The transfer direction bit is IN or OUT. -/
theorem direction_in_or_out (TransferFlags : Nat) :
    TransferFlags &&& USBD_TRANSFER_DIRECTION_IN = USBD_TRANSFER_DIRECTION_IN ∨
      TransferFlags &&& USBD_TRANSFER_DIRECTION_IN = USBD_TRANSFER_DIRECTION_OUT := by
  simp only [USBD_TRANSFER_DIRECTION_IN, USBD_TRANSFER_DIRECTION_OUT, Nat.and_one_is_mod]
  omega

/-- The isochronous case when no data is attached (zero buffer length, IN at
Submit, or OUT at Complete): the header with the packet entries copied, handed
to `USBPcapBufferWritePacket` with no buffer. -/
theorem isochTransfer_header_only (P : Platform) (pIrp : Nat) (header : URB_HEADER)
    (transfer : URB_ISOCH_TRANSFER) (post : Bool) (d : USBPCAP_DEVICE_DATA)
    (hpackets : transfer.NumberOfPackets ≤ 1024)
    (halloc : P.ExAllocatePoolWithTag
      (USBPcapAnalyzeURB.isochHeaderLen transfer.NumberOfPackets) PoolTag.HDR = true)
    (hpath : transfer.TransferBufferLength = 0 ∨
      (transfer.TransferFlags &&& USBD_TRANSFER_DIRECTION_IN = USBD_TRANSFER_DIRECTION_IN ∧
        post = false) ∨
      (transfer.TransferFlags &&& USBD_TRANSFER_DIRECTION_IN = USBD_TRANSFER_DIRECTION_OUT ∧
        post = true)) :
    USBPcapAnalyzeURB.isochTransfer P pIrp header transfer post d =
      [SinkCall.USBPcapBufferWritePacket
        (CAPTURE_HEADER.isoch
          { header := USBPcapAnalyzeURB.isochPacketHeader pIrp header transfer post d
            startFrame := transfer.StartFrame
            numberOfPackets := transfer.NumberOfPackets
            errorCount := transfer.ErrorCount
            packet :=
              (List.range transfer.NumberOfPackets).map (fun i =>
                { offset := (transfer.IsoPacket i).Offset
                  length := (transfer.IsoPacket i).Length
                  status := (transfer.IsoPacket i).Status }) })
        none] := by
  have hp : ¬ transfer.NumberOfPackets > 1024 := by omega
  unfold USBPcapAnalyzeURB.isochTransfer
  simp only [if_neg hp, halloc, Bool.true_eq_false, if_false, copyPackets_eq_map, List.map_map]
  have hne : ¬ (USBD_TRANSFER_DIRECTION_IN = USBD_TRANSFER_DIRECTION_OUT) := by decide
  have hne' : ¬ (USBD_TRANSFER_DIRECTION_OUT = USBD_TRANSFER_DIRECTION_IN) := by decide
  rcases hpath with h | ⟨hdir, hpost⟩ | ⟨hdir, hpost⟩
  · simp only [h, ne_eq, not_true_eq_false, if_false]
    rfl
  · subst hpost
    simp only [hdir, hne, Bool.false_eq_true, and_false, false_and, if_false, ite_self]
    rfl
  · subst hpost
    simp only [hdir, hne', Bool.true_eq_false, and_false, false_and, if_false, ite_self]
    rfl

/-- The isochronous case for OUT at Submit with a non-zero buffer length: the
header with `dataLength` set to `TransferBufferLength`, handed to
`USBPcapBufferWritePacket` with the transfer buffer. -/
theorem isochTransfer_out_submit (P : Platform) (pIrp : Nat) (header : URB_HEADER)
    (transfer : URB_ISOCH_TRANSFER) (d : USBPCAP_DEVICE_DATA)
    (hpackets : transfer.NumberOfPackets ≤ 1024)
    (halloc : P.ExAllocatePoolWithTag
      (USBPcapAnalyzeURB.isochHeaderLen transfer.NumberOfPackets) PoolTag.HDR = true)
    (hnonzero : transfer.TransferBufferLength ≠ 0)
    (hOUT : transfer.TransferFlags &&& USBD_TRANSFER_DIRECTION_IN =
      USBD_TRANSFER_DIRECTION_OUT) :
    USBPcapAnalyzeURB.isochTransfer P pIrp header transfer false d =
      [SinkCall.USBPcapBufferWritePacket
        (CAPTURE_HEADER.isoch
          { header :=
              { USBPcapAnalyzeURB.isochPacketHeader pIrp header transfer false d with
                dataLength := transfer.TransferBufferLength }
            startFrame := transfer.StartFrame
            numberOfPackets := transfer.NumberOfPackets
            errorCount := transfer.ErrorCount
            packet :=
              (List.range transfer.NumberOfPackets).map (fun i =>
                { offset := (transfer.IsoPacket i).Offset
                  length := (transfer.IsoPacket i).Length
                  status := (transfer.IsoPacket i).Status }) })
        (USBPcapURBGetBufferPointer transfer.TransferBufferLength transfer.TransferBuffer
          transfer.TransferBufferMDL)] := by
  have hp : ¬ transfer.NumberOfPackets > 1024 := by omega
  unfold USBPcapAnalyzeURB.isochTransfer
  simp only [if_neg hp, halloc, Bool.true_eq_false, if_false, copyPackets_eq_map, List.map_map,
    ne_eq, hnonzero, not_false_eq_true, if_true, Bool.false_eq_true, and_false, hOUT, and_self]
  rfl

/-- Every sink call of the isochronous case carries an isochronous header
built from the request: the base header of the case up to `dataLength`, the
start frame, packet count and error count of the request, and one packet entry
per packet with the packet's length and status; the offsets are the request's
except on the compaction path (non-zero buffer length, IN, Complete). -/
theorem isochTransfer_mem (P : Platform) (pIrp : Nat) (header : URB_HEADER)
    (transfer : URB_ISOCH_TRANSFER) (post : Bool) (d : USBPCAP_DEVICE_DATA)
    (c : SinkCall)
    (hc : c ∈ USBPcapAnalyzeURB.isochTransfer P pIrp header transfer post d) :
    transfer.NumberOfPackets ≤ 1024 ∧
    ∃ h, c.header = CAPTURE_HEADER.isoch h ∧
      h.header =
        { USBPcapAnalyzeURB.isochPacketHeader pIrp header transfer post d with
          dataLength := h.header.dataLength } ∧
      h.startFrame = transfer.StartFrame ∧
      h.numberOfPackets = transfer.NumberOfPackets ∧
      h.errorCount = transfer.ErrorCount ∧
      h.packet.map (fun p => (p.length, p.status)) =
        (List.range transfer.NumberOfPackets).map
          (fun i => ((transfer.IsoPacket i).Length, (transfer.IsoPacket i).Status)) ∧
      (¬ (transfer.TransferBufferLength ≠ 0 ∧
          transfer.TransferFlags &&& USBD_TRANSFER_DIRECTION_IN = USBD_TRANSFER_DIRECTION_IN ∧
          post = true) →
        h.packet.map (fun p => p.offset) =
          (List.range transfer.NumberOfPackets).map (fun i => (transfer.IsoPacket i).Offset)) := by
  by_cases hp : transfer.NumberOfPackets > 1024
  · simp [USBPcapAnalyzeURB.isochTransfer, hp] at hc
  have hpackets : transfer.NumberOfPackets ≤ 1024 := by omega
  refine ⟨hpackets, ?_⟩
  cases halloc : P.ExAllocatePoolWithTag
      (USBPcapAnalyzeURB.isochHeaderLen transfer.NumberOfPackets) PoolTag.HDR with
  | false => simp [USBPcapAnalyzeURB.isochTransfer, hp, halloc] at hc
  | true =>
    by_cases hcompact : transfer.TransferBufferLength ≠ 0 ∧
        transfer.TransferFlags &&& USBD_TRANSFER_DIRECTION_IN = USBD_TRANSFER_DIRECTION_IN ∧
        post = true
    · -- the compaction path
      obtain ⟨hnz, hIN, hpost⟩ := hcompact
      subst hpost
      unfold USBPcapAnalyzeURB.isochTransfer at hc
      simp only [if_neg hp, halloc, Bool.true_eq_false, if_false, ne_eq, hnz,
        not_false_eq_true, if_true, hIN, and_self] at hc
      split at hc
      · simp at hc
      · split at hc
        · simp at hc
        · simp only [List.mem_singleton] at hc
          subst hc
          refine ⟨_, rfl, rfl, rfl, rfl, rfl, ?_, ?_⟩
          · show ((USBPcapAnalyzeURB.compact _ _ 0).map Prod.fst).map
                (fun p => (p.length, p.status)) = _
            rw [compact_map_fst_length_status, List.map_map]
            rfl
          · intro hnot
            exact absurd ⟨hnz, hIN, rfl⟩ hnot
    · -- the other paths
      have hrec : ∀ dl buffer,
          c = SinkCall.USBPcapBufferWritePacket
            (CAPTURE_HEADER.isoch
              { header :=
                  { USBPcapAnalyzeURB.isochPacketHeader pIrp header transfer post d with
                    dataLength := dl }
                startFrame := transfer.StartFrame
                numberOfPackets := transfer.NumberOfPackets
                errorCount := transfer.ErrorCount
                packet :=
                  (List.range transfer.NumberOfPackets).map (fun i =>
                    { offset := (transfer.IsoPacket i).Offset
                      length := (transfer.IsoPacket i).Length
                      status := (transfer.IsoPacket i).Status }) })
            buffer →
          ∃ h, c.header = CAPTURE_HEADER.isoch h ∧
            h.header =
              { USBPcapAnalyzeURB.isochPacketHeader pIrp header transfer post d with
                dataLength := h.header.dataLength } ∧
            h.startFrame = transfer.StartFrame ∧
            h.numberOfPackets = transfer.NumberOfPackets ∧
            h.errorCount = transfer.ErrorCount ∧
            h.packet.map (fun p => (p.length, p.status)) =
              (List.range transfer.NumberOfPackets).map
                (fun i => ((transfer.IsoPacket i).Length, (transfer.IsoPacket i).Status)) ∧
            (¬ (transfer.TransferBufferLength ≠ 0 ∧
                transfer.TransferFlags &&& USBD_TRANSFER_DIRECTION_IN =
                  USBD_TRANSFER_DIRECTION_IN ∧
                post = true) →
              h.packet.map (fun p => p.offset) =
                (List.range transfer.NumberOfPackets).map
                  (fun i => (transfer.IsoPacket i).Offset)) := by
        intro dl buffer hceq
        subst hceq
        refine ⟨_, rfl, rfl, rfl, rfl, rfl, ?_, ?_⟩
        · simp only [List.map_map]; rfl
        · intro _; simp only [List.map_map]; rfl
      by_cases hz : transfer.TransferBufferLength = 0
      · rw [isochTransfer_header_only P pIrp header transfer post d hpackets halloc
          (Or.inl hz), List.mem_singleton] at hc
        exact hrec _ _ hc
      · rcases direction_in_or_out transfer.TransferFlags with hIN | hOUT
        · have hpost : post = false := by
            cases post with
            | false => rfl
            | true => exact absurd ⟨hz, hIN, rfl⟩ hcompact
          rw [isochTransfer_header_only P pIrp header transfer post d hpackets halloc
            (Or.inr (Or.inl ⟨hIN, hpost⟩)), List.mem_singleton] at hc
          exact hrec _ _ hc
        · cases post with
          | false =>
            rw [isochTransfer_out_submit P pIrp header transfer d hpackets halloc hz hOUT,
              List.mem_singleton] at hc
            exact hrec _ _ hc
          | true =>
            rw [isochTransfer_header_only P pIrp header transfer true d hpackets halloc
              (Or.inr (Or.inr ⟨hOUT, rfl⟩)), List.mem_singleton] at hc
            exact hrec _ _ hc


/-- The record of a pending entry carries a plain packet header. -/
theorem logUnknownURB_header (pIrp : Nat) (info : Option USBPCAP_URB_IRP_INFO) (c : SinkCall)
    (hc : c ∈ USBPcapAnalyzeURB.logUnknownURB pIrp info) :
    ∃ h, c.header = CAPTURE_HEADER.packet h := by
  cases info with
  | none => simp [USBPcapAnalyzeURB.logUnknownURB] at hc
  | some e =>
    simp only [USBPcapAnalyzeURB.logUnknownURB, List.mem_singleton] at hc
    subst hc
    exact ⟨_, rfl⟩

/-! ### Which cases emit an isochronous header -/

/-- The sink calls of the second `switch` for a function with a case label:
none, those of `USBPcapAnalyzeControlTransfer` for some transfer, or those of
the bulk/interrupt, isochronous, pipe request or GetCurrentFrameNumber case. -/
theorem dispatch_snd_shape (P : Platform) (pIrp : Nat) (pUrb : URB) (post : Bool)
    (d : USBPCAP_DEVICE_DATA)
    (h : pUrb.UrbHeader.Function ∈ USBPcapAnalyzeURB.caseLabels) :
    (USBPcapAnalyzeURB.dispatch P pIrp pUrb post d).2 = [] ∨
    (∃ transfer, (USBPcapAnalyzeURB.dispatch P pIrp pUrb post d).2 =
      USBPcapAnalyzeControlTransfer transfer pUrb.UrbHeader d pIrp post) ∨
    (USBPcapAnalyzeURB.dispatch P pIrp pUrb post d).2 =
      USBPcapAnalyzeURB.bulkOrInterruptTransfer pIrp pUrb.UrbHeader
        pUrb.UrbBulkOrInterruptTransfer post d ∨
    (pUrb.UrbHeader.Function = URB_FUNCTION_ISOCH_TRANSFER ∧
      (USBPcapAnalyzeURB.dispatch P pIrp pUrb post d).2 =
        USBPcapAnalyzeURB.isochTransfer P pIrp pUrb.UrbHeader pUrb.UrbIsochronousTransfer
          post d) ∨
    (USBPcapAnalyzeURB.dispatch P pIrp pUrb post d).2 =
      USBPcapAnalyzeURB.pipeRequest pIrp pUrb.UrbHeader pUrb.UrbPipeRequest post d ∨
    (USBPcapAnalyzeURB.dispatch P pIrp pUrb post d).2 =
      USBPcapAnalyzeURB.getCurrentFrameNumber P pIrp pUrb.UrbHeader
        pUrb.UrbGetCurrentFrameNumber post d := by
  simp only [USBPcapAnalyzeURB.caseLabels, List.mem_cons, List.mem_singleton,
    List.not_mem_nil, or_false] at h
  rcases h with h | h | h | h | h | h | h | h | h | h | h | h | h | h | h | h | h | h | h | h | h | h | h | h | h | h | h | h | h | h
  all_goals
    simp only [USBPcapAnalyzeURB.dispatch, h, URB_FUNCTION_SELECT_CONFIGURATION,
      URB_FUNCTION_SELECT_INTERFACE, URB_FUNCTION_CONTROL_TRANSFER,
      URB_FUNCTION_CONTROL_TRANSFER_EX, URB_FUNCTION_GET_DESCRIPTOR_FROM_DEVICE,
      URB_FUNCTION_GET_DESCRIPTOR_FROM_ENDPOINT, URB_FUNCTION_GET_DESCRIPTOR_FROM_INTERFACE,
      URB_FUNCTION_SET_DESCRIPTOR_TO_DEVICE, URB_FUNCTION_SET_DESCRIPTOR_TO_ENDPOINT,
      URB_FUNCTION_SET_DESCRIPTOR_TO_INTERFACE, URB_FUNCTION_GET_STATUS_FROM_DEVICE,
      URB_FUNCTION_GET_STATUS_FROM_INTERFACE, URB_FUNCTION_GET_STATUS_FROM_ENDPOINT,
      URB_FUNCTION_GET_STATUS_FROM_OTHER, URB_FUNCTION_VENDOR_DEVICE,
      URB_FUNCTION_VENDOR_INTERFACE, URB_FUNCTION_VENDOR_ENDPOINT, URB_FUNCTION_VENDOR_OTHER,
      URB_FUNCTION_CLASS_DEVICE, URB_FUNCTION_CLASS_INTERFACE, URB_FUNCTION_CLASS_ENDPOINT,
      URB_FUNCTION_CLASS_OTHER, URB_FUNCTION_BULK_OR_INTERRUPT_TRANSFER,
      URB_FUNCTION_ISOCH_TRANSFER, URB_FUNCTION_SYNC_RESET_PIPE_AND_CLEAR_STALL,
      URB_FUNCTION_SYNC_RESET_PIPE, URB_FUNCTION_SYNC_CLEAR_STALL, URB_FUNCTION_ABORT_PIPE,
      URB_FUNCTION_CLOSE_STATIC_STREAMS, URB_FUNCTION_GET_CURRENT_FRAME_NUMBER,
      Nat.reduceEqDiff, if_true, if_false, or_true, true_or, or_false, false_or] <;>
    first
      | exact Or.inr (Or.inl ⟨_, rfl⟩)
      | exact Or.inr (Or.inr (Or.inl rfl))
      | exact Or.inr (Or.inr (Or.inr (Or.inl ⟨trivial, trivial⟩)))
      | exact Or.inr (Or.inr (Or.inr (Or.inr (Or.inl rfl))))
      | exact Or.inr (Or.inr (Or.inr (Or.inr (Or.inr rfl))))
      | (split <;> first
          | exact Or.inl rfl
          | exact Or.inr (Or.inl ⟨_, rfl⟩)
          | (split <;> first
              | exact Or.inl rfl
              | exact Or.inr (Or.inl ⟨_, rfl⟩)))


theorem USBPcapAnalyzeControlTransfer_header (transfer : URB_CONTROL_TRANSFER)
    (header : URB_HEADER) (d : USBPCAP_DEVICE_DATA) (pIrp : Nat) (post : Bool) (c : SinkCall)
    (hc : c ∈ USBPcapAnalyzeControlTransfer transfer header d pIrp post) :
    ∃ h, c.header = CAPTURE_HEADER.control h := by
  cases post
  · rw [USBPcapAnalyzeControlTransfer_submit, List.mem_singleton] at hc
    subst hc
    exact ⟨_, rfl⟩
  · rw [USBPcapAnalyzeControlTransfer_complete, List.mem_singleton] at hc
    subst hc
    exact ⟨_, rfl⟩

theorem bulkOrInterruptTransfer_header (pIrp : Nat) (header : URB_HEADER)
    (transfer : URB_BULK_OR_INTERRUPT_TRANSFER) (post : Bool) (d : USBPCAP_DEVICE_DATA)
    (c : SinkCall)
    (hc : c ∈ USBPcapAnalyzeURB.bulkOrInterruptTransfer pIrp header transfer post d) :
    ∃ h, c.header = CAPTURE_HEADER.packet h := by
  unfold USBPcapAnalyzeURB.bulkOrInterruptTransfer at hc
  dsimp only at hc
  split at hc <;>
  · rw [List.mem_singleton] at hc
    subst hc
    exact ⟨_, rfl⟩

theorem pipeRequest_header (pIrp : Nat) (header : URB_HEADER) (request : URB_PIPE_REQUEST)
    (post : Bool) (d : USBPCAP_DEVICE_DATA) (c : SinkCall)
    (hc : c ∈ USBPcapAnalyzeURB.pipeRequest pIrp header request post d) :
    ∃ h, c.header = CAPTURE_HEADER.packet h := by
  unfold USBPcapAnalyzeURB.pipeRequest at hc
  rw [List.mem_singleton] at hc
  subst hc
  exact ⟨_, rfl⟩

theorem getCurrentFrameNumber_header (P : Platform) (pIrp : Nat) (header : URB_HEADER)
    (request : URB_GET_CURRENT_FRAME_NUMBER) (post : Bool) (d : USBPCAP_DEVICE_DATA)
    (c : SinkCall)
    (hc : c ∈ USBPcapAnalyzeURB.getCurrentFrameNumber P pIrp header request post d) :
    ∃ h, c.header = CAPTURE_HEADER.packet h := by
  unfold USBPcapAnalyzeURB.getCurrentFrameNumber at hc
  dsimp only at hc
  split at hc <;>
  · rw [List.mem_singleton] at hc
    subst hc
    exact ⟨_, rfl⟩

theorem unknownFunction_header (P : Platform) (pIrp : Nat) (header : URB_HEADER)
    (post : Bool) (d : USBPCAP_DEVICE_DATA) (c : SinkCall)
    (hc : c ∈ (USBPcapAnalyzeURB.unknownFunction P pIrp header post d).2) :
    ∃ h, c.header = CAPTURE_HEADER.packet h := by
  cases post with
  | false => rw [unknownFunction_submit] at hc; simp at hc
  | true =>
    rw [unknownFunction_complete, List.mem_singleton] at hc
    subst hc
    exact ⟨_, rfl⟩

/-- A sink call of the second `switch` that carries an isochronous header
comes from the isochronous case. -/
theorem dispatch_isoch_header (P : Platform) (pIrp : Nat) (pUrb : URB) (post : Bool)
    (d : USBPCAP_DEVICE_DATA) (c : SinkCall) (h : USBPCAP_BUFFER_ISOCH_HEADER)
    (hc : c ∈ (USBPcapAnalyzeURB.dispatch P pIrp pUrb post d).2)
    (hh : c.header = CAPTURE_HEADER.isoch h) :
    pUrb.UrbHeader.Function = URB_FUNCTION_ISOCH_TRANSFER := by
  have hpacket : (∃ h', c.header = CAPTURE_HEADER.packet h') →
      pUrb.UrbHeader.Function = URB_FUNCTION_ISOCH_TRANSFER := by
    rintro ⟨h', hh'⟩
    rw [hh] at hh'
    cases hh'
  by_cases hmem : pUrb.UrbHeader.Function ∈ USBPcapAnalyzeURB.caseLabels
  · rcases dispatch_snd_shape P pIrp pUrb post d hmem with
      hs | ⟨transfer, hs⟩ | hs | ⟨hF, -⟩ | hs | hs
    · rw [hs] at hc; simp at hc
    · rw [hs] at hc
      obtain ⟨h', hh'⟩ := USBPcapAnalyzeControlTransfer_header _ _ _ _ _ c hc
      rw [hh] at hh'
      cases hh'
    · rw [hs] at hc
      exact hpacket (bulkOrInterruptTransfer_header _ _ _ _ _ c hc)
    · exact hF
    · rw [hs] at hc
      exact hpacket (pipeRequest_header _ _ _ _ _ c hc)
    · rw [hs] at hc
      exact hpacket (getCurrentFrameNumber_header _ _ _ _ _ _ c hc)
  · rw [dispatch_of_not_mem P pIrp pUrb post d hmem] at hc
    exact hpacket (unknownFunction_header _ _ _ _ _ c hc)

/-- A sink call of `USBPcapAnalyzeURB` that carries an isochronous header
comes from the isochronous case. -/
theorem USBPcapAnalyzeURB_isoch_header (P : Platform) (pIrp : Nat) (pUrb : URB) (post : Bool)
    (d : USBPCAP_DEVICE_DATA) (r : USBPCAP_DEVICE_DATA × List SinkCall) (c : SinkCall)
    (h : USBPCAP_BUFFER_ISOCH_HEADER)
    (hcall : USBPcapAnalyzeURB P pIrp pUrb post d = some r)
    (hc : c ∈ r.2)
    (hh : c.header = CAPTURE_HEADER.isoch h) :
    pUrb.UrbHeader.Function = URB_FUNCTION_ISOCH_TRANSFER := by
  rw [USBPcapAnalyzeURB_eq] at hcall
  cases hA : USBPcapAnalyzeURB.alwaysAnalyzed P pUrb post
      (USBPcapAnalyzeURB.obtained pIrp post d).2 with
  | none => rw [hA] at hcall; cases hcall
  | some dA =>
    rw [hA] at hcall
    simp only [Option.map_some', Option.some.injEq] at hcall
    split at hcall
    · subst hcall
      simp at hc
    · subst hcall
      rcases List.mem_append.mp hc with hl | hr
      · obtain ⟨h', hh'⟩ := logUnknownURB_header _ _ c hl
        rw [hh] at hh'
        cases hh'
      · exact dispatch_isoch_header P pIrp pUrb post dA c h hr hh

/-! ### C29: the packet descriptors of an isochronous record -/

/-- C29. Every isochronous record that `USBPcapAnalyzeURB` emits (a sink call
whose header is an isochronous header) comes from an isochronous transfer of
at most 1024 packets and carries exactly `NumberOfPackets` packet entries, in
request order, whose length and status are those of the request's packets in
every path; the offsets are the request's offsets in every path except the
compaction path (non-zero buffer length, IN, Complete); `startFrame`,
`numberOfPackets` and `errorCount` are the request's. -/
theorem C29_isoch_packet_descriptors (P : Platform) (pIrp : Nat) (pUrb : URB) (post : Bool)
    (pDeviceData : USBPCAP_DEVICE_DATA) (r : USBPCAP_DEVICE_DATA × List SinkCall)
    (c : SinkCall) (h : USBPCAP_BUFFER_ISOCH_HEADER)
    (hcall : USBPcapAnalyzeURB P pIrp pUrb post pDeviceData = some r)
    (hc : c ∈ r.2)
    (hh : c.header = CAPTURE_HEADER.isoch h) :
    pUrb.UrbHeader.Function = URB_FUNCTION_ISOCH_TRANSFER ∧
    pUrb.UrbIsochronousTransfer.NumberOfPackets ≤ 1024 ∧
    h.packet.length = pUrb.UrbIsochronousTransfer.NumberOfPackets ∧
    h.packet.map (fun p => (p.length, p.status)) =
      (List.range pUrb.UrbIsochronousTransfer.NumberOfPackets).map
        (fun i => ((pUrb.UrbIsochronousTransfer.IsoPacket i).Length,
          (pUrb.UrbIsochronousTransfer.IsoPacket i).Status)) ∧
    (¬ (pUrb.UrbIsochronousTransfer.TransferBufferLength ≠ 0 ∧
        pUrb.UrbIsochronousTransfer.TransferFlags &&& USBD_TRANSFER_DIRECTION_IN =
          USBD_TRANSFER_DIRECTION_IN ∧
        post = true) →
      h.packet.map (fun p => p.offset) =
        (List.range pUrb.UrbIsochronousTransfer.NumberOfPackets).map
          (fun i => (pUrb.UrbIsochronousTransfer.IsoPacket i).Offset)) ∧
    h.startFrame = pUrb.UrbIsochronousTransfer.StartFrame ∧
    h.numberOfPackets = pUrb.UrbIsochronousTransfer.NumberOfPackets ∧
    h.errorCount = pUrb.UrbIsochronousTransfer.ErrorCount := by
  have hF := USBPcapAnalyzeURB_isoch_header P pIrp pUrb post pDeviceData r c h hcall hc hh
  rw [USBPcapAnalyzeURB_isoch P pIrp pUrb post pDeviceData hF] at hcall
  have hmem : c ∈ USBPcapAnalyzeURB.isochTransfer P pIrp pUrb.UrbHeader
      pUrb.UrbIsochronousTransfer post (USBPcapAnalyzeURB.obtained pIrp post pDeviceData).2 := by
    split at hcall
    · cases hcall
      simp at hc
    · cases hcall
      rcases List.mem_append.mp hc with hl | hr
      · obtain ⟨h', hh'⟩ := logUnknownURB_header _ _ c hl
        rw [hh] at hh'
        cases hh'
      · exact hr
  obtain ⟨hpackets, h', hh', -, hsf, hnp, hec, hls, hoff⟩ :=
    isochTransfer_mem P pIrp pUrb.UrbHeader pUrb.UrbIsochronousTransfer post _ c hmem
  rw [hh] at hh'
  cases hh'
  refine ⟨hF, hpackets, ?_, hls, hoff, hsf, hnp, hec⟩
  have hlen := congrArg List.length hls
  simpa using hlen

/-- C29 instantiated at the Submit of an outbound transfer of two packets
(lengths 3 and 2 at offsets 0 and 3): the record carries the two packet
entries with these offsets and lengths. -/
theorem C29_isoch_packet_descriptors_witness :
    USBPcapAnalyzeURB x86Platform 9 isochOutUrb false filteredDevice =
      some (filteredDevice,
        [SinkCall.USBPcapBufferWritePacket
          (CAPTURE_HEADER.isoch
            { header :=
                { headerLen := 63, irpId := 9, status := 0
                  function := URB_FUNCTION_ISOCH_TRANSFER, info := 0, bus := 1, device := 2
                  endpoint := 0xFF, transfer := USBPCAP_TRANSFER.ISOCHRONOUS, dataLength := 5 }
              startFrame := 200
              numberOfPackets := 2
              errorCount := 0
              packet := [{ offset := 0, length := 3, status := 0 },
                         { offset := 3, length := 2, status := 0 }] })
          (some [10, 11, 12, 13, 14])]) ∧
    ([{ offset := 0, length := 3, status := 0 },
      { offset := 3, length := 2, status := 0 }] : List USBPCAP_BUFFER_ISO_PACKET).map
        (fun p => (p.length, p.status)) =
      (List.range isochOutUrb.UrbIsochronousTransfer.NumberOfPackets).map
        (fun i => ((isochOutUrb.UrbIsochronousTransfer.IsoPacket i).Length,
          (isochOutUrb.UrbIsochronousTransfer.IsoPacket i).Status)) :=
  ⟨by decide,
   (C29_isoch_packet_descriptors x86Platform 9 isochOutUrb false filteredDevice
      (filteredDevice,
        [SinkCall.USBPcapBufferWritePacket
          (CAPTURE_HEADER.isoch
            { header :=
                { headerLen := 63, irpId := 9, status := 0
                  function := URB_FUNCTION_ISOCH_TRANSFER, info := 0, bus := 1, device := 2
                  endpoint := 0xFF, transfer := USBPCAP_TRANSFER.ISOCHRONOUS, dataLength := 5 }
              startFrame := 200
              numberOfPackets := 2
              errorCount := 0
              packet := [{ offset := 0, length := 3, status := 0 },
                         { offset := 3, length := 2, status := 0 }] })
          (some [10, 11, 12, 13, 14])])
      _ _ (by decide) (List.mem_singleton.mpr rfl) rfl).2.2.2.1⟩

/-! ### C30: which isochronous records carry the buffer -/

theorem dispatch_controlTransfer (P : Platform) (pIrp : Nat) (pUrb : URB) (post : Bool)
    (d : USBPCAP_DEVICE_DATA)
    (hF : pUrb.UrbHeader.Function = URB_FUNCTION_CONTROL_TRANSFER) :
    USBPcapAnalyzeURB.dispatch P pIrp pUrb post d =
      (d, USBPcapAnalyzeControlTransfer pUrb.UrbControlTransfer pUrb.UrbHeader d pIrp post) := by
  simp [USBPcapAnalyzeURB.dispatch, hF, URB_FUNCTION_SELECT_CONFIGURATION,
    URB_FUNCTION_SELECT_INTERFACE, URB_FUNCTION_CONTROL_TRANSFER]

/-- `USBPcapAnalyzeControlTransfer` makes one sink call, whose endpoint
address is the one computed at the top of the function. -/
theorem USBPcapAnalyzeControlTransfer_singleton (transfer : URB_CONTROL_TRANSFER)
    (header : URB_HEADER) (d : USBPCAP_DEVICE_DATA) (pIrp : Nat) (post : Bool) :
    ∃ c, USBPcapAnalyzeControlTransfer transfer header d pIrp post = [c] ∧
      c.header.base.endpoint = USBPcapAnalyzeControlTransfer_endpoint transfer d ∧
      c.header.base.transfer = USBPCAP_TRANSFER.CONTROL := by
  cases post
  · rw [USBPcapAnalyzeControlTransfer_submit]
    exact ⟨_, rfl, rfl, rfl⟩
  · rw [USBPcapAnalyzeControlTransfer_complete]
    exact ⟨_, rfl, rfl, rfl⟩

/-- The endpoint address of a control transfer on a pipe other than the
default pipe whose handle is not in the endpoint table: endpoint number 0 with
the direction bit. -/
theorem USBPcapAnalyzeControlTransfer_endpoint_not_found (transfer : URB_CONTROL_TRANSFER)
    (d : USBPCAP_DEVICE_DATA)
    (hflag : transfer.TransferFlags &&& USBD_DEFAULT_PIPE_TRANSFER = 0)
    (hpipe : transfer.PipeHandle ≠ 0)
    (hnone : USBPcapRetrieveEndpointInfo d transfer.PipeHandle = none) :
    USBPcapAnalyzeControlTransfer_endpoint transfer d =
      if transfer.TransferFlags &&& USBD_TRANSFER_DIRECTION_IN ≠ 0 then 0x80 else 0x00 := by
  by_cases hdir : transfer.TransferFlags &&& USBD_TRANSFER_DIRECTION_IN = 0 <;>
  simp [USBPcapAnalyzeControlTransfer_endpoint, hflag, hpipe, hnone, hdir]

theorem bulkOrInterruptTransfer_singleton (pIrp : Nat) (header : URB_HEADER)
    (transfer : URB_BULK_OR_INTERRUPT_TRANSFER) (post : Bool) (d : USBPCAP_DEVICE_DATA) :
    ∃ c, USBPcapAnalyzeURB.bulkOrInterruptTransfer pIrp header transfer post d = [c] ∧
      c.header.base =
        { USBPcapAnalyzeURB.bulkOrInterruptPacketHeader pIrp header transfer post d with
          dataLength := c.header.base.dataLength } := by
  unfold USBPcapAnalyzeURB.bulkOrInterruptTransfer
  dsimp only
  split <;> exact ⟨_, rfl, rfl⟩

theorem bulkOrInterruptPacketHeader_not_found (pIrp : Nat) (header : URB_HEADER)
    (transfer : URB_BULK_OR_INTERRUPT_TRANSFER) (post : Bool) (d : USBPCAP_DEVICE_DATA)
    (hnone : USBPcapRetrieveEndpointInfo d transfer.PipeHandle = none) :
    (USBPcapAnalyzeURB.bulkOrInterruptPacketHeader pIrp header transfer post d).endpoint = 0xFF ∧
    (USBPcapAnalyzeURB.bulkOrInterruptPacketHeader pIrp header transfer post d).transfer =
      USBPCAP_TRANSFER.BULK ∧
    (USBPcapAnalyzeURB.bulkOrInterruptPacketHeader pIrp header transfer post d).device =
      d.deviceAddress := by
  simp [USBPcapAnalyzeURB.bulkOrInterruptPacketHeader, hnone]

theorem isochPacketHeader_not_found (pIrp : Nat) (header : URB_HEADER)
    (transfer : URB_ISOCH_TRANSFER) (post : Bool) (d : USBPCAP_DEVICE_DATA)
    (hnone : USBPcapRetrieveEndpointInfo d transfer.PipeHandle = none) :
    (USBPcapAnalyzeURB.isochPacketHeader pIrp header transfer post d).endpoint = 0xFF ∧
    (USBPcapAnalyzeURB.isochPacketHeader pIrp header transfer post d).transfer =
      USBPCAP_TRANSFER.ISOCHRONOUS := by
  simp [USBPcapAnalyzeURB.isochPacketHeader, hnone]


/-- Every sink call of the isochronous case has the endpoint address and the
transfer kind of the base header of the case. -/
theorem isochTransfer_mem_base (P : Platform) (pIrp : Nat) (header : URB_HEADER)
    (transfer : URB_ISOCH_TRANSFER) (post : Bool) (d : USBPCAP_DEVICE_DATA) (c : SinkCall)
    (hc : c ∈ USBPcapAnalyzeURB.isochTransfer P pIrp header transfer post d) :
    c.header.base.endpoint =
      (USBPcapAnalyzeURB.isochPacketHeader pIrp header transfer post d).endpoint ∧
    c.header.base.transfer = USBPCAP_TRANSFER.ISOCHRONOUS := by
  obtain ⟨-, h, hh, hhdr, -⟩ := isochTransfer_mem P pIrp header transfer post d c hc
  have hbase : c.header.base = h.header := by rw [hh]; rfl
  rw [hbase, hhdr]
  exact ⟨rfl, rfl⟩

/-- Off the compaction path the isochronous case makes exactly one sink call
when the packet count is within bounds and the header allocation succeeds. -/
theorem isochTransfer_singleton (P : Platform) (pIrp : Nat) (header : URB_HEADER)
    (transfer : URB_ISOCH_TRANSFER) (post : Bool) (d : USBPCAP_DEVICE_DATA)
    (hpackets : transfer.NumberOfPackets ≤ 1024)
    (halloc : P.ExAllocatePoolWithTag
      (USBPcapAnalyzeURB.isochHeaderLen transfer.NumberOfPackets) PoolTag.HDR = true)
    (hpath : ¬ (transfer.TransferBufferLength ≠ 0 ∧
      transfer.TransferFlags &&& USBD_TRANSFER_DIRECTION_IN = USBD_TRANSFER_DIRECTION_IN ∧
      post = true)) :
    ∃ c, USBPcapAnalyzeURB.isochTransfer P pIrp header transfer post d = [c] := by
  by_cases hz : transfer.TransferBufferLength = 0
  · exact ⟨_, isochTransfer_header_only P pIrp header transfer post d hpackets halloc (Or.inl hz)⟩
  · rcases direction_in_or_out transfer.TransferFlags with hIN | hOUT
    · have hpost : post = false := by
        cases post with
        | false => rfl
        | true => exact absurd ⟨hz, hIN, rfl⟩ hpath
      exact ⟨_, isochTransfer_header_only P pIrp header transfer post d hpackets halloc
        (Or.inr (Or.inl ⟨hIN, hpost⟩))⟩
    · cases post with
      | false => exact ⟨_, isochTransfer_out_submit P pIrp header transfer d hpackets halloc hz hOUT⟩
      | true =>
        exact ⟨_, isochTransfer_header_only P pIrp header transfer true d hpackets halloc
          (Or.inr (Or.inr ⟨hOUT, rfl⟩))⟩

/-! ### C28: the endpoint address of a record whose pipe handle is unknown -/

/-- C28, counterexample. A host-to-device control transfer on pipe handle
0x3000 (not the default pipe), submitted on the filtered device whose endpoint
table is empty: the record is emitted and its endpoint address is 0x00, not
0xFF. -/
theorem C28_counterexample :
    nonDefaultControlUrb.UrbHeader.Function = URB_FUNCTION_CONTROL_TRANSFER ∧
    nonDefaultControlUrb.UrbControlTransfer.TransferFlags &&& USBD_DEFAULT_PIPE_TRANSFER = 0 ∧
    nonDefaultControlUrb.UrbControlTransfer.PipeHandle ≠ 0 ∧
    USBPcapRetrieveEndpointInfo filteredDevice
        nonDefaultControlUrb.UrbControlTransfer.PipeHandle = none ∧
    USBPcapIsDeviceFiltered filteredDevice.pRootData.filter filteredDevice.deviceAddress =
      true ∧
    (USBPcapAnalyzeURB x86Platform 7 nonDefaultControlUrb false filteredDevice).map
        (fun r => r.2.map (fun c => (c.header.base.transfer, c.header.base.endpoint))) =
      some [(USBPCAP_TRANSFER.CONTROL, 0x00)] := by
  refine ⟨?_, ?_, ?_, ?_, ?_, ?_⟩ <;> decide

/-- C28, amended. On a device in the filter's active set, when the pipe handle
of the request is not in the endpoint table: a bulk/interrupt transfer still
emits its record, with endpoint address 0xFF, kind Bulk and the device address
of the device context; a pipe request still emits its record, with endpoint
address 0xFF and kind Unknown; every isochronous record emitted has endpoint
address 0xFF, and one is emitted whenever the packet count is at most 1024, the
scratch allocations succeed and, on the compaction path, the sum of the packet
lengths is within the buffer length; a control transfer on a pipe other than
the default pipe still emits its record, with endpoint number 0 and the
direction bit (0x00 for OUT, 0x80 for IN). At Complete the Unknown record of a
pending entry for the correlation identity, if any, comes first. -/
theorem C28_unresolved_pipe_handle (P : Platform) (pIrp : Nat) (pUrb : URB) (post : Bool)
    (pDeviceData : USBPCAP_DEVICE_DATA)
    (hfiltered :
      USBPcapIsDeviceFiltered pDeviceData.pRootData.filter pDeviceData.deviceAddress = true) :
    (pUrb.UrbHeader.Function = URB_FUNCTION_BULK_OR_INTERRUPT_TRANSFER →
      USBPcapRetrieveEndpointInfo pDeviceData pUrb.UrbBulkOrInterruptTransfer.PipeHandle = none →
      ∃ c, USBPcapAnalyzeURB P pIrp pUrb post pDeviceData =
          some ((USBPcapAnalyzeURB.obtained pIrp post pDeviceData).2,
            USBPcapAnalyzeURB.logUnknownURB pIrp
              (USBPcapAnalyzeURB.obtained pIrp post pDeviceData).1 ++ [c]) ∧
        c.header.base.endpoint = 0xFF ∧
        c.header.base.transfer = USBPCAP_TRANSFER.BULK ∧
        c.header.base.device = pDeviceData.deviceAddress) ∧
    ((pUrb.UrbHeader.Function = URB_FUNCTION_SYNC_RESET_PIPE_AND_CLEAR_STALL ∨
        pUrb.UrbHeader.Function = URB_FUNCTION_SYNC_RESET_PIPE ∨
        pUrb.UrbHeader.Function = URB_FUNCTION_SYNC_CLEAR_STALL ∨
        pUrb.UrbHeader.Function = URB_FUNCTION_ABORT_PIPE ∨
        pUrb.UrbHeader.Function = URB_FUNCTION_CLOSE_STATIC_STREAMS) →
      USBPcapRetrieveEndpointInfo pDeviceData pUrb.UrbPipeRequest.PipeHandle = none →
      ∃ c, USBPcapAnalyzeURB P pIrp pUrb post pDeviceData =
          some ((USBPcapAnalyzeURB.obtained pIrp post pDeviceData).2,
            USBPcapAnalyzeURB.logUnknownURB pIrp
              (USBPcapAnalyzeURB.obtained pIrp post pDeviceData).1 ++ [c]) ∧
        c.header.base.endpoint = 0xFF ∧
        c.header.base.transfer = USBPCAP_TRANSFER.UNKNOWN ∧
        c.header.base.device = pDeviceData.deviceAddress) ∧
    (pUrb.UrbHeader.Function = URB_FUNCTION_ISOCH_TRANSFER →
      USBPcapRetrieveEndpointInfo pDeviceData pUrb.UrbIsochronousTransfer.PipeHandle = none →
      (∀ r, USBPcapAnalyzeURB P pIrp pUrb post pDeviceData = some r →
        ∀ c ∈ r.2, c.header.base.transfer = USBPCAP_TRANSFER.ISOCHRONOUS →
          c.header.base.endpoint = 0xFF) ∧
      (pUrb.UrbIsochronousTransfer.NumberOfPackets ≤ 1024 →
        P.ExAllocatePoolWithTag
          (USBPcapAnalyzeURB.isochHeaderLen pUrb.UrbIsochronousTransfer.NumberOfPackets)
          PoolTag.HDR = true →
        (¬ (pUrb.UrbIsochronousTransfer.TransferBufferLength ≠ 0 ∧
            pUrb.UrbIsochronousTransfer.TransferFlags &&& USBD_TRANSFER_DIRECTION_IN =
              USBD_TRANSFER_DIRECTION_IN ∧ post = true) ∨
          (pUrb.UrbIsochronousTransfer.TransferBufferLength ≠ 0 ∧
            pUrb.UrbIsochronousTransfer.TransferBufferLength < 2 ^ 32 ∧
            pUrb.UrbIsochronousTransfer.TransferFlags &&& USBD_TRANSFER_DIRECTION_IN =
              USBD_TRANSFER_DIRECTION_IN ∧ post = true ∧
            ((List.range pUrb.UrbIsochronousTransfer.NumberOfPackets).map
                (fun i => (pUrb.UrbIsochronousTransfer.IsoPacket i).Length)).sum ≤
              pUrb.UrbIsochronousTransfer.TransferBufferLength ∧
            P.ExAllocatePoolWithTag
              ((pUrb.UrbIsochronousTransfer.NumberOfPackets + 1) *
                P.sizeof_USBPCAP_PAYLOAD_ENTRY) PoolTag.ISOC = true)) →
        ∃ c, USBPcapAnalyzeURB P pIrp pUrb post pDeviceData =
            some ((USBPcapAnalyzeURB.obtained pIrp post pDeviceData).2,
              USBPcapAnalyzeURB.logUnknownURB pIrp
                (USBPcapAnalyzeURB.obtained pIrp post pDeviceData).1 ++ [c]) ∧
          c.header.base.endpoint = 0xFF ∧
          c.header.base.transfer = USBPCAP_TRANSFER.ISOCHRONOUS)) ∧
    (pUrb.UrbHeader.Function = URB_FUNCTION_CONTROL_TRANSFER →
      pUrb.UrbControlTransfer.TransferFlags &&& USBD_DEFAULT_PIPE_TRANSFER = 0 →
      pUrb.UrbControlTransfer.PipeHandle ≠ 0 →
      USBPcapRetrieveEndpointInfo pDeviceData pUrb.UrbControlTransfer.PipeHandle = none →
      ∃ c, USBPcapAnalyzeURB P pIrp pUrb post pDeviceData =
          some ((USBPcapAnalyzeURB.obtained pIrp post pDeviceData).2,
            USBPcapAnalyzeURB.logUnknownURB pIrp
              (USBPcapAnalyzeURB.obtained pIrp post pDeviceData).1 ++ [c]) ∧
        c.header.base.endpoint =
          (if pUrb.UrbControlTransfer.TransferFlags &&& USBD_TRANSFER_DIRECTION_IN ≠ 0
           then 0x80 else 0x00) ∧
        c.header.base.transfer = USBPCAP_TRANSFER.CONTROL) := by
  have hclass := fun (calls : USBPCAP_DEVICE_DATA → List SinkCall) h0 h1 hd =>
    USBPcapAnalyzeURB_classified P pIrp pUrb post pDeviceData calls h0 h1 hd hfiltered
  refine ⟨?_, ?_, ?_, ?_⟩
  · intro hF hnone
    have hcall := hclass
      (fun d' => USBPcapAnalyzeURB.bulkOrInterruptTransfer pIrp pUrb.UrbHeader
        pUrb.UrbBulkOrInterruptTransfer post d')
      (by rw [hF]; decide) (by rw [hF]; decide)
      (fun d' => dispatch_bulkOrInterrupt P pIrp pUrb post d' hF)
    beta_reduce at hcall
    obtain ⟨c, hc, hbase⟩ := bulkOrInterruptTransfer_singleton pIrp pUrb.UrbHeader
      pUrb.UrbBulkOrInterruptTransfer post (USBPcapAnalyzeURB.obtained pIrp post pDeviceData).2
    obtain ⟨h1, h2, h3⟩ := bulkOrInterruptPacketHeader_not_found pIrp pUrb.UrbHeader
      pUrb.UrbBulkOrInterruptTransfer post (USBPcapAnalyzeURB.obtained pIrp post pDeviceData).2
      (by rw [obtained_retrieve]; exact hnone)
    refine ⟨c, by rw [hcall, hc], ?_, ?_, ?_⟩
    · rw [hbase]; exact h1
    · rw [hbase]; exact h2
    · rw [hbase]; exact h3.trans (obtained_deviceAddress pIrp post pDeviceData)
  · intro hF hnone
    have h0 : pUrb.UrbHeader.Function ≠ URB_FUNCTION_SELECT_CONFIGURATION := by
      rcases hF with h | h | h | h | h <;> rw [h] <;> decide
    have h1 : pUrb.UrbHeader.Function ≠ URB_FUNCTION_SELECT_INTERFACE := by
      rcases hF with h | h | h | h | h <;> rw [h] <;> decide
    have hcall := hclass
      (fun d' => USBPcapAnalyzeURB.pipeRequest pIrp pUrb.UrbHeader pUrb.UrbPipeRequest post d')
      h0 h1 (fun d' => dispatch_pipeRequest P pIrp pUrb post d' hF)
    beta_reduce at hcall
    rw [pipeRequest_not_found pIrp pUrb.UrbHeader pUrb.UrbPipeRequest post _
      (by rw [obtained_retrieve]; exact hnone)] at hcall
    exact ⟨_, hcall, rfl, rfl, obtained_deviceAddress pIrp post pDeviceData⟩
  · intro hF hnone
    have hcall := hclass
      (fun d' => USBPcapAnalyzeURB.isochTransfer P pIrp pUrb.UrbHeader
        pUrb.UrbIsochronousTransfer post d')
      (by rw [hF]; decide) (by rw [hF]; decide)
      (fun d' => dispatch_isoch P pIrp pUrb post d' hF)
    beta_reduce at hcall
    have hep := (isochPacketHeader_not_found pIrp pUrb.UrbHeader pUrb.UrbIsochronousTransfer
      post (USBPcapAnalyzeURB.obtained pIrp post pDeviceData).2
      (by rw [obtained_retrieve]; exact hnone)).1
    constructor
    · intro r hr c hc hkind
      rw [hcall] at hr
      cases hr
      rcases List.mem_append.mp hc with hl | hrr
      · have := logUnknownURB_transfer _ _ c hl
        rw [this] at hkind
        cases hkind
      · rw [(isochTransfer_mem_base P pIrp _ _ post _ c hrr).1, hep]
    · intro hpackets halloc hpath
      have hone : ∃ c, USBPcapAnalyzeURB.isochTransfer P pIrp pUrb.UrbHeader
          pUrb.UrbIsochronousTransfer post
          (USBPcapAnalyzeURB.obtained pIrp post pDeviceData).2 = [c] := by
        rcases hpath with hpath | ⟨hnz, hULONG, hIN, hpost, hsum, halloc2⟩
        · exact isochTransfer_singleton P pIrp _ _ post _ hpackets halloc hpath
        · subst hpost
          rw [isochTransfer_compaction P pIrp _ _ _ hIN hnz hULONG hpackets hsum,
            if_pos ⟨halloc, halloc2⟩]
          exact ⟨_, rfl⟩
      obtain ⟨c, hc⟩ := hone
      have hmem : c ∈ USBPcapAnalyzeURB.isochTransfer P pIrp pUrb.UrbHeader
          pUrb.UrbIsochronousTransfer post
          (USBPcapAnalyzeURB.obtained pIrp post pDeviceData).2 := by
        rw [hc]; exact List.mem_singleton.mpr rfl
      obtain ⟨he, hk⟩ := isochTransfer_mem_base P pIrp _ _ post _ c hmem
      exact ⟨c, by rw [hcall, hc], by rw [he, hep], hk⟩
  · intro hF hflag hpipe hnone
    have hcall := hclass
      (fun d' => USBPcapAnalyzeControlTransfer pUrb.UrbControlTransfer pUrb.UrbHeader d' pIrp
        post)
      (by rw [hF]; decide) (by rw [hF]; decide)
      (fun d' => dispatch_controlTransfer P pIrp pUrb post d' hF)
    beta_reduce at hcall
    obtain ⟨c, hc, he, hk⟩ := USBPcapAnalyzeControlTransfer_singleton pUrb.UrbControlTransfer
      pUrb.UrbHeader (USBPcapAnalyzeURB.obtained pIrp post pDeviceData).2 pIrp post
    refine ⟨c, by rw [hcall, hc], ?_, hk⟩
    rw [he, USBPcapAnalyzeControlTransfer_endpoint_not_found _ _ hflag hpipe
      (by rw [obtained_retrieve]; exact hnone)]

/-- C28 (amended) instantiated at a bulk transfer on pipe handle 0x1000,
submitted on the filtered device whose endpoint table is empty: the record is
emitted with endpoint address 0xFF and kind Bulk. -/
theorem C28_unresolved_pipe_handle_witness :
    USBPcapIsDeviceFiltered filteredDevice.pRootData.filter filteredDevice.deviceAddress =
      true ∧
    bulkUrb.UrbHeader.Function = URB_FUNCTION_BULK_OR_INTERRUPT_TRANSFER ∧
    USBPcapRetrieveEndpointInfo filteredDevice bulkUrb.UrbBulkOrInterruptTransfer.PipeHandle =
      none ∧
    ∃ c, USBPcapAnalyzeURB x86Platform 7 bulkUrb false filteredDevice =
        some ((USBPcapAnalyzeURB.obtained 7 false filteredDevice).2,
          USBPcapAnalyzeURB.logUnknownURB 7
            (USBPcapAnalyzeURB.obtained 7 false filteredDevice).1 ++ [c]) ∧
      c.header.base.endpoint = 0xFF ∧
      c.header.base.transfer = USBPCAP_TRANSFER.BULK ∧
      c.header.base.device = filteredDevice.deviceAddress :=
  ⟨by decide, by decide, by decide,
   (C28_unresolved_pipe_handle x86Platform 7 bulkUrb false filteredDevice (by decide)).1
     (by decide) (by decide)⟩

/-! ### Termination of the interface walk -/

/-- One iteration of the `while` loop, by the tests it makes. -/
theorem parseLoop_succ (P : Platform) (memory : Nat → USBD_INTERFACE_INFORMATION)
    (fuel off len : Nat) (d : USBPCAP_DEVICE_DATA) :
    USBPcapParseInterfaceInformation.loop P memory (fuel + 1) off len d =
      if USBPcapParseInterfaceInformation.consumes P len (memory off) = true then
        USBPcapParseInterfaceInformation.loop P memory fuel (off + (memory off).Length)
          (len - (memory off).Length) (USBPcapParseInterfaceInformation.pipes d (memory off))
      else d := by
  rw [USBPcapParseInterfaceInformation.loop]
  simp only [USBPcapParseInterfaceInformation.consumes, Bool.and_eq_true, Bool.not_eq_true',
    decide_eq_true_eq, decide_eq_false_iff_not]
  by_cases hc : len ≠ 0 ∧ (memory off).Length ≠ 0
  · by_cases h3 : len < P.sizeof_USBD_INTERFACE_INFORMATION
    · simp [hc, h3]
    · by_cases h4 : (memory off).Length > len
      · simp [hc, h3, h4]
      · by_cases h5 : (memory off).NumberOfPipes > 1 ∧
            len < (P.sizeof_USBD_INTERFACE_INFORMATION +
              ((memory off).NumberOfPipes - 1) * P.sizeof_USBD_PIPE_INFORMATION) % 2 ^ 32
        · simp only [if_pos hc, if_neg h3, if_neg h4, if_pos h5]
          rw [if_neg]
          intro h
          exact h.2 h5
        · simp only [if_pos hc, if_neg h3, if_neg h4, if_neg h5]
          rw [if_pos]
          exact ⟨⟨⟨hc, h3⟩, h4⟩, h5⟩
  · rw [if_neg hc, if_neg]
    intro h
    exact hc h.1.1.1

/-- An iteration that does not break consumes a declared `Length` that is
positive and at most the remaining byte count. -/
theorem consumes_length (P : Platform) (len : Nat) (pInterface : USBD_INTERFACE_INFORMATION)
    (h : USBPcapParseInterfaceInformation.consumes P len pInterface = true) :
    0 < pInterface.Length ∧ pInterface.Length ≤ len := by
  simp only [USBPcapParseInterfaceInformation.consumes, Bool.and_eq_true, Bool.not_eq_true',
    decide_eq_true_eq, decide_eq_false_iff_not] at h
  omega

/-- The `while` loop registers the pipes of the records of its iterations. -/
theorem parseLoop_eq_iterations (P : Platform) (memory : Nat → USBD_INTERFACE_INFORMATION)
    (fuel : Nat) :
    ∀ (off len : Nat) (d : USBPCAP_DEVICE_DATA),
      USBPcapParseInterfaceInformation.loop P memory fuel off len d =
        (USBPcapParseInterfaceInformation.iterations P memory fuel off len).foldl
          (fun d it => USBPcapParseInterfaceInformation.pipes d (memory it.1)) d := by
  induction fuel with
  | zero => intro off len d; rfl
  | succ fuel ih =>
    intro off len d
    rw [parseLoop_succ]
    simp only [USBPcapParseInterfaceInformation.iterations]
    by_cases hc : USBPcapParseInterfaceInformation.consumes P len (memory off) = true
    · simp only [if_pos hc, List.foldl_cons]
      exact ih _ _ _
    · simp only [if_neg hc, List.foldl_nil]

/-- The iterations do not depend on the bound once it reaches the remaining
byte count. -/
theorem iterations_fuel (P : Platform) (memory : Nat → USBD_INTERFACE_INFORMATION)
    (fuel : Nat) :
    ∀ (off len fuel' : Nat), len ≤ fuel → fuel ≤ fuel' →
      USBPcapParseInterfaceInformation.iterations P memory fuel' off len =
        USBPcapParseInterfaceInformation.iterations P memory fuel off len := by
  induction fuel with
  | zero =>
    intro off len fuel' hlen _
    have h0 : len = 0 := by omega
    subst h0
    cases fuel' with
    | zero => rfl
    | succ k =>
      simp [USBPcapParseInterfaceInformation.iterations,
        USBPcapParseInterfaceInformation.consumes]
  | succ fuel ih =>
    intro off len fuel' hlen hle
    obtain ⟨k, rfl⟩ : ∃ k, fuel' = k + 1 := ⟨fuel' - 1, by omega⟩
    simp only [USBPcapParseInterfaceInformation.iterations]
    by_cases hc : USBPcapParseInterfaceInformation.consumes P len (memory off) = true
    · simp only [if_pos hc]
      have hl := consumes_length P len (memory off) hc
      rw [ih (off + (memory off).Length) (len - (memory off).Length) k (by omega) (by omega)]
    · simp only [if_neg hc]

/-- The walk makes at most as many iterations as there are bytes left. -/
theorem iterations_length_le (P : Platform) (memory : Nat → USBD_INTERFACE_INFORMATION)
    (fuel : Nat) :
    ∀ (off len : Nat),
      (USBPcapParseInterfaceInformation.iterations P memory fuel off len).length ≤ len := by
  induction fuel with
  | zero => intro off len; simp [USBPcapParseInterfaceInformation.iterations]
  | succ fuel ih =>
    intro off len
    simp only [USBPcapParseInterfaceInformation.iterations]
    by_cases hc : USBPcapParseInterfaceInformation.consumes P len (memory off) = true
    · simp only [if_pos hc, List.length_cons]
      have hl := consumes_length P len (memory off) hc
      have := ih (off + (memory off).Length) (len - (memory off).Length)
      omega
    · simp only [if_neg hc, List.length_nil]
      omega

/-- Every iteration of the walk starts with a byte count that is at most the
first one and passes the tests. -/
theorem iterations_mem (P : Platform) (memory : Nat → USBD_INTERFACE_INFORMATION)
    (fuel : Nat) :
    ∀ (off len : Nat) (it : Nat × Nat),
      it ∈ USBPcapParseInterfaceInformation.iterations P memory fuel off len →
        it.2 ≤ len ∧ USBPcapParseInterfaceInformation.consumes P it.2 (memory it.1) = true := by
  induction fuel with
  | zero => intro off len it h; simp [USBPcapParseInterfaceInformation.iterations] at h
  | succ fuel ih =>
    intro off len it h
    simp only [USBPcapParseInterfaceInformation.iterations] at h
    by_cases hc : USBPcapParseInterfaceInformation.consumes P len (memory off) = true
    · simp only [if_pos hc, List.mem_cons] at h
      rcases h with h | h
      · subst h
        exact ⟨le_refl _, hc⟩
      · have := ih _ _ it h
        exact ⟨by omega, this.2⟩
    · simp only [if_neg hc, List.not_mem_nil] at h

/-- From one iteration of the walk to the next, the record's `Length` is
added to the offset and taken from the byte count. -/
theorem iterations_chain (P : Platform) (memory : Nat → USBD_INTERFACE_INFORMATION)
    (fuel : Nat) :
    ∀ (off len : Nat),
      List.Chain
        (fun a b : Nat × Nat =>
          b.1 = a.1 + (memory a.1).Length ∧ b.2 + (memory a.1).Length = a.2 ∧ b.2 < a.2)
        (off, len)
        (USBPcapParseInterfaceInformation.iterations P memory fuel
          (off + (memory off).Length) (len - (memory off).Length)) ∨
      USBPcapParseInterfaceInformation.consumes P len (memory off) = false := by
  induction fuel with
  | zero =>
    intro off len
    left
    simp [USBPcapParseInterfaceInformation.iterations]
  | succ fuel ih =>
    intro off len
    by_cases hc : USBPcapParseInterfaceInformation.consumes P len (memory off) = true
    · left
      have hl := consumes_length P len (memory off) hc
      simp only [USBPcapParseInterfaceInformation.iterations]
      by_cases hc' : USBPcapParseInterfaceInformation.consumes P (len - (memory off).Length)
          (memory (off + (memory off).Length)) = true
      · simp only [if_pos hc']
        refine List.Chain.cons ⟨rfl, by dsimp only; omega, by dsimp only; omega⟩ ?_
        rcases ih (off + (memory off).Length) (len - (memory off).Length) with h | h
        · exact h
        · rw [hc'] at h
          cases h
      · simp only [if_neg hc']
        exact List.Chain.nil
    · right
      simpa using hc

/-- Consecutive iterations of the walk: the byte count of the next one is that
of the previous one less the record's `Length`, and strictly smaller. -/
theorem iterations_chain' (P : Platform) (memory : Nat → USBD_INTERFACE_INFORMATION)
    (fuel off len : Nat) :
    List.Chain'
      (fun a b : Nat × Nat =>
        b.1 = a.1 + (memory a.1).Length ∧ b.2 + (memory a.1).Length = a.2 ∧ b.2 < a.2)
      (USBPcapParseInterfaceInformation.iterations P memory fuel off len) := by
  cases fuel with
  | zero => simp [USBPcapParseInterfaceInformation.iterations]
  | succ fuel =>
    simp only [USBPcapParseInterfaceInformation.iterations]
    by_cases hc : USBPcapParseInterfaceInformation.consumes P len (memory off) = true
    · simp only [if_pos hc, List.chain'_cons']
      rcases iterations_chain P memory fuel off len with h | h
      · exact List.chain'_cons'.mp h
      · rw [hc] at h
        cases h
    · simp only [if_neg hc, List.chain'_nil]

/-- C32. `USBPcapParseInterfaceInformation` terminates on every input: any
bound of at least `interfaces_len` iterations gives the result of the function
and the same iterations, of which there are at most `interfaces_len`; the
result registers the pipes of the records of these iterations; every iteration
that does not break reads a declared `Length` with `0 < Length <= remaining`,
its remaining byte count is at most the initial one, and from one iteration to
the next the remaining byte count is the previous one less `Length`, strictly
smaller, so the subtraction never goes below zero. -/
theorem C32_interface_walk_terminates (P : Platform)
    (memory : Nat → USBD_INTERFACE_INFORMATION) (d : USBPCAP_DEVICE_DATA)
    (interfaces_len fuel : Nat) (h : interfaces_len ≤ fuel) :
    USBPcapParseInterfaceInformation.loop P memory fuel 0 interfaces_len d =
      USBPcapParseInterfaceInformation P d memory interfaces_len ∧
    USBPcapParseInterfaceInformation.iterations P memory fuel 0 interfaces_len =
      USBPcapParseInterfaceInformation.iterations P memory interfaces_len 0 interfaces_len ∧
    USBPcapParseInterfaceInformation P d memory interfaces_len =
      (USBPcapParseInterfaceInformation.iterations P memory interfaces_len 0
          interfaces_len).foldl
        (fun d it => USBPcapParseInterfaceInformation.pipes d (memory it.1)) d ∧
    (USBPcapParseInterfaceInformation.iterations P memory fuel 0 interfaces_len).length ≤
      interfaces_len ∧
    (∀ it ∈ USBPcapParseInterfaceInformation.iterations P memory fuel 0 interfaces_len,
      0 < (memory it.1).Length ∧ (memory it.1).Length ≤ it.2 ∧ it.2 ≤ interfaces_len) ∧
    List.Chain'
      (fun a b : Nat × Nat =>
        b.1 = a.1 + (memory a.1).Length ∧ b.2 + (memory a.1).Length = a.2 ∧ b.2 < a.2)
      (USBPcapParseInterfaceInformation.iterations P memory fuel 0 interfaces_len) := by
  have hfuel := iterations_fuel P memory interfaces_len 0 interfaces_len fuel (le_refl _) h
  refine ⟨?_, hfuel, ?_, iterations_length_le P memory fuel 0 interfaces_len, ?_,
    iterations_chain' P memory fuel 0 interfaces_len⟩
  · unfold USBPcapParseInterfaceInformation
    rw [parseLoop_eq_iterations, parseLoop_eq_iterations, hfuel]
  · unfold USBPcapParseInterfaceInformation
    rw [parseLoop_eq_iterations]
  · intro it hit
    obtain ⟨hle, hc⟩ := iterations_mem P memory fuel 0 interfaces_len it hit
    obtain ⟨h1, h2⟩ := consumes_length P it.2 (memory it.1) hc
    exact ⟨h1, h2, hle⟩

/-- C32 instantiated at the wrapping interface list with 36 bytes and a bound
of 40 iterations. -/
theorem C32_interface_walk_terminates_witness :
    36 ≤ 40 ∧
    USBPcapParseInterfaceInformation.loop x86Platform wrappingInterfaces 40 0 36
        filteredDevice =
      USBPcapParseInterfaceInformation x86Platform filteredDevice wrappingInterfaces 36 ∧
    USBPcapParseInterfaceInformation.iterations x86Platform wrappingInterfaces 40 0 36 =
      USBPcapParseInterfaceInformation.iterations x86Platform wrappingInterfaces 36 0 36 ∧
    USBPcapParseInterfaceInformation x86Platform filteredDevice wrappingInterfaces 36 =
      (USBPcapParseInterfaceInformation.iterations x86Platform wrappingInterfaces 36 0
          36).foldl
        (fun d it => USBPcapParseInterfaceInformation.pipes d (wrappingInterfaces it.1))
        filteredDevice ∧
    (USBPcapParseInterfaceInformation.iterations x86Platform wrappingInterfaces 40 0
      36).length ≤ 36 ∧
    (∀ it ∈ USBPcapParseInterfaceInformation.iterations x86Platform wrappingInterfaces 40 0 36,
      0 < (wrappingInterfaces it.1).Length ∧ (wrappingInterfaces it.1).Length ≤ it.2 ∧
        it.2 ≤ 36) ∧
    List.Chain'
      (fun a b : Nat × Nat =>
        b.1 = a.1 + (wrappingInterfaces a.1).Length ∧
          b.2 + (wrappingInterfaces a.1).Length = a.2 ∧ b.2 < a.2)
      (USBPcapParseInterfaceInformation.iterations x86Platform wrappingInterfaces 40 0 36) :=
  ⟨by decide,
    C32_interface_walk_terminates x86Platform wrappingInterfaces filteredDevice 36 40
      (by decide)⟩

/-! ### The isochronous header length -/

/-- C33. For every `NumberOfPackets` N from 0 to 1024 the isochronous header
length, computed as `(USHORT)B + (USHORT)(P * (N - 1))` with `N - 1` a `ULONG`
and kept in 16 bits, is the integer `B + P * N - P`, where B and P are the
sizes of the isochronous header and of one packet entry (51 and 12); for
N = 0 this is 39. -/
theorem C33_isoch_header_length (N : Nat) (h : N ≤ 1024) :
    (USBPcapAnalyzeURB.isochHeaderLen N : Int) =
      (sizeof_USBPCAP_BUFFER_ISOCH_HEADER : Int) + (sizeof_USBPCAP_BUFFER_ISO_PACKET : Int) * N -
        (sizeof_USBPCAP_BUFFER_ISO_PACKET : Int) ∧
    USBPcapAnalyzeURB.isochHeaderLen N < 2 ^ 16 ∧
    sizeof_USBPCAP_BUFFER_ISOCH_HEADER = 51 ∧ sizeof_USBPCAP_BUFFER_ISO_PACKET = 12 := by
  refine ⟨?_, ?_, rfl, rfl⟩
  · simp only [USBPcapAnalyzeURB.isochHeaderLen, sizeof_USBPCAP_BUFFER_ISOCH_HEADER,
      sizeof_USBPCAP_BUFFER_ISO_PACKET]
    omega
  · simp only [USBPcapAnalyzeURB.isochHeaderLen, sizeof_USBPCAP_BUFFER_ISOCH_HEADER,
      sizeof_USBPCAP_BUFFER_ISO_PACKET]
    omega

/-- C33 instantiated at `NumberOfPackets` = 0, where `N - 1` wraps around. -/
theorem C33_isoch_header_length_witness :
    0 ≤ 1024 ∧
    ((USBPcapAnalyzeURB.isochHeaderLen 0 : Int) =
      (sizeof_USBPCAP_BUFFER_ISOCH_HEADER : Int) +
          (sizeof_USBPCAP_BUFFER_ISO_PACKET : Int) * (0 : Nat) -
        (sizeof_USBPCAP_BUFFER_ISO_PACKET : Int) ∧
    USBPcapAnalyzeURB.isochHeaderLen 0 < 2 ^ 16 ∧
    sizeof_USBPCAP_BUFFER_ISOCH_HEADER = 51 ∧ sizeof_USBPCAP_BUFFER_ISO_PACKET = 12) :=
  ⟨by decide, C33_isoch_header_length 0 (by decide)⟩

/-! ### The direction of a synthesized control transfer -/

/-- The endpoint address of a control transfer on the default pipe: endpoint
number 0 with the direction bit of the transfer. -/
theorem USBPcapAnalyzeControlTransfer_endpoint_default (transfer : URB_CONTROL_TRANSFER)
    (d : USBPCAP_DEVICE_DATA) (hpipe : transfer.PipeHandle = 0) :
    USBPcapAnalyzeControlTransfer_endpoint transfer d =
      if transfer.TransferFlags &&& USBD_TRANSFER_DIRECTION_IN ≠ 0 then 0x80 else 0x00 := by
  by_cases hdir : transfer.TransferFlags &&& USBD_TRANSFER_DIRECTION_IN = 0 <;>
  simp [USBPcapAnalyzeControlTransfer_endpoint, hpipe, hdir]

/-- The setup packet of a Get/SetDescriptor request has bit 7 of byte 0 set
exactly when the wrapped transfer is inbound. -/
theorem wrapDescriptorRequest_direction (Function : Nat)
    (request : URB_CONTROL_DESCRIPTOR_REQUEST) (wrapTransfer : URB_CONTROL_TRANSFER)
    (h : USBPcapAnalyzeURB.wrapDescriptorRequest Function request = some wrapTransfer) :
    wrapTransfer.PipeHandle = 0 ∧
    ∃ b rest, wrapTransfer.SetupPacket = b :: rest ∧ rest.length = 7 ∧
      (b &&& 0x80 ≠ 0 ↔ wrapTransfer.TransferFlags &&& USBD_TRANSFER_DIRECTION_IN ≠ 0) := by
  unfold USBPcapAnalyzeURB.wrapDescriptorRequest USBPcapAnalyzeURB.descriptorRequestKind at h
  split_ifs at h <;> cases h <;>
  · refine ⟨rfl, _, _, rfl, rfl, ?_⟩
    dsimp only
    decide

/-- The setup packet of a GetStatus request has bit 7 of byte 0 set, and the
wrapped transfer is inbound. -/
theorem wrapGetStatusRequest_direction (Function : Nat)
    (request : URB_CONTROL_GET_STATUS_REQUEST) (wrapTransfer : URB_CONTROL_TRANSFER)
    (h : USBPcapAnalyzeURB.wrapGetStatusRequest Function request = some wrapTransfer) :
    wrapTransfer.PipeHandle = 0 ∧
    ∃ b rest, wrapTransfer.SetupPacket = b :: rest ∧ rest.length = 7 ∧
      (b &&& 0x80 ≠ 0 ↔ wrapTransfer.TransferFlags &&& USBD_TRANSFER_DIRECTION_IN ≠ 0) := by
  unfold USBPcapAnalyzeURB.wrapGetStatusRequest USBPcapAnalyzeURB.getStatusRequestType at h
  split_ifs at h <;> cases h <;>
  · refine ⟨rfl, _, _, rfl, rfl, ?_⟩
    dsimp only
    decide

/-- The setup packet of a Vendor/Class request has bit 7 of byte 0 set exactly
when the request's transfer flags have the IN bit. -/
theorem wrapVendorOrClassRequest_direction (Function : Nat)
    (request : URB_CONTROL_VENDOR_OR_CLASS_REQUEST) :
    (USBPcapAnalyzeURB.wrapVendorOrClassRequest Function request).PipeHandle = 0 ∧
    ∃ b rest,
      (USBPcapAnalyzeURB.wrapVendorOrClassRequest Function request).SetupPacket = b :: rest ∧
      rest.length = 7 ∧
      (b &&& 0x80 ≠ 0 ↔
        (USBPcapAnalyzeURB.wrapVendorOrClassRequest Function request).TransferFlags &&&
          USBD_TRANSFER_DIRECTION_IN ≠ 0) := by
  refine ⟨rfl, _, _, rfl, rfl, ?_⟩
  simp only [USBPcapAnalyzeURB.wrapVendorOrClassRequest,
    USBPcapAnalyzeURB.vendorOrClassRequestType]
  by_cases hdir : request.TransferFlags &&& USBD_TRANSFER_DIRECTION_IN = 0
  · simp only [hdir, bne_self_eq_false, Bool.false_eq_true, if_false, ne_eq, not_true_eq_false,
      iff_false, not_not]
    split_ifs <;> decide
  · have hb : (request.TransferFlags &&& USBD_TRANSFER_DIRECTION_IN != 0) = true := by
      simpa using hdir
    simp only [hb, if_true, ne_eq, hdir, not_false_eq_true, iff_true]
    split_ifs <;> decide

/-- The sink calls of the cases of the second `switch` that synthesize a
control transfer: none where the case builds no transfer, and otherwise those
of `USBPcapAnalyzeControlTransfer` for the `wrapTransfer` of the case. -/
theorem dispatch_synthesized (P : Platform) (pIrp : Nat) (pUrb : URB) (post : Bool)
    (d : USBPCAP_DEVICE_DATA)
    (hF : pUrb.UrbHeader.Function ∈
      [ URB_FUNCTION_SELECT_CONFIGURATION, URB_FUNCTION_SELECT_INTERFACE,
        URB_FUNCTION_GET_DESCRIPTOR_FROM_DEVICE, URB_FUNCTION_GET_DESCRIPTOR_FROM_ENDPOINT,
        URB_FUNCTION_GET_DESCRIPTOR_FROM_INTERFACE, URB_FUNCTION_SET_DESCRIPTOR_TO_DEVICE,
        URB_FUNCTION_SET_DESCRIPTOR_TO_ENDPOINT, URB_FUNCTION_SET_DESCRIPTOR_TO_INTERFACE,
        URB_FUNCTION_GET_STATUS_FROM_DEVICE, URB_FUNCTION_GET_STATUS_FROM_INTERFACE,
        URB_FUNCTION_GET_STATUS_FROM_ENDPOINT, URB_FUNCTION_GET_STATUS_FROM_OTHER,
        URB_FUNCTION_VENDOR_DEVICE, URB_FUNCTION_VENDOR_INTERFACE,
        URB_FUNCTION_VENDOR_ENDPOINT, URB_FUNCTION_VENDOR_OTHER, URB_FUNCTION_CLASS_DEVICE,
        URB_FUNCTION_CLASS_INTERFACE, URB_FUNCTION_CLASS_ENDPOINT, URB_FUNCTION_CLASS_OTHER ]) :
    (USBPcapAnalyzeURB.dispatch P pIrp pUrb post d).2 = [] ∨
    ∃ wrapTransfer,
      (wrapTransfer =
          USBPcapAnalyzeURB.wrapSelectConfiguration pUrb.UrbSelectConfiguration ∨
        (∃ intDescriptor,
          wrapTransfer = USBPcapAnalyzeURB.wrapSelectInterface intDescriptor) ∨
        USBPcapAnalyzeURB.wrapDescriptorRequest pUrb.UrbHeader.Function
            pUrb.UrbControlDescriptorRequest = some wrapTransfer ∨
        USBPcapAnalyzeURB.wrapGetStatusRequest pUrb.UrbHeader.Function
            pUrb.UrbControlGetStatusRequest = some wrapTransfer ∨
        wrapTransfer =
          USBPcapAnalyzeURB.wrapVendorOrClassRequest pUrb.UrbHeader.Function
            pUrb.UrbControlVendorClassRequest) ∧
      (USBPcapAnalyzeURB.dispatch P pIrp pUrb post d).2 =
        USBPcapAnalyzeControlTransfer wrapTransfer pUrb.UrbHeader d pIrp post := by
  simp only [List.mem_cons, List.mem_singleton, List.not_mem_nil, or_false] at hF
  rcases hF with h | h | h | h | h | h | h | h | h | h | h | h | h | h | h | h | h | h | h | h
  · rw [dispatch_selectConfiguration P pIrp pUrb post d h]
    exact Or.inr ⟨_, Or.inl rfl, rfl⟩
  · rw [dispatch_selectInterface P pIrp pUrb post d h]
    dsimp only
    cases d.descriptor with
    | none => exact Or.inl rfl
    | some descriptor =>
      dsimp only
      cases P.USBD_ParseConfigurationDescriptorEx descriptor
          (pUrb.UrbSelectInterface.Interface 0).InterfaceNumber
          (pUrb.UrbSelectInterface.Interface 0).AlternateSetting with
      | none => exact Or.inl rfl
      | some intDescriptor => exact Or.inr ⟨_, Or.inr (Or.inl ⟨_, rfl⟩), rfl⟩
  all_goals
    simp only [USBPcapAnalyzeURB.dispatch, h, URB_FUNCTION_SELECT_CONFIGURATION,
      URB_FUNCTION_SELECT_INTERFACE, URB_FUNCTION_CONTROL_TRANSFER,
      URB_FUNCTION_CONTROL_TRANSFER_EX, URB_FUNCTION_GET_DESCRIPTOR_FROM_DEVICE,
      URB_FUNCTION_GET_DESCRIPTOR_FROM_ENDPOINT, URB_FUNCTION_GET_DESCRIPTOR_FROM_INTERFACE,
      URB_FUNCTION_SET_DESCRIPTOR_TO_DEVICE, URB_FUNCTION_SET_DESCRIPTOR_TO_ENDPOINT,
      URB_FUNCTION_SET_DESCRIPTOR_TO_INTERFACE, URB_FUNCTION_GET_STATUS_FROM_DEVICE,
      URB_FUNCTION_GET_STATUS_FROM_INTERFACE, URB_FUNCTION_GET_STATUS_FROM_ENDPOINT,
      URB_FUNCTION_GET_STATUS_FROM_OTHER, URB_FUNCTION_VENDOR_DEVICE,
      URB_FUNCTION_VENDOR_INTERFACE, URB_FUNCTION_VENDOR_ENDPOINT, URB_FUNCTION_VENDOR_OTHER,
      URB_FUNCTION_CLASS_DEVICE, URB_FUNCTION_CLASS_INTERFACE, URB_FUNCTION_CLASS_ENDPOINT,
      URB_FUNCTION_CLASS_OTHER,
      Nat.reduceEqDiff, if_true, if_false, or_true, true_or, or_false, false_or]
    first
      | exact Or.inr ⟨_, Or.inr (Or.inr (Or.inr (Or.inr rfl))), rfl⟩
      | (split
         · exact Or.inl rfl
         · rename_i w hw
           first
             | exact Or.inr ⟨w, Or.inr (Or.inr (Or.inl hw)), rfl⟩
             | exact Or.inr ⟨w, Or.inr (Or.inr (Or.inr (Or.inl hw))), rfl⟩)

/-- A `wrapTransfer` of one of the synthesizing cases is on the default pipe,
and bit 7 of byte 0 of its setup packet is set exactly when its transfer flags
have the IN bit. -/
theorem synthesized_direction (pUrb : URB) (wrapTransfer : URB_CONTROL_TRANSFER)
    (h : (wrapTransfer =
          USBPcapAnalyzeURB.wrapSelectConfiguration pUrb.UrbSelectConfiguration ∨
        (∃ intDescriptor,
          wrapTransfer = USBPcapAnalyzeURB.wrapSelectInterface intDescriptor) ∨
        USBPcapAnalyzeURB.wrapDescriptorRequest pUrb.UrbHeader.Function
            pUrb.UrbControlDescriptorRequest = some wrapTransfer ∨
        USBPcapAnalyzeURB.wrapGetStatusRequest pUrb.UrbHeader.Function
            pUrb.UrbControlGetStatusRequest = some wrapTransfer ∨
        wrapTransfer =
          USBPcapAnalyzeURB.wrapVendorOrClassRequest pUrb.UrbHeader.Function
            pUrb.UrbControlVendorClassRequest)) :
    wrapTransfer.PipeHandle = 0 ∧
    ∃ b rest, wrapTransfer.SetupPacket = b :: rest ∧ rest.length = 7 ∧
      (b &&& 0x80 ≠ 0 ↔ wrapTransfer.TransferFlags &&& USBD_TRANSFER_DIRECTION_IN ≠ 0) := by
  rcases h with h | ⟨i, h⟩ | h | h | h
  · subst h
    refine ⟨rfl, _, _, rfl, rfl, ?_⟩
    dsimp only [USBPcapAnalyzeURB.wrapSelectConfiguration]
    decide
  · subst h
    refine ⟨rfl, _, _, rfl, rfl, ?_⟩
    dsimp only [USBPcapAnalyzeURB.wrapSelectInterface]
    decide
  · exact wrapDescriptorRequest_direction _ _ _ h
  · exact wrapGetStatusRequest_direction _ _ _ h
  · subst h
    exact wrapVendorOrClassRequest_direction _ _

/-- The functions of the synthesizing cases have case labels. -/
theorem synthesized_mem_caseLabels (Function : Nat)
    (hF : Function ∈
      [ URB_FUNCTION_SELECT_CONFIGURATION, URB_FUNCTION_SELECT_INTERFACE,
        URB_FUNCTION_GET_DESCRIPTOR_FROM_DEVICE, URB_FUNCTION_GET_DESCRIPTOR_FROM_ENDPOINT,
        URB_FUNCTION_GET_DESCRIPTOR_FROM_INTERFACE, URB_FUNCTION_SET_DESCRIPTOR_TO_DEVICE,
        URB_FUNCTION_SET_DESCRIPTOR_TO_ENDPOINT, URB_FUNCTION_SET_DESCRIPTOR_TO_INTERFACE,
        URB_FUNCTION_GET_STATUS_FROM_DEVICE, URB_FUNCTION_GET_STATUS_FROM_INTERFACE,
        URB_FUNCTION_GET_STATUS_FROM_ENDPOINT, URB_FUNCTION_GET_STATUS_FROM_OTHER,
        URB_FUNCTION_VENDOR_DEVICE, URB_FUNCTION_VENDOR_INTERFACE,
        URB_FUNCTION_VENDOR_ENDPOINT, URB_FUNCTION_VENDOR_OTHER, URB_FUNCTION_CLASS_DEVICE,
        URB_FUNCTION_CLASS_INTERFACE, URB_FUNCTION_CLASS_ENDPOINT, URB_FUNCTION_CLASS_OTHER ]) :
    Function ∈ USBPcapAnalyzeURB.caseLabels := by
  simp only [List.mem_cons, List.mem_singleton, List.not_mem_nil, or_false] at hF
  simp only [USBPcapAnalyzeURB.caseLabels, List.mem_cons, List.mem_singleton,
    List.not_mem_nil, or_false]
  rcases hF with h | h | h | h | h | h | h | h | h | h | h | h | h | h | h | h | h | h | h | h <;>
  simp [h]

/-- C35. For every call of `USBPcapAnalyzeURB` for SelectConfiguration,
SelectInterface, Get/SetDescriptor, GetStatus or a Vendor/Class request, every
control record handed to the sink is the record of
`USBPcapAnalyzeControlTransfer` for the `wrapTransfer` the case synthesized, a
transfer on the default pipe with an 8-byte setup packet, and for it: bit 7 of
setup byte 0 is set if and only if the wrapped transfer's flags have the IN
bit, if and only if bit 0x80 of the record's endpoint address is set; at
Submit the record's payload starts with these 8 setup bytes. -/
theorem C35_setup_direction_agrees (P : Platform) (pIrp : Nat) (pUrb : URB) (post : Bool)
    (pDeviceData : USBPCAP_DEVICE_DATA) (r : USBPCAP_DEVICE_DATA × List SinkCall)
    (c : SinkCall)
    (hF : pUrb.UrbHeader.Function ∈
      [ URB_FUNCTION_SELECT_CONFIGURATION, URB_FUNCTION_SELECT_INTERFACE,
        URB_FUNCTION_GET_DESCRIPTOR_FROM_DEVICE, URB_FUNCTION_GET_DESCRIPTOR_FROM_ENDPOINT,
        URB_FUNCTION_GET_DESCRIPTOR_FROM_INTERFACE, URB_FUNCTION_SET_DESCRIPTOR_TO_DEVICE,
        URB_FUNCTION_SET_DESCRIPTOR_TO_ENDPOINT, URB_FUNCTION_SET_DESCRIPTOR_TO_INTERFACE,
        URB_FUNCTION_GET_STATUS_FROM_DEVICE, URB_FUNCTION_GET_STATUS_FROM_INTERFACE,
        URB_FUNCTION_GET_STATUS_FROM_ENDPOINT, URB_FUNCTION_GET_STATUS_FROM_OTHER,
        URB_FUNCTION_VENDOR_DEVICE, URB_FUNCTION_VENDOR_INTERFACE,
        URB_FUNCTION_VENDOR_ENDPOINT, URB_FUNCTION_VENDOR_OTHER, URB_FUNCTION_CLASS_DEVICE,
        URB_FUNCTION_CLASS_INTERFACE, URB_FUNCTION_CLASS_ENDPOINT, URB_FUNCTION_CLASS_OTHER ])
    (hr : USBPcapAnalyzeURB P pIrp pUrb post pDeviceData = some r)
    (hc : c ∈ r.2) (hkind : c.header.base.transfer = USBPCAP_TRANSFER.CONTROL) :
    ∃ wrapTransfer b rest,
      (wrapTransfer =
          USBPcapAnalyzeURB.wrapSelectConfiguration pUrb.UrbSelectConfiguration ∨
        (∃ intDescriptor,
          wrapTransfer = USBPcapAnalyzeURB.wrapSelectInterface intDescriptor) ∨
        USBPcapAnalyzeURB.wrapDescriptorRequest pUrb.UrbHeader.Function
            pUrb.UrbControlDescriptorRequest = some wrapTransfer ∨
        USBPcapAnalyzeURB.wrapGetStatusRequest pUrb.UrbHeader.Function
            pUrb.UrbControlGetStatusRequest = some wrapTransfer ∨
        wrapTransfer =
          USBPcapAnalyzeURB.wrapVendorOrClassRequest pUrb.UrbHeader.Function
            pUrb.UrbControlVendorClassRequest) ∧
      wrapTransfer.PipeHandle = 0 ∧
      wrapTransfer.SetupPacket = b :: rest ∧ rest.length = 7 ∧
      USBPcapAnalyzeControlTransfer wrapTransfer pUrb.UrbHeader r.1 pIrp post = [c] ∧
      (b &&& 0x80 ≠ 0 ↔ wrapTransfer.TransferFlags &&& USBD_TRANSFER_DIRECTION_IN ≠ 0) ∧
      (wrapTransfer.TransferFlags &&& USBD_TRANSFER_DIRECTION_IN ≠ 0 ↔
        c.header.base.endpoint &&& 0x80 ≠ 0) ∧
      (post = false → c.payload.head? = some { size := 8, buffer := some (b :: rest) }) := by
  have hmem := synthesized_mem_caseLabels _ hF
  rw [USBPcapAnalyzeURB_eq] at hr
  cases hA : USBPcapAnalyzeURB.alwaysAnalyzed P pUrb post
      (USBPcapAnalyzeURB.obtained pIrp post pDeviceData).2 with
  | none =>
    rw [hA] at hr
    cases hr
  | some dA =>
    rw [hA, Option.map_some', Option.some.injEq] at hr
    subst hr
    by_cases hf : USBPcapIsDeviceFiltered pDeviceData.pRootData.filter
        pDeviceData.deviceAddress = false
    · simp only [hf, if_true, List.not_mem_nil] at hc
    · simp only [hf, if_false] at hc
      simp only [hf, if_false, dispatch_fst_of_mem P pIrp pUrb post dA hmem]
      rcases List.mem_append.mp hc with hc | hc
      · have := logUnknownURB_transfer pIrp _ c hc
        rw [this] at hkind
        cases hkind
      · rcases dispatch_synthesized P pIrp pUrb post dA hF with h0 | ⟨w, hcand, hw⟩
        · rw [h0] at hc
          cases hc
        · obtain ⟨hpipe, b, rest, hsetup, hlen, hbit⟩ := synthesized_direction pUrb w hcand
          obtain ⟨c', hc', hep, -⟩ :=
            USBPcapAnalyzeControlTransfer_singleton w pUrb.UrbHeader dA pIrp post
          rw [hw, hc', List.mem_singleton] at hc
          subst hc
          refine ⟨w, b, rest, hcand, hpipe, hsetup, hlen, hc', hbit, ?_, ?_⟩
          · rw [hep, USBPcapAnalyzeControlTransfer_endpoint_default w dA hpipe]
            by_cases hdir : w.TransferFlags &&& USBD_TRANSFER_DIRECTION_IN = 0
            · simp [hdir]
            · simp [hdir]
          · intro hpost
            subst hpost
            rw [USBPcapAnalyzeControlTransfer_submit, List.cons.injEq] at hc'
            rw [← hc'.1, ← hsetup]
            rfl

/-- C35 instantiated at the Submit of an inbound vendor request to the device
on a device in the filter's active set. -/
theorem C35_setup_direction_agrees_witness :
    vendorDeviceUrb.UrbHeader.Function ∈
      [ URB_FUNCTION_SELECT_CONFIGURATION, URB_FUNCTION_SELECT_INTERFACE,
        URB_FUNCTION_GET_DESCRIPTOR_FROM_DEVICE, URB_FUNCTION_GET_DESCRIPTOR_FROM_ENDPOINT,
        URB_FUNCTION_GET_DESCRIPTOR_FROM_INTERFACE, URB_FUNCTION_SET_DESCRIPTOR_TO_DEVICE,
        URB_FUNCTION_SET_DESCRIPTOR_TO_ENDPOINT, URB_FUNCTION_SET_DESCRIPTOR_TO_INTERFACE,
        URB_FUNCTION_GET_STATUS_FROM_DEVICE, URB_FUNCTION_GET_STATUS_FROM_INTERFACE,
        URB_FUNCTION_GET_STATUS_FROM_ENDPOINT, URB_FUNCTION_GET_STATUS_FROM_OTHER,
        URB_FUNCTION_VENDOR_DEVICE, URB_FUNCTION_VENDOR_INTERFACE,
        URB_FUNCTION_VENDOR_ENDPOINT, URB_FUNCTION_VENDOR_OTHER, URB_FUNCTION_CLASS_DEVICE,
        URB_FUNCTION_CLASS_INTERFACE, URB_FUNCTION_CLASS_ENDPOINT, URB_FUNCTION_CLASS_OTHER ] ∧
    USBPcapAnalyzeURB x86Platform 7 vendorDeviceUrb false filteredDevice =
      some (filteredDevice, [vendorDeviceSubmitRecord]) ∧
    vendorDeviceSubmitRecord ∈ (filteredDevice, [vendorDeviceSubmitRecord]).2 ∧
    vendorDeviceSubmitRecord.header.base.transfer = USBPCAP_TRANSFER.CONTROL ∧
    ∃ wrapTransfer b rest,
      (wrapTransfer =
          USBPcapAnalyzeURB.wrapSelectConfiguration vendorDeviceUrb.UrbSelectConfiguration ∨
        (∃ intDescriptor,
          wrapTransfer = USBPcapAnalyzeURB.wrapSelectInterface intDescriptor) ∨
        USBPcapAnalyzeURB.wrapDescriptorRequest vendorDeviceUrb.UrbHeader.Function
            vendorDeviceUrb.UrbControlDescriptorRequest = some wrapTransfer ∨
        USBPcapAnalyzeURB.wrapGetStatusRequest vendorDeviceUrb.UrbHeader.Function
            vendorDeviceUrb.UrbControlGetStatusRequest = some wrapTransfer ∨
        wrapTransfer =
          USBPcapAnalyzeURB.wrapVendorOrClassRequest vendorDeviceUrb.UrbHeader.Function
            vendorDeviceUrb.UrbControlVendorClassRequest) ∧
      wrapTransfer.PipeHandle = 0 ∧
      wrapTransfer.SetupPacket = b :: rest ∧ rest.length = 7 ∧
      USBPcapAnalyzeControlTransfer wrapTransfer vendorDeviceUrb.UrbHeader
          (filteredDevice, [vendorDeviceSubmitRecord]).1 7 false =
        [vendorDeviceSubmitRecord] ∧
      (b &&& 0x80 ≠ 0 ↔ wrapTransfer.TransferFlags &&& USBD_TRANSFER_DIRECTION_IN ≠ 0) ∧
      (wrapTransfer.TransferFlags &&& USBD_TRANSFER_DIRECTION_IN ≠ 0 ↔
        vendorDeviceSubmitRecord.header.base.endpoint &&& 0x80 ≠ 0) ∧
      (false = false →
        vendorDeviceSubmitRecord.payload.head? =
          some { size := 8, buffer := some (b :: rest) }) :=
  ⟨by decide, by rfl, by decide, by rfl,
    C35_setup_direction_agrees x86Platform 7 vendorDeviceUrb false filteredDevice
      (filteredDevice, [vendorDeviceSubmitRecord]) vendorDeviceSubmitRecord
      (by decide) (by rfl) (by decide) (by rfl)⟩

/-! ### C31: the ControlTransferEx case -/

/-- `USBPcapAnalyzeControlTransfer` reads the bus, the device address and the
endpoint table of the device context, and nothing else of it. -/
theorem USBPcapAnalyzeControlTransfer_congr (transfer : URB_CONTROL_TRANSFER)
    (header : URB_HEADER) (d d' : USBPCAP_DEVICE_DATA) (pIrp : Nat) (post : Bool)
    (hroot : d'.pRootData = d.pRootData) (hdev : d'.deviceAddress = d.deviceAddress)
    (htable : d'.endpointTable = d.endpointTable) :
    USBPcapAnalyzeControlTransfer transfer header d' pIrp post =
      USBPcapAnalyzeControlTransfer transfer header d pIrp post := by
  have hh : USBPcapAnalyzeControlTransfer_packetHeader transfer header d' pIrp post =
      USBPcapAnalyzeControlTransfer_packetHeader transfer header d pIrp post := by
    simp [USBPcapAnalyzeControlTransfer_packetHeader, USBPcapAnalyzeControlTransfer_endpoint,
      USBPcapRetrieveEndpointInfo_congr d' d _ htable, hroot, hdev]
  unfold USBPcapAnalyzeControlTransfer
  rw [hh]

theorem dispatch_controlTransferEx (P : Platform) (pIrp : Nat) (pUrb : URB) (post : Bool)
    (d : USBPCAP_DEVICE_DATA)
    (hF : pUrb.UrbHeader.Function = URB_FUNCTION_CONTROL_TRANSFER_EX) :
    USBPcapAnalyzeURB.dispatch P pIrp pUrb post d =
      (d, USBPcapAnalyzeControlTransfer
            (USBPcapAnalyzeURB.wrapControlTransferEx pUrb.UrbControlTransferEx)
            pUrb.UrbHeader d pIrp post) := by
  simp [USBPcapAnalyzeURB.dispatch, hF, URB_FUNCTION_SELECT_CONFIGURATION,
    URB_FUNCTION_SELECT_INTERFACE, URB_FUNCTION_CONTROL_TRANSFER,
    URB_FUNCTION_CONTROL_TRANSFER_EX]

/-- A call for a plain or an extended control transfer: the device context
after the pending lookup; no record on a device outside the filter's active
set; otherwise the Unknown record of the pending entry found at Complete, if
any, and then the records of `USBPcapAnalyzeControlTransfer`. -/
theorem USBPcapAnalyzeURB_controlTransfer (P : Platform) (pIrp : Nat) (pUrb : URB)
    (post : Bool) (d : USBPCAP_DEVICE_DATA) (transfer : URB_CONTROL_TRANSFER)
    (h0 : pUrb.UrbHeader.Function ≠ URB_FUNCTION_SELECT_CONFIGURATION)
    (h1 : pUrb.UrbHeader.Function ≠ URB_FUNCTION_SELECT_INTERFACE)
    (hdispatch : ∀ d', USBPcapAnalyzeURB.dispatch P pIrp pUrb post d' =
      (d', USBPcapAnalyzeControlTransfer transfer pUrb.UrbHeader d' pIrp post)) :
    USBPcapAnalyzeURB P pIrp pUrb post d =
      some
        ((USBPcapAnalyzeURB.obtained pIrp post d).2,
         if USBPcapIsDeviceFiltered d.pRootData.filter d.deviceAddress = false then []
         else
           USBPcapAnalyzeURB.logUnknownURB pIrp (USBPcapAnalyzeURB.obtained pIrp post d).1 ++
             USBPcapAnalyzeControlTransfer transfer pUrb.UrbHeader d pIrp post) := by
  rw [USBPcapAnalyzeURB_eq, alwaysAnalyzed_of_ne P pUrb post _ h0 h1, Option.map_some',
    hdispatch]
  rw [USBPcapAnalyzeControlTransfer_congr transfer pUrb.UrbHeader d _ pIrp post
    (obtained_pRootData pIrp post d) (obtained_deviceAddress pIrp post d)
    (obtained_endpointTable pIrp post d)]
  split <;> rfl

/-- C31, counterexample. The ControlTransferEx request `controlTransferExUrb`
carries the pipe handle, flags, buffer, buffer length and setup bytes of
`inControlTransfer`. Completing under correlation identity 9 on the filtered
device that holds a pending entry for 9, `USBPcapAnalyzeURB` makes two sink
calls (the Unknown record of the pending entry, then the control record), while
`USBPcapAnalyzeControlTransfer` for `inControlTransfer` under the same header
and device context makes one. Submitted on a device outside the filter's active
set, `USBPcapAnalyzeURB` makes no sink call, while
`USBPcapAnalyzeControlTransfer` makes one. -/
theorem C31_counterexample :
    controlTransferExUrb.UrbHeader.Function = URB_FUNCTION_CONTROL_TRANSFER_EX ∧
    USBPcapAnalyzeURB.wrapControlTransferEx controlTransferExUrb.UrbControlTransferEx =
      inControlTransfer ∧
    (USBPcapAnalyzeURB x86Platform 9 controlTransferExUrb true pendingDevice).map
        (fun r => r.2.map (fun c => c.header.base.transfer)) =
      some [USBPCAP_TRANSFER.UNKNOWN, USBPCAP_TRANSFER.CONTROL] ∧
    (USBPcapAnalyzeControlTransfer inControlTransfer controlTransferExUrb.UrbHeader
        pendingDevice 9 true).map (fun c => c.header.base.transfer) =
      [USBPCAP_TRANSFER.CONTROL] ∧
    (USBPcapAnalyzeURB x86Platform 9 controlTransferExUrb true pendingDevice).map
        (fun r => r.2) ≠
      some (USBPcapAnalyzeControlTransfer inControlTransfer controlTransferExUrb.UrbHeader
        pendingDevice 9 true) ∧
    (USBPcapAnalyzeURB x86Platform 7 controlTransferExUrb false unfilteredDevice).map
        (fun r => r.2) = some [] ∧
    (USBPcapAnalyzeControlTransfer inControlTransfer controlTransferExUrb.UrbHeader
        unfilteredDevice 7 false).map (fun c => c.header.base.transfer) =
      [USBPCAP_TRANSFER.CONTROL] := by
  refine ⟨?_, ?_, ?_, ?_, ?_, ?_, ?_⟩ <;> decide

/-- C31, amended. For every ControlTransferEx request, phase and device
context, and for the control transfer with the same pipe handle, transfer
flags, buffer, buffer MDL, buffer length and first 8 setup bytes (all of them
when the setup packet has 8 bytes): on a device outside the filter's active set
`USBPcapAnalyzeURB` emits no record; on a device in the active set it emits
the Unknown record of the pending entry that a Complete finds for the
correlation identity, if there is one, and then exactly the records that
`USBPcapAnalyzeControlTransfer` emits for that control transfer under the same
request header, so with no pending entry (in particular at Submit) exactly
these. A plain ControlTransfer request carrying that control transfer goes the
same way, and at Submit on a device in the active set the one record written
starts with the 8 setup bytes, unmodified. -/
theorem C31_control_transfer_ex (P : Platform) (pIrp : Nat) (pUrb : URB) (post : Bool)
    (pDeviceData : USBPCAP_DEVICE_DATA) (transfer : URB_CONTROL_TRANSFER)
    (hF : pUrb.UrbHeader.Function = URB_FUNCTION_CONTROL_TRANSFER_EX)
    (hPipeHandle : transfer.PipeHandle = pUrb.UrbControlTransferEx.PipeHandle)
    (hTransferFlags : transfer.TransferFlags = pUrb.UrbControlTransferEx.TransferFlags)
    (hTransferBufferLength :
      transfer.TransferBufferLength = pUrb.UrbControlTransferEx.TransferBufferLength)
    (hTransferBuffer : transfer.TransferBuffer = pUrb.UrbControlTransferEx.TransferBuffer)
    (hTransferBufferMDL :
      transfer.TransferBufferMDL = pUrb.UrbControlTransferEx.TransferBufferMDL)
    (hSetupPacket : transfer.SetupPacket = pUrb.UrbControlTransferEx.SetupPacket.take 8) :
    (pUrb.UrbControlTransferEx.SetupPacket.length = 8 →
      transfer.SetupPacket = pUrb.UrbControlTransferEx.SetupPacket) ∧
    USBPcapAnalyzeURB P pIrp pUrb post pDeviceData =
      some
        ((USBPcapAnalyzeURB.obtained pIrp post pDeviceData).2,
         if USBPcapIsDeviceFiltered pDeviceData.pRootData.filter pDeviceData.deviceAddress =
             false then []
         else
           USBPcapAnalyzeURB.logUnknownURB pIrp
               (USBPcapAnalyzeURB.obtained pIrp post pDeviceData).1 ++
             USBPcapAnalyzeControlTransfer transfer pUrb.UrbHeader pDeviceData pIrp post) ∧
    (USBPcapIsDeviceFiltered pDeviceData.pRootData.filter pDeviceData.deviceAddress = true →
      (USBPcapAnalyzeURB.obtained pIrp post pDeviceData).1 = none →
      (USBPcapAnalyzeURB P pIrp pUrb post pDeviceData).map (fun r => r.2) =
        some (USBPcapAnalyzeControlTransfer transfer pUrb.UrbHeader pDeviceData pIrp post)) ∧
    (USBPcapAnalyzeURB.obtained pIrp false pDeviceData).1 = none ∧
    (∀ plain : URB, plain.UrbHeader.Function = URB_FUNCTION_CONTROL_TRANSFER →
      plain.UrbControlTransfer = transfer →
      USBPcapAnalyzeURB P pIrp plain post pDeviceData =
        some
          ((USBPcapAnalyzeURB.obtained pIrp post pDeviceData).2,
           if USBPcapIsDeviceFiltered pDeviceData.pRootData.filter
               pDeviceData.deviceAddress = false then []
           else
             USBPcapAnalyzeURB.logUnknownURB pIrp
                 (USBPcapAnalyzeURB.obtained pIrp post pDeviceData).1 ++
               USBPcapAnalyzeControlTransfer transfer plain.UrbHeader pDeviceData pIrp
                 post)) ∧
    (USBPcapIsDeviceFiltered pDeviceData.pRootData.filter pDeviceData.deviceAddress = true →
      ∃ header rest,
        USBPcapAnalyzeURB P pIrp pUrb false pDeviceData =
          some
            (pDeviceData,
             [SinkCall.USBPcapBufferWritePayload header
               ({ size := 8
                  buffer := some (pUrb.UrbControlTransferEx.SetupPacket.take 8) } :: rest)])) := by
  have hwrap : USBPcapAnalyzeURB.wrapControlTransferEx pUrb.UrbControlTransferEx = transfer := by
    cases transfer
    dsimp only at hPipeHandle hTransferFlags hTransferBufferLength
    dsimp only at hTransferBuffer hTransferBufferMDL hSetupPacket
    simp only [USBPcapAnalyzeURB.wrapControlTransferEx, hPipeHandle, hTransferFlags,
      hTransferBufferLength, hTransferBuffer, hTransferBufferMDL, hSetupPacket]
  have h0 : pUrb.UrbHeader.Function ≠ URB_FUNCTION_SELECT_CONFIGURATION := by
    rw [hF]; decide
  have h1 : pUrb.UrbHeader.Function ≠ URB_FUNCTION_SELECT_INTERFACE := by
    rw [hF]; decide
  have hmain : ∀ post : Bool, USBPcapAnalyzeURB P pIrp pUrb post pDeviceData =
      some
        ((USBPcapAnalyzeURB.obtained pIrp post pDeviceData).2,
         if USBPcapIsDeviceFiltered pDeviceData.pRootData.filter pDeviceData.deviceAddress =
             false then []
         else
           USBPcapAnalyzeURB.logUnknownURB pIrp
               (USBPcapAnalyzeURB.obtained pIrp post pDeviceData).1 ++
             USBPcapAnalyzeControlTransfer transfer pUrb.UrbHeader pDeviceData pIrp post) :=
    fun post =>
      USBPcapAnalyzeURB_controlTransfer P pIrp pUrb post pDeviceData transfer h0 h1
        (fun d' => by rw [dispatch_controlTransferEx P pIrp pUrb post d' hF, hwrap])
  refine ⟨?_, hmain post, ?_, ?_, ?_, ?_⟩
  · intro hlen
    rw [hSetupPacket, ← hlen, List.take_length]
  · intro hf hnone
    rw [hmain post, hnone]
    simp [hf, USBPcapAnalyzeURB.logUnknownURB]
  · rw [obtained_false]
  · intro plain hplain htransfer
    have h0' : plain.UrbHeader.Function ≠ URB_FUNCTION_SELECT_CONFIGURATION := by
      rw [hplain]; decide
    have h1' : plain.UrbHeader.Function ≠ URB_FUNCTION_SELECT_INTERFACE := by
      rw [hplain]; decide
    exact USBPcapAnalyzeURB_controlTransfer P pIrp plain post pDeviceData transfer h0' h1'
      (fun d' => by rw [dispatch_controlTransfer P pIrp plain post d' hplain, htransfer])
  · intro hf
    rw [hmain false, obtained_false, USBPcapAnalyzeControlTransfer_submit, hSetupPacket]
    simp only [hf, Bool.true_eq_false, if_false, USBPcapAnalyzeURB.logUnknownURB,
      List.nil_append]
    exact ⟨_, _, rfl⟩

/-- C31 (amended) instantiated at the Complete of `controlTransferExUrb` under
correlation identity 9 on the device that holds a pending entry for 9. -/
theorem C31_control_transfer_ex_witness :
    controlTransferExUrb.UrbHeader.Function = URB_FUNCTION_CONTROL_TRANSFER_EX ∧
    inControlTransfer.PipeHandle = controlTransferExUrb.UrbControlTransferEx.PipeHandle ∧
    inControlTransfer.TransferFlags =
      controlTransferExUrb.UrbControlTransferEx.TransferFlags ∧
    inControlTransfer.TransferBufferLength =
      controlTransferExUrb.UrbControlTransferEx.TransferBufferLength ∧
    inControlTransfer.TransferBuffer =
      controlTransferExUrb.UrbControlTransferEx.TransferBuffer ∧
    inControlTransfer.TransferBufferMDL =
      controlTransferExUrb.UrbControlTransferEx.TransferBufferMDL ∧
    inControlTransfer.SetupPacket =
      controlTransferExUrb.UrbControlTransferEx.SetupPacket.take 8 ∧
    USBPcapAnalyzeURB x86Platform 9 controlTransferExUrb true pendingDevice =
      some
        ((USBPcapAnalyzeURB.obtained 9 true pendingDevice).2,
         if USBPcapIsDeviceFiltered pendingDevice.pRootData.filter
             pendingDevice.deviceAddress = false then []
         else
           USBPcapAnalyzeURB.logUnknownURB 9
               (USBPcapAnalyzeURB.obtained 9 true pendingDevice).1 ++
             USBPcapAnalyzeControlTransfer inControlTransfer controlTransferExUrb.UrbHeader
               pendingDevice 9 true) :=
  ⟨by decide, by decide, by decide, by decide, by decide, by decide, by decide,
    (C31_control_transfer_ex x86Platform 9 controlTransferExUrb true pendingDevice
      inControlTransfer (by decide) (by decide) (by decide) (by decide) (by decide)
      (by decide) (by decide)).2.1⟩

/-! ### C34: `dataLength` and the sizes of the payload segments -/

/-- Where 8 + `TransferBufferLength` fits 32 bits, the `dataLength` of the
record of `USBPcapAnalyzeControlTransfer` is the total of the sizes of its
payload segments. -/
theorem USBPcapAnalyzeControlTransfer_dataLength (transfer : URB_CONTROL_TRANSFER)
    (header : URB_HEADER) (d : USBPCAP_DEVICE_DATA) (pIrp : Nat) (post : Bool) (c : SinkCall)
    (hlen : 8 + transfer.TransferBufferLength < 2 ^ 32)
    (hc : c ∈ USBPcapAnalyzeControlTransfer transfer header d pIrp post) :
    c.header.base.dataLength = payloadSize c.payload := by
  have hmod : transfer.TransferBufferLength % 4294967296 = transfer.TransferBufferLength :=
    Nat.mod_eq_of_lt (by omega)
  have hmod8 : (8 + transfer.TransferBufferLength) % 4294967296 =
      8 + transfer.TransferBufferLength := Nat.mod_eq_of_lt (by omega)
  cases post
  · rw [USBPcapAnalyzeControlTransfer_submit, List.mem_singleton] at hc
    subst hc
    by_cases hdir : transfer.TransferFlags &&& USBD_TRANSFER_DIRECTION_IN = 0 <;>
    simp [SinkCall.header, SinkCall.payload, CAPTURE_HEADER.base, payloadSize, hdir, hmod,
      hmod8]
  · rw [USBPcapAnalyzeControlTransfer_complete, List.mem_singleton] at hc
    subst hc
    by_cases hdir : transfer.TransferFlags &&& USBD_TRANSFER_DIRECTION_IN = 0 <;>
    simp [SinkCall.header, SinkCall.payload, CAPTURE_HEADER.base, payloadSize, hdir, hmod]

theorem payloadSize_append (a b : List USBPCAP_PAYLOAD_ENTRY) :
    payloadSize (a ++ b) = payloadSize a + payloadSize b := by
  induction a with
  | nil => simp [payloadSize]
  | cons e rest ih => simp [payloadSize, ih, Nat.add_assoc]

/-- The payload entries of the compaction loop declare the sum of the packet
lengths. -/
theorem payloadSize_compact (transferBuffer : Option (List Nat))
    (l : List USBD_ISO_PACKET_DESCRIPTOR) (compactedOffset : Nat) :
    payloadSize ((USBPcapAnalyzeURB.compact transferBuffer l compactedOffset).map Prod.snd) =
      (l.map (fun p => p.Length)).sum := by
  induction l generalizing compactedOffset with
  | nil => simp [USBPcapAnalyzeURB.compact, payloadSize]
  | cons p rest ih => simp [USBPcapAnalyzeURB.compact, payloadSize, ih]

/-- Where the sum of the packet lengths fits 32 bits, the `dataLength` of a
record of the isochronous case is the total of the sizes of its payload
segments. -/
theorem isochTransfer_dataLength (P : Platform) (pIrp : Nat) (header : URB_HEADER)
    (transfer : URB_ISOCH_TRANSFER) (post : Bool) (d : USBPCAP_DEVICE_DATA) (c : SinkCall)
    (hsum : ((List.range transfer.NumberOfPackets).map
        (fun i => (transfer.IsoPacket i).Length)).sum < 2 ^ 32)
    (hc : c ∈ USBPcapAnalyzeURB.isochTransfer P pIrp header transfer post d) :
    c.header.base.dataLength = payloadSize c.payload := by
  have hmapsum :
      (((List.range transfer.NumberOfPackets).map transfer.IsoPacket).map
          (fun p => p.Length)).sum =
        ((List.range transfer.NumberOfPackets).map
          (fun i => (transfer.IsoPacket i).Length)).sum := by
    rw [List.map_map]; rfl
  have hcl :
      USBPcapAnalyzeURB.compactedLength
          ((List.range transfer.NumberOfPackets).map transfer.IsoPacket) 0 =
        ((List.range transfer.NumberOfPackets).map
          (fun i => (transfer.IsoPacket i).Length)).sum := by
    rw [compactedLength_eq_sum _ 0 (by rw [hmapsum]; omega), hmapsum]
    omega
  unfold USBPcapAnalyzeURB.isochTransfer at hc
  dsimp only at hc
  split at hc
  · cases hc
  · split at hc
    · cases hc
    · split at hc
      · split at hc
        · split at hc
          · cases hc
          · split at hc
            · cases hc
            · rw [List.mem_singleton] at hc
              subst hc
              simp only [SinkCall.header, SinkCall.payload, CAPTURE_HEADER.base,
                payloadSize_append, payloadSize_compact, payloadSize, hcl, hmapsum]
              rw [Nat.mod_eq_of_lt hsum]
              omega
        · split at hc <;>
          · rw [List.mem_singleton] at hc
            subst hc
            simp [SinkCall.header, SinkCall.payload, CAPTURE_HEADER.base, payloadSize]
      · rw [List.mem_singleton] at hc
        subst hc
        simp [SinkCall.header, SinkCall.payload, CAPTURE_HEADER.base, payloadSize]

/-- C34, failing input. (a) A host-to-device ControlTransfer on the default
pipe declaring `TransferBufferLength` = 0xFFFFFFFF, at Submit on a device in
the filter's active set: the one record has `dataLength` 7, and its payload
segments declare 8 + 0xFFFFFFFF = 4294967303 bytes. (b) An inbound isochronous
transfer of two packets of lengths 0xFFFFFFFF and 2 with `TransferBufferLength`
5, at Complete: the 32-bit sum 1 passes the guard, the one record has
`dataLength` 1, and its payload segments declare 2^32 + 1 = 4294967297
bytes. -/
theorem C34_wrapped_data_length :
    (USBPcapAnalyzeURB x86Platform 7 hugeOutControlUrb false filteredDevice).map
        (fun r => r.2.map (fun c =>
          (c.header.base.transfer, c.header.base.dataLength, c.payload.map (fun e => e.size),
            payloadSize c.payload))) =
      some [(USBPCAP_TRANSFER.CONTROL, 7, [8, 0xFFFFFFFF, 0], 4294967303)] ∧
    (USBPcapAnalyzeURB x86Platform 9 isochWrapUrb true filteredDevice).map
        (fun r => r.2.map (fun c =>
          (c.header.base.transfer, c.header.base.dataLength, c.payload.map (fun e => e.size),
            payloadSize c.payload))) =
      some [(USBPCAP_TRANSFER.ISOCHRONOUS, 1, [0xFFFFFFFF, 2, 0], 4294967297)] := by
  refine ⟨?_, ?_⟩ <;> decide

/-! ### C36: where the segments of the compaction path lie -/

/-- The `while` loop of the interface walk takes only the two structure sizes
from the platform. -/
theorem parseLoop_platform (P P' : Platform) (memory : Nat → USBD_INTERFACE_INFORMATION)
    (hII : P'.sizeof_USBD_INTERFACE_INFORMATION = P.sizeof_USBD_INTERFACE_INFORMATION)
    (hPI : P'.sizeof_USBD_PIPE_INFORMATION = P.sizeof_USBD_PIPE_INFORMATION) (fuel : Nat) :
    ∀ (off len : Nat) (d : USBPCAP_DEVICE_DATA),
      USBPcapParseInterfaceInformation.loop P' memory fuel off len d =
        USBPcapParseInterfaceInformation.loop P memory fuel off len d := by
  induction fuel with
  | zero => intro off len d; rfl
  | succ fuel ih =>
    intro off len d
    have hc : USBPcapParseInterfaceInformation.consumes P' len (memory off) =
        USBPcapParseInterfaceInformation.consumes P len (memory off) := by
      simp only [USBPcapParseInterfaceInformation.consumes, hII, hPI]
    rw [parseLoop_succ, parseLoop_succ, hc, ih]

/-- The first `switch` takes the structure sizes and offsets and the answer to
the descriptor allocation from the platform. -/
theorem alwaysAnalyzed_platform (P P' : Platform) (pUrb : URB) (post : Bool)
    (d : USBPCAP_DEVICE_DATA)
    (hII : P'.sizeof_USBD_INTERFACE_INFORMATION = P.sizeof_USBD_INTERFACE_INFORMATION)
    (hPI : P'.sizeof_USBD_PIPE_INFORMATION = P.sizeof_USBD_PIPE_INFORMATION)
    (hC : P'.offsetof_URB_SELECT_CONFIGURATION_Interface =
      P.offsetof_URB_SELECT_CONFIGURATION_Interface)
    (hI : P'.offsetof_URB_SELECT_INTERFACE_Interface =
      P.offsetof_URB_SELECT_INTERFACE_Interface)
    (halloc : ∀ size tag, P'.ExAllocatePoolWithTag size tag = P.ExAllocatePoolWithTag size tag) :
    USBPcapAnalyzeURB.alwaysAnalyzed P' pUrb post d =
      USBPcapAnalyzeURB.alwaysAnalyzed P pUrb post d := by
  have hparse : ∀ (d : USBPCAP_DEVICE_DATA) (memory : Nat → USBD_INTERFACE_INFORMATION)
      (len : Nat),
      USBPcapParseInterfaceInformation P' d memory len =
        USBPcapParseInterfaceInformation P d memory len := by
    intro d memory len
    unfold USBPcapParseInterfaceInformation
    exact parseLoop_platform P P' memory hII hPI len 0 len d
  simp only [USBPcapAnalyzeURB.alwaysAnalyzed, hC, hI, halloc, hparse]

/-- The isochronous case takes the size of a payload entry and the answers to
its two allocations from the platform. -/
theorem isochTransfer_platform (P P' : Platform) (pIrp : Nat) (header : URB_HEADER)
    (transfer : URB_ISOCH_TRANSFER) (post : Bool) (d : USBPCAP_DEVICE_DATA)
    (hPE : P'.sizeof_USBPCAP_PAYLOAD_ENTRY = P.sizeof_USBPCAP_PAYLOAD_ENTRY)
    (halloc : ∀ size tag, P'.ExAllocatePoolWithTag size tag = P.ExAllocatePoolWithTag size tag) :
    USBPcapAnalyzeURB.isochTransfer P' pIrp header transfer post d =
      USBPcapAnalyzeURB.isochTransfer P pIrp header transfer post d := by
  simp only [USBPcapAnalyzeURB.isochTransfer, hPE, halloc]

/-- The record of the GetCurrentFrameNumber case does not depend on the
platform: at Submit no byte of the local `frameNum` is written. -/
theorem getCurrentFrameNumber_record (P P' : Platform) (pIrp : Nat) (header : URB_HEADER)
    (request : URB_GET_CURRENT_FRAME_NUMBER) (post : Bool) (d : USBPCAP_DEVICE_DATA) :
    (USBPcapAnalyzeURB.getCurrentFrameNumber P' pIrp header request post d).map
        SinkCall.record =
      (USBPcapAnalyzeURB.getCurrentFrameNumber P pIrp header request post d).map
        SinkCall.record := by
  cases post
  · simp [USBPcapAnalyzeURB.getCurrentFrameNumber, SinkCall.record, SinkCall.header,
      SinkCall.payload, CAPTURE_HEADER.base, payloadBytes]
  · rfl

/-- The records of the second `switch` depend on the platform only through the
size of a payload entry, the descriptor search and the answers to the
allocations. -/
theorem dispatch_record_platform (P P' : Platform) (pIrp : Nat) (pUrb : URB) (post : Bool)
    (d : USBPCAP_DEVICE_DATA)
    (hPE : P'.sizeof_USBPCAP_PAYLOAD_ENTRY = P.sizeof_USBPCAP_PAYLOAD_ENTRY)
    (hsearch : P'.USBD_ParseConfigurationDescriptorEx = P.USBD_ParseConfigurationDescriptorEx)
    (halloc : ∀ size tag, P'.ExAllocatePoolWithTag size tag = P.ExAllocatePoolWithTag size tag) :
    (USBPcapAnalyzeURB.dispatch P' pIrp pUrb post d).2.map SinkCall.record =
      (USBPcapAnalyzeURB.dispatch P pIrp pUrb post d).2.map SinkCall.record := by
  by_cases hmem : pUrb.UrbHeader.Function ∈ USBPcapAnalyzeURB.caseLabels
  · by_cases hisoch : pUrb.UrbHeader.Function = URB_FUNCTION_ISOCH_TRANSFER
    · rw [dispatch_isoch P' pIrp pUrb post d hisoch, dispatch_isoch P pIrp pUrb post d hisoch,
        isochTransfer_platform P P' pIrp _ _ post d hPE halloc]
    by_cases hframe : pUrb.UrbHeader.Function = URB_FUNCTION_GET_CURRENT_FRAME_NUMBER
    · rw [dispatch_getCurrentFrameNumber P' pIrp pUrb post d hframe,
        dispatch_getCurrentFrameNumber P pIrp pUrb post d hframe]
      exact getCurrentFrameNumber_record P P' pIrp _ _ post d
    by_cases hint : pUrb.UrbHeader.Function = URB_FUNCTION_SELECT_INTERFACE
    · rw [dispatch_selectInterface P' pIrp pUrb post d hint,
        dispatch_selectInterface P pIrp pUrb post d hint, hsearch]
    simp only [USBPcapAnalyzeURB.caseLabels, List.mem_cons, List.mem_singleton,
      List.not_mem_nil, or_false] at hmem
    rcases hmem with h | h | h | h | h | h | h | h | h | h | h | h | h | h | h | h | h | h | h | h | h | h | h | h | h | h | h | h | h | h
    all_goals
      first
        | exact absurd h hisoch
        | exact absurd h hframe
        | exact absurd h hint
        | simp only [USBPcapAnalyzeURB.dispatch, h, URB_FUNCTION_SELECT_CONFIGURATION,
      URB_FUNCTION_SELECT_INTERFACE, URB_FUNCTION_CONTROL_TRANSFER,
      URB_FUNCTION_CONTROL_TRANSFER_EX, URB_FUNCTION_GET_DESCRIPTOR_FROM_DEVICE,
      URB_FUNCTION_GET_DESCRIPTOR_FROM_ENDPOINT, URB_FUNCTION_GET_DESCRIPTOR_FROM_INTERFACE,
      URB_FUNCTION_SET_DESCRIPTOR_TO_DEVICE, URB_FUNCTION_SET_DESCRIPTOR_TO_ENDPOINT,
      URB_FUNCTION_SET_DESCRIPTOR_TO_INTERFACE, URB_FUNCTION_GET_STATUS_FROM_DEVICE,
      URB_FUNCTION_GET_STATUS_FROM_INTERFACE, URB_FUNCTION_GET_STATUS_FROM_ENDPOINT,
      URB_FUNCTION_GET_STATUS_FROM_OTHER, URB_FUNCTION_VENDOR_DEVICE,
      URB_FUNCTION_VENDOR_INTERFACE, URB_FUNCTION_VENDOR_ENDPOINT, URB_FUNCTION_VENDOR_OTHER,
      URB_FUNCTION_CLASS_DEVICE, URB_FUNCTION_CLASS_INTERFACE, URB_FUNCTION_CLASS_ENDPOINT,
      URB_FUNCTION_CLASS_OTHER, URB_FUNCTION_BULK_OR_INTERRUPT_TRANSFER,
      URB_FUNCTION_ISOCH_TRANSFER, URB_FUNCTION_SYNC_RESET_PIPE_AND_CLEAR_STALL,
      URB_FUNCTION_SYNC_RESET_PIPE, URB_FUNCTION_SYNC_CLEAR_STALL, URB_FUNCTION_ABORT_PIPE,
      URB_FUNCTION_CLOSE_STATIC_STREAMS, URB_FUNCTION_GET_CURRENT_FRAME_NUMBER,
            Nat.reduceEqDiff, if_true, if_false, or_true, true_or, or_false, false_or]
  · rw [dispatch_of_not_mem P' pIrp pUrb post d hmem, dispatch_of_not_mem P pIrp pUrb post d hmem]
    unfold USBPcapAnalyzeURB.unknownFunction
    split <;> rfl

/-- The records of a call, and whether it returns, depend on the platform only
through the structure sizes and offsets, the descriptor search and the answers
to the allocations: not through the clock or the initial value of the local
`frameNum`. -/
theorem USBPcapAnalyzeURB_record_platform (P P' : Platform) (pIrp : Nat) (pUrb : URB)
    (post : Bool) (d : USBPCAP_DEVICE_DATA)
    (hII : P'.sizeof_USBD_INTERFACE_INFORMATION = P.sizeof_USBD_INTERFACE_INFORMATION)
    (hPI : P'.sizeof_USBD_PIPE_INFORMATION = P.sizeof_USBD_PIPE_INFORMATION)
    (hC : P'.offsetof_URB_SELECT_CONFIGURATION_Interface =
      P.offsetof_URB_SELECT_CONFIGURATION_Interface)
    (hI : P'.offsetof_URB_SELECT_INTERFACE_Interface =
      P.offsetof_URB_SELECT_INTERFACE_Interface)
    (hPE : P'.sizeof_USBPCAP_PAYLOAD_ENTRY = P.sizeof_USBPCAP_PAYLOAD_ENTRY)
    (hsearch : P'.USBD_ParseConfigurationDescriptorEx = P.USBD_ParseConfigurationDescriptorEx)
    (halloc : ∀ size tag, P'.ExAllocatePoolWithTag size tag = P.ExAllocatePoolWithTag size tag) :
    (USBPcapAnalyzeURB P' pIrp pUrb post d).map (fun r => r.2.map SinkCall.record) =
      (USBPcapAnalyzeURB P pIrp pUrb post d).map (fun r => r.2.map SinkCall.record) := by
  rw [USBPcapAnalyzeURB_eq, USBPcapAnalyzeURB_eq,
    alwaysAnalyzed_platform P P' pUrb post _ hII hPI hC hI halloc]
  cases USBPcapAnalyzeURB.alwaysAnalyzed P pUrb post
      (USBPcapAnalyzeURB.obtained pIrp post d).2 with
  | none => rfl
  | some dA =>
    simp only [Option.map_some', Option.some.injEq]
    by_cases hf : USBPcapIsDeviceFiltered d.pRootData.filter d.deviceAddress = false
    · simp only [hf, if_true]
    · have hf' : USBPcapIsDeviceFiltered d.pRootData.filter d.deviceAddress = true := by
        simpa using hf
      simp only [hf', Bool.true_eq_false, if_false, List.map_append,
        dispatch_record_platform P P' pIrp pUrb post dA hPE hsearch halloc]

/-! ### C27: the same call twice in succession -/

/-- C27, counterexample. (a) With a pending entry under correlation identity
9, a GetCurrentFrameNumber request completes under that identity on the
filtered device: the first call emits the Unknown record of the pending entry
and the IRP-info record and leaves the device context without the entry; the
same call repeated on that device context emits the IRP-info record alone.
(b) An outbound isochronous transfer is submitted on the filtered device: the
first call, whose header allocation succeeds, emits the isochronous record and
leaves the device context as it was; the same call repeated while the pool
gives no block emits no record. -/
theorem C27_counterexample :
    ((USBPcapAnalyzeURB x86Platform 9 getCurrentFrameNumberUrb true pendingDevice).map
          (fun r => r.1) = some filteredDevice ∧
      (USBPcapAnalyzeURB x86Platform 9 getCurrentFrameNumberUrb true pendingDevice).map
          (fun r => r.2.map (fun c => c.header.base.transfer)) =
        some [USBPCAP_TRANSFER.UNKNOWN, USBPCAP_TRANSFER.IRP_INFO] ∧
      (USBPcapAnalyzeURB x86Platform 9 getCurrentFrameNumberUrb true filteredDevice).map
          (fun r => r.2.map (fun c => c.header.base.transfer)) =
        some [USBPCAP_TRANSFER.IRP_INFO] ∧
      (USBPcapAnalyzeURB x86Platform 9 getCurrentFrameNumberUrb true pendingDevice).map
          (fun r => r.2.map SinkCall.record) ≠
        (USBPcapAnalyzeURB x86Platform 9 getCurrentFrameNumberUrb true filteredDevice).map
          (fun r => r.2.map SinkCall.record)) ∧
    ((USBPcapAnalyzeURB x86Platform 7 isochOutUrb false filteredDevice).map
          (fun r => r.1) = some filteredDevice ∧
      (USBPcapAnalyzeURB x86Platform 7 isochOutUrb false filteredDevice).map
          (fun r => r.2.map (fun c => c.header.base.transfer)) =
        some [USBPCAP_TRANSFER.ISOCHRONOUS] ∧
      x86PlatformNoPool.ExAllocatePoolWithTag
          (USBPcapAnalyzeURB.isochHeaderLen isochOutUrb.UrbIsochronousTransfer.NumberOfPackets)
          PoolTag.HDR ≠
        x86Platform.ExAllocatePoolWithTag
          (USBPcapAnalyzeURB.isochHeaderLen isochOutUrb.UrbIsochronousTransfer.NumberOfPackets)
          PoolTag.HDR ∧
      USBPcapAnalyzeURB x86PlatformNoPool 7 isochOutUrb false filteredDevice =
        some (filteredDevice, []) ∧
      (USBPcapAnalyzeURB x86Platform 7 isochOutUrb false filteredDevice).map
          (fun r => r.2.map SinkCall.record) ≠
        (USBPcapAnalyzeURB x86PlatformNoPool 7 isochOutUrb false filteredDevice).map
          (fun r => r.2.map SinkCall.record)) := by
  refine ⟨⟨?_, ?_, ?_, ?_⟩, ?_, ?_, ?_, ?_, ?_⟩ <;> decide

/-- C27, amended. When a call of `USBPcapAnalyzeURB` returns, the same call
(same correlation identity, request and phase) on the device context it left,
made at any later time and with any initial value of the local `frameNum`,
returns too provided every pool allocation gets the answer it got in the first
call (`alloc` answers as the allocator of the first call did); and the capture
records of the first call are then those of the second call, preceded by the
Unknown record of the pending entry if the first call took one from the
pending table on a device in the filter's active set. So the two sequences of
records are identical whenever the first call finds no pending entry for the
correlation identity, in particular at Submit, and whenever the device is
outside the active set. -/
theorem C27_repeated_call (P : Platform) (alloc : Nat → PoolTag → Bool)
    (timestamp : Nat) (frameNum : List Nat) (pIrp : Nat) (pUrb : URB) (post : Bool)
    (pDeviceData : USBPCAP_DEVICE_DATA) (r1 : USBPCAP_DEVICE_DATA × List SinkCall)
    (halloc : ∀ size tag, alloc size tag = P.ExAllocatePoolWithTag size tag)
    (hfirst : USBPcapAnalyzeURB P pIrp pUrb post pDeviceData = some r1) :
    ∃ r2,
      USBPcapAnalyzeURB
          { P with
            ExAllocatePoolWithTag := alloc
            USBPcapGetCurrentTimestamp := timestamp
            frameNumUninitialized := frameNum }
          pIrp pUrb post r1.1 = some r2 ∧
      r1.2.map SinkCall.record =
        (if USBPcapIsDeviceFiltered pDeviceData.pRootData.filter pDeviceData.deviceAddress
            = false then []
         else USBPcapAnalyzeURB.logUnknownURB pIrp
           (USBPcapAnalyzeURB.obtained pIrp post pDeviceData).1).map SinkCall.record ++
          r2.2.map SinkCall.record ∧
      ((USBPcapAnalyzeURB.obtained pIrp post pDeviceData).1 = none →
        r2.2.map SinkCall.record = r1.2.map SinkCall.record) ∧
      (post = false → r2.2.map SinkCall.record = r1.2.map SinkCall.record) ∧
      (USBPcapIsDeviceFiltered pDeviceData.pRootData.filter pDeviceData.deviceAddress = false →
        r2.2.map SinkCall.record = r1.2.map SinkCall.record) := by
  obtain ⟨r2P, hsecond, hcalls⟩ :=
    USBPcapAnalyzeURB_twice P pIrp pUrb post pDeviceData r1 hfirst
  have hcongr := USBPcapAnalyzeURB_record_platform P
    { P with
      ExAllocatePoolWithTag := alloc
      USBPcapGetCurrentTimestamp := timestamp
      frameNumUninitialized := frameNum }
    pIrp pUrb post r1.1 rfl rfl rfl rfl rfl rfl halloc
  rw [hsecond, Option.map_some'] at hcongr
  cases hsecond' : USBPcapAnalyzeURB
      { P with
        ExAllocatePoolWithTag := alloc
        USBPcapGetCurrentTimestamp := timestamp
        frameNumUninitialized := frameNum }
      pIrp pUrb post r1.1 with
  | none =>
    rw [hsecond'] at hcongr
    cases hcongr
  | some r2 =>
    rw [hsecond', Option.map_some', Option.some.injEq] at hcongr
    have hrecords : r1.2.map SinkCall.record =
        (if USBPcapIsDeviceFiltered pDeviceData.pRootData.filter pDeviceData.deviceAddress
            = false then []
         else USBPcapAnalyzeURB.logUnknownURB pIrp
           (USBPcapAnalyzeURB.obtained pIrp post pDeviceData).1).map SinkCall.record ++
          r2.2.map SinkCall.record := by
      rw [hcalls, List.map_append, hcongr]
    refine ⟨r2, rfl, hrecords, ?_, ?_, ?_⟩
    · intro hnone
      rw [hrecords, hnone]
      split <;> rfl
    · intro hpost
      subst hpost
      rw [hrecords, obtained_false]
      split <;> rfl
    · intro hf
      rw [hrecords, if_pos hf]
      rfl

/-- C27 (amended) instantiated at a GetCurrentFrameNumber request completing
under correlation identity 9 on the device that holds a pending entry for 9,
the call being repeated at time 2000 with other bytes in the local `frameNum`:
the first call writes the Unknown record and the IRP-info record, the repeated
call the IRP-info record alone. -/
theorem C27_repeated_call_witness :
    (∀ size tag, (fun _ _ => true) size tag = x86Platform.ExAllocatePoolWithTag size tag) ∧
    USBPcapAnalyzeURB x86Platform 9 getCurrentFrameNumberUrb true pendingDevice =
      some (filteredDevice, [pendingUnknownRecord, frameNumberCompleteRecord]) ∧
    ∃ r2,
      USBPcapAnalyzeURB
          { x86Platform with
            ExAllocatePoolWithTag := fun _ _ => true
            USBPcapGetCurrentTimestamp := 2000
            frameNumUninitialized := [1, 2, 3, 4] }
          9 getCurrentFrameNumberUrb true filteredDevice = some r2 ∧
      [pendingUnknownRecord, frameNumberCompleteRecord].map SinkCall.record =
        [pendingUnknownRecord].map SinkCall.record ++ r2.2.map SinkCall.record :=
  ⟨fun _ _ => rfl, by decide,
   (C27_repeated_call x86Platform (fun _ _ => true) 2000 [1, 2, 3, 4] 9
      getCurrentFrameNumberUrb true pendingDevice
      (filteredDevice, [pendingUnknownRecord, frameNumberCompleteRecord])
      (fun _ _ => rfl) (by decide)).imp (fun _ h => ⟨h.1, h.2.1⟩)⟩

/-! ### C25: the unchecked allocation of the descriptor copy -/

/-- C25, failing input. The SelectConfiguration request `selectConfigurationUrb`
carries a configuration descriptor of `wTotalLength` 25 and completes on the
filtered device while the pool gives no block. The first `switch` passes the
`NULL` result of `ExAllocatePoolWithTag` to `RtlCopyMemory` without testing
it, so the call faults and hands no record to the sink; the claim has it emit
the Complete-stage record with `dataLength` 0 and endpoint 0x00, which is what
the same call emits when the allocation succeeds. The isochronous case tests
its allocations: an outbound isochronous transfer submitted while the pool
gives no block makes the call return without a record. -/
theorem C25_descriptor_allocation_fault :
    selectConfigurationUrb.UrbHeader.Function = URB_FUNCTION_SELECT_CONFIGURATION ∧
    USBPcapIsDeviceFiltered filteredDevice.pRootData.filter filteredDevice.deviceAddress =
      true ∧
    selectConfigurationUrb.UrbSelectConfiguration.ConfigurationDescriptor.map
        (fun ConfigurationDescriptor => ConfigurationDescriptor.wTotalLength) = some 25 ∧
    x86PlatformNoPool.ExAllocatePoolWithTag 25 PoolTag.DESC = false ∧
    USBPcapAnalyzeURB x86PlatformNoPool 5 selectConfigurationUrb true filteredDevice = none ∧
    USBPcapAnalyzeURB x86Platform 5 selectConfigurationUrb true filteredDevice =
      some (learnedDevice, selectCompletionCalls) ∧
    selectCompletionCalls.map
        (fun c => (c.header.base.transfer, c.header.base.endpoint, c.header.base.dataLength)) =
      [(USBPCAP_TRANSFER.CONTROL, 0x00, 0)] ∧
    USBPcapAnalyzeURB x86PlatformNoPool 7 isochOutUrb false filteredDevice =
      some (filteredDevice, []) := by
  refine ⟨?_, ?_, ?_, ?_, ?_, ?_, ?_, ?_⟩ <;> decide

end USBPcap
